import Mathlib

/-!
CVM-S5 query engine: shallow embedding and verified properties

Embedding of `src/cvms5.c` / `src/cvms5.h`.

Conventions of the embedding

* C `double` and `float` values are rationals (`ℚ`). The functions of the embedding compute
  with exact operations. Where the rounding of `double` operations decides a property, the
  variants named `..._rounded` take the rounding of one operation as an argument `rnd`;
  `binary64_round` is the rounding of IEEE 754 binary64 (to nearest, ties to even), every
  operation being rounded on its own (no fused multiply-add) and overflow left aside.
* C `int` values are unbounded integers (`Int`); a `double` assigned to an `int` is truncated
  toward zero (`c_trunc`), `floor` is `Int.floor`.
* The process-wide globals of `cvms5.h` are the fields of `cvms5_state`.
* External libraries are functions stored in the state: the PROJ transforms (`proj_trans` on the
  two `PJ` handles, together with the value `proj_context_errno` has right after the transform of
  a coordinate), the e-tree point lookup, and libm `sqrt` / `log`.
* A field of the velocity model (`void *`) is a map from the float index to the stored value; it
  stands for the resident array as well as for the content of the file behind a `FILE *`.
  Reads are not bounds-checked, exactly as in the source; an index outside the array is given
  the value of the map there. Such a read of a resident array, and a read through a `NULL`
  stream, is undefined in C: `cvms5_undefined_access` recognises both in a trace.
* The value `proj_context_errno` has after a transform is taken to depend on the transformed
  coordinate only.
* Division by zero, infinities and NaN are outside the embedding (`x / 0 = 0` in `ℚ`): a
  statement about a quotient is meant for a non-zero divisor.
* Every function that performs observable accesses also returns the list of the accesses it made
  (`cvms5_event`), in program order.
* `cvms5_query` and `cvms5_get_vs30_based_gtl` call each other; the embedding threads a fuel
  counter through `cvms5_query` and hands the nested query to the blend as a function.
* `cvms5_init` and the functions it calls read files and call the C library, PROJ and the e-tree
  library; what these calls return is given by the fields of `cvms5_world`. Character arrays are
  strings, `sprintf` is concatenation, and a buffer is taken to be large enough unless the source
  bounds the write (`snprintf`).
-/

/-- Return value of success (`#define SUCCESS 0`). -/
def SUCCESS : Int := 0

/-- Return value of failure (`#define FAIL 1`). -/
def FAIL : Int := 1

/-- A query point (`cvms5_point_t`). -/
structure cvms5_point_t where
  longitude : ℚ
  latitude : ℚ
  depth : ℚ
deriving DecidableEq

/-- Material properties (`cvms5_properties_t`). -/
structure cvms5_properties_t where
  vp : ℚ
  vs : ℚ
  rho : ℚ
  qp : ℚ
  qs : ℚ
deriving DecidableEq

/-- The configuration structure (`cvms5_configuration_t`). -/
structure cvms5_configuration_t where
  utm_zone : Int
  model_dir : String
  gtl : Int
  nx : Int
  ny : Int
  nz : Int
  depth : ℚ
  top_left_corner_e : ℚ
  top_left_corner_n : ℚ
  top_right_corner_e : ℚ
  top_right_corner_n : ℚ
  bottom_left_corner_e : ℚ
  bottom_left_corner_n : ℚ
  bottom_right_corner_e : ℚ
  bottom_right_corner_n : ℚ
  depth_interval : ℚ
  p0 : ℚ
  p1 : ℚ
  p2 : ℚ
  p3 : ℚ
  p4 : ℚ
  p5 : ℚ

/-- Payload of the Vs30 e-tree (`cvms5_vs30_mpayload_t`). -/
structure cvms5_vs30_mpayload_t where
  surf : ℚ
  vs30 : ℚ

/-- The Vs30 map configuration (`cvms5_vs30_map_config_t`). The e-tree handle `vs30_map` is the
point lookup it supports: tick address `(x, y)` at the maximum level to payload. The character
arrays are strings; they are empty in a zeroed structure. -/
structure cvms5_vs30_map_config_t where
  vs30_map : Int → Int → cvms5_vs30_mpayload_t
  type : String := ""
  description : String := ""
  author : String := ""
  date : String := ""
  spacing : ℚ
  schema : String := ""
  projection : String := ""
  origin_point : cvms5_point_t
  rotation : ℚ
  x_dimension : ℚ
  y_dimension : ℚ
  z_dimension : ℚ
  x_ticks : Int
  y_ticks : Int
  z_ticks : Int

/-- The velocity model (`cvms5_model_t`): per field a status (0 absent, 1 on disk, 2 in memory)
and the stored floats by index. -/
structure cvms5_model_t where
  vs : Int → ℚ
  vs_status : Int
  vp : Int → ℚ
  vp_status : Int
  rho : Int → ℚ
  rho_status : Int
  qp : Int → ℚ
  qp_status : Int
  qs : Int → ℚ
  qs_status : Int

/-- Observable accesses made while answering a query. -/
inductive cvms5_event where
  | proj_trans_utm (latitude longitude : ℚ)
  | proj_trans_aeqd (latitude longitude : ℚ)
  | read_properties (x y z : Int)
  | fread_null (location : Int)
  | etree_search (x y : Int)
  | get_vs30_based_gtl (point : cvms5_point_t)
  | get_vs30_value (longitude latitude : ℚ)
deriving DecidableEq

/-- The globals of `cvms5.h` after `cvms5_init`, with the external libraries they refer to. -/
structure cvms5_state where
  cvms5_configuration : cvms5_configuration_t
  cvms5_velocity_model : cvms5_model_t
  cvms5_vs30_map : cvms5_vs30_map_config_t
  /-- Result (easting, northing) of
  `proj_trans (cvms5_geo2utm, PJ_FWD, proj_coord (lat, lon, 0, HUGE_VAL))`. -/
  cvms5_geo2utm : ℚ → ℚ → ℚ × ℚ
  /-- Value of `proj_context_errno (PJ_DEFAULT_CTX)` right after that transform. -/
  cvms5_geo2utm_errno : ℚ → ℚ → Int
  /-- Result of `proj_trans (cvms5_geo2aeqd, PJ_FWD, proj_coord (lat, lon, 0, HUGE_VAL))`. -/
  cvms5_geo2aeqd : ℚ → ℚ → ℚ × ℚ
  cvms5_cos_rotation_angle : ℚ
  cvms5_sin_rotation_angle : ℚ
  cvms5_total_height_m : ℚ
  cvms5_total_width_m : ℚ
  cvms5_cos_vs30_rotation_angle : ℚ
  cvms5_sin_vs30_rotation_angle : ℚ
  /-- The constant `UCVM_CODE_ERROR` of `ucvm_model_dtypes.h`. -/
  UCVM_CODE_ERROR : Int
  /-- The constant `ETREE_MAXLEVEL` of `etree.h`. -/
  ETREE_MAXLEVEL : Int
  /-- Value of a `double` object that held `old` after `fread (&obj, sizeof (float), 1, fp)`
  stored the float `x` of the stream in its first `sizeof (float)` bytes: `fread_float old x`. -/
  fread_float : ℚ → ℚ → ℚ
  /-- The libm function `sqrt`. -/
  sqrt : ℚ → ℚ
  /-- The libm function `log`. -/
  log : ℚ → ℚ

/-- Conversion of a `double` to `int`: truncation toward zero. -/
def c_trunc (q : ℚ) : Int := if 0 ≤ q then ⌊q⌋ else ⌈q⌉

/-- The libm function `fmod x y` for `y ≠ 0`: `x - n * y` with `n` the quotient truncated toward
zero. -/
def fmod (x y : ℚ) : ℚ := x - (c_trunc (x / y) : ℚ) * y

/-- The all `-1` properties written at the top of the query loop and by `cvms5_read_properties`. -/
def cvms5_not_found : cvms5_properties_t :=
  { vp := -1, vs := -1, rho := -1, qp := -1, qs := -1 }

/-- Embedding of `cvms5_read_properties`. The local `fp` is `NULL` unless the Vs field is on disk;
the Vp branch reads through that same `fp`. An on-disk read is
`fread (&(data->vs), sizeof (float), 1, fp)` into a `double` field. A read through a `NULL`
stream is logged and leaves the field as it is. -/
def cvms5_read_properties (m : cvms5_state) (x y z : Int) :
    cvms5_properties_t × List cvms5_event :=
  let cfg := m.cvms5_configuration
  let vm := m.cvms5_velocity_model
  let data := cvms5_not_found
  let fp : Option (Int → ℚ) := none
  let location : Int := z * cfg.nx * cfg.ny + (cfg.nx - x - 1) * cfg.ny + y
  let r1 : cvms5_properties_t × Option (Int → ℚ) :=
    if vm.vs_status = 2 then ({ data with vs := vm.vs location }, fp)
    else if vm.vs_status = 1 then
      ({ data with vs := m.fread_float data.vs (vm.vs location) }, some vm.vs)
    else (data, fp)
  let data := r1.1
  let fp := r1.2
  if vm.vp_status = 2 then
    ({ data with vp := vm.vp location }, [cvms5_event.read_properties x y z])
  else if vm.vp_status = 1 then
    match fp with
    | some f =>
      ({ data with vp := m.fread_float data.vp (f location) },
        [cvms5_event.read_properties x y z])
    | none => (data, [cvms5_event.read_properties x y z, cvms5_event.fread_null location])
  else (data, [cvms5_event.read_properties x y z])

/-- Embedding of `cvms5_linear_interpolation`. -/
def cvms5_linear_interpolation (percent : ℚ) (x0 x1 : cvms5_properties_t) :
    cvms5_properties_t :=
  { vp := (1 - percent) * x0.vp + percent * x1.vp
    vs := (1 - percent) * x0.vs + percent * x1.vs
    rho := (1 - percent) * x0.rho + percent * x1.rho
    qp := (1 - percent) * x0.qp + percent * x1.qp
    qs := (1 - percent) * x0.qs + percent * x1.qs }

/-- Embedding of `cvms5_bilinear_interpolation`; `p0 .. p3` are `four_points[0 .. 3]`. -/
def cvms5_bilinear_interpolation (x_percent y_percent : ℚ)
    (p0 p1 p2 p3 : cvms5_properties_t) : cvms5_properties_t :=
  let t0 := cvms5_linear_interpolation x_percent p0 p1
  let t1 := cvms5_linear_interpolation x_percent p2 p3
  cvms5_linear_interpolation y_percent t0 t1

/-- Embedding of `cvms5_trilinear_interpolation`; `p0 .. p7` are `eight_points[0 .. 7]`. -/
def cvms5_trilinear_interpolation (x_percent y_percent z_percent : ℚ)
    (p0 p1 p2 p3 p4 p5 p6 p7 : cvms5_properties_t) : cvms5_properties_t :=
  let t0 := cvms5_bilinear_interpolation x_percent y_percent p0 p1 p2 p3
  let t1 := cvms5_bilinear_interpolation x_percent y_percent p4 p5 p6 p7
  cvms5_linear_interpolation z_percent t0 t1

/-- Embedding of `cvms5_calculate_density`. -/
def cvms5_calculate_density (m : cvms5_state) (vs : ℚ) : ℚ :=
  let cfg := m.cvms5_configuration
  let vs := vs / 1000
  let retVal := cfg.p0 + cfg.p1 * vs + cfg.p2 * vs ^ 2 + cfg.p3 * vs ^ 3 + cfg.p4 * vs ^ 4
    + cfg.p5 * vs ^ 5
  retVal * 1000

set_option linter.unusedVariables false in
/-- Embedding of `cvms5_get_vs30_value`. Ticks are `etree_tick_t` (unsigned 32-bit) values. -/
def cvms5_get_vs30_value (m : cvms5_state) (longitude latitude : ℚ) :
    ℚ × List cvms5_event :=
  let map := m.cvms5_vs30_map
  let max_level : Int := ⌈m.log (map.x_dimension / map.spacing) / m.log 2⌉
  let edgetics : Int := (2 ^ (m.ETREE_MAXLEVEL - max_level).toNat) % 2 ^ 32
  let map_edgesize : ℚ := map.x_dimension / (((2 ^ max_level.toNat) % 2 ^ 32 : Int) : ℚ)
  let xyzDest := m.cvms5_geo2aeqd latitude longitude
  let point_x := xyzDest.1
  let point_y := xyzDest.2
  let xyzOrig := m.cvms5_geo2aeqd map.origin_point.latitude map.origin_point.longitude
  let origin_x := xyzOrig.1
  let origin_y := xyzOrig.2
  let tr0 : List cvms5_event :=
    [cvms5_event.get_vs30_value longitude latitude,
     cvms5_event.proj_trans_aeqd latitude longitude,
     cvms5_event.proj_trans_aeqd map.origin_point.latitude map.origin_point.longitude]
  let temp_rotated_point_x := point_x - origin_x
  let temp_rotated_point_y := point_y - origin_y
  let rotated_point_x := m.cvms5_cos_vs30_rotation_angle * temp_rotated_point_x
    - m.cvms5_sin_vs30_rotation_angle * temp_rotated_point_y
  let rotated_point_y := m.cvms5_sin_vs30_rotation_angle * temp_rotated_point_x
    + m.cvms5_cos_vs30_rotation_angle * temp_rotated_point_y
  if rotated_point_x < 0 ∨ rotated_point_y < 0 ∨ rotated_point_x > map.x_dimension ∨
      rotated_point_y > map.y_dimension then (-1, tr0)
  else
    let loc_x : Int := ⌊rotated_point_x / map_edgesize⌋
    let loc_y : Int := ⌊rotated_point_y / map_edgesize⌋
    let clamp_x : Int → Int := fun a =>
      if a ≥ map.x_ticks % 2 ^ 32 then (map.x_ticks - edgetics) % 2 ^ 32 else a
    let clamp_y : Int → Int := fun a =>
      if a ≥ map.y_ticks % 2 ^ 32 then (map.y_ticks - edgetics) % 2 ^ 32 else a
    let x0 := clamp_x ((loc_x * edgetics) % 2 ^ 32)
    let y0 := clamp_y ((loc_y * edgetics) % 2 ^ 32)
    let x1 := clamp_x (((loc_x + 1) * edgetics) % 2 ^ 32)
    let y1 := clamp_y (((loc_y + 1) * edgetics) % 2 ^ 32)
    let payload0 := map.vs30_map x0 y0
    let payload1 := map.vs30_map x1 y0
    let payload2 := map.vs30_map x0 y1
    let payload3 := map.vs30_map x1 y1
    let percent := fmod (rotated_point_x / map.spacing) map.spacing / map.spacing
    let payload0 : cvms5_vs30_mpayload_t :=
      { payload0 with vs30 := percent * payload0.vs30 + (1 - percent) * payload1.vs30 }
    let payload1 : cvms5_vs30_mpayload_t :=
      { payload1 with vs30 := percent * payload2.vs30 + (1 - percent) * payload3.vs30 }
    (payload0.vs30,
      tr0 ++ [cvms5_event.etree_search x0 y0, cvms5_event.etree_search x1 y0,
        cvms5_event.etree_search x0 y1, cvms5_event.etree_search x1 y1])

/-- Outcome of a call of `cvms5_query`: the return code, the entries of `data` the call wrote
(`data[0 .. k-1]`; entries beyond are left untouched), and the accesses made. -/
structure cvms5_result where
  code : Int
  data : List cvms5_properties_t
  trace : List cvms5_event

/-- Embedding of `cvms5_get_vs30_based_gtl`; `query` is `cvms5_query`. Returns the return code,
the updated `*data` and the accesses made. -/
def cvms5_get_vs30_based_gtl (query : List cvms5_point_t → Option cvms5_result)
    (m : cvms5_state) (point : cvms5_point_t) (data : cvms5_properties_t) :
    Option (Int × cvms5_properties_t × List cvms5_event) :=
  let a : ℚ := 0.5
  let b : ℚ := 0.6
  let c : ℚ := 0.5
  let percent_z := point.depth / m.cvms5_configuration.depth_interval
  let tr0 : List cvms5_event := [cvms5_event.get_vs30_based_gtl point]
  if percent_z > 1 then some (FAIL, data, tr0)
  else
    let pt : cvms5_point_t :=
      { latitude := point.latitude, longitude := point.longitude,
        depth := m.cvms5_configuration.depth_interval }
    match query [pt] with
    | none => none
    | some r =>
      if r.code ≠ SUCCESS then some (FAIL, data, tr0 ++ r.trace)
      else
        let dt : cvms5_properties_t :=
          r.data.headD { vp := 0, vs := 0, rho := 0, qp := 0, qs := 0 }
        let v := cvms5_get_vs30_value m point.longitude point.latitude
        let vs30 := v.1
        if vs30 = -1 then
          some (SUCCESS, { data with vp := -1, vs := -1 }, tr0 ++ r.trace ++ v.2)
        else
          let f := percent_z + b * (percent_z - percent_z ^ 2)
          let g := a - a * percent_z
            + c * (percent_z ^ 2 + 2.0 * m.sqrt percent_z - 3.0 * percent_z)
          let data := { data with vs := f * dt.vs + g * vs30 }
          let vs30 := vs30 / 1000
          let vp30 := 0.9409 + 2.0947 * vs30 - 0.8206 * vs30 ^ 2 + 0.2683 * vs30 ^ 3
            - 0.0251 * vs30 ^ 4
          let vp30 := vp30 * 1000
          some (SUCCESS, { data with vp := f * dt.vp + g * vp30 }, tr0 ++ r.trace ++ v.2)

/-- Local `point_x` of `cvms5_query`: the point translated and rotated into the local frame. -/
def point_x (m : cvms5_state) (pt : cvms5_point_t) : ℚ :=
  let xyzDest := m.cvms5_geo2utm pt.latitude pt.longitude
  let point_u := xyzDest.1 - m.cvms5_configuration.bottom_left_corner_e
  let point_v := xyzDest.2 - m.cvms5_configuration.bottom_left_corner_n
  m.cvms5_cos_rotation_angle * point_u - m.cvms5_sin_rotation_angle * point_v

/-- Local `point_y` of `cvms5_query`. -/
def point_y (m : cvms5_state) (pt : cvms5_point_t) : ℚ :=
  let xyzDest := m.cvms5_geo2utm pt.latitude pt.longitude
  let point_u := xyzDest.1 - m.cvms5_configuration.bottom_left_corner_e
  let point_v := xyzDest.2 - m.cvms5_configuration.bottom_left_corner_n
  m.cvms5_sin_rotation_angle * point_u + m.cvms5_cos_rotation_angle * point_v

/-- Local `load_x_coord` of `cvms5_query`. -/
def load_x_coord (m : cvms5_state) (pt : cvms5_point_t) : Int :=
  ⌊point_x m pt / m.cvms5_total_width_m * ((m.cvms5_configuration.nx - 1 : Int) : ℚ)⌋

/-- Local `load_y_coord` of `cvms5_query`. -/
def load_y_coord (m : cvms5_state) (pt : cvms5_point_t) : Int :=
  ⌊point_y m pt / m.cvms5_total_height_m * ((m.cvms5_configuration.ny - 1 : Int) : ℚ)⌋

/-- Local `load_z_coord` of `cvms5_query`: a `double` expression stored in an `int`. -/
def load_z_coord (m : cvms5_state) (pt : cvms5_point_t) : Int :=
  c_trunc ((m.cvms5_configuration.depth / m.cvms5_configuration.depth_interval - 1)
    - ((⌊pt.depth / m.cvms5_configuration.depth_interval⌋ : Int) : ℚ))

/-- Local `z_percent` of `cvms5_query`. -/
def z_percent (m : cvms5_state) (pt : cvms5_point_t) : ℚ :=
  fmod pt.depth m.cvms5_configuration.depth_interval / m.cvms5_configuration.depth_interval

/-- Value assigned to `x_percent` after the boundary check of `cvms5_query`. -/
def x_percent (m : cvms5_state) (pt : cvms5_point_t) : ℚ :=
  fmod (point_x m pt)
      (m.cvms5_total_width_m / ((m.cvms5_configuration.nx - 1 : Int) : ℚ))
    / (m.cvms5_total_width_m / ((m.cvms5_configuration.nx - 1 : Int) : ℚ))

/-- Value assigned to `y_percent` after the boundary check of `cvms5_query`. -/
def y_percent (m : cvms5_state) (pt : cvms5_point_t) : ℚ :=
  fmod (point_y m pt)
      (m.cvms5_total_height_m / ((m.cvms5_configuration.ny - 1 : Int) : ℚ))
    / (m.cvms5_total_height_m / ((m.cvms5_configuration.ny - 1 : Int) : ℚ))

/-- The block "Calculate density / Calculate Qp and Qs" of `cvms5_query` (it occurs twice, after
the bilinear shortcut and at the end of the loop body). -/
def cvms5_query_derived (m : cvms5_state) (data : cvms5_properties_t) : cvms5_properties_t :=
  let data := { data with rho := cvms5_calculate_density m data.vs }
  let data := if data.vs < 1500 then { data with qs := data.vs * 0.02 }
    else { data with qs := data.vs * 0.10 }
  { data with qp := data.qs * 1.5 }

/-- The condition of the boundary check of `cvms5_query` ("Are we outside the model's X and Y
boundaries?"). -/
def cvms5_outside (m : cvms5_state) (pt : cvms5_point_t) : Prop :=
  load_x_coord m pt > m.cvms5_configuration.nx - 2 ∨
  load_y_coord m pt > m.cvms5_configuration.ny - 2 ∨
  load_x_coord m pt < 0 ∨ load_y_coord m pt < 0 ∨ load_z_coord m pt < 1

instance (m : cvms5_state) (pt : cvms5_point_t) : Decidable (cvms5_outside m pt) := by
  unfold cvms5_outside; infer_instance

/-- State after one iteration of the loop of `cvms5_query`: `data[i]`, the locals `x_percent` and
`y_percent` (they live across iterations), the return code when the iteration returns from the
function, and the accesses made. -/
structure cvms5_step where
  data : cvms5_properties_t
  x_percent : ℚ
  y_percent : ℚ
  ret : Option Int
  trace : List cvms5_event

/-- One iteration of the loop of `cvms5_query` for point `pt`, entered with the current values
`xp`, `yp` of the locals `x_percent`, `y_percent`; `gtl` is `cvms5_get_vs30_based_gtl`. -/
def cvms5_query_body
    (gtl : cvms5_point_t → cvms5_properties_t →
      Option (Int × cvms5_properties_t × List cvms5_event))
    (m : cvms5_state) (xp yp : ℚ) (pt : cvms5_point_t) : Option cvms5_step :=
  let cfg := m.cvms5_configuration
  let data := cvms5_not_found
  if pt.depth < 0 then
    some { data := data, x_percent := xp, y_percent := yp, ret := none, trace := [] }
  else
    let err := m.cvms5_geo2utm_errno pt.latitude pt.longitude
    let tr0 : List cvms5_event := [cvms5_event.proj_trans_utm pt.latitude pt.longitude]
    if err ≠ 0 then
      some { data := data, x_percent := xp, y_percent := yp, ret := some m.UCVM_CODE_ERROR,
             trace := tr0 }
    else
      let lx := load_x_coord m pt
      let ly := load_y_coord m pt
      let lz := load_z_coord m pt
      let zp := z_percent m pt
      if lz = 0 ∧ zp = 0 then
        let s0 := cvms5_read_properties m lx ly lz
        let s1 := cvms5_read_properties m (lx + 1) ly lz
        let s2 := cvms5_read_properties m lx (ly + 1) lz
        let s3 := cvms5_read_properties m (lx + 1) (ly + 1) lz
        let data := cvms5_bilinear_interpolation xp yp s0.1 s1.1 s2.1 s3.1
        some { data := cvms5_query_derived m data, x_percent := xp, y_percent := yp,
               ret := none, trace := tr0 ++ s0.2 ++ s1.2 ++ s2.2 ++ s3.2 }
      else if cvms5_outside m pt then
        some { data := cvms5_not_found, x_percent := xp, y_percent := yp, ret := none,
               trace := tr0 }
      else
        let xp := x_percent m pt
        let yp := y_percent m pt
        if pt.depth < cfg.depth_interval ∧ cfg.gtl = 1 then
          match gtl pt data with
          | none => none
          | some g =>
            some { data := cvms5_query_derived m g.2.1, x_percent := xp, y_percent := yp,
                   ret := none, trace := tr0 ++ g.2.2 }
        else
          let s0 := cvms5_read_properties m lx ly lz
          let s1 := cvms5_read_properties m (lx + 1) ly lz
          let s2 := cvms5_read_properties m lx (ly + 1) lz
          let s3 := cvms5_read_properties m (lx + 1) (ly + 1) lz
          let s4 := cvms5_read_properties m lx ly (lz - 1)
          let s5 := cvms5_read_properties m (lx + 1) ly (lz - 1)
          let s6 := cvms5_read_properties m lx (ly + 1) (lz - 1)
          let s7 := cvms5_read_properties m (lx + 1) (ly + 1) (lz - 1)
          let data := cvms5_trilinear_interpolation xp yp zp
            s0.1 s1.1 s2.1 s3.1 s4.1 s5.1 s6.1 s7.1
          some { data := cvms5_query_derived m data, x_percent := xp, y_percent := yp,
                 ret := none,
                 trace := tr0 ++ s0.2 ++ s1.2 ++ s2.2 ++ s3.2 ++ s4.2 ++ s5.2 ++ s6.2 ++ s7.2 }

/-- The `for` loop of `cvms5_query` over the remaining points. -/
def cvms5_query_loop
    (gtl : cvms5_point_t → cvms5_properties_t →
      Option (Int × cvms5_properties_t × List cvms5_event))
    (m : cvms5_state) : ℚ → ℚ → List cvms5_point_t → Option cvms5_result
  | _, _, [] => some { code := SUCCESS, data := [], trace := [] }
  | xp, yp, pt :: rest =>
    match cvms5_query_body gtl m xp yp pt with
    | none => none
    | some s =>
      match s.ret with
      | some code => some { code := code, data := [s.data], trace := s.trace }
      | none =>
        match cvms5_query_loop gtl m s.x_percent s.y_percent rest with
        | none => none
        | some r =>
          some { code := r.code, data := s.data :: r.data, trace := s.trace ++ r.trace }

/-- Embedding of `cvms5_query`. The fuel bounds the nesting of calls: `none` means the fuel ran
out before the call returned. -/
def cvms5_query : Nat → cvms5_state → List cvms5_point_t → Option cvms5_result
  | 0, _, _ => none
  | fuel + 1, m, points =>
    cvms5_query_loop (cvms5_get_vs30_based_gtl (fun pts => cvms5_query fuel m pts) m) m 0 0
      points

/-- The point of the nested query issued by the blend: same latitude and longitude, depth equal
to the layer interval. -/
def cvms5_deep_point (m : cvms5_state) (point : cvms5_point_t) : cvms5_point_t :=
  { latitude := point.latitude, longitude := point.longitude,
    depth := m.cvms5_configuration.depth_interval }

/-- A small concrete configuration: a 3 x 3 x 3 grid, three layers of 1000 m, GTL on. -/
def demo_configuration : cvms5_configuration_t :=
  { utm_zone := 11, model_dir := "i26", gtl := 1, nx := 3, ny := 3, nz := 3, depth := 3000,
    top_left_corner_e := 1000, top_left_corner_n := 3000,
    top_right_corner_e := 3000, top_right_corner_n := 3000,
    bottom_left_corner_e := 1000, bottom_left_corner_n := 1000,
    bottom_right_corner_e := 3000, bottom_right_corner_n := 1000,
    depth_interval := 1000, p0 := 1, p1 := 1, p2 := 1, p3 := 1, p4 := 1, p5 := 1 }

/-- A resident velocity model: the cell with index `i` stores `vs = 1440 + 10 i` and
`vp = 2440 + 10 i`. -/
def demo_model : cvms5_model_t :=
  { vs := fun i => 1440 + 10 * (i : ℚ), vs_status := 2,
    vp := fun i => 2440 + 10 * (i : ℚ), vp_status := 2,
    rho := fun _ => 0, rho_status := 0, qp := fun _ => 0, qp_status := 0,
    qs := fun _ => 0, qs_status := 0 }

/-- A Vs30 map of extent 4000 x 4000 with the proxy velocity 500 everywhere. -/
def demo_vs30_map : cvms5_vs30_map_config_t :=
  { vs30_map := fun _ _ => { surf := 0, vs30 := 500 }, spacing := 1000,
    origin_point := { longitude := 0, latitude := 0, depth := 0 }, rotation := 0,
    x_dimension := 4000, y_dimension := 4000, z_dimension := 0,
    x_ticks := 2 ^ 31, y_ticks := 2 ^ 31, z_ticks := 1 }

/-- A concrete state: unrotated footprint of 2000 m x 2000 m with its bottom-left corner at
(1000, 1000); the toy projection maps (lat, lon) to easting `lon`, northing `lat` and fails
(errno 1) for latitudes above 5000. -/
def demo_state : cvms5_state :=
  { cvms5_configuration := demo_configuration
    cvms5_velocity_model := demo_model
    cvms5_vs30_map := demo_vs30_map
    cvms5_geo2utm := fun lat lon => (lon, lat)
    cvms5_geo2utm_errno := fun lat _ => if lat > 5000 then 1 else 0
    cvms5_geo2aeqd := fun lat lon => (lon, lat)
    cvms5_cos_rotation_angle := 1
    cvms5_sin_rotation_angle := 0
    cvms5_total_height_m := 2000
    cvms5_total_width_m := 2000
    cvms5_cos_vs30_rotation_angle := 1
    cvms5_sin_vs30_rotation_angle := 0
    UCVM_CODE_ERROR := 1
    ETREE_MAXLEVEL := 31
    fread_float := fun _ x => x
    sqrt := fun q => if q = 1 / 4 then 1 / 2 else if q = 1 then 1 else 0
    log := fun q => if q = 4 then 2 else 1 }

/-- A point with negative depth, in the footprint of `demo_state`. -/
def demo_point_gap : cvms5_point_t := { longitude := 1500, latitude := 1250, depth := -1 }

/-- A point of `demo_state` at the depth of the bilinear shortcut (2000 m, z index 0) whose cell
indices are `(2, 3)`, beyond the last valid cell `(nx - 2, ny - 2) = (1, 1)`. -/
def demo_point_edge : cvms5_point_t := { longitude := 3200, latitude := 4100, depth := 2000 }

/-- A point of `demo_state` in cell `(0, 0)` with offsets `(1/2, 1/4)`, half way between the
layers of z index 1 and 0 (depth 1500 m, below the first layer interval). -/
def demo_point_tri : cvms5_point_t := { longitude := 1500, latitude := 1250, depth := 1500 }

/-- A point of `demo_state` lying exactly on the grid node `(0, 0)` at the depth of the bilinear
shortcut (2000 m, z index 0, z fraction 0). -/
def demo_point_node : cvms5_point_t := { longitude := 1000, latitude := 1000, depth := 2000 }

/-- A point of `demo_state` in cell `(0, 0)` with offsets `(1/2, 1/4)` at the depth of the
bilinear shortcut (2000 m, z index 0, z fraction 0). -/
def demo_point_top : cvms5_point_t := { longitude := 1500, latitude := 1250, depth := 2000 }

/-- A point of `demo_state` whose transform fails (latitude above 5000 in the toy projection). -/
def demo_point_bad : cvms5_point_t := { longitude := 1500, latitude := 6000, depth := 0 }

/-- The state `m` with everything that belongs to the Vs30 map replaced: the map configuration
with its e-tree, the projection created from the map's projection string, and the cosine and sine
of the map's rotation. -/
def cvms5_with_vs30_map (m : cvms5_state) (map : cvms5_vs30_map_config_t)
    (geo2aeqd : ℚ → ℚ → ℚ × ℚ) (cos_vs30 sin_vs30 : ℚ) : cvms5_state :=
  { m with
    cvms5_vs30_map := map
    cvms5_geo2aeqd := geo2aeqd
    cvms5_cos_vs30_rotation_angle := cos_vs30
    cvms5_sin_vs30_rotation_angle := sin_vs30 }

/-- The iteration for `pt` reaches the boundary check of `cvms5_query` and passes it: the depth
is not negative, the transform succeeded, the bilinear shortcut was not taken, and the point is
not outside. -/
def cvms5_passed_boundary_check (m : cvms5_state) (pt : cvms5_point_t) : Prop :=
  0 ≤ pt.depth ∧ m.cvms5_geo2utm_errno pt.latitude pt.longitude = 0 ∧
  ¬ (load_z_coord m pt = 0 ∧ z_percent m pt = 0) ∧ ¬ cvms5_outside m pt

instance (m : cvms5_state) (pt : cvms5_point_t) :
    Decidable (cvms5_passed_boundary_check m pt) := by
  unfold cvms5_passed_boundary_check; infer_instance

/-- A Vs30 map that differs from `demo_vs30_map`: proxy velocity 900 everywhere. -/
def demo_vs30_map_alt : cvms5_vs30_map_config_t :=
  { demo_vs30_map with vs30_map := fun _ _ => { surf := 0, vs30 := 900 } }

/-- Weight of the deep value in the blend, as the specification writes it:
`f = p + 0.6 (p - p^2)`. -/
def spec_blend_f (p : ℚ) : ℚ := p + 0.6 * (p - p ^ 2)

/-- Weight of the proxy velocity in the blend, as the specification writes it:
`g = 0.5 - 0.5 p + 0.5 (p^2 + 2 sqrt p - 3 p)`. -/
def spec_blend_g (sqrt : ℚ → ℚ) (p : ℚ) : ℚ :=
  0.5 - 0.5 * p + 0.5 * (p ^ 2 + 2 * sqrt p - 3 * p)

/-- The quartic of the specification that turns the proxy velocity (km/s) into a P-wave proxy:
`P(x) = 0.9409 + 2.0947 x - 0.8206 x^2 + 0.2683 x^3 - 0.0251 x^4`. -/
def spec_vp_proxy (x : ℚ) : ℚ :=
  0.9409 + 2.0947 * x - 0.8206 * x ^ 2 + 0.2683 * x ^ 3 - 0.0251 * x ^ 4

/-- A shallow point of `demo_state` in cell `(0, 0)`: depth 250 m, a quarter of the layer
interval. -/
def demo_point_gtl : cvms5_point_t := { longitude := 1500, latitude := 1250, depth := 250 }


/-! ## Definitions for the interpolator, the cell reads and the Vs30 lookup -/

/-- The bilinear formula as the specification writes it:
`B(a, b, c, d) = (1 - ty) ((1 - tx) a + tx b) + ty ((1 - tx) c + tx d)`. -/
def spec_bilerp (tx ty a b c d : ℚ) : ℚ :=
  (1 - ty) * ((1 - tx) * a + tx * b) + ty * ((1 - tx) * c + tx * d)

/-- Local `location` of `cvms5_read_properties`: the linearised index of cell `(x, y, z)`. -/
def cvms5_location (m : cvms5_state) (x y z : Int) : Int :=
  z * m.cvms5_configuration.nx * m.cvms5_configuration.ny
    + (m.cvms5_configuration.nx - x - 1) * m.cvms5_configuration.ny + y

/-- The state `demo_state` with both velocity fields on disk (status 1): the Vs file holds
`1440 + 10 i` and the Vp file `2440 + 10 i` at float index `i`. -/
def demo_state_disk : cvms5_state :=
  { demo_state with
    cvms5_velocity_model := { demo_model with vs_status := 1, vp_status := 1 } }

/-- The state `demo_state` with Vs resident (status 2) and Vp on disk (status 1). -/
def demo_state_vp_disk : cvms5_state :=
  { demo_state with cvms5_velocity_model := { demo_model with vp_status := 1 } }

/-- The state `demo_state` without a Vp field (status 0) and with resident density, Qp and Qs
fields (status 2) holding 2700, 200 and 100. -/
def demo_state_vs_only : cvms5_state :=
  { demo_state with
    cvms5_velocity_model :=
      { demo_model with
        vp_status := 0
        rho := fun _ => 2700, rho_status := 2
        qp := fun _ => 200, qp_status := 2
        qs := fun _ => 100, qs_status := 2 } }

/-- Local `f` of `cvms5_get_vs30_based_gtl` as a function of `percent_z` (with `b = 0.6`). -/
def cvms5_gtl_f (percent_z : ℚ) : ℚ :=
  let b : ℚ := 0.6
  percent_z + b * (percent_z - percent_z ^ 2)

/-- Local `g` of `cvms5_get_vs30_based_gtl` as a function of `percent_z` (with `a = 0.5`,
`c = 0.5`); `sqrt` is the libm function. -/
def cvms5_gtl_g (sqrt : ℚ → ℚ) (percent_z : ℚ) : ℚ :=
  let a : ℚ := 0.5
  let c : ℚ := 0.5
  a - a * percent_z + c * (percent_z ^ 2 + 2.0 * sqrt percent_z - 3.0 * percent_z)

/-- Local `vp30` of `cvms5_get_vs30_based_gtl` as a function of the proxy velocity `vs30` in
m/s. -/
def cvms5_gtl_vp30 (vs30 : ℚ) : ℚ :=
  let vs30 := vs30 / 1000
  let vp30 := 0.9409 + 2.0947 * vs30 - 0.8206 * vs30 ^ 2 + 0.2683 * vs30 ^ 3
    - 0.0251 * vs30 ^ 4
  vp30 * 1000

/-- A point of `demo_state` in cell `(0, 0)` at the surface (depth 0). -/
def demo_point_surface : cvms5_point_t := { longitude := 1500, latitude := 1250, depth := 0 }

/-- A point of `demo_state` in cell `(0, 0)` at the layer interval (depth 1000). -/
def demo_point_interval : cvms5_point_t :=
  { longitude := 1500, latitude := 1250, depth := 1000 }

/-- Local `max_level` of `cvms5_get_vs30_value`. -/
def max_level (m : cvms5_state) : Int :=
  ⌈m.log (m.cvms5_vs30_map.x_dimension / m.cvms5_vs30_map.spacing) / m.log 2⌉

/-- Local `edgetics` of `cvms5_get_vs30_value` (an `etree_tick_t`). -/
def edgetics (m : cvms5_state) : Int :=
  (2 ^ (m.ETREE_MAXLEVEL - max_level m).toNat) % 2 ^ 32

/-- Local `map_edgesize` of `cvms5_get_vs30_value`. -/
def map_edgesize (m : cvms5_state) : ℚ :=
  m.cvms5_vs30_map.x_dimension / (((2 ^ (max_level m).toNat) % 2 ^ 32 : Int) : ℚ)

/-- Local `rotated_point_x` of `cvms5_get_vs30_value`: the x coordinate of the point in the
rotated local frame of the map. -/
def rotated_point_x (m : cvms5_state) (longitude latitude : ℚ) : ℚ :=
  m.cvms5_cos_vs30_rotation_angle
      * ((m.cvms5_geo2aeqd latitude longitude).1
        - (m.cvms5_geo2aeqd m.cvms5_vs30_map.origin_point.latitude
            m.cvms5_vs30_map.origin_point.longitude).1)
    - m.cvms5_sin_vs30_rotation_angle
      * ((m.cvms5_geo2aeqd latitude longitude).2
        - (m.cvms5_geo2aeqd m.cvms5_vs30_map.origin_point.latitude
            m.cvms5_vs30_map.origin_point.longitude).2)

/-- Local `rotated_point_y` of `cvms5_get_vs30_value`. -/
def rotated_point_y (m : cvms5_state) (longitude latitude : ℚ) : ℚ :=
  m.cvms5_sin_vs30_rotation_angle
      * ((m.cvms5_geo2aeqd latitude longitude).1
        - (m.cvms5_geo2aeqd m.cvms5_vs30_map.origin_point.latitude
            m.cvms5_vs30_map.origin_point.longitude).1)
    + m.cvms5_cos_vs30_rotation_angle
      * ((m.cvms5_geo2aeqd latitude longitude).2
        - (m.cvms5_geo2aeqd m.cvms5_vs30_map.origin_point.latitude
            m.cvms5_vs30_map.origin_point.longitude).2)

/-- Local `loc_x` of `cvms5_get_vs30_value`. -/
def loc_x (m : cvms5_state) (longitude latitude : ℚ) : Int :=
  ⌊rotated_point_x m longitude latitude / map_edgesize m⌋

/-- Local `loc_y` of `cvms5_get_vs30_value`. -/
def loc_y (m : cvms5_state) (longitude latitude : ℚ) : Int :=
  ⌊rotated_point_y m longitude latitude / map_edgesize m⌋

/-- Value of `addr.x` in `cvms5_get_vs30_value` for the grid index `loc`:
`loc * edgetics`, set to `x_ticks - edgetics` when it is not below `x_ticks`. -/
def addr_x (m : cvms5_state) (loc : Int) : Int :=
  if (loc * edgetics m) % 2 ^ 32 ≥ m.cvms5_vs30_map.x_ticks % 2 ^ 32 then
    (m.cvms5_vs30_map.x_ticks - edgetics m) % 2 ^ 32
  else (loc * edgetics m) % 2 ^ 32

/-- Value of `addr.y` in `cvms5_get_vs30_value` for the grid index `loc`. -/
def addr_y (m : cvms5_state) (loc : Int) : Int :=
  if (loc * edgetics m) % 2 ^ 32 ≥ m.cvms5_vs30_map.y_ticks % 2 ^ 32 then
    (m.cvms5_vs30_map.y_ticks - edgetics m) % 2 ^ 32
  else (loc * edgetics m) % 2 ^ 32

/-- The state `m` with the e-tree of its Vs30 map replaced by `tree`. -/
def cvms5_with_etree (m : cvms5_state) (tree : Int → Int → cvms5_vs30_mpayload_t) :
    cvms5_state :=
  { m with cvms5_vs30_map := { m.cvms5_vs30_map with vs30_map := tree } }

/-- A Vs30 map like `demo_vs30_map` whose proxy velocity grows with the x tick:
`300 + 100 x / 2^29`, that is 300, 400, 500, 600 on the four columns of the map. -/
def demo_vs30_map_ramp : cvms5_vs30_map_config_t :=
  { demo_vs30_map with
    vs30_map := fun x _ => { surf := 0, vs30 := 300 + 100 * ((x : ℚ) / 2 ^ 29) } }

/-- The state `demo_state` with the map `demo_vs30_map_ramp`. -/
def demo_state_ramp : cvms5_state :=
  cvms5_with_vs30_map demo_state demo_vs30_map_ramp (fun lat lon => (lon, lat)) 1 0

/-! ## Definitions for the depth index, the surface query and the initialisation -/

/-- The state `demo_state` with a total depth of 2500 m: two and a half layer intervals. -/
def demo_state_half : cvms5_state :=
  { demo_state with cvms5_configuration := { demo_configuration with depth := 2500 } }

/-- The bracketed value of the z index of `cvms5_query`:
`(depth_total / depth_interval - 1) - floor (depth / depth_interval)`. -/
def cvms5_z_bracket (m : cvms5_state) (pt : cvms5_point_t) : ℚ :=
  (m.cvms5_configuration.depth / m.cvms5_configuration.depth_interval - 1)
    - ((⌊pt.depth / m.cvms5_configuration.depth_interval⌋ : Int) : ℚ)

/-- The state `demo_state` with a Vs30 map that is only 1000 m wide: the cell `(0, 0)` of the
model lies outside the map. -/
def demo_state_small_map : cvms5_state :=
  cvms5_with_vs30_map demo_state { demo_vs30_map with x_dimension := 1000 }
    (fun lat lon => (lon, lat)) 1 0

/-- The state `demo_state` with GTL switched off. -/
def demo_state_gtl_off : cvms5_state :=
  { demo_state with cvms5_configuration := { demo_configuration with gtl := 0 } }

/-- What `cvms5_init` finds outside the program: the files, and the results of the C library,
PROJ and e-tree calls it makes. -/
structure cvms5_world where
  /-- Result of `fopen (file, "r")` followed by `fgets (line_holder, 128, fp)` until it returns
  `NULL`: the strings read in order, or `none` when `fopen` returns `NULL`. -/
  fgets_lines : String → Option (List String)
  /-- Content of the array `key` of `cvms5_read_configuration` before the first `sscanf` (the
  array is not initialised). -/
  key0 : String
  /-- Content of the array `value` of `cvms5_read_configuration` before the first `sscanf`. -/
  value0 : String
  /-- Effect of `sscanf (line_holder, "%s = %s", key, value)`: the strings stored into `key` and
  into `value`; `none` for an array the call leaves as it is. -/
  sscanf_key_value : String → Option String × Option String
  /-- The libc function `atoi`. -/
  atoi : String → Int
  /-- The libc function `atof`. -/
  atof : String → ℚ
  /-- Whether `access (file, R_OK) == 0`. -/
  access_r_ok : String → Bool
  /-- Whether the `malloc (base_malloc)` made for the grid file returns a non-`NULL` pointer. -/
  malloc_ok : String → ℚ → Bool
  /-- Content of the allocated array after `fread (ptr, 1, base_malloc, fp)` on the grid file,
  as floats by index. -/
  fread_array : String → ℚ → Int → ℚ
  /-- The floats of the grid file behind the stream `fopen (file, "rb")`, by index. -/
  file_floats : String → Int → ℚ
  /-- Point lookup of the e-tree returned by `etree_open (filename, O_RDONLY, 64, 0, 3)`. -/
  etree_open : String → Int → Int → cvms5_vs30_mpayload_t
  /-- The string `etree_getappmeta` returns for that e-tree. -/
  etree_getappmeta : String → String
  /-- The tokens that `strtok (appmeta, "|")` and the following `strtok (NULL, "|")` return. -/
  strtok : String → List String
  /-- Effect of `sscanf (token, "%lf", &x)`: the value stored, `none` when `x` is left as it
  is. -/
  sscanf_lf : String → Option ℚ
  /-- Effect of `sscanf (token, "%lf,%lf,%lf", &x, &y, &z)`. -/
  sscanf_lf3 : String → Option ℚ × Option ℚ × Option ℚ
  /-- Effect of `sscanf (token, "%u,%u,%u", &x, &y, &z)`. -/
  sscanf_u3 : String → Option Int × Option Int × Option Int
  /-- Result of `proj_create_crs_to_crs (PJ_DEFAULT_CTX, "EPSG:4326", target, NULL)`: `none` for
  `NULL`, otherwise the forward transform of a coordinate `(lat, lon)` and the value of
  `proj_context_errno` right after it. -/
  proj_create_crs_to_crs : String → Option ((ℚ → ℚ → ℚ × ℚ) × (ℚ → ℚ → Int))
  /-- The libm function `atan`. -/
  atan : ℚ → ℚ
  /-- The libm function `cos`. -/
  cos : ℚ → ℚ
  /-- The libm function `sin`. -/
  sin : ℚ → ℚ
  /-- The libm function `sqrt`. -/
  sqrt : ℚ → ℚ
  /-- The libm function `log`. -/
  log : ℚ → ℚ
  /-- The constant `DEG_TO_RAD` of `proj_api.h`. -/
  DEG_TO_RAD : ℚ
  /-- The constant `UCVM_CODE_ERROR` of `ucvm_model_dtypes.h`. -/
  UCVM_CODE_ERROR : Int
  /-- The constant `ETREE_MAXLEVEL` of `etree.h`. -/
  ETREE_MAXLEVEL : Int
  /-- Value of a `double` object that held `old` after `fread (&obj, sizeof (float), 1, fp)`
  stored the float `x`: `fread_float old x`. -/
  fread_float : ℚ → ℚ → ℚ

/-- The zeroed configuration that `calloc` returns in `cvms5_init`. -/
def cvms5_configuration_calloc : cvms5_configuration_t :=
  { utm_zone := 0, model_dir := "", gtl := 0, nx := 0, ny := 0, nz := 0, depth := 0,
    top_left_corner_e := 0, top_left_corner_n := 0,
    top_right_corner_e := 0, top_right_corner_n := 0,
    bottom_left_corner_e := 0, bottom_left_corner_n := 0,
    bottom_right_corner_e := 0, bottom_right_corner_n := 0,
    depth_interval := 0, p0 := 0, p1 := 0, p2 := 0, p3 := 0, p4 := 0, p5 := 0 }

/-- The zeroed velocity model that `calloc` returns in `cvms5_init`: every field absent. -/
def cvms5_model_calloc : cvms5_model_t :=
  { vs := fun _ => 0, vs_status := 0, vp := fun _ => 0, vp_status := 0,
    rho := fun _ => 0, rho_status := 0, qp := fun _ => 0, qp_status := 0,
    qs := fun _ => 0, qs_status := 0 }

/-- The zeroed Vs30 map configuration that `calloc` returns in `cvms5_init`. -/
def cvms5_vs30_map_calloc : cvms5_vs30_map_config_t :=
  { vs30_map := fun _ _ => { surf := 0, vs30 := 0 }, spacing := 0,
    origin_point := { longitude := 0, latitude := 0, depth := 0 }, rotation := 0,
    x_dimension := 0, y_dimension := 0, z_dimension := 0,
    x_ticks := 0, y_ticks := 0, z_ticks := 0 }

/-- The chain of `strcmp (key, ...)` statements in the loop of `cvms5_read_configuration`:
the assignments one line makes, given the contents of `key` and `value`. -/
def cvms5_config_assign (w : cvms5_world) (key value : String)
    (config : cvms5_configuration_t) : cvms5_configuration_t :=
  let config : cvms5_configuration_t := if key = "utm_zone" then { config with utm_zone := w.atoi value } else config
  let config : cvms5_configuration_t := if key = "model_dir" then { config with model_dir := value } else config
  let config : cvms5_configuration_t := if key = "nx" then { config with nx := w.atoi value } else config
  let config : cvms5_configuration_t := if key = "ny" then { config with ny := w.atoi value } else config
  let config : cvms5_configuration_t := if key = "nz" then { config with nz := w.atoi value } else config
  let config : cvms5_configuration_t := if key = "depth" then { config with depth := w.atof value } else config
  let config : cvms5_configuration_t := if key = "top_left_corner_e" then
    { config with top_left_corner_e := w.atof value } else config
  let config : cvms5_configuration_t := if key = "top_left_corner_n" then
    { config with top_left_corner_n := w.atof value } else config
  let config : cvms5_configuration_t := if key = "top_right_corner_e" then
    { config with top_right_corner_e := w.atof value } else config
  let config : cvms5_configuration_t := if key = "top_right_corner_n" then
    { config with top_right_corner_n := w.atof value } else config
  let config : cvms5_configuration_t := if key = "bottom_left_corner_e" then
    { config with bottom_left_corner_e := w.atof value } else config
  let config : cvms5_configuration_t := if key = "bottom_left_corner_n" then
    { config with bottom_left_corner_n := w.atof value } else config
  let config : cvms5_configuration_t := if key = "bottom_right_corner_e" then
    { config with bottom_right_corner_e := w.atof value } else config
  let config : cvms5_configuration_t := if key = "bottom_right_corner_n" then
    { config with bottom_right_corner_n := w.atof value } else config
  let config : cvms5_configuration_t := if key = "depth_interval" then
    { config with depth_interval := w.atof value } else config
  let config : cvms5_configuration_t := if key = "p0" then { config with p0 := w.atof value } else config
  let config : cvms5_configuration_t := if key = "p1" then { config with p1 := w.atof value } else config
  let config : cvms5_configuration_t := if key = "p2" then { config with p2 := w.atof value } else config
  let config : cvms5_configuration_t := if key = "p3" then { config with p3 := w.atof value } else config
  let config : cvms5_configuration_t := if key = "p4" then { config with p4 := w.atof value } else config
  let config : cvms5_configuration_t := if key = "p5" then { config with p5 := w.atof value } else config
  if key = "gtl" then
    if value = "on" then { config with gtl := 1 } else { config with gtl := 0 }
  else config

/-- The test `line_holder[0] != '#' && line_holder[0] != ' ' && line_holder[0] != '\n'` of
`cvms5_read_configuration` (character codes 35, 32 and 10). -/
def cvms5_line_is_read (line_holder : String) : Bool :=
  line_holder.front != Char.ofNat 35 && line_holder.front != Char.ofNat 32
    && line_holder.front != Char.ofNat 10

/-- The `while (fgets ...)` loop of `cvms5_read_configuration` over the remaining lines; `key`
and `value` are the current contents of the two arrays. -/
def cvms5_read_lines (w : cvms5_world) :
    List String → String → String → cvms5_configuration_t → cvms5_configuration_t
  | [], _, _, config => config
  | line_holder :: rest, key, value, config =>
    if cvms5_line_is_read line_holder then
      let kv := w.sscanf_key_value line_holder
      let key := kv.1.getD key
      let value := kv.2.getD value
      cvms5_read_lines w rest key value (cvms5_config_assign w key value config)
    else cvms5_read_lines w rest key value config

/-- Embedding of `cvms5_read_configuration`: the return code and the configuration written
through `config`. -/
def cvms5_read_configuration (w : cvms5_world) (file : String)
    (config : cvms5_configuration_t) : Int × cvms5_configuration_t :=
  match w.fgets_lines file with
  | none => (FAIL, config)
  | some lines =>
    let config := cvms5_read_lines w lines w.key0 w.value0 config
    if config.utm_zone = 0 ∨ config.nx = 0 ∨ config.ny = 0 ∨ config.nz = 0 ∨
        config.model_dir = "" ∨
        config.top_left_corner_e = 0 ∨ config.top_left_corner_n = 0 ∨
        config.top_right_corner_e = 0 ∨ config.top_right_corner_n = 0 ∨
        config.bottom_left_corner_e = 0 ∨ config.bottom_left_corner_n = 0 ∨
        config.bottom_right_corner_e = 0 ∨ config.bottom_right_corner_n = 0 ∨
        config.depth = 0 ∨ config.depth_interval = 0 ∨
        config.p0 = 0 ∨ config.p1 = 0 ∨ config.p2 = 0 ∨ config.p3 = 0 ∨ config.p4 = 0 ∨
        config.p5 = 0 then
      (FAIL, config)
    else (SUCCESS, config)

/-- State of `cvms5_try_reading_model` between two of its five blocks: the model written so
far and the locals `file_count` and `all_read_to_memory`. -/
structure cvms5_loading where
  model : cvms5_model_t
  file_count : Int
  all_read_to_memory : Int

/-- One of the five blocks of `cvms5_try_reading_model`, for the grid file `current_file`:
`resident` stores the array read into memory with status 2, `on_disk` stores the stream with
status 1. -/
def cvms5_try_reading_file (w : cvms5_world) (base_malloc : ℚ) (current_file : String)
    (resident on_disk : cvms5_model_t → (Int → ℚ) → cvms5_model_t) (s : cvms5_loading) :
    cvms5_loading :=
  if w.access_r_ok current_file then
    if w.malloc_ok current_file base_malloc then
      { model := resident s.model (w.fread_array current_file base_malloc),
        file_count := s.file_count + 1, all_read_to_memory := s.all_read_to_memory }
    else
      { model := on_disk s.model (w.file_floats current_file),
        file_count := s.file_count + 1, all_read_to_memory := 0 }
  else s

/-- Embedding of `cvms5_try_reading_model`; the globals `cvms5_configuration` and
`cvms5_iteration_directory` it reads are arguments. Returns the return code and the model. -/
def cvms5_try_reading_model (w : cvms5_world) (cvms5_configuration : cvms5_configuration_t)
    (cvms5_iteration_directory : String) (model : cvms5_model_t) : Int × cvms5_model_t :=
  let base_malloc : ℚ :=
    ((cvms5_configuration.nx * cvms5_configuration.ny * cvms5_configuration.nz * 4 : Int) : ℚ)
  let s : cvms5_loading := { model := model, file_count := 0, all_read_to_memory := 1 }
  let s := cvms5_try_reading_file w base_malloc (cvms5_iteration_directory ++ "/vp.dat")
    (fun md a => { md with vp := a, vp_status := 2 })
    (fun md a => { md with vp := a, vp_status := 1 }) s
  let s := cvms5_try_reading_file w base_malloc (cvms5_iteration_directory ++ "/vs.dat")
    (fun md a => { md with vs := a, vs_status := 2 })
    (fun md a => { md with vs := a, vs_status := 1 }) s
  let s := cvms5_try_reading_file w base_malloc (cvms5_iteration_directory ++ "/rho.dat")
    (fun md a => { md with rho := a, rho_status := 2 })
    (fun md a => { md with rho := a, rho_status := 1 }) s
  let s := cvms5_try_reading_file w base_malloc (cvms5_iteration_directory ++ "/qp.dat")
    (fun md a => { md with qp := a, qp_status := 2 })
    (fun md a => { md with qp := a, qp_status := 1 }) s
  let s := cvms5_try_reading_file w base_malloc (cvms5_iteration_directory ++ "/qs.dat")
    (fun md a => { md with qs := a, qs_status := 2 })
    (fun md a => { md with qs := a, qs_status := 1 }) s
  if s.file_count = 0 then (FAIL, s.model)
  else if s.file_count > 0 ∧ s.all_read_to_memory = 0 then (SUCCESS, s.model)
  else (2, s.model)

/-- The `switch (index)` of `cvms5_read_vs30_map` for one token; `none` is the `default` case.
A `snprintf` into a character array of size `n` keeps the first `n - 1` characters. -/
def cvms5_vs30_map_token (w : cvms5_world) (index : Int) (token : String)
    (map : cvms5_vs30_map_config_t) : Option cvms5_vs30_map_config_t :=
  if index = 0 then some { map with type := token.take 19 }
  else if index = 1 then some { map with description := token.take 49 }
  else if index = 2 then some { map with author := token.take 29 }
  else if index = 3 then some { map with date := token.take 9 }
  else if index = 4 then some { map with spacing := (w.sscanf_lf token).getD map.spacing }
  else if index = 5 then some { map with schema := token.take 49 }
  else if index = 6 then some { map with projection := token.take 127 }
  else if index = 7 then
    some { map with
      origin_point :=
        { longitude := (w.sscanf_lf3 token).1.getD map.origin_point.longitude
          latitude := (w.sscanf_lf3 token).2.1.getD map.origin_point.latitude
          depth := (w.sscanf_lf3 token).2.2.getD map.origin_point.depth } }
  else if index = 8 then some { map with rotation := (w.sscanf_lf token).getD map.rotation }
  else if index = 9 then
    some { map with
      x_dimension := (w.sscanf_lf3 token).1.getD map.x_dimension
      y_dimension := (w.sscanf_lf3 token).2.1.getD map.y_dimension
      z_dimension := (w.sscanf_lf3 token).2.2.getD map.z_dimension }
  else if index = 10 then
    some { map with
      x_ticks := (w.sscanf_u3 token).1.getD map.x_ticks
      y_ticks := (w.sscanf_u3 token).2.1.getD map.y_ticks
      z_ticks := (w.sscanf_u3 token).2.2.getD map.z_ticks }
  else none

/-- The `while (token != NULL)` loop of `cvms5_read_vs30_map` over the remaining tokens. -/
def cvms5_read_vs30_tokens (w : cvms5_world) :
    List String → Int → cvms5_vs30_map_config_t → Int × cvms5_vs30_map_config_t
  | [], _, map => (SUCCESS, map)
  | token :: rest, index, map =>
    match cvms5_vs30_map_token w index token map with
    | none => (FAIL, map)
    | some map => cvms5_read_vs30_tokens w rest (index + 1) map

/-- Embedding of `cvms5_read_vs30_map`: the return code and the map configuration written
through `map`. `retVal` is the length of the metadata string, `appmeta` its first 511
characters. -/
def cvms5_read_vs30_map (w : cvms5_world) (filename : String)
    (map : cvms5_vs30_map_config_t) : Int × cvms5_vs30_map_config_t :=
  let index : Int := 0
  let map := { map with vs30_map := w.etree_open filename }
  let retVal : Int := ((w.etree_getappmeta filename).length : Int)
  let appmeta := (w.etree_getappmeta filename).take 511
  if retVal ≥ 0 ∧ retVal < 128 then (FAIL, map)
  else cvms5_read_vs30_tokens w (w.strtok appmeta) index map

set_option linter.unusedVariables false in
/-- Embedding of `cvms5_init`: the return code, and the globals when the function reaches its
end (`cvms5_is_initialized = 1`). On an early return the globals are left partly set and are not
given. -/
def cvms5_init (w : cvms5_world) (dir label : String) : Int × Option cvms5_state :=
  let tempVal : Int := 0
  let vs30_etree_file := dir ++ "/model/ucvm/ucvm.e"
  let configbuf := dir ++ "/model/" ++ label ++ "/data/config"
  let rc := cvms5_read_configuration w configbuf cvms5_configuration_calloc
  let cvms5_configuration := rc.2
  let tempVal : Int := if rc.1 ≠ SUCCESS then FAIL else tempVal
  let cvms5_iteration_directory :=
    dir ++ "/model/" ++ label ++ "/data/" ++ cvms5_configuration.model_dir ++ "/"
  let rm := cvms5_try_reading_model w cvms5_configuration cvms5_iteration_directory
    cvms5_model_calloc
  let tempVal : Int := rm.1
  let cvms5_velocity_model := rm.2
  let returns_fail : Bool :=
    if tempVal = SUCCESS then false else if tempVal = FAIL then true else false
  if returns_fail then (FAIL, none)
  else
    let rv := cvms5_read_vs30_map w vs30_etree_file cvms5_vs30_map_calloc
    let cvms5_vs30_map := rv.2
    if rv.1 ≠ SUCCESS then (FAIL, none)
    else
      let cvms5_projstr :=
        ("+proj=utm +zone=" ++ toString cvms5_configuration.utm_zone
          ++ " +datum=NAD27 +units=m +no_defs").take 63
      match w.proj_create_crs_to_crs cvms5_projstr with
      | none => (w.UCVM_CODE_ERROR, none)
      | some cvms5_geo2utm =>
        match w.proj_create_crs_to_crs cvms5_vs30_map.projection with
        | none => (w.UCVM_CODE_ERROR, none)
        | some cvms5_geo2aeqd =>
          let north_height_m :=
            cvms5_configuration.top_left_corner_n - cvms5_configuration.bottom_left_corner_n
          let east_width_m :=
            cvms5_configuration.top_left_corner_e - cvms5_configuration.bottom_left_corner_e
          let rotation_angle := w.atan (east_width_m / north_height_m)
          (SUCCESS, some
            { cvms5_configuration := cvms5_configuration
              cvms5_velocity_model := cvms5_velocity_model
              cvms5_vs30_map := cvms5_vs30_map
              cvms5_geo2utm := cvms5_geo2utm.1
              cvms5_geo2utm_errno := cvms5_geo2utm.2
              cvms5_geo2aeqd := cvms5_geo2aeqd.1
              cvms5_cos_rotation_angle := w.cos rotation_angle
              cvms5_sin_rotation_angle := w.sin rotation_angle
              cvms5_total_height_m := w.sqrt
                ((cvms5_configuration.top_left_corner_n
                    - cvms5_configuration.bottom_left_corner_n) ^ 2
                  + (cvms5_configuration.top_left_corner_e
                    - cvms5_configuration.bottom_left_corner_e) ^ 2)
              cvms5_total_width_m := w.sqrt
                ((cvms5_configuration.top_right_corner_n
                    - cvms5_configuration.top_left_corner_n) ^ 2
                  + (cvms5_configuration.top_right_corner_e
                    - cvms5_configuration.top_left_corner_e) ^ 2)
              cvms5_cos_vs30_rotation_angle := w.cos (cvms5_vs30_map.rotation * w.DEG_TO_RAD)
              cvms5_sin_vs30_rotation_angle := w.sin (cvms5_vs30_map.rotation * w.DEG_TO_RAD)
              UCVM_CODE_ERROR := w.UCVM_CODE_ERROR
              ETREE_MAXLEVEL := w.ETREE_MAXLEVEL
              fread_float := w.fread_float
              sqrt := w.sqrt
              log := w.log })

/-- The translate-then-rotate step of `cvms5_query` applied to planar (UTM) coordinates
`(easting, northing)`: the locals `point_x` and `point_y`. -/
def cvms5_to_local (m : cvms5_state) (easting northing : ℚ) : ℚ × ℚ :=
  let point_u := easting - m.cvms5_configuration.bottom_left_corner_e
  let point_v := northing - m.cvms5_configuration.bottom_left_corner_n
  (m.cvms5_cos_rotation_angle * point_u - m.cvms5_sin_rotation_angle * point_v,
   m.cvms5_sin_rotation_angle * point_u + m.cvms5_cos_rotation_angle * point_v)

/-- The global `cvms5_configuration` of `cvms5_init` after `cvms5_read_configuration`. -/
def cvms5_init_configuration (w : cvms5_world) (dir label : String) : cvms5_configuration_t :=
  (cvms5_read_configuration w (dir ++ "/model/" ++ label ++ "/data/config")
    cvms5_configuration_calloc).2

/-- The value `cvms5_read_configuration` returns to `cvms5_init`. -/
def cvms5_init_configuration_code (w : cvms5_world) (dir label : String) : Int :=
  (cvms5_read_configuration w (dir ++ "/model/" ++ label ++ "/data/config")
    cvms5_configuration_calloc).1

/-- The global `cvms5_iteration_directory` of `cvms5_init`. -/
def cvms5_init_iteration_directory (w : cvms5_world) (dir label : String) : String :=
  dir ++ "/model/" ++ label ++ "/data/" ++ (cvms5_init_configuration w dir label).model_dir
    ++ "/"

/-- The value `cvms5_try_reading_model` returns to `cvms5_init` (the second value of
`tempVal`). -/
def cvms5_init_model_code (w : cvms5_world) (dir label : String) : Int :=
  (cvms5_try_reading_model w (cvms5_init_configuration w dir label)
    (cvms5_init_iteration_directory w dir label) cvms5_model_calloc).1

/-- The global `cvms5_velocity_model` of `cvms5_init` after `cvms5_try_reading_model`. -/
def cvms5_init_model (w : cvms5_world) (dir label : String) : cvms5_model_t :=
  (cvms5_try_reading_model w (cvms5_init_configuration w dir label)
    (cvms5_init_iteration_directory w dir label) cvms5_model_calloc).2

/-- The value `cvms5_read_vs30_map` returns to `cvms5_init`. -/
def cvms5_init_vs30_code (w : cvms5_world) (dir : String) : Int :=
  (cvms5_read_vs30_map w (dir ++ "/model/ucvm/ucvm.e") cvms5_vs30_map_calloc).1

/-- The global `cvms5_vs30_map` of `cvms5_init` after `cvms5_read_vs30_map`. -/
def cvms5_init_vs30_map (w : cvms5_world) (dir : String) : cvms5_vs30_map_config_t :=
  (cvms5_read_vs30_map w (dir ++ "/model/ucvm/ucvm.e") cvms5_vs30_map_calloc).2

/-- The local `cvms5_projstr` of `cvms5_init`. -/
def cvms5_init_projstr (w : cvms5_world) (dir label : String) : String :=
  ("+proj=utm +zone=" ++ toString (cvms5_init_configuration w dir label).utm_zone
    ++ " +datum=NAD27 +units=m +no_defs").take 63

/-- The globals `cvms5_init` leaves when it reaches its end, given the two projections it
created. -/
def cvms5_init_globals (w : cvms5_world) (dir label : String)
    (cvms5_geo2utm cvms5_geo2aeqd : (ℚ → ℚ → ℚ × ℚ) × (ℚ → ℚ → Int)) : cvms5_state :=
  { cvms5_configuration := cvms5_init_configuration w dir label
    cvms5_velocity_model := cvms5_init_model w dir label
    cvms5_vs30_map := cvms5_init_vs30_map w dir
    cvms5_geo2utm := cvms5_geo2utm.1
    cvms5_geo2utm_errno := cvms5_geo2utm.2
    cvms5_geo2aeqd := cvms5_geo2aeqd.1
    cvms5_cos_rotation_angle := w.cos (w.atan
      (((cvms5_init_configuration w dir label).top_left_corner_e
          - (cvms5_init_configuration w dir label).bottom_left_corner_e)
        / ((cvms5_init_configuration w dir label).top_left_corner_n
          - (cvms5_init_configuration w dir label).bottom_left_corner_n)))
    cvms5_sin_rotation_angle := w.sin (w.atan
      (((cvms5_init_configuration w dir label).top_left_corner_e
          - (cvms5_init_configuration w dir label).bottom_left_corner_e)
        / ((cvms5_init_configuration w dir label).top_left_corner_n
          - (cvms5_init_configuration w dir label).bottom_left_corner_n)))
    cvms5_total_height_m := w.sqrt
      (((cvms5_init_configuration w dir label).top_left_corner_n
          - (cvms5_init_configuration w dir label).bottom_left_corner_n) ^ 2
        + ((cvms5_init_configuration w dir label).top_left_corner_e
          - (cvms5_init_configuration w dir label).bottom_left_corner_e) ^ 2)
    cvms5_total_width_m := w.sqrt
      (((cvms5_init_configuration w dir label).top_right_corner_n
          - (cvms5_init_configuration w dir label).top_left_corner_n) ^ 2
        + ((cvms5_init_configuration w dir label).top_right_corner_e
          - (cvms5_init_configuration w dir label).top_left_corner_e) ^ 2)
    cvms5_cos_vs30_rotation_angle := w.cos ((cvms5_init_vs30_map w dir).rotation * w.DEG_TO_RAD)
    cvms5_sin_vs30_rotation_angle := w.sin ((cvms5_init_vs30_map w dir).rotation * w.DEG_TO_RAD)
    UCVM_CODE_ERROR := w.UCVM_CODE_ERROR
    ETREE_MAXLEVEL := w.ETREE_MAXLEVEL
    fread_float := w.fread_float
    sqrt := w.sqrt
    log := w.log }

/-- The value of the most recent iteration of the loop of `cvms5_read_configuration` that ran
with the key `gtl`, after the remaining lines; `last` is that value so far (`none`: no such
iteration yet). -/
def cvms5_last_gtl_value (w : cvms5_world) :
    List String → String → String → Option String → Option String
  | [], _, _, last => last
  | line_holder :: rest, key, value, last =>
    if cvms5_line_is_read line_holder then
      let kv := w.sscanf_key_value line_holder
      let key := kv.1.getD key
      let value := kv.2.getD value
      cvms5_last_gtl_value w rest key value (if key = "gtl" then some value else last)
    else cvms5_last_gtl_value w rest key value last

/-- The five grid files that `cvms5_try_reading_model` looks for. -/
def cvms5_grid_files (cvms5_iteration_directory : String) : List String :=
  [cvms5_iteration_directory ++ "/vp.dat", cvms5_iteration_directory ++ "/vs.dat",
   cvms5_iteration_directory ++ "/rho.dat", cvms5_iteration_directory ++ "/qp.dat",
   cvms5_iteration_directory ++ "/qs.dat"]

/-- Local `base_malloc` of `cvms5_try_reading_model` (with `sizeof (float) = 4`). -/
def cvms5_base_malloc (cvms5_configuration : cvms5_configuration_t) : ℚ :=
  ((cvms5_configuration.nx * cvms5_configuration.ny * cvms5_configuration.nz * 4 : Int) : ℚ)

/-- The lines of a complete configuration file, each with the key and the value that
`sscanf (line, "%s = %s", key, value)` stores for it: a 3 x 3 x 3 grid whose footprint is
rotated; its left edge runs from (1000, 1000) to (2500, 3000), a 3-4-5 triangle of
hypotenuse 2500. -/
def demo_config_table : List (String × String × String) :=
  [("utm_zone = 11", "utm_zone", "11"), ("model_dir = i26", "model_dir", "i26"),
   ("nx = 3", "nx", "3"), ("ny = 3", "ny", "3"), ("nz = 3", "nz", "3"),
   ("depth = 3000", "depth", "3000"),
   ("top_left_corner_e = 2500", "top_left_corner_e", "2500"),
   ("top_left_corner_n = 3000", "top_left_corner_n", "3000"),
   ("top_right_corner_e = 4500", "top_right_corner_e", "4500"),
   ("top_right_corner_n = 1500", "top_right_corner_n", "1500"),
   ("bottom_left_corner_e = 1000", "bottom_left_corner_e", "1000"),
   ("bottom_left_corner_n = 1000", "bottom_left_corner_n", "1000"),
   ("bottom_right_corner_e = 3000", "bottom_right_corner_e", "3000"),
   ("bottom_right_corner_n = -500", "bottom_right_corner_n", "-500"),
   ("depth_interval = 1000", "depth_interval", "1000"),
   ("p0 = 1", "p0", "1"), ("p1 = 1", "p1", "1"), ("p2 = 1", "p2", "1"),
   ("p3 = 1", "p3", "1"), ("p4 = 1", "p4", "1"), ("gtl = on", "gtl", "on"),
   ("p5 = 1", "p5", "1")]

/-- The configuration file of `demo_world`: a comment line, then the lines of
`demo_config_table`. -/
def demo_config_lines : List String :=
  "# demo configuration" :: demo_config_table.map (fun e => e.1)

/-- The configuration file of `demo_world` without its last line, `p5 = 1`. -/
def demo_config_lines_no_p5 : List String := demo_config_lines.dropLast

/-- A toy `sscanf (line, "%s = %s", key, value)`: it parses the lines of `demo_config_table`
and stores nothing for any other line. -/
def demo_sscanf_key_value (line : String) : Option String × Option String :=
  match demo_config_table.find? (fun e => e.1 == line) with
  | some e => (some e.2.1, some e.2.2)
  | none => (none, none)

/-- A toy `atoi` for the numerals of `demo_config_table`. -/
def demo_atoi (s : String) : Int :=
  if s = "11" then 11 else if s = "3" then 3 else 0

/-- A toy `atof` for the numerals of `demo_config_table`. -/
def demo_atof (s : String) : ℚ :=
  if s = "1" then 1 else if s = "1000" then 1000 else if s = "1500" then 1500
  else if s = "2500" then 2500 else if s = "3000" then 3000 else if s = "4500" then 4500
  else if s = "-500" then -500 else 0

/-- The metadata string of the Vs30 e-tree of `demo_world` (167 characters). -/
def demo_appmeta : String :=
  "vs30|a constant map of 500 m/s over a square of 4000 m by 4000 m|nobody|2026-10-30|1000|"
    ++ "schema|+proj=aeqd +lat_0=0 +lon_0=0|0,0,0|0|4000,4000,0|2147483648,2147483648,1"

/-- The tokens of `demo_appmeta` between the `|` characters. -/
def demo_tokens : List String :=
  ["vs30", "a constant map of 500 m/s over a square of 4000 m by 4000 m", "nobody",
   "2026-10-30", "1000", "schema", "+proj=aeqd +lat_0=0 +lon_0=0", "0,0,0", "0",
   "4000,4000,0", "2147483648,2147483648,1"]

/-- A concrete world: the configuration file `demo_config_lines` whatever the path, all five
grid files readable and loaded into memory, a Vs30 e-tree with the metadata `demo_appmeta`, toy
projections, and libm values that are exact for the 3-4-5 footprint (`atan (3/4)` is called
`16/25`, with cosine `4/5` and sine `3/5`; `sqrt 6250000 = 2500`). -/
def demo_world : cvms5_world :=
  { fgets_lines := fun _ => some demo_config_lines
    key0 := ""
    value0 := ""
    sscanf_key_value := demo_sscanf_key_value
    atoi := demo_atoi
    atof := demo_atof
    access_r_ok := fun _ => true
    malloc_ok := fun _ _ => true
    fread_array := fun _ _ i => 1440 + 10 * (i : ℚ)
    file_floats := fun _ i => 1440 + 10 * (i : ℚ)
    etree_open := fun _ _ _ => { surf := 0, vs30 := 500 }
    etree_getappmeta := fun _ => demo_appmeta
    strtok := fun _ => demo_tokens
    sscanf_lf := fun s => if s = "1000" then some 1000 else if s = "0" then some 0 else none
    sscanf_lf3 := fun s =>
      if s = "0,0,0" then (some 0, some 0, some 0)
      else if s = "4000,4000,0" then (some 4000, some 4000, some 0) else (none, none, none)
    sscanf_u3 := fun s =>
      if s = "2147483648,2147483648,1" then (some 2147483648, some 2147483648, some 1)
      else (none, none, none)
    proj_create_crs_to_crs := fun _ =>
      some (fun lat lon => (lon, lat), fun lat _ => if lat > 5000 then 1 else 0)
    atan := fun q => if q = 3 / 4 then 16 / 25 else 0
    cos := fun q => if q = 16 / 25 then 4 / 5 else 1
    sin := fun q => if q = 16 / 25 then 3 / 5 else 0
    sqrt := fun q => if q = 6250000 then 2500 else 0
    log := fun q => if q = 4 then 2 else 1
    DEG_TO_RAD := 1 / 57
    UCVM_CODE_ERROR := 1
    ETREE_MAXLEVEL := 31
    fread_float := fun _ x => x }

/-- The world `demo_world` with a configuration file that lacks the line `p5 = 1`. -/
def demo_world_no_p5 : cvms5_world :=
  { demo_world with fgets_lines := fun _ => some demo_config_lines_no_p5 }

/-- The world `demo_world` without a configuration file: `fopen` returns `NULL`. -/
def demo_world_no_config : cvms5_world :=
  { demo_world with fgets_lines := fun _ => none }

/-- The world `demo_world` without any readable grid file. -/
def demo_world_no_files : cvms5_world :=
  { demo_world with access_r_ok := fun _ => false }

/-- The world `demo_world` in which every `malloc` for a grid file fails. -/
def demo_world_on_disk : cvms5_world :=
  { demo_world with malloc_ok := fun _ _ => false }

/-- The world `demo_world` whose Vs30 e-tree cannot be opened: the metadata string is what
`snprintf` prints for a null pointer. -/
def demo_world_no_map : cvms5_world :=
  { demo_world with etree_getappmeta := fun _ => "(null)" }

/-- The configuration that `demo_config_lines` describes. -/
def demo_world_configuration : cvms5_configuration_t :=
  { utm_zone := 11, model_dir := "i26", gtl := 1, nx := 3, ny := 3, nz := 3, depth := 3000,
    top_left_corner_e := 2500, top_left_corner_n := 3000,
    top_right_corner_e := 4500, top_right_corner_n := 1500,
    bottom_left_corner_e := 1000, bottom_left_corner_n := 1000,
    bottom_right_corner_e := 3000, bottom_right_corner_n := -500,
    depth_interval := 1000, p0 := 1, p1 := 1, p2 := 1, p3 := 1, p4 := 1, p5 := 1 }

/-! ## Definitions for the cell index and the interpolation bounds -/

/-- The values computed while the C expression
`z * nx * ny + (nx - x - 1) * ny + y` of `cvms5_read_properties` is evaluated, in the order of
evaluation. -/
def cvms5_location_steps (nx ny x y z : Int) : List Int :=
  [z * nx, z * nx * ny, nx - x, nx - x - 1, (nx - x - 1) * ny,
   z * nx * ny + (nx - x - 1) * ny, z * nx * ny + (nx - x - 1) * ny + y]

/-- The cell `(x, y, z)` lies in the grid `{0..nx-1} x {0..ny-1} x {0..nz-1}`. -/
def cvms5_cell_in_grid (nx ny nz x y z : Int) : Prop :=
  (0 ≤ x ∧ x ≤ nx - 1) ∧ (0 ≤ y ∧ y ≤ ny - 1) ∧ (0 ≤ z ∧ z ≤ nz - 1)

instance (nx ny nz x y z : Int) : Decidable (cvms5_cell_in_grid nx ny nz x y z) := by
  unfold cvms5_cell_in_grid; infer_instance

/-- A point of `demo_state` on the grid node `(1, 1)` at depth 1000 m, one layer interval. -/
def demo_point_grid_node : cvms5_point_t :=
  { longitude := 2000, latitude := 2000, depth := 1000 }

/-- The five fields of `cvms5_properties_t`, as functions of the structure. -/
def cvms5_fields : List (cvms5_properties_t → ℚ) :=
  [fun d => d.vp, fun d => d.vs, fun d => d.rho, fun d => d.qp, fun d => d.qs]

/-- The minimum of the field `f` over the corners `c0 :: cs`. -/
def cvms5_field_min (f : cvms5_properties_t → ℚ) (c0 : cvms5_properties_t)
    (cs : List cvms5_properties_t) : ℚ :=
  cs.foldr (fun c a => min (f c) a) (f c0)

/-- The maximum of the field `f` over the corners `c0 :: cs`. -/
def cvms5_field_max (f : cvms5_properties_t → ℚ) (c0 : cvms5_properties_t)
    (cs : List cvms5_properties_t) : ℚ :=
  cs.foldr (fun c a => max (f c) a) (f c0)

/-! ## Rounded `double` arithmetic and undefined accesses -/

/-- Rounding of a rational to the nearest integer, a tie going to the even one. -/
def round_half_even (q : ℚ) : Int :=
  if q - (⌊q⌋ : ℚ) < 1 / 2 then ⌊q⌋
  else if 1 / 2 < q - (⌊q⌋ : ℚ) then ⌊q⌋ + 1
  else if ⌊q⌋ % 2 = 0 then ⌊q⌋ else ⌊q⌋ + 1

/-- Exponent of the binary64 number nearest to `q`: the `e` with `2 ^ e ≤ |q| < 2 ^ (e + 1)`,
and `-1022` in the subnormal range. -/
def binary64_exponent (q : ℚ) : Int := max (Int.log 2 |q|) (-1022)

/-- Rounding of IEEE 754 binary64 (`double`) arithmetic in the default mode, round to nearest
with ties to even: the multiple of `2 ^ (e - 52)` nearest to `q`. Overflow is not modelled:
the result is what the operation gives for `|q| < 2 ^ 1024`. -/
def binary64_round (q : ℚ) : ℚ :=
  (round_half_even (q / (2 : ℚ) ^ (binary64_exponent q - 52)) : ℚ)
    * (2 : ℚ) ^ (binary64_exponent q - 52)

/-- The bracketed `double` of the z index assignment of `cvms5_query` (cvms5.c lines 187-188),
`(depth / depth_interval - 1) - floor (points[i].depth / depth_interval)`, with the result of
every `double` operation rounded by `rnd`; `floor` is exact. -/
def cvms5_z_bracket_rounded (rnd : ℚ → ℚ) (m : cvms5_state) (pt : cvms5_point_t) : ℚ :=
  rnd (rnd (rnd (m.cvms5_configuration.depth / m.cvms5_configuration.depth_interval) - 1)
    - ((⌊rnd (pt.depth / m.cvms5_configuration.depth_interval)⌋ : Int) : ℚ))

/-- Local `load_z_coord` of `cvms5_query` with rounded `double` operations: the bracketed
`double` stored in an `int`. -/
def load_z_coord_rounded (rnd : ℚ → ℚ) (m : cvms5_state) (pt : cvms5_point_t) : Int :=
  c_trunc (cvms5_z_bracket_rounded rnd m pt)

/-- An access of the trace that is undefined in C: `cvms5_read_properties` called for a linear
index outside `[0, nx * ny * nz)` while a field is resident (status 2; the array
`cvms5_try_reading_model` allocates has `nx * ny * nz` floats), or a read through the `NULL`
stream. The embedding gives such an access a value; the program has none. -/
def cvms5_undefined_access (m : cvms5_state) : cvms5_event → Prop
  | cvms5_event.read_properties x y z =>
    (m.cvms5_velocity_model.vs_status = 2 ∨ m.cvms5_velocity_model.vp_status = 2) ∧
      ¬ (0 ≤ cvms5_location m x y z ∧
        cvms5_location m x y z
          < m.cvms5_configuration.nx * m.cvms5_configuration.ny * m.cvms5_configuration.nz)
  | cvms5_event.fread_null _ => True
  | _ => False

instance (m : cvms5_state) (e : cvms5_event) : Decidable (cvms5_undefined_access m e) := by
  cases e <;> unfold cvms5_undefined_access <;> infer_instance

/-- A point far east of the grid of `demo_state` (x cell index 1000000), at the depth of the
bilinear shortcut. -/
def demo_point_far : cvms5_point_t :=
  { longitude := 1000001500, latitude := 1250, depth := 2000 }

/-- The translate-then-rotate step of `cvms5_query` (cvms5.c lines 175-181) applied to planar
coordinates `(easting, northing)`, with the result of every `double` operation rounded by
`rnd`. -/
def cvms5_to_local_rounded (rnd : ℚ → ℚ) (m : cvms5_state) (easting northing : ℚ) : ℚ × ℚ :=
  let point_u := rnd (easting - m.cvms5_configuration.bottom_left_corner_e)
  let point_v := rnd (northing - m.cvms5_configuration.bottom_left_corner_n)
  (rnd (rnd (m.cvms5_cos_rotation_angle * point_u) - rnd (m.cvms5_sin_rotation_angle * point_v)),
   rnd (rnd (m.cvms5_sin_rotation_angle * point_u) + rnd (m.cvms5_cos_rotation_angle * point_v)))

/-- Local `point_x` of `cvms5_query` with rounded `double` operations. -/
def point_x_rounded (rnd : ℚ → ℚ) (m : cvms5_state) (pt : cvms5_point_t) : ℚ :=
  let xyzDest := m.cvms5_geo2utm pt.latitude pt.longitude
  (cvms5_to_local_rounded rnd m xyzDest.1 xyzDest.2).1

/-- Local `point_y` of `cvms5_query` with rounded `double` operations. -/
def point_y_rounded (rnd : ℚ → ℚ) (m : cvms5_state) (pt : cvms5_point_t) : ℚ :=
  let xyzDest := m.cvms5_geo2utm pt.latitude pt.longitude
  (cvms5_to_local_rounded rnd m xyzDest.1 xyzDest.2).2

/-- Local `load_x_coord` of `cvms5_query` with rounded `double` operations:
`floor (point_x / cvms5_total_width_m * (nx - 1))`, the quotient and the product each rounded. -/
def load_x_coord_rounded (rnd : ℚ → ℚ) (m : cvms5_state) (pt : cvms5_point_t) : Int :=
  ⌊rnd (rnd (point_x_rounded rnd m pt / m.cvms5_total_width_m)
    * ((m.cvms5_configuration.nx - 1 : Int) : ℚ))⌋

/-- Local `load_y_coord` of `cvms5_query` with rounded `double` operations. -/
def load_y_coord_rounded (rnd : ℚ → ℚ) (m : cvms5_state) (pt : cvms5_point_t) : Int :=
  ⌊rnd (rnd (point_y_rounded rnd m pt / m.cvms5_total_height_m)
    * ((m.cvms5_configuration.ny - 1 : Int) : ℚ))⌋

/-- Local `z_percent` of `cvms5_query` with rounded `double` operations; `fmod` is exact. -/
def z_percent_rounded (rnd : ℚ → ℚ) (m : cvms5_state) (pt : cvms5_point_t) : ℚ :=
  rnd (fmod pt.depth m.cvms5_configuration.depth_interval / m.cvms5_configuration.depth_interval)

/-- Value assigned to `x_percent` after the boundary check of `cvms5_query`, with rounded
`double` operations:
`fmod (point_x, cvms5_total_width_m / (nx - 1)) / (cvms5_total_width_m / (nx - 1))`, the cell
width and the final quotient each rounded; `fmod` is exact. -/
def x_percent_rounded (rnd : ℚ → ℚ) (m : cvms5_state) (pt : cvms5_point_t) : ℚ :=
  rnd (fmod (point_x_rounded rnd m pt)
      (rnd (m.cvms5_total_width_m / ((m.cvms5_configuration.nx - 1 : Int) : ℚ)))
    / rnd (m.cvms5_total_width_m / ((m.cvms5_configuration.nx - 1 : Int) : ℚ)))

/-- Value assigned to `y_percent` after the boundary check of `cvms5_query`, with rounded
`double` operations. -/
def y_percent_rounded (rnd : ℚ → ℚ) (m : cvms5_state) (pt : cvms5_point_t) : ℚ :=
  rnd (fmod (point_y_rounded rnd m pt)
      (rnd (m.cvms5_total_height_m / ((m.cvms5_configuration.ny - 1 : Int) : ℚ)))
    / rnd (m.cvms5_total_height_m / ((m.cvms5_configuration.ny - 1 : Int) : ℚ)))

/-- One field of `cvms5_linear_interpolation` with rounded `double` operations:
`(1 - percent) * x0 + percent * x1`, the difference, both products and the sum each rounded. -/
def cvms5_linear_rounded (rnd : ℚ → ℚ) (percent x0 x1 : ℚ) : ℚ :=
  rnd (rnd (rnd (1 - percent) * x0) + rnd (percent * x1))

/-- Embedding of `cvms5_linear_interpolation` with rounded `double` operations. -/
def cvms5_linear_interpolation_rounded (rnd : ℚ → ℚ) (percent : ℚ)
    (x0 x1 : cvms5_properties_t) : cvms5_properties_t :=
  { vp := cvms5_linear_rounded rnd percent x0.vp x1.vp
    vs := cvms5_linear_rounded rnd percent x0.vs x1.vs
    rho := cvms5_linear_rounded rnd percent x0.rho x1.rho
    qp := cvms5_linear_rounded rnd percent x0.qp x1.qp
    qs := cvms5_linear_rounded rnd percent x0.qs x1.qs }

/-- Embedding of `cvms5_bilinear_interpolation` with rounded `double` operations. -/
def cvms5_bilinear_interpolation_rounded (rnd : ℚ → ℚ) (x_percent y_percent : ℚ)
    (p0 p1 p2 p3 : cvms5_properties_t) : cvms5_properties_t :=
  let t0 := cvms5_linear_interpolation_rounded rnd x_percent p0 p1
  let t1 := cvms5_linear_interpolation_rounded rnd x_percent p2 p3
  cvms5_linear_interpolation_rounded rnd y_percent t0 t1

/-- Embedding of `cvms5_trilinear_interpolation` with rounded `double` operations. -/
def cvms5_trilinear_interpolation_rounded (rnd : ℚ → ℚ) (x_percent y_percent z_percent : ℚ)
    (p0 p1 p2 p3 p4 p5 p6 p7 : cvms5_properties_t) : cvms5_properties_t :=
  let t0 := cvms5_bilinear_interpolation_rounded rnd x_percent y_percent p0 p1 p2 p3
  let t1 := cvms5_bilinear_interpolation_rounded rnd x_percent y_percent p4 p5 p6 p7
  cvms5_linear_interpolation_rounded rnd z_percent t0 t1

/-- A state whose grid has 1536 nodes 500 m apart along x (width 767500 m); otherwise as
`demo_state`: unrotated, bottom-left corner at (1000, 1000), three nodes 1000 m apart along y,
three layers of 1000 m, cell `i` storing `vs = 1440 + 10 i` and `vp = 2440 + 10 i`. -/
def demo_state_wide : cvms5_state :=
  { demo_state with
    cvms5_configuration :=
      { demo_configuration with
        nx := 1536, top_right_corner_e := 768500, bottom_right_corner_e := 768500 }
    cvms5_total_width_m := 767500 }

/-- The point of `demo_state_wide` on the grid node `(15, 0)`, 7500 m east of the bottom-left
corner, at the depth of the layer with z index 1 (1000 m). -/
def demo_point_node15 : cvms5_point_t := { longitude := 8500, latitude := 1000, depth := 1000 }

/-- The trilinear branch of `cvms5_query` (cvms5.c lines 234-246) with rounded `double`
operations: the eight reads around the cell of the indices, and their interpolation at the
offsets. -/
def cvms5_query_trilinear_rounded (rnd : ℚ → ℚ) (m : cvms5_state) (pt : cvms5_point_t) :
    cvms5_properties_t :=
  let x := load_x_coord_rounded rnd m pt
  let y := load_y_coord_rounded rnd m pt
  let z := load_z_coord_rounded rnd m pt
  cvms5_trilinear_interpolation_rounded rnd (x_percent_rounded rnd m pt)
    (y_percent_rounded rnd m pt) (z_percent_rounded rnd m pt)
    (cvms5_read_properties m x y z).1 (cvms5_read_properties m (x + 1) y z).1
    (cvms5_read_properties m x (y + 1) z).1 (cvms5_read_properties m (x + 1) (y + 1) z).1
    (cvms5_read_properties m x y (z - 1)).1 (cvms5_read_properties m (x + 1) y (z - 1)).1
    (cvms5_read_properties m x (y + 1) (z - 1)).1
    (cvms5_read_properties m (x + 1) (y + 1) (z - 1)).1

/-- Bound on the rounding error of one field of `cvms5_linear_interpolation_rounded` for
corner values of magnitude at most `M`, when every operation has a relative error of at most `u`
and, in the subnormal range, an absolute error of at most `η`; for binary64 `u = 2 ^ (-53)`
and `η = 2 ^ (-1075)`. -/
def cvms5_rounding_slack (u η M : ℚ) : ℚ := 4 * ((u + η) * M + η)

/-- The lines of the configuration file of `demo_world_diagonal`, each with the key and the value
that `sscanf (line, "%s = %s", key, value)` stores for it: a 3 x 3 x 3 grid whose footprint is a
square rotated by 45 degrees; its left edge runs from (1000, 2000) to (2000, 3000). -/
def demo_diagonal_table : List (String × String × String) :=
  [("utm_zone = 11", "utm_zone", "11"), ("model_dir = i26", "model_dir", "i26"),
   ("nx = 3", "nx", "3"), ("ny = 3", "ny", "3"), ("nz = 3", "nz", "3"),
   ("depth = 3000", "depth", "3000"),
   ("top_left_corner_e = 2000", "top_left_corner_e", "2000"),
   ("top_left_corner_n = 3000", "top_left_corner_n", "3000"),
   ("top_right_corner_e = 3000", "top_right_corner_e", "3000"),
   ("top_right_corner_n = 2000", "top_right_corner_n", "2000"),
   ("bottom_left_corner_e = 1000", "bottom_left_corner_e", "1000"),
   ("bottom_left_corner_n = 2000", "bottom_left_corner_n", "2000"),
   ("bottom_right_corner_e = 2000", "bottom_right_corner_e", "2000"),
   ("bottom_right_corner_n = 1000", "bottom_right_corner_n", "1000"),
   ("depth_interval = 1000", "depth_interval", "1000"),
   ("p0 = 1", "p0", "1"), ("p1 = 1", "p1", "1"), ("p2 = 1", "p2", "1"),
   ("p3 = 1", "p3", "1"), ("p4 = 1", "p4", "1"), ("gtl = on", "gtl", "on"),
   ("p5 = 1", "p5", "1")]

/-- The configuration file of `demo_world_diagonal`: a comment line, then the lines of
`demo_diagonal_table`. -/
def demo_diagonal_lines : List String :=
  "# demo configuration" :: demo_diagonal_table.map (fun e => e.1)

/-- A toy `sscanf (line, "%s = %s", key, value)`: it parses the lines of `demo_diagonal_table`
and stores nothing for any other line. -/
def demo_diagonal_sscanf_key_value (line : String) : Option String × Option String :=
  match demo_diagonal_table.find? (fun e => e.1 == line) with
  | some e => (some e.2.1, some e.2.2)
  | none => (none, none)

/-- A toy `atof` for the numerals of `demo_diagonal_table`. -/
def demo_diagonal_atof (s : String) : ℚ :=
  if s = "1" then 1 else if s = "1000" then 1000 else if s = "2000" then 2000
  else if s = "3000" then 3000 else 0

/-- The world `demo_world` with the configuration file `demo_diagonal_lines` and with the
binary64 values of libm at the arguments `cvms5_init` uses for this footprint:
`atan (1) = 0.7853981633974483` (`0x1.921fb54442d18p-1`), of which the cosine is
`0.7071067811865476` (`0x1.6a09e667f3bcdp-1`) and the sine `0.7071067811865475`
(`0x1.6a09e667f3bccp-1`), and `sqrt (2000000) = 1414.213562373095` (`0x1.618dab0184066p+10`);
each is the binary64 number nearest to the exact value. -/
def demo_world_diagonal : cvms5_world :=
  { demo_world with
    fgets_lines := fun _ => some demo_diagonal_lines
    sscanf_key_value := demo_diagonal_sscanf_key_value
    atof := demo_diagonal_atof
    atan := fun q => if q = 1 then 884279719003555 / 1125899906842624 else 0
    cos := fun q =>
      if q = 884279719003555 / 1125899906842624 then 6369051672525773 / 9007199254740992
      else 1
    sin := fun q =>
      if q = 884279719003555 / 1125899906842624 then 6369051672525772 / 9007199254740992
      else 0
    sqrt := fun q => if q = 2000000 then 3109888511975475 / 2199023255552 else 0 }
/-! ## Unfolding lemmas for one loop iteration -/

theorem body_datagap
    (gtl : cvms5_point_t → cvms5_properties_t →
      Option (Int × cvms5_properties_t × List cvms5_event))
    (m : cvms5_state) (xp yp : ℚ) (pt : cvms5_point_t)
    (h : pt.depth < 0) :
    cvms5_query_body gtl m xp yp pt =
      some { data := cvms5_not_found, x_percent := xp, y_percent := yp, ret := none,
             trace := [] } := by
  simp [cvms5_query_body, h]

theorem body_proj_error
    (gtl : cvms5_point_t → cvms5_properties_t →
      Option (Int × cvms5_properties_t × List cvms5_event))
    (m : cvms5_state) (xp yp : ℚ) (pt : cvms5_point_t)
    (h : ¬ pt.depth < 0)
    (he : m.cvms5_geo2utm_errno pt.latitude pt.longitude ≠ 0) :
    cvms5_query_body gtl m xp yp pt =
      some { data := cvms5_not_found, x_percent := xp, y_percent := yp,
             ret := some m.UCVM_CODE_ERROR,
             trace := [cvms5_event.proj_trans_utm pt.latitude pt.longitude] } := by
  simp [cvms5_query_body, h, he]

theorem body_shortcut
    (gtl : cvms5_point_t → cvms5_properties_t →
      Option (Int × cvms5_properties_t × List cvms5_event))
    (m : cvms5_state) (xp yp : ℚ) (pt : cvms5_point_t)
    (h : ¬ pt.depth < 0)
    (he : m.cvms5_geo2utm_errno pt.latitude pt.longitude = 0)
    (hz : load_z_coord m pt = 0 ∧ z_percent m pt = 0) :
    cvms5_query_body gtl m xp yp pt =
      some { data := cvms5_query_derived m (cvms5_bilinear_interpolation xp yp
                (cvms5_read_properties m (load_x_coord m pt) (load_y_coord m pt) 0).1
                (cvms5_read_properties m (load_x_coord m pt + 1) (load_y_coord m pt) 0).1
                (cvms5_read_properties m (load_x_coord m pt) (load_y_coord m pt + 1) 0).1
                (cvms5_read_properties m (load_x_coord m pt + 1) (load_y_coord m pt + 1) 0).1),
             x_percent := xp, y_percent := yp, ret := none,
             trace := [cvms5_event.proj_trans_utm pt.latitude pt.longitude]
               ++ (cvms5_read_properties m (load_x_coord m pt) (load_y_coord m pt) 0).2
               ++ (cvms5_read_properties m (load_x_coord m pt + 1) (load_y_coord m pt) 0).2
               ++ (cvms5_read_properties m (load_x_coord m pt) (load_y_coord m pt + 1) 0).2
               ++ (cvms5_read_properties m (load_x_coord m pt + 1) (load_y_coord m pt + 1) 0).2 } := by
  simp [cvms5_query_body, h, he, hz.1, hz.2]

theorem body_outside
    (gtl : cvms5_point_t → cvms5_properties_t →
      Option (Int × cvms5_properties_t × List cvms5_event))
    (m : cvms5_state) (xp yp : ℚ) (pt : cvms5_point_t)
    (h : ¬ pt.depth < 0)
    (he : m.cvms5_geo2utm_errno pt.latitude pt.longitude = 0)
    (hz : ¬ (load_z_coord m pt = 0 ∧ z_percent m pt = 0)) (ho : cvms5_outside m pt) :
    cvms5_query_body gtl m xp yp pt =
      some { data := cvms5_not_found, x_percent := xp, y_percent := yp, ret := none,
             trace := [cvms5_event.proj_trans_utm pt.latitude pt.longitude] } := by
  unfold cvms5_query_body
  simp only [h, he, ho, if_true, if_false, ne_eq, not_true_eq_false]
  rw [if_neg hz]

theorem body_gtl
    (gtl : cvms5_point_t → cvms5_properties_t →
      Option (Int × cvms5_properties_t × List cvms5_event))
    (m : cvms5_state) (xp yp : ℚ) (pt : cvms5_point_t)
    (h : ¬ pt.depth < 0)
    (he : m.cvms5_geo2utm_errno pt.latitude pt.longitude = 0)
    (hz : ¬ (load_z_coord m pt = 0 ∧ z_percent m pt = 0)) (ho : ¬ cvms5_outside m pt)
    (hg : pt.depth < m.cvms5_configuration.depth_interval ∧ m.cvms5_configuration.gtl = 1) :
    cvms5_query_body gtl m xp yp pt =
      (gtl pt cvms5_not_found).map (fun g =>
        { data := cvms5_query_derived m g.2.1, x_percent := x_percent m pt,
          y_percent := y_percent m pt, ret := none,
          trace := [cvms5_event.proj_trans_utm pt.latitude pt.longitude] ++ g.2.2 }) := by
  unfold cvms5_query_body
  simp only [h, he, ho, if_true, if_false, ne_eq, not_true_eq_false]
  rw [if_neg hz, if_pos hg]
  cases gtl pt cvms5_not_found <;> rfl

theorem body_trilinear
    (gtl : cvms5_point_t → cvms5_properties_t →
      Option (Int × cvms5_properties_t × List cvms5_event))
    (m : cvms5_state) (xp yp : ℚ) (pt : cvms5_point_t)
    (h : ¬ pt.depth < 0)
    (he : m.cvms5_geo2utm_errno pt.latitude pt.longitude = 0)
    (hz : ¬ (load_z_coord m pt = 0 ∧ z_percent m pt = 0)) (ho : ¬ cvms5_outside m pt)
    (hg : ¬ (pt.depth < m.cvms5_configuration.depth_interval ∧ m.cvms5_configuration.gtl = 1)) :
    cvms5_query_body gtl m xp yp pt =
      some { data := cvms5_query_derived m (cvms5_trilinear_interpolation
                (x_percent m pt) (y_percent m pt) (z_percent m pt)
                (cvms5_read_properties m (load_x_coord m pt) (load_y_coord m pt)
                  (load_z_coord m pt)).1
                (cvms5_read_properties m (load_x_coord m pt + 1) (load_y_coord m pt)
                  (load_z_coord m pt)).1
                (cvms5_read_properties m (load_x_coord m pt) (load_y_coord m pt + 1)
                  (load_z_coord m pt)).1
                (cvms5_read_properties m (load_x_coord m pt + 1) (load_y_coord m pt + 1)
                  (load_z_coord m pt)).1
                (cvms5_read_properties m (load_x_coord m pt) (load_y_coord m pt)
                  (load_z_coord m pt - 1)).1
                (cvms5_read_properties m (load_x_coord m pt + 1) (load_y_coord m pt)
                  (load_z_coord m pt - 1)).1
                (cvms5_read_properties m (load_x_coord m pt) (load_y_coord m pt + 1)
                  (load_z_coord m pt - 1)).1
                (cvms5_read_properties m (load_x_coord m pt + 1) (load_y_coord m pt + 1)
                  (load_z_coord m pt - 1)).1),
             x_percent := x_percent m pt, y_percent := y_percent m pt, ret := none,
             trace := [cvms5_event.proj_trans_utm pt.latitude pt.longitude]
               ++ (cvms5_read_properties m (load_x_coord m pt) (load_y_coord m pt)
                  (load_z_coord m pt)).2
               ++ (cvms5_read_properties m (load_x_coord m pt + 1) (load_y_coord m pt)
                  (load_z_coord m pt)).2
               ++ (cvms5_read_properties m (load_x_coord m pt) (load_y_coord m pt + 1)
                  (load_z_coord m pt)).2
               ++ (cvms5_read_properties m (load_x_coord m pt + 1) (load_y_coord m pt + 1)
                  (load_z_coord m pt)).2
               ++ (cvms5_read_properties m (load_x_coord m pt) (load_y_coord m pt)
                  (load_z_coord m pt - 1)).2
               ++ (cvms5_read_properties m (load_x_coord m pt + 1) (load_y_coord m pt)
                  (load_z_coord m pt - 1)).2
               ++ (cvms5_read_properties m (load_x_coord m pt) (load_y_coord m pt + 1)
                  (load_z_coord m pt - 1)).2
               ++ (cvms5_read_properties m (load_x_coord m pt + 1) (load_y_coord m pt + 1)
                  (load_z_coord m pt - 1)).2 } := by
  unfold cvms5_query_body
  simp only [h, he, ho, if_true, if_false, ne_eq, not_true_eq_false]
  rw [if_neg hz, if_neg hg]

/-! ## The loop and the fuel -/

theorem body_congr_gtl
    (gtl gtl2 : cvms5_point_t → cvms5_properties_t →
      Option (Int × cvms5_properties_t × List cvms5_event))
    (m : cvms5_state) (xp yp : ℚ) (pt : cvms5_point_t)
    (h : pt.depth < m.cvms5_configuration.depth_interval ∧ m.cvms5_configuration.gtl = 1 →
      gtl pt cvms5_not_found = gtl2 pt cvms5_not_found) :
    cvms5_query_body gtl m xp yp pt = cvms5_query_body gtl2 m xp yp pt := by
  by_cases h0 : pt.depth < 0
  · rw [body_datagap _ _ _ _ _ h0, body_datagap _ _ _ _ _ h0]
  by_cases he : m.cvms5_geo2utm_errno pt.latitude pt.longitude = 0
  swap
  · rw [body_proj_error _ _ _ _ _ h0 he, body_proj_error _ _ _ _ _ h0 he]
  by_cases hz : load_z_coord m pt = 0 ∧ z_percent m pt = 0
  · rw [body_shortcut _ _ _ _ _ h0 he hz, body_shortcut _ _ _ _ _ h0 he hz]
  by_cases ho : cvms5_outside m pt
  · rw [body_outside _ _ _ _ _ h0 he hz ho, body_outside _ _ _ _ _ h0 he hz ho]
  by_cases hg : pt.depth < m.cvms5_configuration.depth_interval ∧ m.cvms5_configuration.gtl = 1
  · rw [body_gtl _ _ _ _ _ h0 he hz ho hg, body_gtl _ _ _ _ _ h0 he hz ho hg, h hg]
  · rw [body_trilinear _ _ _ _ _ h0 he hz ho hg, body_trilinear _ _ _ _ _ h0 he hz ho hg]

theorem body_isSome
    (gtl : cvms5_point_t → cvms5_properties_t →
      Option (Int × cvms5_properties_t × List cvms5_event))
    (m : cvms5_state) (xp yp : ℚ) (pt : cvms5_point_t)
    (h : pt.depth < m.cvms5_configuration.depth_interval ∧ m.cvms5_configuration.gtl = 1 →
      (gtl pt cvms5_not_found).isSome = true) :
    (cvms5_query_body gtl m xp yp pt).isSome = true := by
  by_cases h0 : pt.depth < 0
  · rw [body_datagap _ _ _ _ _ h0]; rfl
  by_cases he : m.cvms5_geo2utm_errno pt.latitude pt.longitude = 0
  swap
  · rw [body_proj_error _ _ _ _ _ h0 he]; rfl
  by_cases hz : load_z_coord m pt = 0 ∧ z_percent m pt = 0
  · rw [body_shortcut _ _ _ _ _ h0 he hz]; rfl
  by_cases ho : cvms5_outside m pt
  · rw [body_outside _ _ _ _ _ h0 he hz ho]; rfl
  by_cases hg : pt.depth < m.cvms5_configuration.depth_interval ∧ m.cvms5_configuration.gtl = 1
  · rw [body_gtl _ _ _ _ _ h0 he hz ho hg]
    simpa using h hg
  · rw [body_trilinear _ _ _ _ _ h0 he hz ho hg]; rfl

theorem loop_nil
    (gtl : cvms5_point_t → cvms5_properties_t →
      Option (Int × cvms5_properties_t × List cvms5_event))
    (m : cvms5_state) (xp yp : ℚ) :
    cvms5_query_loop gtl m xp yp [] = some { code := SUCCESS, data := [], trace := [] } := by
  simp [cvms5_query_loop]

theorem loop_cons_none
    (gtl : cvms5_point_t → cvms5_properties_t →
      Option (Int × cvms5_properties_t × List cvms5_event))
    (m : cvms5_state) (xp yp : ℚ) (pt : cvms5_point_t) (rest : List cvms5_point_t)
    (h : cvms5_query_body gtl m xp yp pt = none) :
    cvms5_query_loop gtl m xp yp (pt :: rest) = none := by
  simp [cvms5_query_loop, h]

theorem loop_cons_ret
    (gtl : cvms5_point_t → cvms5_properties_t →
      Option (Int × cvms5_properties_t × List cvms5_event))
    (m : cvms5_state) (xp yp : ℚ) (pt : cvms5_point_t) (rest : List cvms5_point_t)
    (s : cvms5_step) (code : Int)
    (h : cvms5_query_body gtl m xp yp pt = some s) (hr : s.ret = some code) :
    cvms5_query_loop gtl m xp yp (pt :: rest) =
      some { code := code, data := [s.data], trace := s.trace } := by
  simp [cvms5_query_loop, h, hr]

theorem loop_cons_next
    (gtl : cvms5_point_t → cvms5_properties_t →
      Option (Int × cvms5_properties_t × List cvms5_event))
    (m : cvms5_state) (xp yp : ℚ) (pt : cvms5_point_t) (rest : List cvms5_point_t)
    (s : cvms5_step)
    (h : cvms5_query_body gtl m xp yp pt = some s) (hr : s.ret = none) :
    cvms5_query_loop gtl m xp yp (pt :: rest) =
      (cvms5_query_loop gtl m s.x_percent s.y_percent rest).map (fun r =>
        { code := r.code, data := s.data :: r.data, trace := s.trace ++ r.trace }) := by
  simp only [cvms5_query_loop, h, hr]
  cases cvms5_query_loop gtl m s.x_percent s.y_percent rest <;> rfl

theorem loop_congr_gtl
    (gtl gtl2 : cvms5_point_t → cvms5_properties_t →
      Option (Int × cvms5_properties_t × List cvms5_event))
    (m : cvms5_state) (pts : List cvms5_point_t)
    (h : ∀ pt ∈ pts,
      pt.depth < m.cvms5_configuration.depth_interval ∧ m.cvms5_configuration.gtl = 1 →
      gtl pt cvms5_not_found = gtl2 pt cvms5_not_found) (xp yp : ℚ) :
    cvms5_query_loop gtl m xp yp pts = cvms5_query_loop gtl2 m xp yp pts := by
  induction pts generalizing xp yp with
  | nil => rw [loop_nil, loop_nil]
  | cons pt rest ih =>
    have hb := body_congr_gtl gtl gtl2 m xp yp pt (h pt (List.mem_cons_self _ _))
    have ih2 := fun xp yp => ih (fun q hq => h q (List.mem_cons_of_mem _ hq)) xp yp
    simp only [cvms5_query_loop, hb, ih2]

theorem loop_isSome
    (gtl : cvms5_point_t → cvms5_properties_t →
      Option (Int × cvms5_properties_t × List cvms5_event))
    (m : cvms5_state) (pts : List cvms5_point_t)
    (h : ∀ pt ∈ pts,
      pt.depth < m.cvms5_configuration.depth_interval ∧ m.cvms5_configuration.gtl = 1 →
      (gtl pt cvms5_not_found).isSome = true) (xp yp : ℚ) :
    (cvms5_query_loop gtl m xp yp pts).isSome = true := by
  induction pts generalizing xp yp with
  | nil => rw [loop_nil]; rfl
  | cons pt rest ih =>
    have hb := body_isSome gtl m xp yp pt (h pt (List.mem_cons_self _ _))
    obtain ⟨s, hs⟩ := Option.isSome_iff_exists.mp hb
    cases hr : s.ret with
    | some code => rw [loop_cons_ret _ _ _ _ _ _ s code hs hr]; rfl
    | none =>
      rw [loop_cons_next _ _ _ _ _ _ s hs hr]
      have := ih (fun q hq => h q (List.mem_cons_of_mem _ hq)) s.x_percent s.y_percent
      obtain ⟨r, hr2⟩ := Option.isSome_iff_exists.mp this
      rw [hr2]; rfl

theorem query_succ (fuel : Nat) (m : cvms5_state) (pts : List cvms5_point_t) :
    cvms5_query (fuel + 1) m pts =
      cvms5_query_loop (cvms5_get_vs30_based_gtl (fun q => cvms5_query fuel m q) m) m 0 0 pts := by
  rfl

theorem deep_query_fuel (fuel : Nat) (m : cvms5_state) (point : cvms5_point_t) :
    cvms5_query (fuel + 1) m [cvms5_deep_point m point] =
      cvms5_query 1 m [cvms5_deep_point m point] := by
  rw [query_succ, query_succ]
  apply loop_congr_gtl
  intro pt hpt hg
  simp only [List.mem_singleton] at hpt
  subst hpt
  exact absurd hg.1 (lt_irrefl _)

theorem deep_query_isSome (fuel : Nat) (m : cvms5_state) (point : cvms5_point_t) :
    (cvms5_query (fuel + 1) m [cvms5_deep_point m point]).isSome = true := by
  rw [query_succ]
  apply loop_isSome
  intro pt hpt hg
  simp only [List.mem_singleton] at hpt
  subst hpt
  exact absurd hg.1 (lt_irrefl _)

theorem gtl_unfold (query : List cvms5_point_t → Option cvms5_result)
    (m : cvms5_state) (point : cvms5_point_t) (data : cvms5_properties_t)
    (h : ¬ point.depth / m.cvms5_configuration.depth_interval > 1) :
    cvms5_get_vs30_based_gtl query m point data =
      match query [cvms5_deep_point m point] with
      | none => none
      | some r =>
        if r.code ≠ SUCCESS then
          some (FAIL, data, [cvms5_event.get_vs30_based_gtl point] ++ r.trace)
        else
          if (cvms5_get_vs30_value m point.longitude point.latitude).1 = -1 then
            some (SUCCESS, { data with vp := -1, vs := -1 },
              [cvms5_event.get_vs30_based_gtl point] ++ r.trace
                ++ (cvms5_get_vs30_value m point.longitude point.latitude).2)
          else
            some (SUCCESS,
              { data with
                vs := (point.depth / m.cvms5_configuration.depth_interval
                    + 0.6 * (point.depth / m.cvms5_configuration.depth_interval
                      - (point.depth / m.cvms5_configuration.depth_interval) ^ 2))
                    * (r.data.headD { vp := 0, vs := 0, rho := 0, qp := 0, qs := 0 }).vs
                  + (0.5 - 0.5 * (point.depth / m.cvms5_configuration.depth_interval)
                    + 0.5 * ((point.depth / m.cvms5_configuration.depth_interval) ^ 2
                      + 2.0 * m.sqrt (point.depth / m.cvms5_configuration.depth_interval)
                      - 3.0 * (point.depth / m.cvms5_configuration.depth_interval)))
                    * (cvms5_get_vs30_value m point.longitude point.latitude).1
                vp := (point.depth / m.cvms5_configuration.depth_interval
                    + 0.6 * (point.depth / m.cvms5_configuration.depth_interval
                      - (point.depth / m.cvms5_configuration.depth_interval) ^ 2))
                    * (r.data.headD { vp := 0, vs := 0, rho := 0, qp := 0, qs := 0 }).vp
                  + (0.5 - 0.5 * (point.depth / m.cvms5_configuration.depth_interval)
                    + 0.5 * ((point.depth / m.cvms5_configuration.depth_interval) ^ 2
                      + 2.0 * m.sqrt (point.depth / m.cvms5_configuration.depth_interval)
                      - 3.0 * (point.depth / m.cvms5_configuration.depth_interval)))
                    * ((0.9409
                      + 2.0947 * ((cvms5_get_vs30_value m point.longitude point.latitude).1 / 1000)
                      - 0.8206 * ((cvms5_get_vs30_value m point.longitude point.latitude).1 / 1000) ^ 2
                      + 0.2683 * ((cvms5_get_vs30_value m point.longitude point.latitude).1 / 1000) ^ 3
                      - 0.0251 * ((cvms5_get_vs30_value m point.longitude point.latitude).1 / 1000) ^ 4)
                      * 1000) },
              [cvms5_event.get_vs30_based_gtl point] ++ r.trace
                ++ (cvms5_get_vs30_value m point.longitude point.latitude).2) := by
  unfold cvms5_get_vs30_based_gtl cvms5_deep_point
  simp only [h, if_false]

theorem gtl_fuel (fuel : Nat) (m : cvms5_state) (point : cvms5_point_t)
    (data : cvms5_properties_t) :
    cvms5_get_vs30_based_gtl (fun q => cvms5_query (fuel + 1) m q) m point data =
      cvms5_get_vs30_based_gtl (fun q => cvms5_query 1 m q) m point data := by
  by_cases h : point.depth / m.cvms5_configuration.depth_interval > 1
  · simp [cvms5_get_vs30_based_gtl, h]
  · rw [gtl_unfold _ _ _ _ h, gtl_unfold _ _ _ _ h]
    simp only [deep_query_fuel fuel m point]

theorem gtl_isSome (fuel : Nat) (m : cvms5_state) (point : cvms5_point_t)
    (data : cvms5_properties_t) :
    (cvms5_get_vs30_based_gtl (fun q => cvms5_query (fuel + 1) m q) m point data).isSome
      = true := by
  by_cases h : point.depth / m.cvms5_configuration.depth_interval > 1
  · simp [cvms5_get_vs30_based_gtl, h]
  · rw [gtl_unfold _ _ _ _ h]
    obtain ⟨r, hr⟩ := Option.isSome_iff_exists.mp (deep_query_isSome fuel m point)
    simp only [hr]
    split_ifs <;> rfl

theorem query_fuel (fuel : Nat) (m : cvms5_state) (pts : List cvms5_point_t) :
    cvms5_query (fuel + 2) m pts = cvms5_query 2 m pts := by
  rw [query_succ, query_succ]
  apply loop_congr_gtl
  intro pt _ _
  exact gtl_fuel fuel m pt cvms5_not_found

theorem query_isSome (fuel : Nat) (m : cvms5_state) (pts : List cvms5_point_t) :
    (cvms5_query (fuel + 2) m pts).isSome = true := by
  rw [query_succ]
  apply loop_isSome
  intro pt _ _
  exact gtl_isSome fuel m pt cvms5_not_found

theorem loop_get
    (gtl : cvms5_point_t → cvms5_properties_t →
      Option (Int × cvms5_properties_t × List cvms5_event))
    (m : cvms5_state) (pts : List cvms5_point_t) (xp yp : ℚ) (r : cvms5_result)
    (h : cvms5_query_loop gtl m xp yp pts = some r) (i : Nat) (pt : cvms5_point_t)
    (d : cvms5_properties_t) (hp : pts[i]? = some pt) (hd : r.data[i]? = some d) :
    ∃ xq yq s, cvms5_query_body gtl m xq yq pt = some s ∧ s.data = d := by
  induction pts generalizing xp yp r i with
  | nil => simp at hp
  | cons p rest ih =>
    cases hb : cvms5_query_body gtl m xp yp p with
    | none => rw [loop_cons_none _ _ _ _ _ _ hb] at h; cases h
    | some s =>
      cases hr : s.ret with
      | some code =>
        rw [loop_cons_ret _ _ _ _ _ _ s code hb hr] at h
        cases h
        cases i with
        | zero =>
          simp only [List.getElem?_cons_zero, Option.some.injEq] at hp hd
          subst hp
          exact ⟨xp, yp, s, hb, hd⟩
        | succ j => simp at hd
      | none =>
        rw [loop_cons_next _ _ _ _ _ _ s hb hr] at h
        cases hl : cvms5_query_loop gtl m s.x_percent s.y_percent rest with
        | none => rw [hl] at h; cases h
        | some r2 =>
          rw [hl] at h
          simp only [Option.map_some', Option.some.injEq] at h
          subst h
          cases i with
          | zero =>
            simp only [List.getElem?_cons_zero, Option.some.injEq] at hp hd
            subst hp
            exact ⟨xp, yp, s, hb, hd⟩
          | succ j =>
            simp only [List.getElem?_cons_succ] at hp hd
            exact ih _ _ r2 hl j hp hd

theorem query_get (fuel : Nat) (m : cvms5_state) (pts : List cvms5_point_t)
    (r : cvms5_result) (h : cvms5_query fuel m pts = some r) (i : Nat) (pt : cvms5_point_t)
    (d : cvms5_properties_t) (hp : pts[i]? = some pt) (hd : r.data[i]? = some d) :
    ∃ n xq yq s, fuel = n + 1 ∧
      cvms5_query_body (cvms5_get_vs30_based_gtl (fun q => cvms5_query n m q) m) m xq yq pt
        = some s ∧ s.data = d := by
  cases fuel with
  | zero => simp [cvms5_query] at h
  | succ n =>
    rw [query_succ] at h
    obtain ⟨xq, yq, s, hs, hsd⟩ := loop_get _ m pts 0 0 r h i pt d hp hd
    exact ⟨n, xq, yq, s, rfl, hs, hsd⟩


/-! ## Evaluation helpers -/

theorem floor_eq_of {q : ℚ} {k : ℤ} (h1 : (k : ℚ) ≤ q) (h2 : q < (k : ℚ) + 1) : ⌊q⌋ = k :=
  Int.floor_eq_iff.mpr ⟨h1, h2⟩

theorem c_trunc_of_nonneg {q : ℚ} {k : ℤ} (h0 : 0 ≤ q) (h1 : (k : ℚ) ≤ q)
    (h2 : q < (k : ℚ) + 1) : c_trunc q = k := by
  unfold c_trunc
  rw [if_pos h0]
  exact floor_eq_of h1 h2

theorem fmod_of_nonneg {x y : ℚ} {k : ℤ} (h0 : 0 ≤ x / y) (h1 : (k : ℚ) ≤ x / y)
    (h2 : x / y < (k : ℚ) + 1) : fmod x y = x - (k : ℚ) * y := by
  unfold fmod
  rw [c_trunc_of_nonneg h0 h1 h2]

theorem derived_vs (m : cvms5_state) (d : cvms5_properties_t) :
    (cvms5_query_derived m d).vs = d.vs := by
  unfold cvms5_query_derived
  dsimp only
  split_ifs <;> simp [*]

theorem derived_vp (m : cvms5_state) (d : cvms5_properties_t) :
    (cvms5_query_derived m d).vp = d.vp := by
  unfold cvms5_query_derived
  dsimp only
  split_ifs <;> simp [*]

theorem derived_rho (m : cvms5_state) (d : cvms5_properties_t) :
    (cvms5_query_derived m d).rho = cvms5_calculate_density m d.vs := by
  unfold cvms5_query_derived
  dsimp only
  split_ifs <;> simp [*]

theorem derived_qs (m : cvms5_state) (d : cvms5_properties_t) :
    (cvms5_query_derived m d).qs = if d.vs < 1500 then d.vs * 0.02 else d.vs * 0.10 := by
  unfold cvms5_query_derived
  dsimp only
  split_ifs <;> simp [*]

theorem derived_qp (m : cvms5_state) (d : cvms5_properties_t) :
    (cvms5_query_derived m d).qp = (cvms5_query_derived m d).qs * 1.5 := by
  rfl

theorem demo_load_x (pt : cvms5_point_t) :
    load_x_coord demo_state pt = ⌊(pt.longitude - 1000) / 1000⌋ := by
  unfold load_x_coord point_x
  congr 1
  simp only [demo_state, demo_configuration]
  push_cast
  ring

theorem demo_load_y (pt : cvms5_point_t) :
    load_y_coord demo_state pt = ⌊(pt.latitude - 1000) / 1000⌋ := by
  unfold load_y_coord point_y
  congr 1
  simp only [demo_state, demo_configuration]
  push_cast
  ring

theorem demo_load_z (pt : cvms5_point_t) :
    load_z_coord demo_state pt = c_trunc (2 - ((⌊pt.depth / 1000⌋ : Int) : ℚ)) := by
  unfold load_z_coord
  congr 1
  simp only [demo_state, demo_configuration]
  norm_num

theorem demo_z_percent (pt : cvms5_point_t) :
    z_percent demo_state pt = fmod pt.depth 1000 / 1000 := by
  unfold z_percent
  simp only [demo_state, demo_configuration]

theorem demo_x_percent (pt : cvms5_point_t) :
    x_percent demo_state pt = fmod (pt.longitude - 1000) 1000 / 1000 := by
  unfold x_percent point_x
  simp only [demo_state, demo_configuration]
  norm_num

theorem demo_y_percent (pt : cvms5_point_t) :
    y_percent demo_state pt = fmod (pt.latitude - 1000) 1000 / 1000 := by
  unfold y_percent point_y
  simp only [demo_state, demo_configuration]
  norm_num

theorem demo_read (x y z : Int) :
    cvms5_read_properties demo_state x y z =
      ({ vp := 2440 + 10 * ((z * 9 + (2 - x) * 3 + y : Int) : ℚ),
         vs := 1440 + 10 * ((z * 9 + (2 - x) * 3 + y : Int) : ℚ),
         rho := -1, qp := -1, qs := -1 },
       [cvms5_event.read_properties x y z]) := by
  have e : z * 3 * 3 + (3 - x - 1) * 3 + y = z * 9 + (2 - x) * 3 + y := by ring
  simp [cvms5_read_properties, demo_state, demo_model, demo_configuration, cvms5_not_found, e]


theorem demo_errno (pt : cvms5_point_t) (h : pt.latitude ≤ 5000) :
    demo_state.cvms5_geo2utm_errno pt.latitude pt.longitude = 0 := by
  simp only [demo_state]
  rw [if_neg (not_lt.mpr h)]

theorem demo_tri_body
    (gtl : cvms5_point_t → cvms5_properties_t →
      Option (Int × cvms5_properties_t × List cvms5_event)) (xp yp : ℚ) :
    ∃ s, cvms5_query_body gtl demo_state xp yp demo_point_tri = some s ∧ s.ret = none ∧
      s.x_percent = 1 / 2 ∧ s.y_percent = 1 / 4 ∧ s.data.vp = 5065 / 2 ∧ s.data.vs = 3065 / 2 := by
  have hx : load_x_coord demo_state demo_point_tri = 0 := by
    rw [demo_load_x]
    exact floor_eq_of (by norm_num [demo_point_tri]) (by norm_num [demo_point_tri])
  have hy : load_y_coord demo_state demo_point_tri = 0 := by
    rw [demo_load_y]
    exact floor_eq_of (by norm_num [demo_point_tri]) (by norm_num [demo_point_tri])
  have hz : load_z_coord demo_state demo_point_tri = 1 := by
    rw [demo_load_z]
    have : ⌊demo_point_tri.depth / 1000⌋ = 1 :=
      floor_eq_of (by norm_num [demo_point_tri]) (by norm_num [demo_point_tri])
    rw [this]
    exact c_trunc_of_nonneg (by norm_num) (by norm_num) (by norm_num)
  have hzp : z_percent demo_state demo_point_tri = 1 / 2 := by
    rw [demo_z_percent, fmod_of_nonneg (k := 1) (by norm_num [demo_point_tri])
      (by norm_num [demo_point_tri]) (by norm_num [demo_point_tri])]
    norm_num [demo_point_tri]
  have hxp : x_percent demo_state demo_point_tri = 1 / 2 := by
    rw [demo_x_percent, fmod_of_nonneg (k := 0) (by norm_num [demo_point_tri])
      (by norm_num [demo_point_tri]) (by norm_num [demo_point_tri])]
    norm_num [demo_point_tri]
  have hyp : y_percent demo_state demo_point_tri = 1 / 4 := by
    rw [demo_y_percent, fmod_of_nonneg (k := 0) (by norm_num [demo_point_tri])
      (by norm_num [demo_point_tri]) (by norm_num [demo_point_tri])]
    norm_num [demo_point_tri]
  have hd : ¬ demo_point_tri.depth < 0 := by norm_num [demo_point_tri]
  have he := demo_errno demo_point_tri (by norm_num [demo_point_tri])
  have hs : ¬ (load_z_coord demo_state demo_point_tri = 0 ∧
      z_percent demo_state demo_point_tri = 0) := by
    rw [hz]; norm_num
  have ho : ¬ cvms5_outside demo_state demo_point_tri := by
    unfold cvms5_outside
    rw [hx, hy, hz]
    norm_num [demo_state, demo_configuration]
  have hg : ¬ (demo_point_tri.depth < demo_state.cvms5_configuration.depth_interval ∧
      demo_state.cvms5_configuration.gtl = 1) := by
    norm_num [demo_state, demo_configuration, demo_point_tri]
  have hb := body_trilinear gtl demo_state xp yp demo_point_tri hd he hs ho hg
  rw [hx, hy, hz, hzp, hxp, hyp] at hb
  simp only [demo_read] at hb
  refine ⟨_, hb, rfl, rfl, rfl, ?_, ?_⟩
  · rw [derived_vp]
    norm_num [cvms5_trilinear_interpolation, cvms5_bilinear_interpolation,
      cvms5_linear_interpolation]
  · rw [derived_vs]
    norm_num [cvms5_trilinear_interpolation, cvms5_bilinear_interpolation,
      cvms5_linear_interpolation]

theorem demo_shortcut_facts (pt : cvms5_point_t) (hd : pt.depth = 2000) :
    load_z_coord demo_state pt = 0 ∧ z_percent demo_state pt = 0 := by
  constructor
  · rw [demo_load_z]
    have : ⌊pt.depth / 1000⌋ = 2 := floor_eq_of (by norm_num [hd]) (by norm_num [hd])
    rw [this]
    exact c_trunc_of_nonneg (by norm_num) (by norm_num) (by norm_num)
  · rw [demo_z_percent, fmod_of_nonneg (k := 2) (by norm_num [hd]) (by norm_num [hd])
      (by norm_num [hd])]
    norm_num [hd]

theorem demo_shortcut_body
    (gtl : cvms5_point_t → cvms5_properties_t →
      Option (Int × cvms5_properties_t × List cvms5_event)) (xp yp : ℚ)
    (pt : cvms5_point_t) (hd : pt.depth = 2000) (hlat : pt.latitude ≤ 5000)
    (hx : load_x_coord demo_state pt = 0) (hy : load_y_coord demo_state pt = 0) :
    ∃ s, cvms5_query_body gtl demo_state xp yp pt = some s ∧ s.ret = none ∧
      s.data.vp = 2500 - 30 * xp + 10 * yp ∧ s.data.vs = 1500 - 30 * xp + 10 * yp ∧
      s.data.qs = (if s.data.vs < 1500 then s.data.vs * 0.02 else s.data.vs * 0.10) ∧
      s.data.qp = s.data.qs * 1.5 := by
  have hd0 : ¬ pt.depth < 0 := by norm_num [hd]
  have he := demo_errno pt hlat
  have hb := body_shortcut gtl demo_state xp yp pt hd0 he (demo_shortcut_facts pt hd)
  rw [hx, hy] at hb
  simp only [demo_read] at hb
  refine ⟨_, hb, rfl, ?_, ?_, ?_, ?_⟩
  · rw [derived_vp]
    norm_num [cvms5_bilinear_interpolation, cvms5_linear_interpolation]
    ring
  · rw [derived_vs]
    norm_num [cvms5_bilinear_interpolation, cvms5_linear_interpolation]
    ring
  · rw [derived_qs, derived_vs]
  · rw [derived_qp]

theorem demo_node_body
    (gtl : cvms5_point_t → cvms5_properties_t →
      Option (Int × cvms5_properties_t × List cvms5_event)) (xp yp : ℚ) :
    ∃ s, cvms5_query_body gtl demo_state xp yp demo_point_node = some s ∧ s.ret = none ∧
      s.data.vp = 2500 - 30 * xp + 10 * yp ∧ s.data.vs = 1500 - 30 * xp + 10 * yp := by
  have hx : load_x_coord demo_state demo_point_node = 0 := by
    rw [demo_load_x]
    exact floor_eq_of (by norm_num [demo_point_node]) (by norm_num [demo_point_node])
  have hy : load_y_coord demo_state demo_point_node = 0 := by
    rw [demo_load_y]
    exact floor_eq_of (by norm_num [demo_point_node]) (by norm_num [demo_point_node])
  obtain ⟨s, hs, hr, hvp, hvs, _⟩ := demo_shortcut_body gtl xp yp demo_point_node rfl
    (by norm_num [demo_point_node]) hx hy
  exact ⟨s, hs, hr, hvp, hvs⟩

theorem demo_top_load :
    load_x_coord demo_state demo_point_top = 0 ∧ load_y_coord demo_state demo_point_top = 0 := by
  constructor
  · rw [demo_load_x]
    exact floor_eq_of (by norm_num [demo_point_top]) (by norm_num [demo_point_top])
  · rw [demo_load_y]
    exact floor_eq_of (by norm_num [demo_point_top]) (by norm_num [demo_point_top])

theorem demo_top_percent :
    x_percent demo_state demo_point_top = 1 / 2 ∧
    y_percent demo_state demo_point_top = 1 / 4 := by
  constructor
  · rw [demo_x_percent, fmod_of_nonneg (k := 0) (by norm_num [demo_point_top])
      (by norm_num [demo_point_top]) (by norm_num [demo_point_top])]
    norm_num [demo_point_top]
  · rw [demo_y_percent, fmod_of_nonneg (k := 0) (by norm_num [demo_point_top])
      (by norm_num [demo_point_top]) (by norm_num [demo_point_top])]
    norm_num [demo_point_top]


theorem body_ret
    (gtl : cvms5_point_t → cvms5_properties_t →
      Option (Int × cvms5_properties_t × List cvms5_event))
    (m : cvms5_state) (xp yp : ℚ) (pt : cvms5_point_t) (s : cvms5_step)
    (h : cvms5_query_body gtl m xp yp pt = some s) :
    (s.ret = none ∧ (0 ≤ pt.depth → m.cvms5_geo2utm_errno pt.latitude pt.longitude = 0)) ∨
    (s.ret = some m.UCVM_CODE_ERROR ∧ 0 ≤ pt.depth ∧
      m.cvms5_geo2utm_errno pt.latitude pt.longitude ≠ 0 ∧ s.data = cvms5_not_found ∧
      s.trace = [cvms5_event.proj_trans_utm pt.latitude pt.longitude]) := by
  by_cases h0 : pt.depth < 0
  · rw [body_datagap _ _ _ _ _ h0] at h
    cases h
    exact Or.inl ⟨rfl, fun h1 => absurd h0 (not_lt.mpr h1)⟩
  by_cases he : m.cvms5_geo2utm_errno pt.latitude pt.longitude = 0
  swap
  · rw [body_proj_error _ _ _ _ _ h0 he] at h
    cases h
    exact Or.inr ⟨rfl, not_lt.mp h0, he, rfl, rfl⟩
  left
  refine ⟨?_, fun _ => he⟩
  by_cases hz : load_z_coord m pt = 0 ∧ z_percent m pt = 0
  · rw [body_shortcut _ _ _ _ _ h0 he hz] at h
    cases h; rfl
  by_cases ho : cvms5_outside m pt
  · rw [body_outside _ _ _ _ _ h0 he hz ho] at h
    cases h; rfl
  by_cases hg : pt.depth < m.cvms5_configuration.depth_interval ∧ m.cvms5_configuration.gtl = 1
  · rw [body_gtl _ _ _ _ _ h0 he hz ho hg] at h
    cases hgv : gtl pt cvms5_not_found with
    | none => rw [hgv] at h; cases h
    | some g => rw [hgv] at h; cases h; rfl
  · rw [body_trilinear _ _ _ _ _ h0 he hz ho hg] at h
    cases h; rfl

theorem loop_code
    (gtl : cvms5_point_t → cvms5_properties_t →
      Option (Int × cvms5_properties_t × List cvms5_event))
    (m : cvms5_state) (hcode : m.UCVM_CODE_ERROR ≠ SUCCESS) (pts : List cvms5_point_t)
    (hg : ∀ pt ∈ pts,
      pt.depth < m.cvms5_configuration.depth_interval ∧ m.cvms5_configuration.gtl = 1 →
      (gtl pt cvms5_not_found).isSome = true) (xp yp : ℚ) :
    ∃ r, cvms5_query_loop gtl m xp yp pts = some r ∧
      (r.code = SUCCESS ↔
        ∀ pt ∈ pts, 0 ≤ pt.depth → m.cvms5_geo2utm_errno pt.latitude pt.longitude = 0) ∧
      (r.code = SUCCESS → r.data.length = pts.length) ∧
      (∀ (pre : List cvms5_point_t) (pt : cvms5_point_t) (post : List cvms5_point_t),
        pts = pre ++ pt :: post →
        (∀ q ∈ pre, 0 ≤ q.depth → m.cvms5_geo2utm_errno q.latitude q.longitude = 0) →
        0 ≤ pt.depth → m.cvms5_geo2utm_errno pt.latitude pt.longitude ≠ 0 →
        r.code = m.UCVM_CODE_ERROR ∧ r.data.length = pre.length + 1 ∧
        r.data[pre.length]? = some cvms5_not_found ∧
        ∃ t, r.trace = t ++ [cvms5_event.proj_trans_utm pt.latitude pt.longitude]) := by
  induction pts generalizing xp yp with
  | nil =>
    refine ⟨_, loop_nil gtl m xp yp, ?_, ?_, ?_⟩
    · simp
    · intro _; rfl
    · intro pre pt post h
      simp at h
  | cons p rest ih =>
    obtain ⟨s, hs⟩ := Option.isSome_iff_exists.mp
      (body_isSome gtl m xp yp p (hg p (List.mem_cons_self _ _)))
    rcases body_ret gtl m xp yp p s hs with ⟨hr, hok⟩ | ⟨hr, hd, he, hdat, htr⟩
    · obtain ⟨r2, hr2, hiff, hlen, hfirst⟩ :=
        ih (fun q hq => hg q (List.mem_cons_of_mem _ hq)) s.x_percent s.y_percent
      refine ⟨{ code := r2.code, data := s.data :: r2.data, trace := s.trace ++ r2.trace },
        ?_, ?_, ?_, ?_⟩
      · rw [loop_cons_next _ _ _ _ _ _ s hs hr, hr2]; rfl
      · simp only [List.mem_cons, forall_eq_or_imp]
        rw [hiff]
        exact ⟨fun h => ⟨hok, h⟩, fun h => h.2⟩
      · intro h
        simp only [List.length_cons, hlen h]
      · intro pre pt post hsplit hpre hd he
        cases pre with
        | nil =>
          simp only [List.nil_append, List.cons.injEq] at hsplit
          rw [← hsplit.1] at hd he
          exact absurd (hok hd) he
        | cons q pre2 =>
          simp only [List.cons_append, List.cons.injEq] at hsplit
          obtain ⟨hc, hl, hget, t, ht⟩ := hfirst pre2 pt post hsplit.2
            (fun q hq => hpre q (List.mem_cons_of_mem _ hq)) hd he
          refine ⟨hc, by simp [hl], by simpa using hget, s.trace ++ t, ?_⟩
          simp only [ht, List.append_assoc]
    · refine ⟨{ code := m.UCVM_CODE_ERROR, data := [s.data], trace := s.trace },
        loop_cons_ret _ _ _ _ _ _ s _ hs hr, ?_, ?_, ?_⟩
      · constructor
        · intro h; exact absurd h hcode
        · intro h
          exact absurd (h p (List.mem_cons_self _ _) hd) he
      · intro h; exact absurd h hcode
      · intro pre pt post hsplit hpre hd2 he2
        cases pre with
        | nil =>
          simp only [List.nil_append, List.cons.injEq] at hsplit
          rw [← hsplit.1]
          exact ⟨rfl, rfl, by simp [hdat], [], by simp [htr]⟩
        | cons q pre2 =>
          simp only [List.cons_append, List.cons.injEq] at hsplit
          rw [← hsplit.1] at hpre
          exact absurd (hpre p (List.mem_cons_self _ _) hd) he

theorem body_derived
    (gtl : cvms5_point_t → cvms5_properties_t →
      Option (Int × cvms5_properties_t × List cvms5_event))
    (m : cvms5_state) (xp yp : ℚ) (pt : cvms5_point_t) (s : cvms5_step)
    (h : cvms5_query_body gtl m xp yp pt = some s) (hdepth : 0 ≤ pt.depth)
    (herr : m.cvms5_geo2utm_errno pt.latitude pt.longitude = 0)
    (hsent : (load_z_coord m pt = 0 ∧ z_percent m pt = 0) ∨ ¬ cvms5_outside m pt) :
    ∃ raw, s.data = cvms5_query_derived m raw := by
  have h0 : ¬ pt.depth < 0 := not_lt.mpr hdepth
  by_cases hz : load_z_coord m pt = 0 ∧ z_percent m pt = 0
  · rw [body_shortcut _ _ _ _ _ h0 herr hz] at h
    cases h; exact ⟨_, rfl⟩
  have ho : ¬ cvms5_outside m pt := hsent.resolve_left hz
  by_cases hg : pt.depth < m.cvms5_configuration.depth_interval ∧ m.cvms5_configuration.gtl = 1
  · rw [body_gtl _ _ _ _ _ h0 herr hz ho hg] at h
    cases hgv : gtl pt cvms5_not_found with
    | none => rw [hgv] at h; cases h
    | some g => rw [hgv] at h; cases h; exact ⟨_, rfl⟩
  · rw [body_trilinear _ _ _ _ _ h0 herr hz ho hg] at h
    cases h; exact ⟨_, rfl⟩

theorem derived_rules (m : cvms5_state) (raw : cvms5_properties_t) :
    (cvms5_query_derived m raw).rho = cvms5_calculate_density m (cvms5_query_derived m raw).vs ∧
    (cvms5_query_derived m raw).qs =
      (if (cvms5_query_derived m raw).vs < 1500 then 0.02 * (cvms5_query_derived m raw).vs
        else 0.10 * (cvms5_query_derived m raw).vs) ∧
    (cvms5_query_derived m raw).qp = 1.5 * (cvms5_query_derived m raw).qs := by
  refine ⟨?_, ?_, ?_⟩
  · rw [derived_rho, derived_vs]
  · rw [derived_qs, derived_vs]
    split_ifs <;> ring
  · rw [derived_qp]; ring

theorem read_trace_not_gtl (m : cvms5_state) (x y z : Int) (q : cvms5_point_t) :
    cvms5_event.get_vs30_based_gtl q ∉ (cvms5_read_properties m x y z).2 := by
  unfold cvms5_read_properties
  dsimp only
  split_ifs <;> simp

theorem gtl_trace_head (query : List cvms5_point_t → Option cvms5_result)
    (m : cvms5_state) (point : cvms5_point_t) (data : cvms5_properties_t)
    (g : Int × cvms5_properties_t × List cvms5_event)
    (h : cvms5_get_vs30_based_gtl query m point data = some g) :
    cvms5_event.get_vs30_based_gtl point ∈ g.2.2 := by
  by_cases hp : point.depth / m.cvms5_configuration.depth_interval > 1
  · simp only [cvms5_get_vs30_based_gtl, hp, if_true, Option.some.injEq] at h
    rw [← h]; simp
  · rw [gtl_unfold _ _ _ _ hp] at h
    cases hq : query [cvms5_deep_point m point] with
    | none => rw [hq] at h; cases h
    | some r =>
      rw [hq] at h
      dsimp only at h
      split_ifs at h <;> (cases h; simp)

theorem body_gtl_event
    (gtl : cvms5_point_t → cvms5_properties_t →
      Option (Int × cvms5_properties_t × List cvms5_event))
    (m : cvms5_state) (xp yp : ℚ) (pt : cvms5_point_t) (s : cvms5_step)
    (hgtl : ∀ g, gtl pt cvms5_not_found = some g → cvms5_event.get_vs30_based_gtl pt ∈ g.2.2)
    (h : cvms5_query_body gtl m xp yp pt = some s) :
    ((∃ q, cvms5_event.get_vs30_based_gtl q ∈ s.trace) ↔
      cvms5_passed_boundary_check m pt ∧
        pt.depth < m.cvms5_configuration.depth_interval ∧ m.cvms5_configuration.gtl = 1) ∧
    (cvms5_event.get_vs30_based_gtl pt ∈ s.trace ↔
      cvms5_passed_boundary_check m pt ∧
        pt.depth < m.cvms5_configuration.depth_interval ∧ m.cvms5_configuration.gtl = 1) := by
  unfold cvms5_passed_boundary_check
  by_cases h0 : pt.depth < 0
  · rw [body_datagap _ _ _ _ _ h0] at h
    cases h
    have : ¬ 0 ≤ pt.depth := not_le.mpr h0
    simp [this]
  by_cases he : m.cvms5_geo2utm_errno pt.latitude pt.longitude = 0
  swap
  · rw [body_proj_error _ _ _ _ _ h0 he] at h
    cases h
    simp [he]
  by_cases hz : load_z_coord m pt = 0 ∧ z_percent m pt = 0
  · rw [body_shortcut _ _ _ _ _ h0 he hz] at h
    cases h
    simp [hz, read_trace_not_gtl]
  by_cases ho : cvms5_outside m pt
  · rw [body_outside _ _ _ _ _ h0 he hz ho] at h
    cases h
    simp [ho]
  by_cases hg : pt.depth < m.cvms5_configuration.depth_interval ∧ m.cvms5_configuration.gtl = 1
  · rw [body_gtl _ _ _ _ _ h0 he hz ho hg] at h
    cases hgv : gtl pt cvms5_not_found with
    | none => rw [hgv] at h; cases h
    | some g =>
      rw [hgv] at h
      cases h
      have hmem := hgtl g hgv
      have hr : (∃ q, cvms5_event.get_vs30_based_gtl q ∈
          [cvms5_event.proj_trans_utm pt.latitude pt.longitude] ++ g.2.2) :=
        ⟨pt, List.mem_append_right _ hmem⟩
      have hr2 : cvms5_event.get_vs30_based_gtl pt ∈
          [cvms5_event.proj_trans_utm pt.latitude pt.longitude] ++ g.2.2 :=
        List.mem_append_right _ hmem
      exact ⟨⟨fun _ => ⟨⟨not_lt.mp h0, he, hz, ho⟩, hg⟩, fun _ => hr⟩,
        ⟨fun _ => ⟨⟨not_lt.mp h0, he, hz, ho⟩, hg⟩, fun _ => hr2⟩⟩
  · rw [body_trilinear _ _ _ _ _ h0 he hz ho hg] at h
    cases h
    have hg2 : ¬ (((0 ≤ pt.depth ∧ m.cvms5_geo2utm_errno pt.latitude pt.longitude = 0 ∧
        ¬ (load_z_coord m pt = 0 ∧ z_percent m pt = 0) ∧ ¬ cvms5_outside m pt)) ∧
        pt.depth < m.cvms5_configuration.depth_interval ∧ m.cvms5_configuration.gtl = 1) :=
      fun h => hg h.2
    simp only [hg2, iff_false, not_exists]
    constructor
    · intro q
      simp [read_trace_not_gtl]
    · simp [read_trace_not_gtl]

theorem with_vs30_read (m : cvms5_state) (map : cvms5_vs30_map_config_t)
    (geo2aeqd : ℚ → ℚ → ℚ × ℚ) (cos_vs30 sin_vs30 : ℚ) (x y z : Int) :
    cvms5_read_properties (cvms5_with_vs30_map m map geo2aeqd cos_vs30 sin_vs30) x y z =
      cvms5_read_properties m x y z := rfl

theorem with_vs30_derived (m : cvms5_state) (map : cvms5_vs30_map_config_t)
    (geo2aeqd : ℚ → ℚ → ℚ × ℚ) (cos_vs30 sin_vs30 : ℚ) (d : cvms5_properties_t) :
    cvms5_query_derived (cvms5_with_vs30_map m map geo2aeqd cos_vs30 sin_vs30) d =
      cvms5_query_derived m d := rfl

theorem with_vs30_locals (m : cvms5_state) (map : cvms5_vs30_map_config_t)
    (geo2aeqd : ℚ → ℚ → ℚ × ℚ) (cos_vs30 sin_vs30 : ℚ) (pt : cvms5_point_t) :
    load_x_coord (cvms5_with_vs30_map m map geo2aeqd cos_vs30 sin_vs30) pt = load_x_coord m pt ∧
    load_y_coord (cvms5_with_vs30_map m map geo2aeqd cos_vs30 sin_vs30) pt = load_y_coord m pt ∧
    load_z_coord (cvms5_with_vs30_map m map geo2aeqd cos_vs30 sin_vs30) pt = load_z_coord m pt ∧
    x_percent (cvms5_with_vs30_map m map geo2aeqd cos_vs30 sin_vs30) pt = x_percent m pt ∧
    y_percent (cvms5_with_vs30_map m map geo2aeqd cos_vs30 sin_vs30) pt = y_percent m pt ∧
    z_percent (cvms5_with_vs30_map m map geo2aeqd cos_vs30 sin_vs30) pt = z_percent m pt :=
  ⟨rfl, rfl, rfl, rfl, rfl, rfl⟩

theorem body_vs30_indep
    (gtl gtl2 : cvms5_point_t → cvms5_properties_t →
      Option (Int × cvms5_properties_t × List cvms5_event))
    (m : cvms5_state) (map : cvms5_vs30_map_config_t) (geo2aeqd : ℚ → ℚ → ℚ × ℚ)
    (cos_vs30 sin_vs30 : ℚ) (xp yp : ℚ) (pt : cvms5_point_t)
    (h1 : pt.depth < m.cvms5_configuration.depth_interval ∧ m.cvms5_configuration.gtl = 1 →
      (gtl pt cvms5_not_found).isSome = true)
    (h2 : pt.depth < m.cvms5_configuration.depth_interval ∧ m.cvms5_configuration.gtl = 1 →
      (gtl2 pt cvms5_not_found).isSome = true) :
    ∃ s1 s2, cvms5_query_body gtl m xp yp pt = some s1 ∧
      cvms5_query_body gtl2 (cvms5_with_vs30_map m map geo2aeqd cos_vs30 sin_vs30) xp yp pt
        = some s2 ∧
      s1.ret = s2.ret ∧ s1.x_percent = s2.x_percent ∧ s1.y_percent = s2.y_percent ∧
      (¬ (pt.depth < m.cvms5_configuration.depth_interval ∧ m.cvms5_configuration.gtl = 1) →
        s1.data = s2.data) := by
  by_cases h0 : pt.depth < 0
  · exact ⟨_, _, body_datagap _ _ _ _ _ h0, body_datagap _ _ _ _ _ h0, rfl, rfl, rfl,
      fun _ => rfl⟩
  by_cases he : m.cvms5_geo2utm_errno pt.latitude pt.longitude = 0
  swap
  · exact ⟨_, _, body_proj_error _ _ _ _ _ h0 he,
      body_proj_error gtl2 (cvms5_with_vs30_map m map geo2aeqd cos_vs30 sin_vs30) _ _ _ h0 he,
      rfl, rfl, rfl, fun _ => rfl⟩
  by_cases hz : load_z_coord m pt = 0 ∧ z_percent m pt = 0
  · have e2 := body_shortcut gtl2 (cvms5_with_vs30_map m map geo2aeqd cos_vs30 sin_vs30)
      xp yp pt h0 he hz
    obtain ⟨lx, ly, lz, px, py, pz⟩ := with_vs30_locals m map geo2aeqd cos_vs30 sin_vs30 pt
    simp only [with_vs30_read, with_vs30_derived, lx, ly] at e2
    exact ⟨_, _, body_shortcut _ _ _ _ _ h0 he hz, e2, rfl, rfl, rfl, fun _ => rfl⟩
  by_cases ho : cvms5_outside m pt
  · exact ⟨_, _, body_outside _ _ _ _ _ h0 he hz ho,
      body_outside gtl2 (cvms5_with_vs30_map m map geo2aeqd cos_vs30 sin_vs30) _ _ _ h0 he hz ho,
      rfl, rfl, rfl, fun _ => rfl⟩
  by_cases hg : pt.depth < m.cvms5_configuration.depth_interval ∧ m.cvms5_configuration.gtl = 1
  · obtain ⟨g1, hg1⟩ := Option.isSome_iff_exists.mp (h1 hg)
    obtain ⟨g2, hg2⟩ := Option.isSome_iff_exists.mp (h2 hg)
    have e1 := body_gtl gtl m xp yp pt h0 he hz ho hg
    have e2 := body_gtl gtl2 (cvms5_with_vs30_map m map geo2aeqd cos_vs30 sin_vs30) xp yp pt
      h0 he hz ho hg
    rw [hg1] at e1
    rw [hg2] at e2
    obtain ⟨lx, ly, lz, px, py, pz⟩ := with_vs30_locals m map geo2aeqd cos_vs30 sin_vs30 pt
    simp only [with_vs30_derived, px, py, Option.map_some'] at e1 e2
    exact ⟨_, _, e1, e2, rfl, rfl, rfl, fun h => absurd hg h⟩
  · have e2 := body_trilinear gtl2 (cvms5_with_vs30_map m map geo2aeqd cos_vs30 sin_vs30)
      xp yp pt h0 he hz ho hg
    obtain ⟨lx, ly, lz, px, py, pz⟩ := with_vs30_locals m map geo2aeqd cos_vs30 sin_vs30 pt
    simp only [with_vs30_read, with_vs30_derived, lx, ly, lz, px, py, pz] at e2
    exact ⟨_, _, body_trilinear _ _ _ _ _ h0 he hz ho hg, e2, rfl, rfl, rfl, fun _ => rfl⟩

theorem loop_vs30_indep
    (gtl gtl2 : cvms5_point_t → cvms5_properties_t →
      Option (Int × cvms5_properties_t × List cvms5_event))
    (m : cvms5_state) (map : cvms5_vs30_map_config_t) (geo2aeqd : ℚ → ℚ → ℚ × ℚ)
    (cos_vs30 sin_vs30 : ℚ) (pts : List cvms5_point_t)
    (h1 : ∀ pt ∈ pts,
      pt.depth < m.cvms5_configuration.depth_interval ∧ m.cvms5_configuration.gtl = 1 →
      (gtl pt cvms5_not_found).isSome = true)
    (h2 : ∀ pt ∈ pts,
      pt.depth < m.cvms5_configuration.depth_interval ∧ m.cvms5_configuration.gtl = 1 →
      (gtl2 pt cvms5_not_found).isSome = true) (xp yp : ℚ) :
    ∃ r1 r2, cvms5_query_loop gtl m xp yp pts = some r1 ∧
      cvms5_query_loop gtl2 (cvms5_with_vs30_map m map geo2aeqd cos_vs30 sin_vs30) xp yp pts
        = some r2 ∧
      r1.code = r2.code ∧ r1.data.length = r2.data.length ∧
      ∀ (i : Nat) (pt : cvms5_point_t), pts[i]? = some pt →
        ¬ (pt.depth < m.cvms5_configuration.depth_interval ∧ m.cvms5_configuration.gtl = 1) →
        r1.data[i]? = r2.data[i]? := by
  induction pts generalizing xp yp with
  | nil =>
    exact ⟨_, _, loop_nil _ _ _ _, loop_nil _ _ _ _, rfl, rfl, fun i pt h => by simp at h⟩
  | cons p rest ih =>
    obtain ⟨s1, s2, e1, e2, hret, hx, hy, hdat⟩ := body_vs30_indep gtl gtl2 m map geo2aeqd
      cos_vs30 sin_vs30 xp yp p (h1 p (List.mem_cons_self _ _)) (h2 p (List.mem_cons_self _ _))
    cases hr : s1.ret with
    | some code =>
      have hr2 : s2.ret = some code := by rw [← hret, hr]
      refine ⟨_, _, loop_cons_ret _ _ _ _ _ _ s1 code e1 hr,
        loop_cons_ret _ _ _ _ _ _ s2 code e2 hr2, rfl, rfl, ?_⟩
      intro i pt hp hg
      cases i with
      | zero =>
        simp only [List.getElem?_cons_zero, Option.some.injEq] at hp
        subst hp
        simp [hdat hg]
      | succ j => simp
    | none =>
      have hr2 : s2.ret = none := by rw [← hret, hr]
      obtain ⟨r1, r2, f1, f2, hc, hl, hget⟩ := ih
        (fun q hq => h1 q (List.mem_cons_of_mem _ hq))
        (fun q hq => h2 q (List.mem_cons_of_mem _ hq)) s1.x_percent s1.y_percent
      rw [hx, hy] at f2
      refine ⟨{ code := r1.code, data := s1.data :: r1.data, trace := s1.trace ++ r1.trace },
        { code := r2.code, data := s2.data :: r2.data, trace := s2.trace ++ r2.trace },
        ?_, ?_, hc, by simp [hl], ?_⟩
      · rw [loop_cons_next _ _ _ _ _ _ s1 e1 hr, f1]; rfl
      · rw [loop_cons_next _ _ _ _ _ _ s2 e2 hr2, f2]; rfl
      · intro i pt hp hg
        cases i with
        | zero =>
          simp only [List.getElem?_cons_zero, Option.some.injEq] at hp
          subst hp
          simp [hdat hg]
        | succ j =>
          simp only [List.getElem?_cons_succ] at hp ⊢
          exact hget j pt hp hg

theorem query_single_data (fuel : Nat) (m : cvms5_state) (pt : cvms5_point_t)
    (r : cvms5_result) (h : cvms5_query fuel m [pt] = some r) : ∃ d, r.data = [d] := by
  cases fuel with
  | zero => simp [cvms5_query] at h
  | succ n =>
    rw [query_succ] at h
    cases hb : cvms5_query_body (cvms5_get_vs30_based_gtl (fun q => cvms5_query n m q) m)
        m 0 0 pt with
    | none => rw [loop_cons_none _ _ _ _ _ _ hb] at h; cases h
    | some s =>
      cases hr : s.ret with
      | some code =>
        rw [loop_cons_ret _ _ _ _ _ _ s code hb hr] at h
        cases h
        exact ⟨s.data, rfl⟩
      | none =>
        rw [loop_cons_next _ _ _ _ _ _ s hb hr, loop_nil] at h
        cases h
        exact ⟨s.data, rfl⟩

theorem demo_vs30_value (longitude latitude : ℚ) (h0 : 0 ≤ longitude) (h1 : 0 ≤ latitude)
    (h2 : longitude ≤ 4000) (h3 : latitude ≤ 4000) :
    (cvms5_get_vs30_value demo_state longitude latitude).1 = 500 := by
  unfold cvms5_get_vs30_value
  dsimp only
  rw [if_neg]
  · simp only [demo_state, demo_vs30_map]
    ring
  · simp only [demo_state, demo_vs30_map]
    norm_num
    exact ⟨h0, h1, h2, h3⟩

theorem demo_deep_query :
    ∃ (r : cvms5_result) (d : cvms5_properties_t),
      cvms5_query 1 demo_state [cvms5_deep_point demo_state demo_point_gtl] = some r ∧
      r.code = SUCCESS ∧ r.data = [d] ∧ d.vp = 5155 / 2 ∧ d.vs = 3155 / 2 := by
  have hdepth : (cvms5_deep_point demo_state demo_point_gtl).depth = 1000 := rfl
  have hlon : (cvms5_deep_point demo_state demo_point_gtl).longitude = 1500 := rfl
  have hlat : (cvms5_deep_point demo_state demo_point_gtl).latitude = 1250 := rfl
  have hx : load_x_coord demo_state (cvms5_deep_point demo_state demo_point_gtl) = 0 := by
    rw [demo_load_x, hlon]
    exact floor_eq_of (by norm_num) (by norm_num)
  have hy : load_y_coord demo_state (cvms5_deep_point demo_state demo_point_gtl) = 0 := by
    rw [demo_load_y, hlat]
    exact floor_eq_of (by norm_num) (by norm_num)
  have hz : load_z_coord demo_state (cvms5_deep_point demo_state demo_point_gtl) = 1 := by
    rw [demo_load_z, hdepth]
    have : ⌊(1000 : ℚ) / 1000⌋ = 1 := floor_eq_of (by norm_num) (by norm_num)
    rw [this]
    exact c_trunc_of_nonneg (by norm_num) (by norm_num) (by norm_num)
  have hzp : z_percent demo_state (cvms5_deep_point demo_state demo_point_gtl) = 0 := by
    rw [demo_z_percent, hdepth, fmod_of_nonneg (k := 1) (by norm_num) (by norm_num)
      (by norm_num)]
    norm_num
  have hxp : x_percent demo_state (cvms5_deep_point demo_state demo_point_gtl) = 1 / 2 := by
    rw [demo_x_percent, hlon, fmod_of_nonneg (k := 0) (by norm_num) (by norm_num)
      (by norm_num)]
    norm_num
  have hyp : y_percent demo_state (cvms5_deep_point demo_state demo_point_gtl) = 1 / 4 := by
    rw [demo_y_percent, hlat, fmod_of_nonneg (k := 0) (by norm_num) (by norm_num)
      (by norm_num)]
    norm_num
  have hd : ¬ (cvms5_deep_point demo_state demo_point_gtl).depth < 0 := by
    rw [hdepth]; norm_num
  have he := demo_errno (cvms5_deep_point demo_state demo_point_gtl) (by rw [hlat]; norm_num)
  have hs : ¬ (load_z_coord demo_state (cvms5_deep_point demo_state demo_point_gtl) = 0 ∧
      z_percent demo_state (cvms5_deep_point demo_state demo_point_gtl) = 0) := by
    rw [hz]; norm_num
  have ho : ¬ cvms5_outside demo_state (cvms5_deep_point demo_state demo_point_gtl) := by
    unfold cvms5_outside
    rw [hx, hy, hz]
    norm_num [demo_state, demo_configuration]
  have hg : ¬ ((cvms5_deep_point demo_state demo_point_gtl).depth
        < demo_state.cvms5_configuration.depth_interval ∧
      demo_state.cvms5_configuration.gtl = 1) := by
    rw [hdepth]
    norm_num [demo_state, demo_configuration]
  have hb := body_trilinear
    (cvms5_get_vs30_based_gtl (fun q => cvms5_query 0 demo_state q) demo_state) demo_state 0 0
    (cvms5_deep_point demo_state demo_point_gtl) hd he hs ho hg
  rw [hx, hy, hz, hzp, hxp, hyp] at hb
  simp only [demo_read] at hb
  obtain ⟨s, hs, hsr, hsvp, hsvs⟩ : ∃ s : cvms5_step,
      cvms5_query_body
        (cvms5_get_vs30_based_gtl (fun q => cvms5_query 0 demo_state q) demo_state) demo_state
        0 0 (cvms5_deep_point demo_state demo_point_gtl) = some s ∧ s.ret = none ∧
      s.data.vp = 5155 / 2 ∧ s.data.vs = 3155 / 2 := by
    refine ⟨_, hb, rfl, ?_, ?_⟩
    · rw [derived_vp]
      norm_num [cvms5_trilinear_interpolation, cvms5_bilinear_interpolation,
        cvms5_linear_interpolation]
    · rw [derived_vs]
      norm_num [cvms5_trilinear_interpolation, cvms5_bilinear_interpolation,
        cvms5_linear_interpolation]
  refine ⟨{ code := SUCCESS, data := [s.data], trace := s.trace ++ [] }, s.data, ?_, rfl, rfl,
    hsvp, hsvs⟩
  rw [query_succ, loop_cons_next _ _ _ _ _ _ _ hs hsr, loop_nil]
  rfl


/-! ## Cell reads, blend weights and the Vs30 lookup -/

theorem read_location (m : cvms5_state) (x y z : Int) :
    cvms5_read_properties m x y z =
      (let vm := m.cvms5_velocity_model
       let data := cvms5_not_found
       let fp : Option (Int → ℚ) := none
       let r1 : cvms5_properties_t × Option (Int → ℚ) :=
         if vm.vs_status = 2 then ({ data with vs := vm.vs (cvms5_location m x y z) }, fp)
         else if vm.vs_status = 1 then
           ({ data with vs := m.fread_float data.vs (vm.vs (cvms5_location m x y z)) },
             some vm.vs)
         else (data, fp)
       if vm.vp_status = 2 then
         ({ r1.1 with vp := vm.vp (cvms5_location m x y z) },
           [cvms5_event.read_properties x y z])
       else if vm.vp_status = 1 then
         match r1.2 with
         | some f =>
           ({ r1.1 with vp := m.fread_float r1.1.vp (f (cvms5_location m x y z)) },
             [cvms5_event.read_properties x y z])
         | none =>
           (r1.1, [cvms5_event.read_properties x y z,
             cvms5_event.fread_null (cvms5_location m x y z)])
       else (r1.1, [cvms5_event.read_properties x y z])) := by
  rfl

theorem read_frame (m : cvms5_state) (x y z : Int) :
    (cvms5_read_properties m x y z).1.rho = -1 ∧ (cvms5_read_properties m x y z).1.qp = -1 ∧
    (cvms5_read_properties m x y z).1.qs = -1 := by
  rw [read_location]
  dsimp only
  split_ifs <;> simp [cvms5_not_found]

theorem read_resident (m : cvms5_state) (x y z : Int)
    (hvs : m.cvms5_velocity_model.vs_status = 2) (hvp : m.cvms5_velocity_model.vp_status = 2) :
    cvms5_read_properties m x y z =
      ({ vp := m.cvms5_velocity_model.vp (cvms5_location m x y z),
         vs := m.cvms5_velocity_model.vs (cvms5_location m x y z),
         rho := -1, qp := -1, qs := -1 },
       [cvms5_event.read_properties x y z]) := by
  rw [read_location]
  simp [hvs, hvp, cvms5_not_found]

theorem gtl_blend (query : List cvms5_point_t → Option cvms5_result)
    (m : cvms5_state) (point : cvms5_point_t) (data : cvms5_properties_t) (r : cvms5_result)
    (hp : point.depth / m.cvms5_configuration.depth_interval ≤ 1)
    (hq : query [cvms5_deep_point m point] = some r) (hc : r.code = SUCCESS)
    (hv : (cvms5_get_vs30_value m point.longitude point.latitude).1 ≠ -1) :
    cvms5_get_vs30_based_gtl query m point data =
      some (SUCCESS,
        { data with
          vs := cvms5_gtl_f (point.depth / m.cvms5_configuration.depth_interval)
              * (r.data.headD { vp := 0, vs := 0, rho := 0, qp := 0, qs := 0 }).vs
            + cvms5_gtl_g m.sqrt (point.depth / m.cvms5_configuration.depth_interval)
              * (cvms5_get_vs30_value m point.longitude point.latitude).1
          vp := cvms5_gtl_f (point.depth / m.cvms5_configuration.depth_interval)
              * (r.data.headD { vp := 0, vs := 0, rho := 0, qp := 0, qs := 0 }).vp
            + cvms5_gtl_g m.sqrt (point.depth / m.cvms5_configuration.depth_interval)
              * cvms5_gtl_vp30 (cvms5_get_vs30_value m point.longitude point.latitude).1 },
        [cvms5_event.get_vs30_based_gtl point] ++ r.trace
          ++ (cvms5_get_vs30_value m point.longitude point.latitude).2) := by
  rw [gtl_unfold _ _ _ _ (not_lt.mpr hp)]
  simp only [hq, hc, ne_eq, not_true_eq_false, if_false, hv]
  rfl

theorem gtl_weights_at_endpoints (sqrt : ℚ → ℚ) :
    cvms5_gtl_f 0 = 0 ∧ cvms5_gtl_f 1 = 1 ∧
    (sqrt 0 = 0 → cvms5_gtl_g sqrt 0 = 1 / 2) ∧ (sqrt 1 = 1 → cvms5_gtl_g sqrt 1 = 0) := by
  refine ⟨?_, ?_, ?_, ?_⟩
  · norm_num [cvms5_gtl_f]
  · norm_num [cvms5_gtl_f]
  · intro h
    simp only [cvms5_gtl_g, h]
    norm_num
  · intro h
    simp only [cvms5_gtl_g, h]
    norm_num

theorem get_vs30_value_eq (m : cvms5_state) (longitude latitude : ℚ) :
    cvms5_get_vs30_value m longitude latitude =
      if rotated_point_x m longitude latitude < 0 ∨ rotated_point_y m longitude latitude < 0 ∨
          rotated_point_x m longitude latitude > m.cvms5_vs30_map.x_dimension ∨
          rotated_point_y m longitude latitude > m.cvms5_vs30_map.y_dimension then
        (-1,
          [cvms5_event.get_vs30_value longitude latitude,
           cvms5_event.proj_trans_aeqd latitude longitude,
           cvms5_event.proj_trans_aeqd m.cvms5_vs30_map.origin_point.latitude
             m.cvms5_vs30_map.origin_point.longitude])
      else
        (fmod (rotated_point_x m longitude latitude / m.cvms5_vs30_map.spacing)
              m.cvms5_vs30_map.spacing / m.cvms5_vs30_map.spacing
            * (m.cvms5_vs30_map.vs30_map (addr_x m (loc_x m longitude latitude))
                (addr_y m (loc_y m longitude latitude))).vs30
          + (1 - fmod (rotated_point_x m longitude latitude / m.cvms5_vs30_map.spacing)
              m.cvms5_vs30_map.spacing / m.cvms5_vs30_map.spacing)
            * (m.cvms5_vs30_map.vs30_map (addr_x m (loc_x m longitude latitude + 1))
                (addr_y m (loc_y m longitude latitude))).vs30,
          [cvms5_event.get_vs30_value longitude latitude,
           cvms5_event.proj_trans_aeqd latitude longitude,
           cvms5_event.proj_trans_aeqd m.cvms5_vs30_map.origin_point.latitude
             m.cvms5_vs30_map.origin_point.longitude]
          ++ [cvms5_event.etree_search (addr_x m (loc_x m longitude latitude))
                (addr_y m (loc_y m longitude latitude)),
              cvms5_event.etree_search (addr_x m (loc_x m longitude latitude + 1))
                (addr_y m (loc_y m longitude latitude)),
              cvms5_event.etree_search (addr_x m (loc_x m longitude latitude))
                (addr_y m (loc_y m longitude latitude + 1)),
              cvms5_event.etree_search (addr_x m (loc_x m longitude latitude + 1))
                (addr_y m (loc_y m longitude latitude + 1))]) := by
  rfl

theorem with_etree_locals (m : cvms5_state) (tree : Int → Int → cvms5_vs30_mpayload_t)
    (longitude latitude : ℚ) (loc : Int) :
    rotated_point_x (cvms5_with_etree m tree) longitude latitude
      = rotated_point_x m longitude latitude ∧
    rotated_point_y (cvms5_with_etree m tree) longitude latitude
      = rotated_point_y m longitude latitude ∧
    loc_x (cvms5_with_etree m tree) longitude latitude = loc_x m longitude latitude ∧
    loc_y (cvms5_with_etree m tree) longitude latitude = loc_y m longitude latitude ∧
    addr_x (cvms5_with_etree m tree) loc = addr_x m loc ∧
    addr_y (cvms5_with_etree m tree) loc = addr_y m loc :=
  ⟨rfl, rfl, rfl, rfl, rfl, rfl⟩

theorem demo_ramp_frame (longitude latitude : ℚ) :
    rotated_point_x demo_state_ramp longitude latitude = longitude ∧
    rotated_point_y demo_state_ramp longitude latitude = latitude := by
  constructor
  · simp [rotated_point_x, demo_state_ramp, cvms5_with_vs30_map, demo_vs30_map_ramp,
      demo_vs30_map]
  · simp [rotated_point_y, demo_state_ramp, cvms5_with_vs30_map, demo_vs30_map_ramp,
      demo_vs30_map]

theorem demo_ramp_levels :
    max_level demo_state_ramp = 2 ∧ edgetics demo_state_ramp = 2 ^ 29 ∧
    map_edgesize demo_state_ramp = 1000 := by
  have h : max_level demo_state_ramp = 2 := by
    unfold max_level
    rw [Int.ceil_eq_iff]
    norm_num [demo_state_ramp, cvms5_with_vs30_map, demo_vs30_map_ramp, demo_vs30_map,
      demo_state]
  refine ⟨h, ?_, ?_⟩
  · have t : (29 : Int).toNat = 29 := rfl
    unfold edgetics
    rw [h]
    norm_num [demo_state_ramp, cvms5_with_vs30_map, demo_state, t]
  · have t : (2 : Int).toNat = 2 := rfl
    unfold map_edgesize
    rw [h]
    norm_num [demo_state_ramp, cvms5_with_vs30_map, demo_vs30_map_ramp, demo_vs30_map, t]

theorem demo_ramp_addr :
    loc_x demo_state_ramp 1500 1250 = 1 ∧ loc_y demo_state_ramp 1500 1250 = 1 ∧
    addr_x demo_state_ramp 1 = 2 ^ 29 ∧ addr_x demo_state_ramp (1 + 1) = 2 ^ 30 ∧
    addr_y demo_state_ramp 1 = 2 ^ 29 := by
  obtain ⟨_, he, hs⟩ := demo_ramp_levels
  refine ⟨?_, ?_, ?_, ?_, ?_⟩
  · unfold loc_x
    rw [(demo_ramp_frame 1500 1250).1, hs]
    exact floor_eq_of (by norm_num) (by norm_num)
  · unfold loc_y
    rw [(demo_ramp_frame 1500 1250).2, hs]
    exact floor_eq_of (by norm_num) (by norm_num)
  · unfold addr_x
    rw [he]
    norm_num [demo_state_ramp, cvms5_with_vs30_map, demo_vs30_map_ramp, demo_vs30_map]
  · unfold addr_x
    rw [he]
    norm_num [demo_state_ramp, cvms5_with_vs30_map, demo_vs30_map_ramp, demo_vs30_map]
  · unfold addr_y
    rw [he]
    norm_num [demo_state_ramp, cvms5_with_vs30_map, demo_vs30_map_ramp, demo_vs30_map]

/-! ## Depth index, cell fractions and the initialisation -/

theorem c_trunc_intCast (k : Int) : c_trunc (k : ℚ) = k := by
  unfold c_trunc
  split_ifs
  · exact Int.floor_intCast k
  · exact Int.ceil_intCast k

theorem c_trunc_eq_floor_of_nonneg {q : ℚ} (h : 0 ≤ q) : c_trunc q = ⌊q⌋ := by
  unfold c_trunc
  rw [if_pos h]

theorem fmod_div_eq_fract {x c : ℚ} (hc : 0 < c) (hx : 0 ≤ x / c) :
    fmod x c / c = x / c - ((⌊x / c⌋ : Int) : ℚ) := by
  unfold fmod
  rw [c_trunc_eq_floor_of_nonneg hx]
  have hc0 : c ≠ 0 := ne_of_gt hc
  field_simp
  ring

theorem deep_query_code (fuel : Nat) (m : cvms5_state) (point : cvms5_point_t)
    (he : m.cvms5_geo2utm_errno point.latitude point.longitude = 0) :
    ∃ r : cvms5_result, cvms5_query (fuel + 1) m [cvms5_deep_point m point] = some r ∧
      r.code = SUCCESS ∧ ∀ q, cvms5_event.get_vs30_based_gtl q ∉ r.trace := by
  rw [query_succ]
  have hs := body_isSome (cvms5_get_vs30_based_gtl (fun q => cvms5_query fuel m q) m) m 0 0
    (cvms5_deep_point m point) (fun h => absurd h.1 (lt_irrefl _))
  obtain ⟨s, hs⟩ := Option.isSome_iff_exists.mp hs
  have hr : s.ret = none := by
    rcases body_ret _ m 0 0 _ s hs with h | h
    · exact h.1
    · exact absurd he h.2.2.1
  have hev := (body_gtl_event _ m 0 0 (cvms5_deep_point m point) s
    (fun g hg => gtl_trace_head _ m _ _ g hg) hs).1
  have hno : ∀ q, cvms5_event.get_vs30_based_gtl q ∉ s.trace := by
    intro q hq
    have := hev.mp ⟨q, hq⟩
    exact lt_irrefl _ this.2.1
  rw [loop_cons_next _ m 0 0 _ [] s hs hr, loop_nil]
  refine ⟨{ code := SUCCESS, data := s.data :: [], trace := s.trace ++ [] }, rfl, rfl, ?_⟩
  intro q hq
  simp only [List.append_nil] at hq
  exact hno q hq

theorem demo_cell_passed (pt : cvms5_point_t) (hlon : pt.longitude = 1500)
    (hlat : pt.latitude = 1250) (hd0 : 0 ≤ pt.depth) (hd1 : pt.depth < 2000) :
    cvms5_passed_boundary_check demo_state pt ∧
    load_x_coord demo_state pt = 0 ∧ load_y_coord demo_state pt = 0 ∧
    1 ≤ load_z_coord demo_state pt ∧
    x_percent demo_state pt = 1 / 2 ∧ y_percent demo_state pt = 1 / 4 := by
  have hx : load_x_coord demo_state pt = 0 := by
    rw [demo_load_x, hlon]
    exact floor_eq_of (by norm_num) (by norm_num)
  have hy : load_y_coord demo_state pt = 0 := by
    rw [demo_load_y, hlat]
    exact floor_eq_of (by norm_num) (by norm_num)
  have hf : ⌊pt.depth / 1000⌋ ≤ 1 := by
    have : ⌊pt.depth / 1000⌋ < 2 := by
      rw [Int.floor_lt]
      have : pt.depth / 1000 < 2 := by
        rw [div_lt_iff₀ (by norm_num)]
        linarith
      exact_mod_cast this
    omega
  have hz : 1 ≤ load_z_coord demo_state pt := by
    rw [demo_load_z]
    have e : (2 : ℚ) - ((⌊pt.depth / 1000⌋ : Int) : ℚ) = ((2 - ⌊pt.depth / 1000⌋ : Int) : ℚ) := by
      push_cast
      ring
    rw [e, c_trunc_intCast]
    omega
  have hxp : x_percent demo_state pt = 1 / 2 := by
    rw [demo_x_percent, hlon,
      fmod_of_nonneg (k := 0) (by norm_num) (by norm_num) (by norm_num)]
    norm_num
  have hyp : y_percent demo_state pt = 1 / 4 := by
    rw [demo_y_percent, hlat,
      fmod_of_nonneg (k := 0) (by norm_num) (by norm_num) (by norm_num)]
    norm_num
  refine ⟨⟨hd0, demo_errno pt (by rw [hlat]; norm_num), ?_, ?_⟩, hx, hy, hz, hxp, hyp⟩
  · intro h
    omega
  · unfold cvms5_outside
    rw [hx, hy]
    have : demo_state.cvms5_configuration.nx = 3 := rfl
    have : demo_state.cvms5_configuration.ny = 3 := rfl
    omega

theorem z_percent_eq_fract (m : cvms5_state) (pt : cvms5_point_t) (hd : 0 ≤ pt.depth)
    (hdi : 0 < m.cvms5_configuration.depth_interval) :
    z_percent m pt = pt.depth / m.cvms5_configuration.depth_interval
      - ((⌊pt.depth / m.cvms5_configuration.depth_interval⌋ : Int) : ℚ) := by
  unfold z_percent
  exact fmod_div_eq_fract hdi (div_nonneg hd (le_of_lt hdi))

theorem x_percent_eq_fract (m : cvms5_state) (pt : cvms5_point_t)
    (hnx : 2 ≤ m.cvms5_configuration.nx) (hw : 0 < m.cvms5_total_width_m)
    (hx : 0 ≤ load_x_coord m pt) :
    0 < m.cvms5_total_width_m / ((m.cvms5_configuration.nx - 1 : Int) : ℚ) ∧
    load_x_coord m pt
      = ⌊point_x m pt / (m.cvms5_total_width_m / ((m.cvms5_configuration.nx - 1 : Int) : ℚ))⌋ ∧
    x_percent m pt
      = point_x m pt / (m.cvms5_total_width_m / ((m.cvms5_configuration.nx - 1 : Int) : ℚ))
        - ((load_x_coord m pt : Int) : ℚ) := by
  have hn : (0 : ℚ) < ((m.cvms5_configuration.nx - 1 : Int) : ℚ) := by
    have : (0 : Int) < m.cvms5_configuration.nx - 1 := by omega
    exact_mod_cast this
  have hc : 0 < m.cvms5_total_width_m / ((m.cvms5_configuration.nx - 1 : Int) : ℚ) :=
    div_pos hw hn
  have e : point_x m pt / m.cvms5_total_width_m * ((m.cvms5_configuration.nx - 1 : Int) : ℚ)
      = point_x m pt / (m.cvms5_total_width_m / ((m.cvms5_configuration.nx - 1 : Int) : ℚ)) := by
    rw [div_div_eq_mul_div, div_mul_eq_mul_div]
  have hl : load_x_coord m pt
      = ⌊point_x m pt / (m.cvms5_total_width_m / ((m.cvms5_configuration.nx - 1 : Int) : ℚ))⌋ := by
    unfold load_x_coord
    rw [e]
  have h0 : 0 ≤ point_x m pt
      / (m.cvms5_total_width_m / ((m.cvms5_configuration.nx - 1 : Int) : ℚ)) := by
    rw [hl] at hx
    exact Int.floor_nonneg.mp hx
  refine ⟨hc, hl, ?_⟩
  unfold x_percent
  rw [fmod_div_eq_fract hc h0, ← hl]

theorem y_percent_eq_fract (m : cvms5_state) (pt : cvms5_point_t)
    (hny : 2 ≤ m.cvms5_configuration.ny) (hh : 0 < m.cvms5_total_height_m)
    (hy : 0 ≤ load_y_coord m pt) :
    0 < m.cvms5_total_height_m / ((m.cvms5_configuration.ny - 1 : Int) : ℚ) ∧
    load_y_coord m pt
      = ⌊point_y m pt / (m.cvms5_total_height_m / ((m.cvms5_configuration.ny - 1 : Int) : ℚ))⌋ ∧
    y_percent m pt
      = point_y m pt / (m.cvms5_total_height_m / ((m.cvms5_configuration.ny - 1 : Int) : ℚ))
        - ((load_y_coord m pt : Int) : ℚ) := by
  have hn : (0 : ℚ) < ((m.cvms5_configuration.ny - 1 : Int) : ℚ) := by
    have : (0 : Int) < m.cvms5_configuration.ny - 1 := by omega
    exact_mod_cast this
  have hc : 0 < m.cvms5_total_height_m / ((m.cvms5_configuration.ny - 1 : Int) : ℚ) :=
    div_pos hh hn
  have e : point_y m pt / m.cvms5_total_height_m * ((m.cvms5_configuration.ny - 1 : Int) : ℚ)
      = point_y m pt / (m.cvms5_total_height_m / ((m.cvms5_configuration.ny - 1 : Int) : ℚ)) := by
    rw [div_div_eq_mul_div, div_mul_eq_mul_div]
  have hl : load_y_coord m pt
      = ⌊point_y m pt / (m.cvms5_total_height_m / ((m.cvms5_configuration.ny - 1 : Int) : ℚ))⌋ := by
    unfold load_y_coord
    rw [e]
  have h0 : 0 ≤ point_y m pt
      / (m.cvms5_total_height_m / ((m.cvms5_configuration.ny - 1 : Int) : ℚ)) := by
    rw [hl] at hy
    exact Int.floor_nonneg.mp hy
  refine ⟨hc, hl, ?_⟩
  unfold y_percent
  rw [fmod_div_eq_fract hc h0, ← hl]

theorem fract_bounds (q : ℚ) : 0 ≤ q - ((⌊q⌋ : Int) : ℚ) ∧ q - ((⌊q⌋ : Int) : ℚ) < 1 := by
  have h1 := Int.floor_le q
  have h2 := Int.lt_floor_add_one q
  constructor <;> linarith

theorem load_z_of_layers (m : cvms5_state) (N : Int) (pt : cvms5_point_t)
    (hdi : 0 < m.cvms5_configuration.depth_interval)
    (hD : m.cvms5_configuration.depth = (N : ℚ) * m.cvms5_configuration.depth_interval) :
    load_z_coord m pt = N - 1 - ⌊pt.depth / m.cvms5_configuration.depth_interval⌋ := by
  have hn : m.cvms5_configuration.depth / m.cvms5_configuration.depth_interval = (N : ℚ) := by
    rw [hD]
    field_simp
  have e : (m.cvms5_configuration.depth / m.cvms5_configuration.depth_interval - 1)
      - ((⌊pt.depth / m.cvms5_configuration.depth_interval⌋ : Int) : ℚ)
      = ((N - 1 - ⌊pt.depth / m.cvms5_configuration.depth_interval⌋ : Int) : ℚ) := by
    rw [hn]
    push_cast
    ring
  unfold load_z_coord
  rw [e, c_trunc_intCast]

theorem gtl_vp30_pos (v : ℚ) (h0 : 0 < v) (h1 : v ≤ 5000) : 0 < cvms5_gtl_vp30 v := by
  unfold cvms5_gtl_vp30
  dsimp only
  have hx : 0 < v / 1000 := by positivity
  have h5 : v / 1000 ≤ 5 := by
    rw [div_le_iff₀ (by norm_num)]
    linarith
  have t1 : 0 ≤ (v / 1000) ^ 3 * (5 - v / 1000) :=
    mul_nonneg (by positivity) (by linarith)
  have t2 : 0 ≤ v / 1000 * (v / 1000 - 3) ^ 2 := mul_nonneg (le_of_lt hx) (sq_nonneg _)
  have t3 : 0 ≤ (v / 1000) ^ 2 := sq_nonneg _
  have hP : 0 < 0.9409 + 2.0947 * (v / 1000) - 0.8206 * (v / 1000) ^ 2
      + 0.2683 * (v / 1000) ^ 3 - 0.0251 * (v / 1000) ^ 4 := by
    nlinarith [t1, t2, t3, hx]
  positivity

theorem bilinear_pos (xp yp a b c d : ℚ) (hx0 : 0 ≤ xp) (hx1 : xp < 1) (hy0 : 0 ≤ yp)
    (hy1 : yp < 1) (ha : 0 < a) (hb : 0 < b) (hc : 0 < c) (hd : 0 < d) :
    0 < (1 - yp) * ((1 - xp) * a + xp * b) + yp * ((1 - xp) * c + xp * d) := by
  have h1 : 0 < (1 - xp) * a + xp * b :=
    add_pos_of_pos_of_nonneg (mul_pos (by linarith) ha) (mul_nonneg hx0 (le_of_lt hb))
  have h2 : 0 < (1 - xp) * c + xp * d :=
    add_pos_of_pos_of_nonneg (mul_pos (by linarith) hc) (mul_nonneg hx0 (le_of_lt hd))
  exact add_pos_of_pos_of_nonneg (mul_pos (by linarith) h1) (mul_nonneg hy0 (le_of_lt h2))

theorem trilinear_top (xp yp : ℚ) (p0 p1 p2 p3 p4 p5 p6 p7 : cvms5_properties_t) :
    (cvms5_trilinear_interpolation xp yp 0 p0 p1 p2 p3 p4 p5 p6 p7).vs
      = (1 - yp) * ((1 - xp) * p0.vs + xp * p1.vs) + yp * ((1 - xp) * p2.vs + xp * p3.vs) ∧
    (cvms5_trilinear_interpolation xp yp 0 p0 p1 p2 p3 p4 p5 p6 p7).vp
      = (1 - yp) * ((1 - xp) * p0.vp + xp * p1.vp) + yp * ((1 - xp) * p2.vp + xp * p3.vp) := by
  unfold cvms5_trilinear_interpolation cvms5_bilinear_interpolation cvms5_linear_interpolation
  constructor <;> simp

theorem surface_locals (m : cvms5_state) (pt : cvms5_point_t) (hdepth : pt.depth = 0)
    (hdi : 0 < m.cvms5_configuration.depth_interval)
    (hl : 2 ≤ m.cvms5_configuration.depth / m.cvms5_configuration.depth_interval) :
    1 ≤ load_z_coord m pt ∧ z_percent m pt = 0 ∧
    pt.depth / m.cvms5_configuration.depth_interval = 0 := by
  have hp : pt.depth / m.cvms5_configuration.depth_interval = 0 := by
    rw [hdepth, zero_div]
  refine ⟨?_, ?_, hp⟩
  · unfold load_z_coord
    rw [hp, Int.floor_zero, Int.cast_zero, sub_zero,
      c_trunc_eq_floor_of_nonneg (by linarith)]
    exact Int.le_floor.mpr (by push_cast; linarith)
  · rw [z_percent_eq_fract m pt (by rw [hdepth]) hdi, hp, Int.floor_zero]
    norm_num

set_option maxRecDepth 8000 in
theorem init_unfold (w : cvms5_world) (dir label : String) :
    cvms5_init w dir label =
      if cvms5_init_model_code w dir label = FAIL then (FAIL, none)
      else if cvms5_init_vs30_code w dir ≠ SUCCESS then (FAIL, none)
      else
        match w.proj_create_crs_to_crs (cvms5_init_projstr w dir label) with
        | none => (w.UCVM_CODE_ERROR, none)
        | some geo2utm =>
          match w.proj_create_crs_to_crs (cvms5_init_vs30_map w dir).projection with
          | none => (w.UCVM_CODE_ERROR, none)
          | some geo2aeqd => (SUCCESS, some (cvms5_init_globals w dir label geo2utm geo2aeqd)) := by
  have hsf : SUCCESS ≠ FAIL := by decide
  unfold cvms5_init
  simp only
  by_cases h1 : cvms5_init_model_code w dir label = FAIL
  · have h1' : (cvms5_try_reading_model w
        (cvms5_read_configuration w (dir ++ "/model/" ++ label ++ "/data/config")
          cvms5_configuration_calloc).2
        (dir ++ "/model/" ++ label ++ "/data/"
          ++ (cvms5_read_configuration w (dir ++ "/model/" ++ label ++ "/data/config")
            cvms5_configuration_calloc).2.model_dir ++ "/") cvms5_model_calloc).1 = FAIL := h1
    rw [if_pos h1, h1']
    simp [hsf.symm]
  · have h1' : ¬ (cvms5_try_reading_model w
        (cvms5_read_configuration w (dir ++ "/model/" ++ label ++ "/data/config")
          cvms5_configuration_calloc).2
        (dir ++ "/model/" ++ label ++ "/data/"
          ++ (cvms5_read_configuration w (dir ++ "/model/" ++ label ++ "/data/config")
            cvms5_configuration_calloc).2.model_dir ++ "/") cvms5_model_calloc).1 = FAIL := h1
    rw [if_neg h1]
    have hrf : (if (cvms5_try_reading_model w
        (cvms5_read_configuration w (dir ++ "/model/" ++ label ++ "/data/config")
          cvms5_configuration_calloc).2
        (dir ++ "/model/" ++ label ++ "/data/"
          ++ (cvms5_read_configuration w (dir ++ "/model/" ++ label ++ "/data/config")
            cvms5_configuration_calloc).2.model_dir ++ "/") cvms5_model_calloc).1 = SUCCESS
        then false
        else if (cvms5_try_reading_model w
        (cvms5_read_configuration w (dir ++ "/model/" ++ label ++ "/data/config")
          cvms5_configuration_calloc).2
        (dir ++ "/model/" ++ label ++ "/data/"
          ++ (cvms5_read_configuration w (dir ++ "/model/" ++ label ++ "/data/config")
            cvms5_configuration_calloc).2.model_dir ++ "/") cvms5_model_calloc).1 = FAIL
        then true else false) = false := by
      split_ifs <;> rfl
    rw [hrf]
    simp only [Bool.false_eq_true, if_false]
    rfl

theorem config_assign_gtl (w : cvms5_world) (key value : String)
    (config : cvms5_configuration_t) :
    (cvms5_config_assign w key value config).gtl =
      if key = "gtl" then (if value = "on" then 1 else 0) else config.gtl := by
  unfold cvms5_config_assign
  simp only [apply_ite cvms5_configuration_t.gtl, ite_self]

theorem read_lines_gtl (w : cvms5_world) (lines : List String) :
    ∀ (key value : String) (config : cvms5_configuration_t) (last : Option String) (g0 : Int),
      (last = none → config.gtl = g0) →
      (∀ v, last = some v → config.gtl = if v = "on" then 1 else 0) →
      (cvms5_last_gtl_value w lines key value last = none →
        (cvms5_read_lines w lines key value config).gtl = g0) ∧
      (∀ v, cvms5_last_gtl_value w lines key value last = some v →
        (cvms5_read_lines w lines key value config).gtl = if v = "on" then 1 else 0) := by
  induction lines with
  | nil =>
    intro key value config last g0 h1 h2
    exact ⟨h1, h2⟩
  | cons line rest ih =>
    intro key value config last g0 h1 h2
    unfold cvms5_last_gtl_value cvms5_read_lines
    by_cases hr : cvms5_line_is_read line = true
    · simp only [hr, if_true]
      apply ih
      · intro hl
        rw [config_assign_gtl]
        split_ifs at hl with hk
        rw [if_neg hk]
        exact h1 hl
      · intro v hl
        rw [config_assign_gtl]
        split_ifs at hl with hk
        · rw [if_pos hk]
          simp only [Option.some.injEq] at hl
          rw [hl]
        · rw [if_neg hk]
          exact h2 v hl
    · simp only [hr]
      exact ih key value config last g0 h1 h2

theorem try_reading_file_counts (w : cvms5_world) (base_malloc : ℚ) (current_file : String)
    (resident on_disk : cvms5_model_t → (Int → ℚ) → cvms5_model_t) (s : cvms5_loading) :
    (cvms5_try_reading_file w base_malloc current_file resident on_disk s).file_count
      = s.file_count + (if w.access_r_ok current_file = true then 1 else 0) ∧
    (cvms5_try_reading_file w base_malloc current_file resident on_disk s).all_read_to_memory
      = (if w.access_r_ok current_file = true ∧ w.malloc_ok current_file base_malloc = false
          then 0 else s.all_read_to_memory) := by
  unfold cvms5_try_reading_file
  cases w.access_r_ok current_file <;> cases w.malloc_ok current_file base_malloc <;> simp

theorem try_reading_model_code_bools (a1 a2 a3 a4 a5 m1 m2 m3 m4 m5 : Bool) :
    ((if ((0 : Int) + (if a1 = true then 1 else 0) + (if a2 = true then 1 else 0)
          + (if a3 = true then 1 else 0) + (if a4 = true then 1 else 0)
          + (if a5 = true then 1 else 0)) = 0 then FAIL
      else if ((0 : Int) + (if a1 = true then 1 else 0) + (if a2 = true then 1 else 0)
          + (if a3 = true then 1 else 0) + (if a4 = true then 1 else 0)
          + (if a5 = true then 1 else 0)) > 0 ∧
          (if a5 = true ∧ m5 = false then (0 : Int) else
            if a4 = true ∧ m4 = false then 0 else
            if a3 = true ∧ m3 = false then 0 else
            if a2 = true ∧ m2 = false then 0 else
            if a1 = true ∧ m1 = false then 0 else 1) = 0 then SUCCESS
      else 2) =
     (if a1 = false ∧ a2 = false ∧ a3 = false ∧ a4 = false ∧ a5 = false then FAIL
      else if (a1 = true ∧ m1 = false) ∨ (a2 = true ∧ m2 = false) ∨ (a3 = true ∧ m3 = false) ∨
          (a4 = true ∧ m4 = false) ∨ (a5 = true ∧ m5 = false) then SUCCESS
      else 2)) := by
  revert a1 a2 a3 a4 a5 m1 m2 m3 m4 m5
  decide

theorem try_reading_model_code (w : cvms5_world) (cfg : cvms5_configuration_t)
    (itdir : String) (model : cvms5_model_t) :
    (cvms5_try_reading_model w cfg itdir model).1 =
      if ∀ f ∈ cvms5_grid_files itdir, w.access_r_ok f = false then FAIL
      else if ∃ f ∈ cvms5_grid_files itdir,
          w.access_r_ok f = true ∧ w.malloc_ok f (cvms5_base_malloc cfg) = false then SUCCESS
      else 2 := by
  have hb := try_reading_model_code_bools
    (w.access_r_ok (itdir ++ "/vp.dat")) (w.access_r_ok (itdir ++ "/vs.dat"))
    (w.access_r_ok (itdir ++ "/rho.dat")) (w.access_r_ok (itdir ++ "/qp.dat"))
    (w.access_r_ok (itdir ++ "/qs.dat"))
    (w.malloc_ok (itdir ++ "/vp.dat") (cvms5_base_malloc cfg))
    (w.malloc_ok (itdir ++ "/vs.dat") (cvms5_base_malloc cfg))
    (w.malloc_ok (itdir ++ "/rho.dat") (cvms5_base_malloc cfg))
    (w.malloc_ok (itdir ++ "/qp.dat") (cvms5_base_malloc cfg))
    (w.malloc_ok (itdir ++ "/qs.dat") (cvms5_base_malloc cfg))
  unfold cvms5_try_reading_model
  simp only [apply_ite Prod.fst, (try_reading_file_counts w _ _ _ _ _).1,
    (try_reading_file_counts w _ _ _ _ _).2]
  unfold cvms5_base_malloc at hb ⊢
  unfold cvms5_grid_files
  simp only [List.forall_mem_cons, List.exists_mem_cons_iff, List.not_mem_nil, false_and,
    exists_false, or_false, IsEmpty.forall_iff, implies_true, and_true, List.mem_cons,
    List.mem_singleton, forall_eq_or_imp, forall_eq, exists_eq_or_imp, exists_eq_left]
  exact hb

theorem init_some (w : cvms5_world) (dir label : String) (code : Int) (m : cvms5_state)
    (h : cvms5_init w dir label = (code, some m)) :
    code = SUCCESS ∧ cvms5_init_model_code w dir label ≠ FAIL ∧
    cvms5_init_vs30_code w dir = SUCCESS ∧
    ∃ geo2utm geo2aeqd,
      w.proj_create_crs_to_crs (cvms5_init_projstr w dir label) = some geo2utm ∧
      w.proj_create_crs_to_crs (cvms5_init_vs30_map w dir).projection = some geo2aeqd ∧
      m = cvms5_init_globals w dir label geo2utm geo2aeqd := by
  rw [init_unfold] at h
  by_cases h1 : cvms5_init_model_code w dir label = FAIL
  · rw [if_pos h1] at h
    simp at h
  · rw [if_neg h1] at h
    by_cases h2 : cvms5_init_vs30_code w dir ≠ SUCCESS
    · rw [if_pos h2] at h
      simp at h
    · rw [if_neg h2] at h
      cases h3 : w.proj_create_crs_to_crs (cvms5_init_projstr w dir label) with
      | none =>
        rw [h3] at h
        simp at h
      | some g1 =>
        rw [h3] at h
        cases h4 : w.proj_create_crs_to_crs (cvms5_init_vs30_map w dir).projection with
        | none =>
          rw [h4] at h
          simp at h
        | some g2 =>
          rw [h4] at h
          simp only [Prod.mk.injEq, Option.some.injEq] at h
          exact ⟨h.1.symm, h1, not_not.mp h2, g1, g2, rfl, rfl, h.2.symm⟩

theorem point_to_local (m : cvms5_state) (pt : cvms5_point_t) :
    point_x m pt
      = (cvms5_to_local m (m.cvms5_geo2utm pt.latitude pt.longitude).1
          (m.cvms5_geo2utm pt.latitude pt.longitude).2).1 ∧
    point_y m pt
      = (cvms5_to_local m (m.cvms5_geo2utm pt.latitude pt.longitude).1
          (m.cvms5_geo2utm pt.latitude pt.longitude).2).2 := ⟨rfl, rfl⟩

theorem rotation_left_edge (c s E N H t : ℚ) (hN : 0 < N) (htan : s = E / N * c)
    (hc : 0 < c) (hp : c ^ 2 + s ^ 2 = 1) (hH : 0 ≤ H) (hHH : H ^ 2 = N ^ 2 + E ^ 2) :
    c * (t * E) - s * (t * N) = 0 ∧ s * (t * E) + c * (t * N) = t * H := by
  have hN0 : N ≠ 0 := ne_of_gt hN
  have hsN : s * N = E * c := by
    rw [htan]
    field_simp
  have hx : c * E - s * N = 0 := by rw [hsN]; ring
  have hy2 : (s * E + c * N) ^ 2 = H ^ 2 := by
    have : (s * E + c * N) ^ 2 = (c ^ 2 + s ^ 2) * (N ^ 2 + E ^ 2) - (c * E - s * N) ^ 2 := by
      ring
    rw [this, hp, hx, hHH]
    ring
  have hy0 : 0 ≤ s * E + c * N := by
    have h1 : s * E = c * E ^ 2 / N := by
      rw [htan]
      field_simp
      ring
    rw [h1]
    have : 0 ≤ c * E ^ 2 / N := by positivity
    have : 0 ≤ c * N := by positivity
    linarith
  have hy : s * E + c * N = H := by
    rcases sq_eq_sq_iff_eq_or_eq_neg.mp hy2 with h | h
    · exact h
    · have : H = 0 := by linarith
      rw [h, this]
      ring
  constructor
  · have : c * (t * E) - s * (t * N) = t * (c * E - s * N) := by ring
    rw [this, hx, mul_zero]
  · have : s * (t * E) + c * (t * N) = t * (s * E + c * N) := by ring
    rw [this, hy]

theorem demo_read_lines :
    cvms5_read_lines demo_world demo_config_lines "" "" cvms5_configuration_calloc
      = demo_world_configuration := by
  rfl

theorem demo_init_configuration (dir label : String) :
    cvms5_init_configuration demo_world dir label = demo_world_configuration ∧
    cvms5_init_configuration_code demo_world dir label = SUCCESS := by
  constructor <;> rfl

theorem demo_init_model_code (dir label : String) :
    cvms5_init_model_code demo_world dir label = 2 := by
  rfl

set_option maxRecDepth 8000 in
theorem demo_init_vs30_code (dir : String) :
    cvms5_init_vs30_code demo_world dir = SUCCESS := by
  rfl

theorem demo_init (dir label : String) :
    cvms5_init demo_world dir label
      = (SUCCESS, some (cvms5_init_globals demo_world dir label
          (fun lat lon => (lon, lat), fun lat _ => if lat > 5000 then 1 else 0)
          (fun lat lon => (lon, lat), fun lat _ => if lat > 5000 then 1 else 0))) := by
  rw [init_unfold, if_neg (by rw [demo_init_model_code]; decide),
    if_neg (by rw [demo_init_vs30_code]; exact not_not.mpr rfl)]
  rfl

set_option maxRecDepth 8000 in
theorem demo_variants_vs30_code (dir : String) :
    cvms5_init_vs30_code demo_world_no_p5 dir = SUCCESS ∧
    cvms5_init_vs30_code demo_world_no_config dir = SUCCESS ∧
    cvms5_init_vs30_code demo_world_on_disk dir = SUCCESS ∧
    cvms5_init_vs30_code demo_world_no_map dir = FAIL := by
  refine ⟨?_, ?_, ?_, ?_⟩ <;> rfl

theorem demo_variants_model_code (dir label : String) :
    cvms5_init_model_code demo_world_no_p5 dir label = 2 ∧
    cvms5_init_model_code demo_world_no_config dir label = 2 ∧
    cvms5_init_model_code demo_world_on_disk dir label = SUCCESS ∧
    cvms5_init_model_code demo_world_no_files dir label = FAIL := by
  refine ⟨?_, ?_, ?_, ?_⟩ <;> rfl

/-! ## The cell index, reads of the trilinear branch and interpolation bounds -/

theorem mixed_radix_unique (P q q' r r' : Int) (hr : 0 ≤ r ∧ r < P) (hr' : 0 ≤ r' ∧ r' < P)
    (h : q * P + r = q' * P + r') : q = q' ∧ r = r' := by
  have hq : q = q' := by
    rcases lt_trichotomy q q' with hlt | heq | hgt
    · exfalso
      have h1 : 1 ≤ q' - q := by omega
      have h2 : P ≤ (q' - q) * P := by nlinarith
      have h3 : (q' - q) * P = r - r' := by linear_combination -h
      omega
    · exact heq
    · exfalso
      have h1 : 1 ≤ q - q' := by omega
      have h2 : P ≤ (q - q') * P := by nlinarith
      have h3 : (q - q') * P = r' - r := by linear_combination h
      omega
  refine ⟨hq, ?_⟩
  rw [hq] at h
  omega

theorem location_bounds (nx ny nz x y z : Int) (hnx : 1 ≤ nx) (hny : 1 ≤ ny)
    (h : cvms5_cell_in_grid nx ny nz x y z) :
    0 ≤ (nx - x - 1) * ny + y ∧ (nx - x - 1) * ny + y < nx * ny ∧
    0 ≤ z * nx * ny + (nx - x - 1) * ny + y ∧
    z * nx * ny + (nx - x - 1) * ny + y < nx * ny * nz := by
  obtain ⟨⟨hx0, hx1⟩, ⟨hy0, hy1⟩, hz0, hz1⟩ := h
  have ha0 : 0 ≤ nx - x - 1 := by omega
  have ha1 : nx - x - 1 ≤ nx - 1 := by omega
  have hP : 0 < nx * ny := by positivity
  have h1 : 0 ≤ (nx - x - 1) * ny := mul_nonneg ha0 (by omega)
  have h2 : (nx - x - 1) * ny ≤ (nx - 1) * ny := mul_le_mul_of_nonneg_right ha1 (by omega)
  have h3 : 0 ≤ z * (nx * ny) := mul_nonneg hz0 (le_of_lt hP)
  have h4 : z * (nx * ny) ≤ (nz - 1) * (nx * ny) :=
    mul_le_mul_of_nonneg_right hz1 (le_of_lt hP)
  have e1 : z * nx * ny = z * (nx * ny) := by ring
  have e2 : (nx - 1) * ny = nx * ny - ny := by ring
  have e3 : (nz - 1) * (nx * ny) = nx * ny * nz - nx * ny := by ring
  rw [e1]
  rw [e2] at h2
  rw [e3] at h4
  refine ⟨?_, ?_, ?_, ?_⟩ <;> omega

theorem location_injective (nx ny nz x y z x' y' z' : Int) (hnx : 1 ≤ nx) (hny : 1 ≤ ny)
    (h : cvms5_cell_in_grid nx ny nz x y z) (h' : cvms5_cell_in_grid nx ny nz x' y' z')
    (he : z * nx * ny + (nx - x - 1) * ny + y = z' * nx * ny + (nx - x' - 1) * ny + y') :
    x = x' ∧ y = y' ∧ z = z' := by
  obtain ⟨b0, b1, -, -⟩ := location_bounds nx ny nz x y z hnx hny h
  obtain ⟨c0, c1, -, -⟩ := location_bounds nx ny nz x' y' z' hnx hny h'
  have e : z * (nx * ny) + ((nx - x - 1) * ny + y)
      = z' * (nx * ny) + ((nx - x' - 1) * ny + y') := by linear_combination he
  obtain ⟨hz, hr⟩ := mixed_radix_unique (nx * ny) z z' _ _ ⟨b0, b1⟩ ⟨c0, c1⟩ e
  obtain ⟨⟨-, -⟩, ⟨hy0, hy1⟩, -⟩ := h
  obtain ⟨⟨-, -⟩, ⟨hy0', hy1'⟩, -⟩ := h'
  obtain ⟨ha, hy⟩ := mixed_radix_unique ny (nx - x - 1) (nx - x' - 1) y y'
    ⟨hy0, by omega⟩ ⟨hy0', by omega⟩ hr
  exact ⟨by omega, hy, hz⟩

theorem location_surjective (nx ny nz i : Int) (hnx : 1 ≤ nx) (hny : 1 ≤ ny)
    (h0 : 0 ≤ i) (h1 : i < nx * ny * nz) :
    ∃ x y z : Int, cvms5_cell_in_grid nx ny nz x y z ∧
      z * nx * ny + (nx - x - 1) * ny + y = i := by
  have hP : 0 < nx * ny := by positivity
  have hny0 : 0 < ny := by omega
  have hr0 : 0 ≤ i % (nx * ny) := Int.emod_nonneg i (ne_of_gt hP)
  have hr1 : i % (nx * ny) < nx * ny := Int.emod_lt_of_pos i hP
  have hz0 : 0 ≤ i / (nx * ny) := Int.ediv_nonneg h0 (le_of_lt hP)
  have hz1 : i / (nx * ny) < nz := by
    apply Int.ediv_lt_of_lt_mul hP
    linarith [mul_comm (nx * ny) nz]
  have ha0 : 0 ≤ i % (nx * ny) / ny := Int.ediv_nonneg hr0 (le_of_lt hny0)
  have ha1 : i % (nx * ny) / ny < nx := Int.ediv_lt_of_lt_mul hny0 hr1
  have hy0 : 0 ≤ i % (nx * ny) % ny := Int.emod_nonneg _ (ne_of_gt hny0)
  have hy1 : i % (nx * ny) % ny < ny := Int.emod_lt_of_pos _ hny0
  refine ⟨nx - 1 - i % (nx * ny) / ny, i % (nx * ny) % ny, i / (nx * ny),
    ⟨⟨by omega, by omega⟩, ⟨hy0, by omega⟩, hz0, by omega⟩, ?_⟩
  have e1 := Int.ediv_add_emod i (nx * ny)
  have e2 := Int.ediv_add_emod (i % (nx * ny)) ny
  have e3 : nx - (nx - 1 - i % (nx * ny) / ny) - 1 = i % (nx * ny) / ny := by ring
  rw [e3]
  linear_combination e1 + e2

theorem location_steps_fit (nx ny nz x y z : Int) (hnx : 1 ≤ nx) (hny : 1 ≤ ny)
    (h : cvms5_cell_in_grid nx ny nz x y z) :
    ∀ v ∈ cvms5_location_steps nx ny x y z, 0 ≤ v ∧ v ≤ nx * ny * nz := by
  obtain ⟨b0, b1, b2, b3⟩ := location_bounds nx ny nz x y z hnx hny h
  obtain ⟨⟨hx0, hx1⟩, ⟨hy0, hy1⟩, hz0, hz1⟩ := h
  have hnz : 1 ≤ nz := by omega
  have hP : 0 < nx * ny := by positivity
  have t1 : 0 ≤ z * nx := mul_nonneg hz0 (by omega)
  have t2 : z * nx ≤ (nz - 1) * nx := mul_le_mul_of_nonneg_right hz1 (by omega)
  have t3 : nx * nz ≤ nx * ny * nz := by
    have : nx * nz * 1 ≤ nx * nz * ny :=
      mul_le_mul_of_nonneg_left hny (mul_nonneg (by omega) (by omega))
    linarith [mul_comm (nx * nz) ny, mul_assoc nx nz ny, mul_assoc nx ny nz, mul_comm nz ny]
  have t4 : 0 ≤ z * nx * ny := mul_nonneg t1 (by omega)
  have t5 : 0 ≤ (nx - x - 1) * ny := mul_nonneg (by omega) (by omega)
  have t6 : nx ≤ nx * ny * nz := by
    have : nx * 1 ≤ nx * nz := mul_le_mul_of_nonneg_left hnz (by omega)
    linarith
  have e2 : (nz - 1) * nx = nx * nz - nx := by ring
  rw [e2] at t2
  intro v hv
  unfold cvms5_location_steps at hv
  simp only [List.mem_cons, List.mem_singleton, List.not_mem_nil, or_false] at hv
  rcases hv with hv | hv | hv | hv | hv | hv | hv <;> rw [hv] <;> constructor <;> omega

theorem read_trace_cell (m : cvms5_state) (x y z x' y' z' : Int) :
    cvms5_event.read_properties x' y' z' ∈ (cvms5_read_properties m x y z).2 ↔
      x' = x ∧ y' = y ∧ z' = z := by
  unfold cvms5_read_properties
  dsimp only
  split_ifs <;> simp

theorem node_locals (W : ℚ) (n i : Int) (px : ℚ) (hW : W ≠ 0) (hn : 2 ≤ n)
    (hpx : px = (i : ℚ) * W / ((n - 1 : Int) : ℚ)) :
    ⌊px / W * ((n - 1 : Int) : ℚ)⌋ = i ∧
    fmod px (W / ((n - 1 : Int) : ℚ)) / (W / ((n - 1 : Int) : ℚ)) = 0 := by
  have hn0 : ((n - 1 : Int) : ℚ) ≠ 0 := by
    have : (n - 1 : Int) ≠ 0 := by omega
    exact_mod_cast this
  have e1 : px / W * ((n - 1 : Int) : ℚ) = (i : ℚ) := by
    rw [hpx, div_div, div_mul_eq_mul_div, mul_comm ((n - 1 : Int) : ℚ) W, mul_assoc]
    exact mul_div_cancel_right₀ _ (mul_ne_zero hW hn0)
  have e2 : px / (W / ((n - 1 : Int) : ℚ)) = (i : ℚ) := by
    rw [hpx, mul_div_assoc]
    exact mul_div_cancel_right₀ _ (div_ne_zero hW hn0)
  constructor
  · rw [e1]
    exact Int.floor_intCast i
  · unfold fmod
    rw [e2, c_trunc_intCast, hpx, mul_div_assoc, sub_self, zero_div]

theorem field_min_le (f : cvms5_properties_t → ℚ) (c0 : cvms5_properties_t)
    (cs : List cvms5_properties_t) :
    ∀ c ∈ c0 :: cs, cvms5_field_min f c0 cs ≤ f c := by
  induction cs with
  | nil =>
    intro c hc
    simp only [List.mem_singleton] at hc
    rw [hc]
    exact le_refl _
  | cons a rest ih =>
    intro c hc
    have e : cvms5_field_min f c0 (a :: rest) = min (f a) (cvms5_field_min f c0 rest) := rfl
    rw [e]
    simp only [List.mem_cons] at hc
    rcases hc with hc | hc | hc
    · exact le_trans (min_le_right _ _) (ih c (by rw [hc]; exact List.mem_cons_self _ _))
    · rw [hc]
      exact min_le_left _ _
    · exact le_trans (min_le_right _ _) (ih c (List.mem_cons_of_mem _ hc))

theorem le_field_max (f : cvms5_properties_t → ℚ) (c0 : cvms5_properties_t)
    (cs : List cvms5_properties_t) :
    ∀ c ∈ c0 :: cs, f c ≤ cvms5_field_max f c0 cs := by
  induction cs with
  | nil =>
    intro c hc
    simp only [List.mem_singleton] at hc
    rw [hc]
    exact le_refl _
  | cons a rest ih =>
    intro c hc
    have e : cvms5_field_max f c0 (a :: rest) = max (f a) (cvms5_field_max f c0 rest) := rfl
    rw [e]
    simp only [List.mem_cons] at hc
    rcases hc with hc | hc | hc
    · exact le_trans (ih c (by rw [hc]; exact List.mem_cons_self _ _)) (le_max_right _ _)
    · rw [hc]
      exact le_max_left _ _
    · exact le_trans (ih c (List.mem_cons_of_mem _ hc)) (le_max_right _ _)

theorem linear_field (f : cvms5_properties_t → ℚ) (hf : f ∈ cvms5_fields) (percent : ℚ)
    (x0 x1 : cvms5_properties_t) :
    f (cvms5_linear_interpolation percent x0 x1) = (1 - percent) * f x0 + percent * f x1 := by
  unfold cvms5_fields at hf
  simp only [List.mem_cons, List.mem_singleton, List.not_mem_nil, or_false] at hf
  rcases hf with h | h | h | h | h <;> rw [h] <;> rfl

theorem linear_between (f : cvms5_properties_t → ℚ) (hf : f ∈ cvms5_fields) (percent lo hi : ℚ)
    (x0 x1 : cvms5_properties_t) (hp : 0 ≤ percent ∧ percent ≤ 1)
    (h0 : lo ≤ f x0 ∧ f x0 ≤ hi) (h1 : lo ≤ f x1 ∧ f x1 ≤ hi) :
    lo ≤ f (cvms5_linear_interpolation percent x0 x1) ∧
    f (cvms5_linear_interpolation percent x0 x1) ≤ hi := by
  rw [linear_field f hf]
  have hq : 0 ≤ 1 - percent := by linarith [hp.2]
  have a1 := mul_le_mul_of_nonneg_left h0.1 hq
  have a2 := mul_le_mul_of_nonneg_left h0.2 hq
  have b1 := mul_le_mul_of_nonneg_left h1.1 hp.1
  have b2 := mul_le_mul_of_nonneg_left h1.2 hp.1
  constructor
  · nlinarith
  · nlinarith

theorem bilinear_between (f : cvms5_properties_t → ℚ) (hf : f ∈ cvms5_fields)
    (x_percent y_percent lo hi : ℚ) (p0 p1 p2 p3 : cvms5_properties_t)
    (hx : 0 ≤ x_percent ∧ x_percent ≤ 1) (hy : 0 ≤ y_percent ∧ y_percent ≤ 1)
    (h : ∀ c ∈ [p0, p1, p2, p3], lo ≤ f c ∧ f c ≤ hi) :
    lo ≤ f (cvms5_bilinear_interpolation x_percent y_percent p0 p1 p2 p3) ∧
    f (cvms5_bilinear_interpolation x_percent y_percent p0 p1 p2 p3) ≤ hi := by
  unfold cvms5_bilinear_interpolation
  exact linear_between f hf _ _ _ _ _ hy
    (linear_between f hf _ _ _ _ _ hx (h p0 (by simp)) (h p1 (by simp)))
    (linear_between f hf _ _ _ _ _ hx (h p2 (by simp)) (h p3 (by simp)))

theorem trilinear_between (f : cvms5_properties_t → ℚ) (hf : f ∈ cvms5_fields)
    (x_percent y_percent z_percent lo hi : ℚ) (p0 p1 p2 p3 p4 p5 p6 p7 : cvms5_properties_t)
    (hx : 0 ≤ x_percent ∧ x_percent ≤ 1) (hy : 0 ≤ y_percent ∧ y_percent ≤ 1)
    (hz : 0 ≤ z_percent ∧ z_percent ≤ 1)
    (h : ∀ c ∈ [p0, p1, p2, p3, p4, p5, p6, p7], lo ≤ f c ∧ f c ≤ hi) :
    lo ≤ f (cvms5_trilinear_interpolation x_percent y_percent z_percent
      p0 p1 p2 p3 p4 p5 p6 p7) ∧
    f (cvms5_trilinear_interpolation x_percent y_percent z_percent
      p0 p1 p2 p3 p4 p5 p6 p7) ≤ hi := by
  unfold cvms5_trilinear_interpolation
  refine linear_between f hf _ _ _ _ _ hz
    (bilinear_between f hf _ _ _ _ _ _ _ _ hx hy ?_)
    (bilinear_between f hf _ _ _ _ _ _ _ _ hx hy ?_)
  · intro c hc
    apply h c
    simp only [List.mem_cons, List.mem_singleton, List.not_mem_nil, or_false] at hc ⊢
    tauto
  · intro c hc
    apply h c
    simp only [List.mem_cons, List.mem_singleton, List.not_mem_nil, or_false] at hc ⊢
    tauto

theorem linear_equal_corners (percent : ℚ) (c : cvms5_properties_t) :
    cvms5_linear_interpolation percent c c = c := by
  unfold cvms5_linear_interpolation
  rw [cvms5_properties_t.mk.injEq]
  refine ⟨?_, ?_, ?_, ?_, ?_⟩ <;> ring

/-! ## Rounded `double` arithmetic: evaluation and error bounds -/

theorem round_half_even_eq (q : ℚ) (k : Int) (h : |q - (k : ℚ)| < 1 / 2) :
    round_half_even q = k := by
  rw [abs_lt] at h
  unfold round_half_even
  by_cases hk : (k : ℚ) ≤ q
  · have hf : ⌊q⌋ = k := by
      rw [Int.floor_eq_iff]
      constructor
      · exact hk
      · linarith
    rw [hf, if_pos (by linarith)]
  · have hf : ⌊q⌋ = k - 1 := by
      rw [Int.floor_eq_iff]
      push_cast
      constructor
      · linarith
      · linarith
    rw [hf]
    push_cast
    rw [if_neg (by linarith), if_pos (by linarith)]
    ring

theorem round_half_even_error (q : ℚ) : |(round_half_even q : ℚ) - q| ≤ 1 / 2 := by
  have h1 := Int.floor_le q
  have h2 := Int.lt_floor_add_one q
  unfold round_half_even
  rw [abs_le]
  split_ifs with a b c
  · constructor <;> linarith
  · push_cast; constructor <;> linarith
  · constructor <;> linarith
  · push_cast; constructor <;> linarith

theorem binary64_exponent_eq (q : ℚ) (e : Int) (he : -1022 ≤ e) (h1 : (2 : ℚ) ^ e ≤ |q|)
    (h2 : |q| < (2 : ℚ) ^ (e + 1)) : binary64_exponent q = e := by
  have hpos : 0 < |q| := lt_of_lt_of_le (zpow_pos (by norm_num) e) h1
  have hlog : Int.log 2 |q| = e := by
    apply le_antisymm
    · have := (Int.lt_zpow_iff_log_lt (b := 2) (by norm_num) hpos).mp (by exact_mod_cast h2)
      omega
    · exact (Int.zpow_le_iff_le_log (b := 2) (by norm_num) hpos).mp (by exact_mod_cast h1)
  unfold binary64_exponent
  rw [hlog]
  exact max_eq_left he

theorem binary64_round_eq (q : ℚ) (e k : Int) (he : -1022 ≤ e) (h1 : (2 : ℚ) ^ e ≤ |q|)
    (h2 : |q| < (2 : ℚ) ^ (e + 1)) (hk : |q / (2 : ℚ) ^ (e - 52) - (k : ℚ)| < 1 / 2) :
    binary64_round q = (k : ℚ) * (2 : ℚ) ^ (e - 52) := by
  unfold binary64_round
  rw [binary64_exponent_eq q e he h1 h2, round_half_even_eq _ k hk]

theorem binary64_round_zero : binary64_round 0 = 0 := by
  unfold binary64_round round_half_even
  simp

theorem binary64_round_error (q : ℚ) :
    |binary64_round q - q| ≤ (2 : ℚ) ^ (-53 : Int) * |q| + (2 : ℚ) ^ (-1075 : Int) := by
  by_cases hq : q = 0
  · rw [hq, binary64_round_zero]
    simp
    positivity
  have hpos : 0 < |q| := abs_pos.mpr hq
  have hu : (0 : ℚ) < (2 : ℚ) ^ (binary64_exponent q - 52) := zpow_pos (by norm_num) _
  have herr := round_half_even_error (q / (2 : ℚ) ^ (binary64_exponent q - 52))
  have e1 : binary64_round q - q
      = ((round_half_even (q / (2 : ℚ) ^ (binary64_exponent q - 52)) : ℚ)
          - q / (2 : ℚ) ^ (binary64_exponent q - 52)) * (2 : ℚ) ^ (binary64_exponent q - 52) := by
    unfold binary64_round
    field_simp
  have h3 : |binary64_round q - q| ≤ 1 / 2 * (2 : ℚ) ^ (binary64_exponent q - 52) := by
    rw [e1, abs_mul, abs_of_pos hu]
    exact mul_le_mul_of_nonneg_right herr hu.le
  have h4 : (1 / 2 : ℚ) * (2 : ℚ) ^ (binary64_exponent q - 52)
      = (2 : ℚ) ^ (-53 : Int) * (2 : ℚ) ^ (binary64_exponent q) := by
    rw [show binary64_exponent q - 52 = binary64_exponent q + (-52) by ring,
      zpow_add₀ (by norm_num : (2 : ℚ) ≠ 0)]
    norm_num
    ring
  rw [h4] at h3
  have h5 : (2 : ℚ) ^ (binary64_exponent q) ≤ |q| ∨ binary64_exponent q = -1022 := by
    unfold binary64_exponent
    rcases le_total (Int.log 2 |q|) (-1022) with h | h
    · right; exact max_eq_right h
    · left
      rw [max_eq_left h]
      have := Int.zpow_log_le_self (b := 2) (by norm_num) hpos
      exact_mod_cast this
  rcases h5 with h5 | h5
  · have : (2 : ℚ) ^ (-53 : Int) * (2 : ℚ) ^ (binary64_exponent q) ≤ (2 : ℚ) ^ (-53 : Int) * |q| :=
      mul_le_mul_of_nonneg_left h5 (by positivity)
    have hp : (0 : ℚ) ≤ (2 : ℚ) ^ (-1075 : Int) := by positivity
    linarith
  · rw [h5] at h3
    have e2 : (2 : ℚ) ^ (-53 : Int) * (2 : ℚ) ^ (-1022 : Int) = (2 : ℚ) ^ (-1075 : Int) := by
      rw [← zpow_add₀ (by norm_num : (2 : ℚ) ≠ 0)]
      norm_num
    rw [e2] at h3
    have hp : (0 : ℚ) ≤ (2 : ℚ) ^ (-53 : Int) * |q| := by positivity
    linarith

theorem binary64_round_exact (q : ℚ) (e k : Int) (he : -1022 ≤ e) (h1 : (2 : ℚ) ^ e ≤ |q|)
    (h2 : |q| < (2 : ℚ) ^ (e + 1)) (hk : q = (k : ℚ) * (2 : ℚ) ^ (e - 52)) :
    binary64_round q = q := by
  have hu : (2 : ℚ) ^ (e - 52) ≠ 0 := zpow_ne_zero _ (by norm_num)
  rw [binary64_round_eq q e k he h1 h2, ← hk]
  rw [show q / (2 : ℚ) ^ (e - 52) = (k : ℚ) by rw [hk]; field_simp]
  norm_num

theorem binary64_round_intCast (n : Int) (h : |n| < 2 ^ 53) : binary64_round (n : ℚ) = n := by
  by_cases hn : n = 0
  · rw [hn]
    exact_mod_cast binary64_round_zero
  have hq : (n : ℚ) ≠ 0 := by exact_mod_cast hn
  have hpos : 0 < |(n : ℚ)| := abs_pos.mpr hq
  have h1 : (2 : ℚ) ^ (Int.log 2 |(n : ℚ)|) ≤ |(n : ℚ)| := by
    exact_mod_cast Int.zpow_log_le_self (b := 2) (by norm_num) hpos
  have h2 : |(n : ℚ)| < (2 : ℚ) ^ (Int.log 2 |(n : ℚ)| + 1) := by
    exact_mod_cast Int.lt_zpow_succ_log_self (b := 2) (by norm_num) |(n : ℚ)|
  have hone : (1 : ℚ) ≤ |(n : ℚ)| := by
    have : (1 : Int) ≤ |n| := Int.one_le_abs hn
    exact_mod_cast this
  have he0 : 0 ≤ Int.log 2 |(n : ℚ)| :=
    (Int.zpow_le_iff_le_log (b := 2) (by norm_num) hpos).mp (by simpa using hone)
  have he1 : Int.log 2 |(n : ℚ)| < 53 :=
    (Int.lt_zpow_iff_log_lt (b := 2) (by norm_num) hpos).mp (by
      have : |(n : ℚ)| < 2 ^ 53 := by exact_mod_cast h
      exact_mod_cast this)
  obtain ⟨d, hd⟩ : ∃ d : Nat, (52 : Int) - Int.log 2 |(n : ℚ)| = d :=
    ⟨(52 - Int.log 2 |(n : ℚ)|).toNat, by omega⟩
  have hu : (2 : ℚ) ^ (Int.log 2 |(n : ℚ)| - 52) = ((2 : ℚ) ^ d)⁻¹ := by
    rw [show Int.log 2 |(n : ℚ)| - 52 = -(d : Int) by omega, zpow_neg, zpow_natCast]
  apply binary64_round_exact (n : ℚ) (Int.log 2 |(n : ℚ)|) (n * 2 ^ d) (by omega) h1 h2
  rw [hu]
  push_cast
  field_simp

theorem linear_rounded_zero (rnd : ℚ → ℚ) (h0 : rnd 0 = 0) (h1 : rnd 1 = 1) (x0 x1 : ℚ)
    (hx : rnd x0 = x0) : cvms5_linear_rounded rnd 0 x0 x1 = x0 := by
  unfold cvms5_linear_rounded
  rw [sub_zero, h1, one_mul, hx, zero_mul, h0, add_zero, hx]

theorem binary64_round_one : binary64_round 1 = 1 := by
  have := binary64_round_intCast 1 (by norm_num)
  simpa using this

theorem binary64_round_ofNat (n : Nat) (h : n < 2 ^ 53) : binary64_round (n : ℚ) = n := by
  have := binary64_round_intCast (n : Int) (by
    rw [abs_of_nonneg (by positivity)]
    exact_mod_cast h)
  exact_mod_cast this

theorem wide_node15_x :
    point_x_rounded binary64_round demo_state_wide demo_point_node15 = 7500 ∧
    load_x_coord_rounded binary64_round demo_state_wide demo_point_node15 = 14 ∧
    x_percent_rounded binary64_round demo_state_wide demo_point_node15 = 0 := by
  have r0 : binary64_round 0 = 0 := binary64_round_zero
  have r7500 : binary64_round 7500 = 7500 := by
    simpa using binary64_round_ofNat 7500 (by norm_num)
  have r500 : binary64_round 500 = 500 := by
    simpa using binary64_round_ofNat 500 (by norm_num)
  have hpx : point_x_rounded binary64_round demo_state_wide demo_point_node15 = 7500 := by
    unfold point_x_rounded cvms5_to_local_rounded
    simp only [demo_state_wide, demo_state, demo_configuration, demo_point_node15]
    norm_num [r0, r7500]
  have hq : binary64_round (7500 / 767500) = 5633166960619773 / 576460752303423488 := by
    rw [binary64_round_eq (7500 / 767500) (-7) 5633166960619773 (by norm_num)
      (by norm_num [abs_of_pos]) (by norm_num [abs_of_pos]) (by norm_num [abs_lt])]
    norm_num
  have hp : binary64_round (5633166960619773 / 576460752303423488 * ((1536 - 1 : Int) : ℚ))
      = 8444249301319679 / 562949953421312 := by
    rw [binary64_round_eq _ 3 8444249301319679 (by norm_num)
      (by norm_num [abs_of_pos]) (by norm_num [abs_of_pos]) (by norm_num [abs_lt])]
    norm_num
  have hc : binary64_round (767500 / ((1536 - 1 : Int) : ℚ)) = 500 := by
    rw [show (767500 : ℚ) / ((1536 - 1 : Int) : ℚ) = 500 by norm_num]
    exact r500
  refine ⟨hpx, ?_, ?_⟩
  · unfold load_x_coord_rounded
    rw [hpx, show demo_state_wide.cvms5_total_width_m = 767500 from rfl,
      show demo_state_wide.cvms5_configuration.nx = 1536 from rfl, hq, hp]
    exact floor_eq_of (by norm_num) (by norm_num)
  · unfold x_percent_rounded
    rw [hpx, show demo_state_wide.cvms5_total_width_m = 767500 from rfl,
      show demo_state_wide.cvms5_configuration.nx = 1536 from rfl, hc,
      fmod_of_nonneg (k := 15) (by norm_num) (by norm_num) (by norm_num)]
    norm_num [r0]

theorem wide_node15_yz :
    point_y_rounded binary64_round demo_state_wide demo_point_node15 = 0 ∧
    load_y_coord_rounded binary64_round demo_state_wide demo_point_node15 = 0 ∧
    y_percent_rounded binary64_round demo_state_wide demo_point_node15 = 0 ∧
    load_z_coord_rounded binary64_round demo_state_wide demo_point_node15 = 1 ∧
    z_percent_rounded binary64_round demo_state_wide demo_point_node15 = 0 := by
  have r0 : binary64_round 0 = 0 := binary64_round_zero
  have r1 : binary64_round 1 = 1 := binary64_round_one
  have r2 : binary64_round 2 = 2 := by simpa using binary64_round_ofNat 2 (by norm_num)
  have r3 : binary64_round 3 = 3 := by simpa using binary64_round_ofNat 3 (by norm_num)
  have r1000 : binary64_round 1000 = 1000 := by
    simpa using binary64_round_ofNat 1000 (by norm_num)
  have r7500 : binary64_round 7500 = 7500 := by
    simpa using binary64_round_ofNat 7500 (by norm_num)
  have hpy : point_y_rounded binary64_round demo_state_wide demo_point_node15 = 0 := by
    unfold point_y_rounded cvms5_to_local_rounded
    simp only [demo_state_wide, demo_state, demo_configuration, demo_point_node15]
    norm_num [r0, r7500]
  refine ⟨hpy, ?_, ?_, ?_, ?_⟩
  · unfold load_y_coord_rounded
    rw [hpy]
    norm_num [r0]
  · unfold y_percent_rounded fmod
    rw [hpy]
    norm_num [r0, c_trunc]
  · unfold load_z_coord_rounded cvms5_z_bracket_rounded
    simp only [demo_state_wide, demo_state, demo_configuration, demo_point_node15]
    norm_num [r1, r2, r3, c_trunc]
  · unfold z_percent_rounded
    simp only [demo_state_wide, demo_state, demo_configuration, demo_point_node15]
    rw [fmod_of_nonneg (k := 1) (by norm_num) (by norm_num) (by norm_num)]
    norm_num [r0]

theorem linear_interpolation_rounded_zero (rnd : ℚ → ℚ) (h0 : rnd 0 = 0) (h1 : rnd 1 = 1)
    (x0 x1 : cvms5_properties_t)
    (hx : rnd x0.vp = x0.vp ∧ rnd x0.vs = x0.vs ∧ rnd x0.rho = x0.rho ∧ rnd x0.qp = x0.qp ∧
      rnd x0.qs = x0.qs) :
    cvms5_linear_interpolation_rounded rnd 0 x0 x1 = x0 := by
  unfold cvms5_linear_interpolation_rounded
  rw [linear_rounded_zero rnd h0 h1 _ _ hx.1, linear_rounded_zero rnd h0 h1 _ _ hx.2.1,
    linear_rounded_zero rnd h0 h1 _ _ hx.2.2.1, linear_rounded_zero rnd h0 h1 _ _ hx.2.2.2.1,
    linear_rounded_zero rnd h0 h1 _ _ hx.2.2.2.2]

theorem wide_read (x y z : Int) :
    cvms5_read_properties demo_state_wide x y z =
      ({ vp := 2440 + 10 * ((z * 4608 + (1535 - x) * 3 + y : Int) : ℚ),
         vs := 1440 + 10 * ((z * 4608 + (1535 - x) * 3 + y : Int) : ℚ),
         rho := -1, qp := -1, qs := -1 },
       [cvms5_event.read_properties x y z]) := by
  have e : z * 1536 * 3 + (1536 - x - 1) * 3 + y = z * 4608 + (1535 - x) * 3 + y := by ring
  simp [cvms5_read_properties, demo_state_wide, demo_state, demo_model, demo_configuration,
    cvms5_not_found, e]

theorem wide_read_rounded (x y z : Int) (h : |z * 4608 + (1535 - x) * 3 + y| < 2 ^ 40) :
    binary64_round (cvms5_read_properties demo_state_wide x y z).1.vp
      = (cvms5_read_properties demo_state_wide x y z).1.vp ∧
    binary64_round (cvms5_read_properties demo_state_wide x y z).1.vs
      = (cvms5_read_properties demo_state_wide x y z).1.vs ∧
    binary64_round (cvms5_read_properties demo_state_wide x y z).1.rho
      = (cvms5_read_properties demo_state_wide x y z).1.rho ∧
    binary64_round (cvms5_read_properties demo_state_wide x y z).1.qp
      = (cvms5_read_properties demo_state_wide x y z).1.qp ∧
    binary64_round (cvms5_read_properties demo_state_wide x y z).1.qs
      = (cvms5_read_properties demo_state_wide x y z).1.qs := by
  have hm : binary64_round (-1) = -1 := by
    have := binary64_round_intCast (-1) (by norm_num)
    simpa using this
  rw [abs_lt] at h
  rw [wide_read]
  refine ⟨?_, ?_, hm, hm, hm⟩
  · have := binary64_round_intCast (2440 + 10 * (z * 4608 + (1535 - x) * 3 + y)) (by
      rw [abs_lt]; constructor <;> omega)
    push_cast at this ⊢
    exact this
  · have := binary64_round_intCast (1440 + 10 * (z * 4608 + (1535 - x) * 3 + y)) (by
      rw [abs_lt]; constructor <;> omega)
    push_cast at this ⊢
    exact this

theorem wide_node15_trilinear :
    cvms5_query_trilinear_rounded binary64_round demo_state_wide demo_point_node15
      = (cvms5_read_properties demo_state_wide 14 0 1).1 := by
  unfold cvms5_query_trilinear_rounded cvms5_trilinear_interpolation_rounded
    cvms5_bilinear_interpolation_rounded
  rw [wide_node15_x.2.1, wide_node15_x.2.2, wide_node15_yz.2.1, wide_node15_yz.2.2.1,
    wide_node15_yz.2.2.2.1, wide_node15_yz.2.2.2.2]
  dsimp only
  rw [linear_interpolation_rounded_zero _ binary64_round_zero binary64_round_one _ _
      (wide_read_rounded 14 0 1 (by norm_num)),
    linear_interpolation_rounded_zero _ binary64_round_zero binary64_round_one _ _
      (wide_read_rounded 14 (0 + 1) 1 (by norm_num)),
    linear_interpolation_rounded_zero _ binary64_round_zero binary64_round_one _ _
      (wide_read_rounded 14 0 1 (by norm_num)),
    linear_interpolation_rounded_zero _ binary64_round_zero binary64_round_one _ _
      (wide_read_rounded 14 0 (1 - 1) (by norm_num)),
    linear_interpolation_rounded_zero _ binary64_round_zero binary64_round_one _ _
      (wide_read_rounded 14 (0 + 1) (1 - 1) (by norm_num)),
    linear_interpolation_rounded_zero _ binary64_round_zero binary64_round_one _ _
      (wide_read_rounded 14 0 (1 - 1) (by norm_num)),
    linear_interpolation_rounded_zero _ binary64_round_zero binary64_round_one _ _
      (wide_read_rounded 14 0 1 (by norm_num))]

theorem linear_rounded_error (rnd : ℚ → ℚ) (u η : ℚ) (hu0 : 0 ≤ u) (hη0 : 0 ≤ η)
    (hκ : u + η ≤ 1 / 16) (hr : ∀ x, |rnd x - x| ≤ u * |x| + η)
    (p a b M : ℚ) (hp0 : 0 ≤ p) (hp1 : p ≤ 1) (ha : |a| ≤ M) (hb : |b| ≤ M) :
    |cvms5_linear_rounded rnd p a b - ((1 - p) * a + p * b)| ≤ cvms5_rounding_slack u η M := by
  have hM : 0 ≤ M := le_trans (abs_nonneg a) ha
  have hp' : (0 : ℚ) ≤ 1 - p := by linarith
  have e1 : |rnd (1 - p) - (1 - p)| ≤ u + η := by
    have h := hr (1 - p)
    rw [abs_of_nonneg hp'] at h
    have : u * (1 - p) ≤ u := by nlinarith
    linarith
  have hq1a : |rnd (1 - p)| ≤ (1 - p) + (u + η) := by
    have h := abs_sub_abs_le_abs_sub (rnd (1 - p)) (1 - p)
    rw [abs_of_nonneg hp'] at h
    linarith
  have ht1 : |rnd (1 - p) * a| ≤ ((1 - p) + (u + η)) * M := by
    rw [abs_mul]
    exact mul_le_mul hq1a ha (abs_nonneg _) (by linarith)
  have e2 : |rnd (rnd (1 - p) * a) - rnd (1 - p) * a|
      ≤ u * (((1 - p) + (u + η)) * M) + η := by
    have h := hr (rnd (1 - p) * a)
    have := mul_le_mul_of_nonneg_left ht1 hu0
    linarith
  have ht2 : |p * b| ≤ p * M := by
    rw [abs_mul, abs_of_nonneg hp0]
    exact mul_le_mul_of_nonneg_left hb hp0
  have e3 : |rnd (p * b) - p * b| ≤ u * (p * M) + η := by
    have h := hr (p * b)
    have := mul_le_mul_of_nonneg_left ht2 hu0
    linarith
  have hAB : |rnd (rnd (1 - p) * a) + rnd (p * b)|
      ≤ (1 + (u + η)) * M + (u * ((1 + (u + η)) * M) + 2 * η) := by
    have e : rnd (rnd (1 - p) * a) + rnd (p * b)
        = (rnd (rnd (1 - p) * a) - rnd (1 - p) * a) + (rnd (p * b) - p * b)
          + rnd (1 - p) * a + p * b := by ring
    rw [e]
    have t1 := abs_add ((rnd (rnd (1 - p) * a) - rnd (1 - p) * a) + (rnd (p * b) - p * b)
          + rnd (1 - p) * a) (p * b)
    have t2 := abs_add ((rnd (rnd (1 - p) * a) - rnd (1 - p) * a) + (rnd (p * b) - p * b))
          (rnd (1 - p) * a)
    have t3 := abs_add (rnd (rnd (1 - p) * a) - rnd (1 - p) * a) (rnd (p * b) - p * b)
    nlinarith
  have e4 := hr (rnd (rnd (1 - p) * a) + rnd (p * b))
  have e1a : |(rnd (1 - p) - (1 - p)) * a| ≤ (u + η) * M := by
    rw [abs_mul]
    exact mul_le_mul e1 ha (abs_nonneg _) (by linarith)
  have hfin : cvms5_linear_rounded rnd p a b - ((1 - p) * a + p * b)
      = (rnd (rnd (rnd (1 - p) * a) + rnd (p * b)) - (rnd (rnd (1 - p) * a) + rnd (p * b)))
        + (rnd (rnd (1 - p) * a) - rnd (1 - p) * a) + (rnd (p * b) - p * b)
        + (rnd (1 - p) - (1 - p)) * a := by
    unfold cvms5_linear_rounded
    ring
  rw [hfin]
  have s1 := abs_add
    ((rnd (rnd (rnd (1 - p) * a) + rnd (p * b)) - (rnd (rnd (1 - p) * a) + rnd (p * b)))
        + (rnd (rnd (1 - p) * a) - rnd (1 - p) * a) + (rnd (p * b) - p * b))
    ((rnd (1 - p) - (1 - p)) * a)
  have s2 := abs_add
    ((rnd (rnd (rnd (1 - p) * a) + rnd (p * b)) - (rnd (rnd (1 - p) * a) + rnd (p * b)))
        + (rnd (rnd (1 - p) * a) - rnd (1 - p) * a))
    (rnd (p * b) - p * b)
  have s3 := abs_add
    (rnd (rnd (rnd (1 - p) * a) + rnd (p * b)) - (rnd (rnd (1 - p) * a) + rnd (p * b)))
    (rnd (rnd (1 - p) * a) - rnd (1 - p) * a)
  have e4' : |rnd (rnd (rnd (1 - p) * a) + rnd (p * b)) - (rnd (rnd (1 - p) * a) + rnd (p * b))|
      ≤ u * ((1 + (u + η)) * M + (u * ((1 + (u + η)) * M) + 2 * η)) + η := by
    have := mul_le_mul_of_nonneg_left hAB hu0
    linarith
  have hc : (1 + (u + η)) * (2 + u) ≤ 3 := by nlinarith
  have huM : 0 ≤ u * M := mul_nonneg hu0 hM
  have hηM : 0 ≤ η * M := mul_nonneg hη0 hM
  have hc2 : u * M * ((1 + (u + η)) * (2 + u)) ≤ u * M * 3 :=
    mul_le_mul_of_nonneg_left hc huM
  have hc3 : u * η ≤ 1 / 16 * η := mul_le_mul_of_nonneg_right (by linarith) hη0
  unfold cvms5_rounding_slack
  nlinarith

theorem linear_rounded_field (rnd : ℚ → ℚ) (f : cvms5_properties_t → ℚ)
    (hf : f ∈ cvms5_fields) (percent : ℚ) (x0 x1 : cvms5_properties_t) :
    f (cvms5_linear_interpolation_rounded rnd percent x0 x1)
      = cvms5_linear_rounded rnd percent (f x0) (f x1) := by
  unfold cvms5_fields at hf
  simp only [List.mem_cons, List.mem_singleton, List.not_mem_nil, or_false] at hf
  rcases hf with h | h | h | h | h <;> rw [h] <;> rfl

theorem rounding_slack_nonneg (u η M : ℚ) (hu0 : 0 ≤ u) (hη0 : 0 ≤ η) (hM : 0 ≤ M) :
    0 ≤ cvms5_rounding_slack u η M := by
  unfold cvms5_rounding_slack
  have := mul_nonneg (add_nonneg hu0 hη0) hM
  linarith

theorem linear_rounded_between (rnd : ℚ → ℚ) (u η : ℚ) (hu0 : 0 ≤ u) (hη0 : 0 ≤ η)
    (hκ : u + η ≤ 1 / 16) (hr : ∀ x, |rnd x - x| ≤ u * |x| + η)
    (f : cvms5_properties_t → ℚ) (hf : f ∈ cvms5_fields) (percent lo hi M : ℚ)
    (x0 x1 : cvms5_properties_t) (hp : 0 ≤ percent ∧ percent ≤ 1)
    (h0 : lo ≤ f x0 ∧ f x0 ≤ hi ∧ |f x0| ≤ M) (h1 : lo ≤ f x1 ∧ f x1 ≤ hi ∧ |f x1| ≤ M) :
    lo - cvms5_rounding_slack u η M ≤ f (cvms5_linear_interpolation_rounded rnd percent x0 x1) ∧
    f (cvms5_linear_interpolation_rounded rnd percent x0 x1) ≤ hi + cvms5_rounding_slack u η M ∧
    |f (cvms5_linear_interpolation_rounded rnd percent x0 x1)|
      ≤ M + cvms5_rounding_slack u η M := by
  have herr := linear_rounded_error rnd u η hu0 hη0 hκ hr percent (f x0) (f x1) M hp.1 hp.2
    h0.2.2 h1.2.2
  have hex := linear_between f hf percent lo hi x0 x1 hp ⟨h0.1, h0.2.1⟩ ⟨h1.1, h1.2.1⟩
  have hexM := linear_between f hf percent (-M) M x0 x1 hp (abs_le.mp h0.2.2) (abs_le.mp h1.2.2)
  rw [linear_field f hf] at hex hexM
  rw [linear_rounded_field rnd f hf]
  rw [abs_le] at herr ⊢
  refine ⟨by linarith, by linarith, by linarith, by linarith⟩

theorem bilinear_rounded_between (rnd : ℚ → ℚ) (u η : ℚ) (hu0 : 0 ≤ u) (hη0 : 0 ≤ η)
    (hκ : u + η ≤ 1 / 16) (hr : ∀ x, |rnd x - x| ≤ u * |x| + η)
    (f : cvms5_properties_t → ℚ) (hf : f ∈ cvms5_fields) (x_percent y_percent lo hi M : ℚ)
    (p0 p1 p2 p3 : cvms5_properties_t)
    (hx : 0 ≤ x_percent ∧ x_percent ≤ 1) (hy : 0 ≤ y_percent ∧ y_percent ≤ 1)
    (h : ∀ c ∈ [p0, p1, p2, p3], lo ≤ f c ∧ f c ≤ hi ∧ |f c| ≤ M) :
    lo - (cvms5_rounding_slack u η M
        + cvms5_rounding_slack u η (M + cvms5_rounding_slack u η M))
      ≤ f (cvms5_bilinear_interpolation_rounded rnd x_percent y_percent p0 p1 p2 p3) ∧
    f (cvms5_bilinear_interpolation_rounded rnd x_percent y_percent p0 p1 p2 p3)
      ≤ hi + (cvms5_rounding_slack u η M
        + cvms5_rounding_slack u η (M + cvms5_rounding_slack u η M)) ∧
    |f (cvms5_bilinear_interpolation_rounded rnd x_percent y_percent p0 p1 p2 p3)|
      ≤ M + (cvms5_rounding_slack u η M
        + cvms5_rounding_slack u η (M + cvms5_rounding_slack u η M)) := by
  unfold cvms5_bilinear_interpolation_rounded
  have a := linear_rounded_between rnd u η hu0 hη0 hκ hr f hf x_percent lo hi M p0 p1 hx
    (h p0 (by simp)) (h p1 (by simp))
  have b := linear_rounded_between rnd u η hu0 hη0 hκ hr f hf x_percent lo hi M p2 p3 hx
    (h p2 (by simp)) (h p3 (by simp))
  have c := linear_rounded_between rnd u η hu0 hη0 hκ hr f hf y_percent
    (lo - cvms5_rounding_slack u η M) (hi + cvms5_rounding_slack u η M)
    (M + cvms5_rounding_slack u η M) _ _ hy a b
  dsimp only
  refine ⟨by linarith [c.1], by linarith [c.2.1], by linarith [c.2.2]⟩

theorem trilinear_rounded_between (rnd : ℚ → ℚ) (u η : ℚ) (hu0 : 0 ≤ u) (hη0 : 0 ≤ η)
    (hκ : u + η ≤ 1 / 16) (hr : ∀ x, |rnd x - x| ≤ u * |x| + η)
    (f : cvms5_properties_t → ℚ) (hf : f ∈ cvms5_fields)
    (x_percent y_percent z_percent lo hi M : ℚ) (p0 p1 p2 p3 p4 p5 p6 p7 : cvms5_properties_t)
    (hx : 0 ≤ x_percent ∧ x_percent ≤ 1) (hy : 0 ≤ y_percent ∧ y_percent ≤ 1)
    (hz : 0 ≤ z_percent ∧ z_percent ≤ 1)
    (h : ∀ c ∈ [p0, p1, p2, p3, p4, p5, p6, p7], lo ≤ f c ∧ f c ≤ hi ∧ |f c| ≤ M) :
    lo - (cvms5_rounding_slack u η M
        + cvms5_rounding_slack u η (M + cvms5_rounding_slack u η M)
        + cvms5_rounding_slack u η (M + (cvms5_rounding_slack u η M
          + cvms5_rounding_slack u η (M + cvms5_rounding_slack u η M))))
      ≤ f (cvms5_trilinear_interpolation_rounded rnd x_percent y_percent z_percent
        p0 p1 p2 p3 p4 p5 p6 p7) ∧
    f (cvms5_trilinear_interpolation_rounded rnd x_percent y_percent z_percent
        p0 p1 p2 p3 p4 p5 p6 p7)
      ≤ hi + (cvms5_rounding_slack u η M
        + cvms5_rounding_slack u η (M + cvms5_rounding_slack u η M)
        + cvms5_rounding_slack u η (M + (cvms5_rounding_slack u η M
          + cvms5_rounding_slack u η (M + cvms5_rounding_slack u η M)))) ∧
    |f (cvms5_trilinear_interpolation_rounded rnd x_percent y_percent z_percent
        p0 p1 p2 p3 p4 p5 p6 p7)|
      ≤ M + (cvms5_rounding_slack u η M
        + cvms5_rounding_slack u η (M + cvms5_rounding_slack u η M)
        + cvms5_rounding_slack u η (M + (cvms5_rounding_slack u η M
          + cvms5_rounding_slack u η (M + cvms5_rounding_slack u η M)))) := by
  unfold cvms5_trilinear_interpolation_rounded
  have a := bilinear_rounded_between rnd u η hu0 hη0 hκ hr f hf x_percent y_percent lo hi M
    p0 p1 p2 p3 hx hy (by
      intro c hc
      apply h
      simp only [List.mem_cons, List.mem_singleton, List.not_mem_nil, or_false] at hc ⊢
      tauto)
  have b := bilinear_rounded_between rnd u η hu0 hη0 hκ hr f hf x_percent y_percent lo hi M
    p4 p5 p6 p7 hx hy (by
      intro c hc
      apply h
      simp only [List.mem_cons, List.mem_singleton, List.not_mem_nil, or_false] at hc ⊢
      tauto)
  have c := linear_rounded_between rnd u η hu0 hη0 hκ hr f hf z_percent _ _ _ _ _ hz a b
  dsimp only
  refine ⟨by linarith [c.1], by linarith [c.2.1], by linarith [c.2.2]⟩

theorem binary64_round_error_nat (q : ℚ) :
    |binary64_round q - q| ≤ 1 / 2 ^ 53 * |q| + 1 / 2 ^ 1075 := by
  have h := binary64_round_error q
  rw [show (2 : ℚ) ^ (-53 : Int) = 1 / 2 ^ 53 by
      rw [show (-53 : Int) = -((53 : Nat) : Int) by norm_num, zpow_neg, zpow_natCast, one_div],
    show (2 : ℚ) ^ (-1075 : Int) = 1 / 2 ^ 1075 by
      rw [show (-1075 : Int) = -((1075 : Nat) : Int) by norm_num, zpow_neg, zpow_natCast,
        one_div]] at h
  exact h

theorem binary64_slack_bounds (M : ℚ) (hM : 0 ≤ M) :
    cvms5_rounding_slack (1 / 2 ^ 53) (1 / 2 ^ 1075) M ≤ M / 2 ^ 50 + 1 / 2 ^ 1072 ∧
    cvms5_rounding_slack (1 / 2 ^ 53) (1 / 2 ^ 1075) M
        + cvms5_rounding_slack (1 / 2 ^ 53) (1 / 2 ^ 1075)
          (M + cvms5_rounding_slack (1 / 2 ^ 53) (1 / 2 ^ 1075) M)
      ≤ M / 2 ^ 49 + 1 / 2 ^ 1071 ∧
    cvms5_rounding_slack (1 / 2 ^ 53) (1 / 2 ^ 1075) M
        + cvms5_rounding_slack (1 / 2 ^ 53) (1 / 2 ^ 1075)
          (M + cvms5_rounding_slack (1 / 2 ^ 53) (1 / 2 ^ 1075) M)
        + cvms5_rounding_slack (1 / 2 ^ 53) (1 / 2 ^ 1075)
          (M + (cvms5_rounding_slack (1 / 2 ^ 53) (1 / 2 ^ 1075) M
            + cvms5_rounding_slack (1 / 2 ^ 53) (1 / 2 ^ 1075)
              (M + cvms5_rounding_slack (1 / 2 ^ 53) (1 / 2 ^ 1075) M)))
      ≤ M / 2 ^ 48 + 1 / 2 ^ 1070 := by
  unfold cvms5_rounding_slack
  refine ⟨?_, ?_, ?_⟩
  · norm_num
    linarith
  · norm_num
    linarith
  · norm_num
    linarith

theorem rotation_error_real (c s E N ε : ℝ) (hN : 0 < N)
    (hc : |c - Real.cos (Real.arctan (E / N))| ≤ ε)
    (hs : |s - Real.sin (Real.arctan (E / N))| ≤ ε) :
    |c * E - s * N| ≤ ε * (|E| + N) ∧
    |s * E + c * N - Real.sqrt (N ^ 2 + E ^ 2)| ≤ ε * (|E| + N) ∧
    |c| ≤ 1 + ε ∧ |s| ≤ 1 + ε := by
  have hR0 : 0 < N ^ 2 + E ^ 2 := by positivity
  have hR : 0 < Real.sqrt (N ^ 2 + E ^ 2) := Real.sqrt_pos.mpr hR0
  have hRR : Real.sqrt (N ^ 2 + E ^ 2) ^ 2 = N ^ 2 + E ^ 2 := Real.sq_sqrt hR0.le
  have hq : Real.sqrt (1 + (E / N) ^ 2) = Real.sqrt (N ^ 2 + E ^ 2) / N := by
    rw [show 1 + (E / N) ^ 2 = (N ^ 2 + E ^ 2) / N ^ 2 by field_simp,
      Real.sqrt_div hR0.le, Real.sqrt_sq hN.le]
  have ec : Real.cos (Real.arctan (E / N)) = N / Real.sqrt (N ^ 2 + E ^ 2) := by
    rw [Real.cos_arctan, hq]
    field_simp
  have es : Real.sin (Real.arctan (E / N)) = E / Real.sqrt (N ^ 2 + E ^ 2) := by
    rw [Real.sin_arctan, hq]
    field_simp
  rw [ec] at hc
  rw [es] at hs
  have hx0 : N / Real.sqrt (N ^ 2 + E ^ 2) * E - E / Real.sqrt (N ^ 2 + E ^ 2) * N = 0 := by
    field_simp
    ring
  have hy0 : E / Real.sqrt (N ^ 2 + E ^ 2) * E + N / Real.sqrt (N ^ 2 + E ^ 2) * N
      = Real.sqrt (N ^ 2 + E ^ 2) := by
    field_simp
    ring
  have hcE : |(c - N / Real.sqrt (N ^ 2 + E ^ 2)) * E| ≤ ε * |E| := by
    rw [abs_mul]
    exact mul_le_mul_of_nonneg_right hc (abs_nonneg _)
  have hsN : |(s - E / Real.sqrt (N ^ 2 + E ^ 2)) * N| ≤ ε * N := by
    rw [abs_mul, abs_of_pos hN]
    exact mul_le_mul_of_nonneg_right hs hN.le
  have hsE : |(s - E / Real.sqrt (N ^ 2 + E ^ 2)) * E| ≤ ε * |E| := by
    rw [abs_mul]
    exact mul_le_mul_of_nonneg_right hs (abs_nonneg _)
  have hcN : |(c - N / Real.sqrt (N ^ 2 + E ^ 2)) * N| ≤ ε * N := by
    rw [abs_mul, abs_of_pos hN]
    exact mul_le_mul_of_nonneg_right hc hN.le
  have hc1 : |N / Real.sqrt (N ^ 2 + E ^ 2)| ≤ 1 := by
    rw [← ec]
    exact Real.abs_cos_le_one _
  have hs1 : |E / Real.sqrt (N ^ 2 + E ^ 2)| ≤ 1 := by
    rw [← es]
    exact Real.abs_sin_le_one _
  refine ⟨?_, ?_, ?_, ?_⟩
  · have e : c * E - s * N = (c - N / Real.sqrt (N ^ 2 + E ^ 2)) * E
        - (s - E / Real.sqrt (N ^ 2 + E ^ 2)) * N := by linear_combination hx0
    rw [e]
    have := abs_sub ((c - N / Real.sqrt (N ^ 2 + E ^ 2)) * E)
      ((s - E / Real.sqrt (N ^ 2 + E ^ 2)) * N)
    linarith
  · have e : s * E + c * N - Real.sqrt (N ^ 2 + E ^ 2)
        = (s - E / Real.sqrt (N ^ 2 + E ^ 2)) * E
          + (c - N / Real.sqrt (N ^ 2 + E ^ 2)) * N := by linear_combination hy0
    rw [e]
    have := abs_add ((s - E / Real.sqrt (N ^ 2 + E ^ 2)) * E)
      ((c - N / Real.sqrt (N ^ 2 + E ^ 2)) * N)
    linarith
  · have := abs_sub_abs_le_abs_sub c (N / Real.sqrt (N ^ 2 + E ^ 2))
    linarith
  · have := abs_sub_abs_le_abs_sub s (E / Real.sqrt (N ^ 2 + E ^ 2))
    linarith

theorem rounded_product_error (rnd : ℚ → ℚ) (u η : ℚ) (hu0 : 0 ≤ u) (hu : u ≤ 1 / 16)
    (hη0 : 0 ≤ η) (hr : ∀ x, |rnd x - x| ≤ u * |x| + η) (a E K : ℚ) (ha : |a| ≤ K)
    (hK : K ≤ 17 / 16) :
    |rnd (a * rnd E) - a * E| ≤ 561 / 256 * (u * |E|) + 545 / 256 * η ∧
    |rnd (a * rnd E)| ≤ 17 / 16 * |E| + (561 / 256 * (u * |E|) + 545 / 256 * η) := by
  have hK0 : 0 ≤ K := le_trans (abs_nonneg a) ha
  have hE0 : 0 ≤ |E| := abs_nonneg E
  have hX : 0 ≤ u * |E| := mul_nonneg hu0 hE0
  have e1 := hr E
  have hrE : |rnd E| ≤ |E| + (u * |E| + η) := by
    have := abs_sub_abs_le_abs_sub (rnd E) E
    linarith
  have hprod : |a * rnd E| ≤ K * (|E| + (u * |E| + η)) := by
    rw [abs_mul]
    exact mul_le_mul ha hrE (abs_nonneg _) hK0
  have e2 := hr (a * rnd E)
  have hdiff : |a * (rnd E - E)| ≤ K * (u * |E| + η) := by
    rw [abs_mul]
    exact mul_le_mul ha e1 (abs_nonneg _) hK0
  have k1 : K * (u * |E|) ≤ 17 / 16 * (u * |E|) := mul_le_mul_of_nonneg_right hK hX
  have k2 : K * η ≤ 17 / 16 * η := mul_le_mul_of_nonneg_right hK hη0
  have k3 : K * |E| ≤ 17 / 16 * |E| := mul_le_mul_of_nonneg_right hK hE0
  have k4 : u * (K * (|E| + (u * |E| + η)))
      ≤ 17 / 16 * (u * |E|) + 17 / 256 * (u * |E|) + 17 / 256 * η := by
    have h1 : u * (K * |E|) = K * (u * |E|) := by ring
    have h2 : u * (K * (u * |E|)) ≤ 1 / 16 * (17 / 16 * (u * |E|)) := by
      have := mul_le_mul hu k1 (mul_nonneg hK0 hX) (by norm_num)
      linarith
    have h3 : u * (K * η) ≤ 1 / 16 * (17 / 16 * η) := by
      have := mul_le_mul hu k2 (mul_nonneg hK0 hη0) (by norm_num)
      linarith
    have h4 : u * (K * (|E| + (u * |E| + η)))
        = u * (K * |E|) + u * (K * (u * |E|)) + u * (K * η) := by ring
    rw [h4, h1]
    linarith
  have e2' : |rnd (a * rnd E) - a * rnd E|
      ≤ 17 / 16 * (u * |E|) + 17 / 256 * (u * |E|) + 17 / 256 * η + η := by
    have := mul_le_mul_of_nonneg_left hprod hu0
    linarith
  have hmain : |rnd (a * rnd E) - a * E| ≤ 561 / 256 * (u * |E|) + 545 / 256 * η := by
    have e : rnd (a * rnd E) - a * E = (rnd (a * rnd E) - a * rnd E) + a * (rnd E - E) := by
      ring
    rw [e]
    have := abs_add (rnd (a * rnd E) - a * rnd E) (a * (rnd E - E))
    have h5 : K * (u * |E| + η) = K * (u * |E|) + K * η := by ring
    rw [h5] at hdiff
    linarith
  refine ⟨hmain, ?_⟩
  have haE : |a * E| ≤ 17 / 16 * |E| := by
    rw [abs_mul]
    have := mul_le_mul_of_nonneg_right ha hE0
    linarith
  have := abs_sub_abs_le_abs_sub (rnd (a * rnd E)) (a * E)
  linarith

theorem to_local_rounded_error (rnd : ℚ → ℚ) (u η : ℚ) (hu0 : 0 ≤ u) (hu : u ≤ 1 / 16)
    (hη0 : 0 ≤ η) (hr : ∀ x, |rnd x - x| ≤ u * |x| + η) (c s E N K : ℚ) (hc : |c| ≤ K)
    (hs : |s| ≤ K) (hK : K ≤ 17 / 16) :
    |rnd (rnd (c * rnd E) - rnd (s * rnd N)) - (c * E - s * N)|
      ≤ 4 * (u * (|E| + |N|)) + 6 * η ∧
    |rnd (rnd (s * rnd E) + rnd (c * rnd N)) - (s * E + c * N)|
      ≤ 4 * (u * (|E| + |N|)) + 6 * η := by
  have hE0 : 0 ≤ |E| := abs_nonneg E
  have hN0 : 0 ≤ |N| := abs_nonneg N
  have hXE : 0 ≤ u * |E| := mul_nonneg hu0 hE0
  have hXN : 0 ≤ u * |N| := mul_nonneg hu0 hN0
  have huη : u * η ≤ 1 / 16 * η := mul_le_mul_of_nonneg_right hu hη0
  have huXE : u * (u * |E|) ≤ 1 / 16 * (u * |E|) := mul_le_mul_of_nonneg_right hu hXE
  have huXN : u * (u * |N|) ≤ 1 / 16 * (u * |N|) := mul_le_mul_of_nonneg_right hu hXN
  have key : ∀ (P1 P2 a b : ℚ),
      |P1 - a * E| ≤ 561 / 256 * (u * |E|) + 545 / 256 * η →
      |P1| ≤ 17 / 16 * |E| + (561 / 256 * (u * |E|) + 545 / 256 * η) →
      |P2 - b * N| ≤ 561 / 256 * (u * |N|) + 545 / 256 * η →
      |P2| ≤ 17 / 16 * |N| + (561 / 256 * (u * |N|) + 545 / 256 * η) →
      u * (|P1| + |P2|) + η + |P1 - a * E| + |P2 - b * N|
        ≤ 4 * (u * (|E| + |N|)) + 6 * η := by
    intro P1 P2 a b h1 h2 h3 h4
    have h5 : u * (|P1| + |P2|)
        ≤ u * (17 / 16 * |E| + (561 / 256 * (u * |E|) + 545 / 256 * η)
          + (17 / 16 * |N| + (561 / 256 * (u * |N|) + 545 / 256 * η))) :=
      mul_le_mul_of_nonneg_left (by linarith) hu0
    have h6 : u * (17 / 16 * |E| + (561 / 256 * (u * |E|) + 545 / 256 * η)
          + (17 / 16 * |N| + (561 / 256 * (u * |N|) + 545 / 256 * η)))
        = 17 / 16 * (u * |E|) + 561 / 256 * (u * (u * |E|)) + 545 / 128 * (u * η)
          + 17 / 16 * (u * |N|) + 561 / 256 * (u * (u * |N|)) := by ring
    rw [h6] at h5
    have h7 : u * (|E| + |N|) = u * |E| + u * |N| := by ring
    rw [h7]
    linarith
  obtain ⟨a1, a2⟩ := rounded_product_error rnd u η hu0 hu hη0 hr c E K hc hK
  obtain ⟨b1, b2⟩ := rounded_product_error rnd u η hu0 hu hη0 hr s N K hs hK
  obtain ⟨c1, c2⟩ := rounded_product_error rnd u η hu0 hu hη0 hr s E K hs hK
  obtain ⟨d1, d2⟩ := rounded_product_error rnd u η hu0 hu hη0 hr c N K hc hK
  constructor
  · have e := hr (rnd (c * rnd E) - rnd (s * rnd N))
    have t1 := abs_sub (rnd (c * rnd E)) (rnd (s * rnd N))
    have e' : rnd (rnd (c * rnd E) - rnd (s * rnd N)) - (c * E - s * N)
        = (rnd (rnd (c * rnd E) - rnd (s * rnd N)) - (rnd (c * rnd E) - rnd (s * rnd N)))
          + ((rnd (c * rnd E) - c * E) - (rnd (s * rnd N) - s * N)) := by ring
    rw [e']
    have t2 := abs_add
      (rnd (rnd (c * rnd E) - rnd (s * rnd N)) - (rnd (c * rnd E) - rnd (s * rnd N)))
      ((rnd (c * rnd E) - c * E) - (rnd (s * rnd N) - s * N))
    have t3 := abs_sub (rnd (c * rnd E) - c * E) (rnd (s * rnd N) - s * N)
    have t4 := key _ _ c s a1 a2 b1 b2
    have t5 : u * |rnd (c * rnd E) - rnd (s * rnd N)|
        ≤ u * (|rnd (c * rnd E)| + |rnd (s * rnd N)|) := mul_le_mul_of_nonneg_left t1 hu0
    linarith
  · have e := hr (rnd (s * rnd E) + rnd (c * rnd N))
    have t1 := abs_add (rnd (s * rnd E)) (rnd (c * rnd N))
    have e' : rnd (rnd (s * rnd E) + rnd (c * rnd N)) - (s * E + c * N)
        = (rnd (rnd (s * rnd E) + rnd (c * rnd N)) - (rnd (s * rnd E) + rnd (c * rnd N)))
          + ((rnd (s * rnd E) - s * E) + (rnd (c * rnd N) - c * N)) := by ring
    rw [e']
    have t2 := abs_add
      (rnd (rnd (s * rnd E) + rnd (c * rnd N)) - (rnd (s * rnd E) + rnd (c * rnd N)))
      ((rnd (s * rnd E) - s * E) + (rnd (c * rnd N) - c * N))
    have t3 := abs_add (rnd (s * rnd E) - s * E) (rnd (c * rnd N) - c * N)
    have t4 := key _ _ s c c1 c2 d1 d2
    have t5 : u * |rnd (s * rnd E) + rnd (c * rnd N)|
        ≤ u * (|rnd (s * rnd E)| + |rnd (c * rnd N)|) := mul_le_mul_of_nonneg_left t1 hu0
    linarith

theorem demo_diagonal_init_model_code (dir label : String) :
    cvms5_init_model_code demo_world_diagonal dir label = 2 := by
  rfl

set_option maxRecDepth 8000 in
theorem demo_diagonal_init_vs30_code (dir : String) :
    cvms5_init_vs30_code demo_world_diagonal dir = SUCCESS := by
  rfl

theorem demo_diagonal_init (dir label : String) :
    cvms5_init demo_world_diagonal dir label
      = (SUCCESS, some (cvms5_init_globals demo_world_diagonal dir label
          (fun lat lon => (lon, lat), fun lat _ => if lat > 5000 then 1 else 0)
          (fun lat lon => (lon, lat), fun lat _ => if lat > 5000 then 1 else 0))) := by
  rw [init_unfold, if_neg (by rw [demo_diagonal_init_model_code]; decide),
    if_neg (by rw [demo_diagonal_init_vs30_code]; exact not_not.mpr rfl)]
  rfl

theorem demo_diagonal_configuration (dir label : String) (g1 g2 : (ℚ → ℚ → ℚ × ℚ) × (ℚ → ℚ → Int)) :
    (cvms5_init_globals demo_world_diagonal dir label g1 g2).cvms5_configuration
      = { utm_zone := 11, model_dir := "i26", gtl := 1, nx := 3, ny := 3, nz := 3, depth := 3000,
          top_left_corner_e := 2000, top_left_corner_n := 3000,
          top_right_corner_e := 3000, top_right_corner_n := 2000,
          bottom_left_corner_e := 1000, bottom_left_corner_n := 2000,
          bottom_right_corner_e := 2000, bottom_right_corner_n := 1000,
          depth_interval := 1000, p0 := 1, p1 := 1, p2 := 1, p3 := 1, p4 := 1, p5 := 1 } := by
  rfl

theorem to_local_rounded_origin (m : cvms5_state) :
    cvms5_to_local_rounded binary64_round m m.cvms5_configuration.bottom_left_corner_e
      m.cvms5_configuration.bottom_left_corner_n = (0, 0) := by
  unfold cvms5_to_local_rounded
  simp only [sub_self, binary64_round_zero, mul_zero, add_zero]

theorem point_to_local_rounded (rnd : ℚ → ℚ) (m : cvms5_state) (pt : cvms5_point_t) :
    point_x_rounded rnd m pt
      = (cvms5_to_local_rounded rnd m (m.cvms5_geo2utm pt.latitude pt.longitude).1
          (m.cvms5_geo2utm pt.latitude pt.longitude).2).1 ∧
    point_y_rounded rnd m pt
      = (cvms5_to_local_rounded rnd m (m.cvms5_geo2utm pt.latitude pt.longitude).1
          (m.cvms5_geo2utm pt.latitude pt.longitude).2).2 := ⟨rfl, rfl⟩

theorem rotation_left_edge_rounded (c s H E N ε εh : ℚ) (hN : 0 < N) (hε : ε ≤ 1 / 16)
    (hcos : |(c : ℝ) - Real.cos (Real.arctan ((E : ℝ) / (N : ℝ)))| ≤ (ε : ℝ))
    (hsin : |(s : ℝ) - Real.sin (Real.arctan ((E : ℝ) / (N : ℝ)))| ≤ (ε : ℝ))
    (hsqrt : |(H : ℝ) - Real.sqrt ((N : ℝ) ^ 2 + (E : ℝ) ^ 2)| ≤ (εh : ℝ)) :
    (|binary64_round (binary64_round (c * binary64_round E)
        - binary64_round (s * binary64_round N))|
      ≤ (ε + 1 / 2 ^ 51) * (|E| + N) + 1 / 2 ^ 1072 ∧
    |binary64_round (binary64_round (s * binary64_round E)
        + binary64_round (c * binary64_round N)) - H|
      ≤ (ε + 1 / 2 ^ 51) * (|E| + N) + εh + 1 / 2 ^ 1072) ∧
    (|c * E - s * N| ≤ ε * (|E| + N) ∧ |s * E + c * N - H| ≤ ε * (|E| + N) + εh) := by
  have hNr : (0 : ℝ) < (N : ℝ) := by exact_mod_cast hN
  obtain ⟨r1, r2, r3, r4⟩ := rotation_error_real (c : ℝ) (s : ℝ) (E : ℝ) (N : ℝ) (ε : ℝ) hNr
    hcos hsin
  have q1 : |c * E - s * N| ≤ ε * (|E| + N) := by exact_mod_cast r1
  have q2 : |s * E + c * N - H| ≤ ε * (|E| + N) + εh := by
    have e : (s : ℝ) * E + c * N - H
        = ((s : ℝ) * E + c * N - Real.sqrt ((N : ℝ) ^ 2 + (E : ℝ) ^ 2))
          - ((H : ℝ) - Real.sqrt ((N : ℝ) ^ 2 + (E : ℝ) ^ 2)) := by ring
    have t := abs_sub ((s : ℝ) * E + c * N - Real.sqrt ((N : ℝ) ^ 2 + (E : ℝ) ^ 2))
      ((H : ℝ) - Real.sqrt ((N : ℝ) ^ 2 + (E : ℝ) ^ 2))
    rw [← e] at t
    have : |(s : ℝ) * E + c * N - H| ≤ (ε : ℝ) * (|(E : ℝ)| + N) + εh := by linarith
    exact_mod_cast this
  have q3 : |c| ≤ 1 + ε := by exact_mod_cast r3
  have q4 : |s| ≤ 1 + ε := by exact_mod_cast r4
  obtain ⟨b1, b2⟩ := to_local_rounded_error binary64_round (1 / 2 ^ 53) (1 / 2 ^ 1075)
    (by positivity) (by norm_num) (by positivity) binary64_round_error_nat c s E N (1 + ε)
    q3 q4 (by linarith)
  have hNa : |N| = N := abs_of_pos hN
  rw [hNa] at b1 b2
  have hL : 0 ≤ |E| + N := by positivity
  have hη : (6 : ℚ) * (1 / 2 ^ 1075) ≤ 1 / 2 ^ 1072 := by norm_num
  have hu : (4 : ℚ) * (1 / 2 ^ 53 * (|E| + N)) = 1 / 2 ^ 51 * (|E| + N) := by ring
  rw [hu] at b1 b2
  refine ⟨⟨?_, ?_⟩, q1, q2⟩
  · have t := abs_sub_abs_le_abs_sub
      (binary64_round (binary64_round (c * binary64_round E)
        - binary64_round (s * binary64_round N))) (c * E - s * N)
    have : (ε + 1 / 2 ^ 51) * (|E| + N) = ε * (|E| + N) + 1 / 2 ^ 51 * (|E| + N) := by ring
    rw [this]
    linarith
  · have e : binary64_round (binary64_round (s * binary64_round E)
        + binary64_round (c * binary64_round N)) - H
        = (binary64_round (binary64_round (s * binary64_round E)
            + binary64_round (c * binary64_round N)) - (s * E + c * N))
          + (s * E + c * N - H) := by ring
    rw [e]
    have t := abs_add
      (binary64_round (binary64_round (s * binary64_round E)
            + binary64_round (c * binary64_round N)) - (s * E + c * N))
      (s * E + c * N - H)
    have : (ε + 1 / 2 ^ 51) * (|E| + N) = ε * (|E| + N) + 1 / 2 ^ 51 * (|E| + N) := by ring
    rw [this]
    linarith

theorem round_half_even_tie (q : ℚ) (f : Int) (hq : q = (f : ℚ) + 1 / 2) :
    round_half_even q = if f % 2 = 0 then f else f + 1 := by
  have hf : ⌊q⌋ = f := by
    rw [Int.floor_eq_iff, hq]
    constructor <;> linarith
  unfold round_half_even
  rw [hf, hq, if_neg (by norm_num), if_neg (by norm_num)]

theorem binary64_round_tie (q : ℚ) (e f : Int) (he : -1022 ≤ e) (h1 : (2 : ℚ) ^ e ≤ |q|)
    (h2 : |q| < (2 : ℚ) ^ (e + 1)) (hq : q / (2 : ℚ) ^ (e - 52) = (f : ℚ) + 1 / 2) :
    binary64_round q = ((if f % 2 = 0 then f else f + 1 : Int) : ℚ) * (2 : ℚ) ^ (e - 52) := by
  unfold binary64_round
  rw [binary64_exponent_eq q e he h1 h2, round_half_even_tie _ f hq]

theorem demo_diagonal_rounded :
    binary64_round (6369051672525773 / 9007199254740992 * 1000)
      = 3109888511975475 / 4398046511104 ∧
    binary64_round (6369051672525772 / 9007199254740992 * 1000)
      = 6219777023950949 / 8796093022208 ∧
    binary64_round (3109888511975475 / 4398046511104 - 6219777023950949 / 8796093022208)
      = 1 / 2 ^ 43 ∧
    binary64_round (6219777023950949 / 8796093022208 + 3109888511975475 / 4398046511104)
      = 3109888511975475 / 2199023255552 := by
  refine ⟨?_, ?_, ?_, ?_⟩
  · rw [binary64_round_eq _ 9 6219777023950950 (by norm_num)
      (by norm_num [abs_of_pos]) (by norm_num [abs_of_pos]) (by norm_num [abs_lt])]
    norm_num
  · rw [binary64_round_eq _ 9 6219777023950949 (by norm_num)
      (by norm_num [abs_of_pos]) (by norm_num [abs_of_pos]) (by norm_num [abs_lt])]
    norm_num
  · rw [binary64_round_eq _ (-43) 4503599627370496 (by norm_num)
      (by norm_num [abs_of_pos]) (by norm_num [abs_of_pos]) (by norm_num [abs_lt])]
    norm_num
  · rw [binary64_round_tie _ 10 6219777023950949 (by norm_num)
      (by norm_num [abs_of_pos]) (by norm_num [abs_of_pos]) (by norm_num)]
    norm_num

theorem demo_diagonal_accuracy :
    |((6369051672525773 / 9007199254740992 : ℚ) : ℝ)
        - Real.cos (Real.arctan (((2000 - 1000 : ℚ) : ℝ) / ((3000 - 2000 : ℚ) : ℝ)))|
      ≤ ((1 / 2 ^ 53 : ℚ) : ℝ) ∧
    |((6369051672525772 / 9007199254740992 : ℚ) : ℝ)
        - Real.sin (Real.arctan (((2000 - 1000 : ℚ) : ℝ) / ((3000 - 2000 : ℚ) : ℝ)))|
      ≤ ((1 / 2 ^ 53 : ℚ) : ℝ) ∧
    |((3109888511975475 / 2199023255552 : ℚ) : ℝ)
        - Real.sqrt (((3000 - 2000 : ℚ) : ℝ) ^ 2 + ((2000 - 1000 : ℚ) : ℝ) ^ 2)|
      ≤ ((1 / 2 ^ 43 : ℚ) : ℝ) := by
  have e1 : ((2000 - 1000 : ℚ) : ℝ) / ((3000 - 2000 : ℚ) : ℝ) = 1 := by norm_num
  have lo : (6369051672525772 / 4503599627370496 : ℝ) ≤ Real.sqrt 2 :=
    Real.le_sqrt_of_sq_le (by norm_num)
  have hi : Real.sqrt 2 ≤ (6369051672525773 / 4503599627370496 : ℝ) :=
    Real.sqrt_le_iff.mpr ⟨by norm_num, by norm_num⟩
  have lo2 : (3109888511975475 / 2199023255552 - 1 / 2 ^ 43 : ℝ) ≤ Real.sqrt 2000000 :=
    Real.le_sqrt_of_sq_le (by norm_num)
  have hi2 : Real.sqrt 2000000 ≤ (3109888511975475 / 2199023255552 + 1 / 2 ^ 43 : ℝ) :=
    Real.sqrt_le_iff.mpr ⟨by norm_num, by norm_num⟩
  refine ⟨?_, ?_, ?_⟩
  · rw [e1, Real.arctan_one, Real.cos_pi_div_four, abs_le]
    push_cast
    constructor <;> linarith
  · rw [e1, Real.arctan_one, Real.sin_pi_div_four, abs_le]
    push_cast
    constructor <;> linarith
  · rw [show ((3000 - 2000 : ℚ) : ℝ) ^ 2 + ((2000 - 1000 : ℚ) : ℝ) ^ 2 = 2000000 by norm_num,
      abs_le]
    push_cast
    constructor <;> linarith
/-! ## The claims -/

/-- C1: a point with negative depth gets all five properties `-1`, whatever its latitude and
longitude and whatever the state; the iteration makes no access at all (no transform, no grid
read: it adds nothing to the trace), leaves the loop state as it is and the loop goes on with the
next point. Stated for one iteration at any place of a batch, for the entry of any batch the call
answers, and for a batch of such points (which returns `SUCCESS` with an empty trace). -/
theorem C1_negative_depth_is_data_gap (m : cvms5_state) (fuel : Nat) :
    (∀ (gtl : cvms5_point_t → cvms5_properties_t →
          Option (Int × cvms5_properties_t × List cvms5_event))
        (xp yp : ℚ) (pt : cvms5_point_t) (rest : List cvms5_point_t), pt.depth < 0 →
        cvms5_query_loop gtl m xp yp (pt :: rest) =
          (cvms5_query_loop gtl m xp yp rest).map (fun r =>
            { code := r.code, data := cvms5_not_found :: r.data, trace := r.trace })) ∧
    (∀ (pts : List cvms5_point_t) (r : cvms5_result) (i : Nat) (pt : cvms5_point_t)
        (d : cvms5_properties_t), cvms5_query fuel m pts = some r → pts[i]? = some pt →
        r.data[i]? = some d → pt.depth < 0 →
        d.vp = -1 ∧ d.vs = -1 ∧ d.rho = -1 ∧ d.qp = -1 ∧ d.qs = -1) ∧
    (∀ pts : List cvms5_point_t, (∀ pt ∈ pts, pt.depth < 0) →
        cvms5_query (fuel + 1) m pts =
          some { code := SUCCESS, data := pts.map (fun _ => cvms5_not_found), trace := [] }) := by
  have step : ∀ (gtl : cvms5_point_t → cvms5_properties_t →
          Option (Int × cvms5_properties_t × List cvms5_event))
        (xp yp : ℚ) (pt : cvms5_point_t) (rest : List cvms5_point_t), pt.depth < 0 →
        cvms5_query_loop gtl m xp yp (pt :: rest) =
          (cvms5_query_loop gtl m xp yp rest).map (fun r =>
            { code := r.code, data := cvms5_not_found :: r.data, trace := r.trace }) := by
    intro gtl xp yp pt rest h
    rw [loop_cons_next gtl m xp yp pt rest _ (body_datagap gtl m xp yp pt h) rfl]
    simp
  refine ⟨step, ?_, ?_⟩
  · intro pts r i pt d h hp hd hneg
    obtain ⟨n, xq, yq, s, _, hs, hsd⟩ := query_get fuel m pts r h i pt d hp hd
    rw [body_datagap _ m xq yq pt hneg] at hs
    cases hs
    subst hsd
    simp [cvms5_not_found]
  · intro pts hall
    rw [query_succ]
    generalize cvms5_get_vs30_based_gtl (fun q => cvms5_query fuel m q) m = gtl
    induction pts with
    | nil => rw [loop_nil]; rfl
    | cons p rest ih =>
      rw [step gtl 0 0 p rest (hall p (List.mem_cons_self _ _)),
        ih (fun q hq => hall q (List.mem_cons_of_mem _ hq))]
      rfl

theorem C1_negative_depth_is_data_gap_witness :
    demo_point_gap.depth < 0 ∧
    cvms5_query 1 demo_state [demo_point_gap] =
      some { code := SUCCESS, data := [cvms5_not_found], trace := [] } :=
  ⟨by norm_num [demo_point_gap],
   (C1_negative_depth_is_data_gap demo_state 0).2.2 [demo_point_gap]
     (by intro pt hpt; simp only [List.mem_singleton] at hpt; subst hpt
         norm_num [demo_point_gap])⟩

/-- C2 (the code at the failing input): for `demo_point_edge` the x cell index is
`2 = nx - 1` and the y cell index is `3 = ny`, the depth is not negative and the transform
succeeds, yet the call returns `vp = 2470`, `vs = 1470` (the values stored at linear index 3,
read as cell `(2, 3, 0)`) with derived `qp`, `qs`, not the five `-1`: the bilinear shortcut is
taken before the boundary check. -/
theorem C2_shortcut_precedes_boundary_check :
    0 ≤ demo_point_edge.depth ∧
    load_x_coord demo_state demo_point_edge = demo_state.cvms5_configuration.nx - 1 ∧
    load_y_coord demo_state demo_point_edge = demo_state.cvms5_configuration.ny ∧
    (cvms5_query 2 demo_state [demo_point_edge]).map
        (fun r => (r.code, r.data.map (fun d => (d.vp, d.vs, d.qp, d.qs))))
      = some (SUCCESS, [(2470, 1470, 441 / 10, 147 / 5)]) := by
  have hx : load_x_coord demo_state demo_point_edge = 2 := by
    rw [demo_load_x]
    exact floor_eq_of (by norm_num [demo_point_edge]) (by norm_num [demo_point_edge])
  have hy : load_y_coord demo_state demo_point_edge = 3 := by
    rw [demo_load_y]
    exact floor_eq_of (by norm_num [demo_point_edge]) (by norm_num [demo_point_edge])
  have hz : load_z_coord demo_state demo_point_edge = 0 := by
    rw [demo_load_z]
    have : ⌊demo_point_edge.depth / 1000⌋ = 2 :=
      floor_eq_of (by norm_num [demo_point_edge]) (by norm_num [demo_point_edge])
    rw [this]
    exact c_trunc_of_nonneg (by norm_num) (by norm_num) (by norm_num)
  have hzp : z_percent demo_state demo_point_edge = 0 := by
    rw [demo_z_percent, fmod_of_nonneg (k := 2) (by norm_num [demo_point_edge])
      (by norm_num [demo_point_edge]) (by norm_num [demo_point_edge])]
    norm_num [demo_point_edge]
  have hd : ¬ demo_point_edge.depth < 0 := by norm_num [demo_point_edge]
  have he : demo_state.cvms5_geo2utm_errno demo_point_edge.latitude
      demo_point_edge.longitude = 0 := by
    norm_num [demo_state, demo_point_edge]
  refine ⟨by norm_num [demo_point_edge], by rw [hx]; rfl, by rw [hy]; rfl, ?_⟩
  have hb := body_shortcut
    (cvms5_get_vs30_based_gtl (fun q => cvms5_query 1 demo_state q) demo_state)
    demo_state 0 0 demo_point_edge hd he ⟨hz, hzp⟩
  rw [hx, hy] at hb
  simp only [demo_read] at hb
  rw [query_succ, loop_cons_next _ _ _ _ _ _ _ hb rfl, loop_nil]
  simp only [Option.map_some', List.map_cons, List.map_nil, derived_vs, derived_vp, derived_qp,
    derived_qs]
  norm_num [cvms5_bilinear_interpolation, cvms5_linear_interpolation]

/-- C3 (the code at the failing input): no transform fails, and the point `demo_point_node`
(exactly on a grid node, at the depth of the bilinear shortcut) gets `vp = 2500`, `vs = 1500` from
a one-point call but `vp = 4975/2`, `vs = 2975/2` as second point of a batch whose first point is
`demo_point_tri`: the shortcut interpolates with the offsets `x_percent`, `y_percent` left by the
preceding point. -/
theorem C3_batch_result_depends_on_preceding_point :
    (∀ pt ∈ [demo_point_tri, demo_point_node],
      demo_state.cvms5_geo2utm_errno pt.latitude pt.longitude = 0) ∧
    (cvms5_query 2 demo_state [demo_point_node]).map
        (fun r => (r.code, r.data.map (fun d => (d.vp, d.vs))))
      = some (SUCCESS, [(2500, 1500)]) ∧
    (cvms5_query 2 demo_state [demo_point_tri, demo_point_node]).map
        (fun r => (r.code, r.data.map (fun d => (d.vp, d.vs))))
      = some (SUCCESS, [(5065 / 2, 3065 / 2), (4975 / 2, 2975 / 2)]) := by
  refine ⟨?_, ?_, ?_⟩
  · intro pt hpt
    simp only [List.mem_cons, List.mem_singleton, List.not_mem_nil, or_false] at hpt
    rcases hpt with h | h <;> subst h <;>
      norm_num [demo_state, demo_point_tri, demo_point_node]
  · obtain ⟨s, hs, hr, hvp, hvs⟩ := demo_node_body
      (cvms5_get_vs30_based_gtl (fun q => cvms5_query 1 demo_state q) demo_state) 0 0
    rw [query_succ, loop_cons_next _ _ _ _ _ _ _ hs hr, loop_nil]
    simp only [Option.map_some', List.map_cons, List.map_nil, hvp, hvs]
    norm_num
  · obtain ⟨s, hs, hr, hxp, hyp, hvp, hvs⟩ := demo_tri_body
      (cvms5_get_vs30_based_gtl (fun q => cvms5_query 1 demo_state q) demo_state) 0 0
    obtain ⟨s2, hs2, hr2, hvp2, hvs2⟩ := demo_node_body
      (cvms5_get_vs30_based_gtl (fun q => cvms5_query 1 demo_state q) demo_state)
      s.x_percent s.y_percent
    rw [query_succ, loop_cons_next _ _ _ _ _ _ _ hs hr, loop_cons_next _ _ _ _ _ _ _ hs2 hr2,
      loop_nil]
    simp only [Option.map_some', List.map_cons, List.map_nil, hvp, hvs, hvp2, hvs2, hxp, hyp]
    norm_num

/-- C4 (the code at the failing inputs): two one-point calls in which no transform fails and
the depth is not negative, but which perform an access that is undefined in C, so that the
program does not return `SUCCESS` there although the embedding, which gives every access a value,
does. For `demo_point_far`, outside the grid at the depth of the
bilinear shortcut, the call reads cell `(1000000, 0, 0)`: linear index `-2999994` of a resident
array of 27 floats. For `demo_point_tri` with Vp on disk and Vs resident the call reads Vp
through the `NULL` stream. -/
theorem C4_undefined_access_without_projection_error :
    (0 ≤ demo_point_far.depth ∧
      demo_state.cvms5_geo2utm_errno demo_point_far.latitude demo_point_far.longitude = 0 ∧
      demo_state.cvms5_velocity_model.vs_status = 2 ∧
      demo_state.cvms5_configuration.nx * demo_state.cvms5_configuration.ny
        * demo_state.cvms5_configuration.nz = 27 ∧
      cvms5_location demo_state 1000000 0 0 = -2999994 ∧
      ∃ r : cvms5_result, cvms5_query 2 demo_state [demo_point_far] = some r ∧
        r.code = SUCCESS ∧
        cvms5_event.read_properties 1000000 0 0 ∈ r.trace ∧
        cvms5_undefined_access demo_state (cvms5_event.read_properties 1000000 0 0)) ∧
    (0 ≤ demo_point_tri.depth ∧
      demo_state_vp_disk.cvms5_geo2utm_errno demo_point_tri.latitude demo_point_tri.longitude
        = 0 ∧
      demo_state_vp_disk.cvms5_velocity_model.vp_status = 1 ∧
      demo_state_vp_disk.cvms5_velocity_model.vs_status = 2 ∧
      ∃ r : cvms5_result, cvms5_query 2 demo_state_vp_disk [demo_point_tri] = some r ∧
        r.code = SUCCESS ∧
        cvms5_event.fread_null 15 ∈ r.trace ∧
        cvms5_undefined_access demo_state_vp_disk (cvms5_event.fread_null 15)) := by
  constructor
  · have hx : load_x_coord demo_state demo_point_far = 1000000 := by
      rw [demo_load_x]
      exact floor_eq_of (by norm_num [demo_point_far]) (by norm_num [demo_point_far])
    have hy : load_y_coord demo_state demo_point_far = 0 := by
      rw [demo_load_y]
      exact floor_eq_of (by norm_num [demo_point_far]) (by norm_num [demo_point_far])
    have hz : load_z_coord demo_state demo_point_far = 0 := by
      rw [demo_load_z]
      have : ⌊demo_point_far.depth / 1000⌋ = 2 :=
        floor_eq_of (by norm_num [demo_point_far]) (by norm_num [demo_point_far])
      rw [this]
      exact c_trunc_of_nonneg (by norm_num) (by norm_num) (by norm_num)
    have hzp : z_percent demo_state demo_point_far = 0 := by
      rw [demo_z_percent, fmod_of_nonneg (k := 2) (by norm_num [demo_point_far])
        (by norm_num [demo_point_far]) (by norm_num [demo_point_far])]
      norm_num [demo_point_far]
    have hd : ¬ demo_point_far.depth < 0 := by norm_num [demo_point_far]
    have he : demo_state.cvms5_geo2utm_errno demo_point_far.latitude
        demo_point_far.longitude = 0 := demo_errno demo_point_far (by norm_num [demo_point_far])
    have hb := body_shortcut
      (cvms5_get_vs30_based_gtl (fun q => cvms5_query 1 demo_state q) demo_state)
      demo_state 0 0 demo_point_far hd he ⟨hz, hzp⟩
    rw [hx, hy] at hb
    have hl : cvms5_location demo_state 1000000 0 0 = -2999994 := by decide
    refine ⟨by norm_num [demo_point_far], he, rfl, by decide, hl, ?_⟩
    rw [query_succ, loop_cons_next _ _ _ _ _ _ _ hb rfl, loop_nil]
    refine ⟨_, rfl, rfl, ?_, ?_⟩
    · simp [demo_read]
    · decide
  · have hx : load_x_coord demo_state_vp_disk demo_point_tri = 0 :=
      (demo_cell_passed demo_point_tri rfl rfl (by norm_num [demo_point_tri])
        (by norm_num [demo_point_tri])).2.1
    have hy : load_y_coord demo_state_vp_disk demo_point_tri = 0 :=
      (demo_cell_passed demo_point_tri rfl rfl (by norm_num [demo_point_tri])
        (by norm_num [demo_point_tri])).2.2.1
    have hz : load_z_coord demo_state_vp_disk demo_point_tri = 1 := by
      show load_z_coord demo_state demo_point_tri = 1
      rw [demo_load_z]
      have : ⌊demo_point_tri.depth / 1000⌋ = 1 :=
        floor_eq_of (by norm_num [demo_point_tri]) (by norm_num [demo_point_tri])
      rw [this]
      exact c_trunc_of_nonneg (by norm_num) (by norm_num) (by norm_num)
    have hd : ¬ demo_point_tri.depth < 0 := by norm_num [demo_point_tri]
    have he : demo_state_vp_disk.cvms5_geo2utm_errno demo_point_tri.latitude
        demo_point_tri.longitude = 0 := demo_errno demo_point_tri (by norm_num [demo_point_tri])
    have ho : ¬ cvms5_outside demo_state_vp_disk demo_point_tri := by
      unfold cvms5_outside
      rw [hx, hy, hz]
      decide
    have hb := body_trilinear
      (cvms5_get_vs30_based_gtl (fun q => cvms5_query 1 demo_state_vp_disk q)
        demo_state_vp_disk)
      demo_state_vp_disk 0 0 demo_point_tri hd he (by rw [hz]; rintro ⟨h, _⟩; omega) ho
      (by
        rintro ⟨h, _⟩
        norm_num [demo_point_tri, demo_state_vp_disk, demo_state, demo_configuration] at h)
    rw [hx, hy, hz] at hb
    refine ⟨by norm_num [demo_point_tri], he, rfl, rfl, ?_⟩
    rw [query_succ, loop_cons_next _ _ _ _ _ _ _ hb rfl, loop_nil]
    refine ⟨_, rfl, rfl, ?_, trivial⟩
    have h15 : cvms5_event.fread_null 15 ∈ (cvms5_read_properties demo_state_vp_disk 0 0 1).2 := by
      decide
    simp [h15]

/-- C5: for a point of non-negative depth whose transform succeeds and which takes the bilinear
shortcut or passes the boundary check (so it leaves the iteration neither through the
negative-depth branch nor through the boundary sentinel), the entry the call returns has
`rho = cvms5_calculate_density (vs)`, `qs = 0.02 vs` when `vs < 1500` and `0.10 vs` otherwise, and
`qp = 1.5 qs`, with `vs` the returned Vs. This holds in one iteration for whatever the blend
(any `gtl`) or the interpolation left in `rho`, `qp`, `qs`: those values are overwritten. With
fuel for one nested call the call does return. -/
theorem C5_density_and_attenuation_recomputed (m : cvms5_state) (pt : cvms5_point_t)
    (hdepth : 0 ≤ pt.depth) (herr : m.cvms5_geo2utm_errno pt.latitude pt.longitude = 0)
    (hsent : (load_z_coord m pt = 0 ∧ z_percent m pt = 0) ∨ ¬ cvms5_outside m pt) :
    (∀ (gtl : cvms5_point_t → cvms5_properties_t →
          Option (Int × cvms5_properties_t × List cvms5_event)) (xp yp : ℚ) (s : cvms5_step),
        cvms5_query_body gtl m xp yp pt = some s →
        s.data.rho = cvms5_calculate_density m s.data.vs ∧
        s.data.qs = (if s.data.vs < 1500 then 0.02 * s.data.vs else 0.10 * s.data.vs) ∧
        s.data.qp = 1.5 * s.data.qs) ∧
    (∀ (fuel : Nat) (pts : List cvms5_point_t) (r : cvms5_result) (i : Nat)
        (d : cvms5_properties_t), cvms5_query fuel m pts = some r → pts[i]? = some pt →
        r.data[i]? = some d →
        d.rho = cvms5_calculate_density m d.vs ∧
        d.qs = (if d.vs < 1500 then 0.02 * d.vs else 0.10 * d.vs) ∧
        d.qp = 1.5 * d.qs) ∧
    (∀ (fuel : Nat) (pts : List cvms5_point_t), (cvms5_query (fuel + 2) m pts).isSome = true) := by
  have hbody : ∀ (gtl : cvms5_point_t → cvms5_properties_t →
          Option (Int × cvms5_properties_t × List cvms5_event)) (xp yp : ℚ) (s : cvms5_step),
        cvms5_query_body gtl m xp yp pt = some s →
        s.data.rho = cvms5_calculate_density m s.data.vs ∧
        s.data.qs = (if s.data.vs < 1500 then 0.02 * s.data.vs else 0.10 * s.data.vs) ∧
        s.data.qp = 1.5 * s.data.qs := by
    intro gtl xp yp s h
    obtain ⟨raw, hraw⟩ := body_derived gtl m xp yp pt s h hdepth herr hsent
    rw [hraw]
    exact derived_rules m raw
  refine ⟨hbody, ?_, fun fuel pts => query_isSome fuel m pts⟩
  intro fuel pts r i d h hp hd
  obtain ⟨n, xq, yq, s, _, hs, hsd⟩ := query_get fuel m pts r h i pt d hp hd
  rw [← hsd]
  exact hbody _ xq yq s hs

theorem C5_density_and_attenuation_recomputed_witness :
    ∃ (r : cvms5_result) (d : cvms5_properties_t),
      cvms5_query 2 demo_state [demo_point_node] = some r ∧ r.data[0]? = some d ∧
      d.rho = cvms5_calculate_density demo_state d.vs ∧
      d.qs = (if d.vs < 1500 then 0.02 * d.vs else 0.10 * d.vs) ∧ d.qp = 1.5 * d.qs := by
  have hx : load_x_coord demo_state demo_point_node = 0 := by
    rw [demo_load_x]
    exact floor_eq_of (by norm_num [demo_point_node]) (by norm_num [demo_point_node])
  have hy : load_y_coord demo_state demo_point_node = 0 := by
    rw [demo_load_y]
    exact floor_eq_of (by norm_num [demo_point_node]) (by norm_num [demo_point_node])
  obtain ⟨s, hs, hr, _⟩ := demo_shortcut_body
    (cvms5_get_vs30_based_gtl (fun q => cvms5_query 1 demo_state q) demo_state) 0 0
    demo_point_node rfl (by norm_num [demo_point_node]) hx hy
  have hq : cvms5_query 2 demo_state [demo_point_node] =
      some { code := SUCCESS, data := [s.data], trace := s.trace ++ [] } := by
    rw [query_succ, loop_cons_next _ _ _ _ _ _ _ hs hr, loop_nil]
    rfl
  exact ⟨_, s.data, hq, rfl,
    (C5_density_and_attenuation_recomputed demo_state demo_point_node
      (by norm_num [demo_point_node])
      (demo_errno demo_point_node (by norm_num [demo_point_node]))
      (Or.inl (demo_shortcut_facts demo_point_node rfl))).2.1 2 [demo_point_node] _ 0 s.data
      hq rfl rfl⟩

/-- C6 (the code at the failing input): `demo_point_top` has depth 2000 >= 0, z index 0 and z
fraction 0, and its own offsets in cell `(0, 0)` are `x_percent = 1/2`, `y_percent = 1/4`. The
bilinear interpolation of the four top-plane cells at these offsets is `vp = 4975/2`,
`vs = 2975/2`, but the one-point call returns `vp = 2500`, `vs = 1500`, the values of cell
`(0, 0, 0)`: the shortcut runs before `x_percent` and `y_percent` are computed and uses the
values they had on entry (zero). -/
theorem C6_shortcut_ignores_own_offsets :
    0 ≤ demo_point_top.depth ∧
    load_z_coord demo_state demo_point_top = 0 ∧ z_percent demo_state demo_point_top = 0 ∧
    x_percent demo_state demo_point_top = 1 / 2 ∧
    y_percent demo_state demo_point_top = 1 / 4 ∧
    (fun d : cvms5_properties_t => (d.vp, d.vs))
      (cvms5_bilinear_interpolation (x_percent demo_state demo_point_top)
        (y_percent demo_state demo_point_top)
        (cvms5_read_properties demo_state (load_x_coord demo_state demo_point_top)
          (load_y_coord demo_state demo_point_top) 0).1
        (cvms5_read_properties demo_state (load_x_coord demo_state demo_point_top + 1)
          (load_y_coord demo_state demo_point_top) 0).1
        (cvms5_read_properties demo_state (load_x_coord demo_state demo_point_top)
          (load_y_coord demo_state demo_point_top + 1) 0).1
        (cvms5_read_properties demo_state (load_x_coord demo_state demo_point_top + 1)
          (load_y_coord demo_state demo_point_top + 1) 0).1)
      = (4975 / 2, 2975 / 2) ∧
    (cvms5_query 2 demo_state [demo_point_top]).map
        (fun r => (r.code, r.data.map (fun d => (d.vp, d.vs))))
      = some (SUCCESS, [(2500, 1500)]) := by
  obtain ⟨hz, hzp⟩ := demo_shortcut_facts demo_point_top rfl
  obtain ⟨hx, hy⟩ := demo_top_load
  obtain ⟨hxp, hyp⟩ := demo_top_percent
  refine ⟨by norm_num [demo_point_top], hz, hzp, hxp, hyp, ?_, ?_⟩
  · rw [hx, hy, hxp, hyp]
    simp only [demo_read]
    norm_num [cvms5_bilinear_interpolation, cvms5_linear_interpolation]
  · obtain ⟨s, hs, hr, hvp, hvs, _⟩ := demo_shortcut_body
      (cvms5_get_vs30_based_gtl (fun q => cvms5_query 1 demo_state q) demo_state) 0 0
      demo_point_top rfl (by norm_num [demo_point_top]) hx hy
    rw [query_succ, loop_cons_next _ _ _ _ _ _ _ hs hr, loop_nil]
    simp only [Option.map_some', List.map_cons, List.map_nil, hvp, hvs]
    norm_num

/-- C7: `cvms5_calculate_density (vs)` is `1000 (p0 + p1 v + p2 v^2 + p3 v^3 + p4 v^4 + p5 v^5)`
with `v = vs / 1000`; two states with the same six coefficients give the same density for the same
Vs, whatever else differs (grid, footprint, projections, Vs30 map). -/
theorem C7_density_is_polynomial_of_vs (m : cvms5_state) (vs : ℚ) :
    cvms5_calculate_density m vs =
      1000 * (m.cvms5_configuration.p0 + m.cvms5_configuration.p1 * (vs / 1000)
        + m.cvms5_configuration.p2 * (vs / 1000) ^ 2
        + m.cvms5_configuration.p3 * (vs / 1000) ^ 3
        + m.cvms5_configuration.p4 * (vs / 1000) ^ 4
        + m.cvms5_configuration.p5 * (vs / 1000) ^ 5) ∧
    ∀ m2 : cvms5_state,
      m2.cvms5_configuration.p0 = m.cvms5_configuration.p0 →
      m2.cvms5_configuration.p1 = m.cvms5_configuration.p1 →
      m2.cvms5_configuration.p2 = m.cvms5_configuration.p2 →
      m2.cvms5_configuration.p3 = m.cvms5_configuration.p3 →
      m2.cvms5_configuration.p4 = m.cvms5_configuration.p4 →
      m2.cvms5_configuration.p5 = m.cvms5_configuration.p5 →
      cvms5_calculate_density m2 vs = cvms5_calculate_density m vs := by
  constructor
  · unfold cvms5_calculate_density
    ring
  · intro m2 h0 h1 h2 h3 h4 h5
    unfold cvms5_calculate_density
    simp only [h0, h1, h2, h3, h4, h5]

theorem C7_density_is_polynomial_of_vs_witness :
    cvms5_calculate_density demo_state 1000 = 6000 ∧
    cvms5_calculate_density
        (cvms5_with_vs30_map { demo_state with cvms5_total_width_m := 5 } demo_vs30_map
          (fun _ _ => (0, 0)) 0 1) 1000
      = cvms5_calculate_density demo_state 1000 := by
  refine ⟨?_, (C7_density_is_polynomial_of_vs demo_state 1000).2 _ rfl rfl rfl rfl rfl rfl⟩
  rw [(C7_density_is_polynomial_of_vs demo_state 1000).1]
  norm_num [demo_state, demo_configuration]

/-- C8: in the attenuation rule of `cvms5_query`, for the entry returned for a point that is
interpolated or blended (non-negative depth, transform succeeded, shortcut taken or boundary
check passed): a Vs of exactly 1500 gives `qs = 150` and `qp = 225` (the `>= 1500` branch), every
`vs < 1500` gives `qs = 0.02 vs`, which is below 30, and every `vs >= 1500` gives `qs = 0.10 vs`,
which is at least 150; `qp = 1.5 qs` in all cases. The rule block itself gives values of `qs` as
close below 30 as wanted for `vs < 1500`, so `qs` jumps from just under 30 to 150 across
`vs = 1500`. -/
theorem C8_attenuation_branch_at_1500 (m : cvms5_state) (pt : cvms5_point_t)
    (hdepth : 0 ≤ pt.depth) (herr : m.cvms5_geo2utm_errno pt.latitude pt.longitude = 0)
    (hsent : (load_z_coord m pt = 0 ∧ z_percent m pt = 0) ∨ ¬ cvms5_outside m pt)
    (fuel : Nat) (pts : List cvms5_point_t) (r : cvms5_result) (i : Nat)
    (d : cvms5_properties_t) (h : cvms5_query fuel m pts = some r) (hp : pts[i]? = some pt)
    (hd : r.data[i]? = some d) :
    (d.vs = 1500 → d.qs = 150 ∧ d.qp = 225) ∧
    (d.vs < 1500 → d.qs = 0.02 * d.vs ∧ d.qs < 30 ∧ d.qp = 1.5 * d.qs) ∧
    (1500 ≤ d.vs → d.qs = 0.10 * d.vs ∧ 150 ≤ d.qs ∧ d.qp = 1.5 * d.qs) ∧
    (∀ ε : ℚ, 0 < ε → ∃ raw : cvms5_properties_t, raw.vs < 1500 ∧
      30 - ε < (cvms5_query_derived m raw).qs ∧ (cvms5_query_derived m raw).qs < 30) := by
  obtain ⟨n, xq, yq, s, _, hs, hsd⟩ := query_get fuel m pts r h i pt d hp hd
  obtain ⟨raw, hraw⟩ := body_derived _ m xq yq pt s hs hdepth herr hsent
  obtain ⟨_, hqs, hqp⟩ := derived_rules m raw
  rw [← hraw, hsd] at hqs hqp
  refine ⟨?_, ?_, ?_, ?_⟩
  rotate_left 3
  · intro ε hε
    refine ⟨{ vp := 0, vs := 1500 - 25 * ε, rho := 0, qp := 0, qs := 0 }, ?_, ?_, ?_⟩
    · show (1500 : ℚ) - 25 * ε < 1500
      linarith
    · rw [derived_qs]
      have hlt : (1500 : ℚ) - 25 * ε < 1500 := by linarith
      show 30 - ε < (if (1500 : ℚ) - 25 * ε < 1500 then (1500 - 25 * ε) * 0.02
        else (1500 - 25 * ε) * 0.10)
      rw [if_pos hlt]
      norm_num
      linarith
    · rw [derived_qs]
      have hlt : (1500 : ℚ) - 25 * ε < 1500 := by linarith
      show (if (1500 : ℚ) - 25 * ε < 1500 then (1500 - 25 * ε) * 0.02
        else (1500 - 25 * ε) * 0.10) < 30
      rw [if_pos hlt]
      norm_num
      linarith
  · intro hv
    rw [hv] at hqs
    norm_num at hqs
    rw [hqp, hqs]
    norm_num
  · intro hv
    rw [if_pos hv] at hqs
    refine ⟨hqs, ?_, hqp⟩
    rw [hqs]; linarith
  · intro hv
    rw [if_neg (not_lt.mpr hv)] at hqs
    refine ⟨hqs, ?_, hqp⟩
    rw [hqs]; linarith

theorem C8_attenuation_branch_at_1500_witness :
    ∃ (r : cvms5_result) (d : cvms5_properties_t),
      cvms5_query 2 demo_state [demo_point_node] = some r ∧ r.data[0]? = some d ∧
      d.vs = 1500 ∧ d.qs = 150 ∧ d.qp = 225 := by
  have hx : load_x_coord demo_state demo_point_node = 0 := by
    rw [demo_load_x]
    exact floor_eq_of (by norm_num [demo_point_node]) (by norm_num [demo_point_node])
  have hy : load_y_coord demo_state demo_point_node = 0 := by
    rw [demo_load_y]
    exact floor_eq_of (by norm_num [demo_point_node]) (by norm_num [demo_point_node])
  obtain ⟨s, hs, hr, _, hvs, _⟩ := demo_shortcut_body
    (cvms5_get_vs30_based_gtl (fun q => cvms5_query 1 demo_state q) demo_state) 0 0
    demo_point_node rfl (by norm_num [demo_point_node]) hx hy
  have hq : cvms5_query 2 demo_state [demo_point_node] =
      some { code := SUCCESS, data := [s.data], trace := s.trace ++ [] } := by
    rw [query_succ, loop_cons_next _ _ _ _ _ _ _ hs hr, loop_nil]
    rfl
  have hv : s.data.vs = 1500 := by rw [hvs]; norm_num
  have key := (C8_attenuation_branch_at_1500 demo_state demo_point_node
    (by norm_num [demo_point_node]) (demo_errno demo_point_node (by norm_num [demo_point_node]))
    (Or.inl (demo_shortcut_facts demo_point_node rfl)) 2 [demo_point_node] _ 0 s.data hq rfl
    rfl).1 hv
  exact ⟨_, s.data, hq, rfl, hv, key.1, key.2⟩

/-- C9: with fuel for one nested call an iteration returns, and it calls the near-surface blend
(an access `get_vs30_based_gtl` is in its trace, and then it is the call for this very point)
exactly when the point passed the boundary check, its depth is strictly less than
`depth_interval`, and `gtl == 1`. For any batch, replacing everything that belongs to the Vs30 map
leaves the return code and the number of answered points unchanged, and leaves the entry of
every point with `depth >= depth_interval` or with GTL off unchanged. -/
theorem C9_blend_applies_iff_shallow_and_enabled (fuel : Nat) (m : cvms5_state) :
    (∀ (xp yp : ℚ) (pt : cvms5_point_t), ∃ s,
      cvms5_query_body (cvms5_get_vs30_based_gtl (fun q => cvms5_query (fuel + 1) m q) m)
        m xp yp pt = some s ∧
      ((∃ q, cvms5_event.get_vs30_based_gtl q ∈ s.trace) ↔
        cvms5_passed_boundary_check m pt ∧
          pt.depth < m.cvms5_configuration.depth_interval ∧ m.cvms5_configuration.gtl = 1) ∧
      (cvms5_event.get_vs30_based_gtl pt ∈ s.trace ↔
        cvms5_passed_boundary_check m pt ∧
          pt.depth < m.cvms5_configuration.depth_interval ∧ m.cvms5_configuration.gtl = 1)) ∧
    (∀ (map : cvms5_vs30_map_config_t) (geo2aeqd : ℚ → ℚ → ℚ × ℚ) (cos_vs30 sin_vs30 : ℚ)
        (pts : List cvms5_point_t), ∃ r1 r2,
      cvms5_query (fuel + 2) m pts = some r1 ∧
      cvms5_query (fuel + 2) (cvms5_with_vs30_map m map geo2aeqd cos_vs30 sin_vs30) pts
        = some r2 ∧
      r1.code = r2.code ∧ r1.data.length = r2.data.length ∧
      ∀ (i : Nat) (pt : cvms5_point_t), pts[i]? = some pt →
        ¬ (pt.depth < m.cvms5_configuration.depth_interval ∧ m.cvms5_configuration.gtl = 1) →
        r1.data[i]? = r2.data[i]?) := by
  constructor
  · intro xp yp pt
    obtain ⟨s, hs⟩ := Option.isSome_iff_exists.mp
      (body_isSome (cvms5_get_vs30_based_gtl (fun q => cvms5_query (fuel + 1) m q) m)
        m xp yp pt (fun _ => gtl_isSome fuel m pt cvms5_not_found))
    exact ⟨s, hs, body_gtl_event _ m xp yp pt s
      (fun g hg => gtl_trace_head _ m pt cvms5_not_found g hg) hs⟩
  · intro map geo2aeqd cos_vs30 sin_vs30 pts
    rw [query_succ, query_succ]
    exact loop_vs30_indep _ _ m map geo2aeqd cos_vs30 sin_vs30 pts
      (fun pt _ _ => gtl_isSome fuel m pt cvms5_not_found)
      (fun pt _ _ => gtl_isSome fuel
        (cvms5_with_vs30_map m map geo2aeqd cos_vs30 sin_vs30) pt cvms5_not_found) 0 0

theorem C9_blend_applies_iff_shallow_and_enabled_witness :
    ¬ (demo_point_tri.depth < demo_state.cvms5_configuration.depth_interval ∧
        demo_state.cvms5_configuration.gtl = 1) ∧
    ∃ (r1 r2 : cvms5_result),
      cvms5_query 2 demo_state [demo_point_tri] = some r1 ∧
      cvms5_query 2 (cvms5_with_vs30_map demo_state demo_vs30_map_alt (fun _ _ => (0, 0)) 0 1)
        [demo_point_tri] = some r2 ∧
      r1.data[0]? = r2.data[0]? := by
  have hg : ¬ (demo_point_tri.depth < demo_state.cvms5_configuration.depth_interval ∧
        demo_state.cvms5_configuration.gtl = 1) := by
    norm_num [demo_state, demo_configuration, demo_point_tri]
  obtain ⟨r1, r2, e1, e2, _, _, hget⟩ :=
    (C9_blend_applies_iff_shallow_and_enabled 0 demo_state).2 demo_vs30_map_alt
      (fun _ _ => (0, 0)) 0 1 [demo_point_tri]
  exact ⟨hg, r1, r2, e1, e2, hget 0 demo_point_tri rfl hg⟩

/-- C10: when `p = depth / depth_interval` lies in `[0, 1]`, the nested one-point query at the
same latitude and longitude with `depth = depth_interval` returned `SUCCESS`, and the proxy
velocity `v` found by `cvms5_get_vs30_value` is not `-1`, then that query has exactly one entry
`deep`, and `cvms5_get_vs30_based_gtl` returns `SUCCESS` with `vs = f deep.vs + g v` and
`vp = f deep.vp + g 1000 P(v / 1000)`, leaving the other fields of `*data` as they were; its
accesses are the nested query followed by the proxy lookup. -/
theorem C10_gtl_blend_formula (fuel : Nat) (m : cvms5_state) (point : cvms5_point_t)
    (data : cvms5_properties_t) (r : cvms5_result)
    (_hp0 : 0 ≤ point.depth / m.cvms5_configuration.depth_interval)
    (hp1 : point.depth / m.cvms5_configuration.depth_interval ≤ 1)
    (hq : cvms5_query fuel m [cvms5_deep_point m point] = some r) (hc : r.code = SUCCESS)
    (hv : (cvms5_get_vs30_value m point.longitude point.latitude).1 ≠ -1) :
    ∃ deep : cvms5_properties_t, r.data = [deep] ∧
      cvms5_get_vs30_based_gtl (fun q => cvms5_query fuel m q) m point data =
        some (SUCCESS,
          { data with
            vs := spec_blend_f (point.depth / m.cvms5_configuration.depth_interval) * deep.vs
              + spec_blend_g m.sqrt (point.depth / m.cvms5_configuration.depth_interval)
                * (cvms5_get_vs30_value m point.longitude point.latitude).1
            vp := spec_blend_f (point.depth / m.cvms5_configuration.depth_interval) * deep.vp
              + spec_blend_g m.sqrt (point.depth / m.cvms5_configuration.depth_interval)
                * 1000
                * spec_vp_proxy
                    ((cvms5_get_vs30_value m point.longitude point.latitude).1 / 1000) },
          [cvms5_event.get_vs30_based_gtl point] ++ r.trace
            ++ (cvms5_get_vs30_value m point.longitude point.latitude).2) := by
  obtain ⟨deep, hdeep⟩ := query_single_data fuel m _ r hq
  refine ⟨deep, hdeep, ?_⟩
  rw [gtl_unfold _ _ _ _ (not_lt.mpr hp1)]
  simp only [hq, hc, ne_eq, not_true_eq_false, if_false, hv, hdeep, List.headD_cons]
  simp only [spec_blend_f, spec_blend_g, spec_vp_proxy]
  congr 3
  rw [cvms5_properties_t.mk.injEq]
  exact ⟨by ring, by ring, rfl, rfl, rfl⟩

theorem C10_gtl_blend_formula_witness :
    ∃ g : Int × cvms5_properties_t × List cvms5_event,
      cvms5_get_vs30_based_gtl (fun q => cvms5_query 1 demo_state q) demo_state demo_point_gtl
        cvms5_not_found = some g ∧
      g.1 = SUCCESS ∧ g.2.1.vs = 26799 / 32 ∧ g.2.1.vp = 9720827 / 5120 := by
  obtain ⟨r, d, hq, hc, hd, hvp, hvs⟩ := demo_deep_query
  have hv : (cvms5_get_vs30_value demo_state demo_point_gtl.longitude
      demo_point_gtl.latitude).1 = 500 :=
    demo_vs30_value _ _ (by norm_num [demo_point_gtl]) (by norm_num [demo_point_gtl])
      (by norm_num [demo_point_gtl]) (by norm_num [demo_point_gtl])
  have hp : demo_point_gtl.depth / demo_state.cvms5_configuration.depth_interval = 1 / 4 := by
    norm_num [demo_point_gtl, demo_state, demo_configuration]
  obtain ⟨deep, hdeep, hgtl⟩ := C10_gtl_blend_formula 1 demo_state demo_point_gtl
    cvms5_not_found r (by rw [hp]; norm_num) (by rw [hp]; norm_num) hq hc
    (by rw [hv]; norm_num)
  have hdd : deep = d := by
    rw [hd] at hdeep
    simpa using hdeep.symm
  subst hdd
  have hsq : demo_state.sqrt (1 / 4) = 1 / 2 := by norm_num [demo_state]
  refine ⟨_, hgtl, rfl, ?_, ?_⟩
  · simp only [hp, hv, hvs, hsq, spec_blend_f, spec_blend_g]
    norm_num
  · simp only [hp, hv, hvp, hsq, spec_blend_f, spec_blend_g, spec_vp_proxy]
    norm_num

/-- C11: the weights `f` and `g` computed by `cvms5_get_vs30_based_gtl` (with `sqrt 0 = 0` and
`sqrt 1 = 1`) are `f = 0`, `g = 0.5` at `p = 0` and `f = 1`, `g = 0` at `p = 1`; they are the
weights with which the function blends the deep value and the proxy for every `p <= 1`. Hence,
when the nested query succeeded and the proxy velocity `v` is not `-1`: at depth 0 the function
returns `vs = v / 2` (and `vp` half the P-wave proxy), whatever the deep value; at
`depth = depth_interval` it returns the deep value, `vs = deep.vs` and `vp = deep.vp`. -/
theorem C11_blend_weights_at_endpoints (fuel : Nat) (m : cvms5_state) (point : cvms5_point_t)
    (data : cvms5_properties_t) (r : cvms5_result)
    (hdi : m.cvms5_configuration.depth_interval ≠ 0)
    (hs0 : m.sqrt 0 = 0) (hs1 : m.sqrt 1 = 1)
    (hq : cvms5_query fuel m [cvms5_deep_point m point] = some r) (hc : r.code = SUCCESS)
    (hv : (cvms5_get_vs30_value m point.longitude point.latitude).1 ≠ -1) :
    (cvms5_gtl_f 0 = 0 ∧ cvms5_gtl_g m.sqrt 0 = 1 / 2 ∧
      cvms5_gtl_f 1 = 1 ∧ cvms5_gtl_g m.sqrt 1 = 0) ∧
    (point.depth / m.cvms5_configuration.depth_interval ≤ 1 →
      ∃ deep : cvms5_properties_t, r.data = [deep] ∧
        cvms5_get_vs30_based_gtl (fun q => cvms5_query fuel m q) m point data =
          some (SUCCESS,
            { data with
              vs := cvms5_gtl_f (point.depth / m.cvms5_configuration.depth_interval) * deep.vs
                + cvms5_gtl_g m.sqrt (point.depth / m.cvms5_configuration.depth_interval)
                  * (cvms5_get_vs30_value m point.longitude point.latitude).1
              vp := cvms5_gtl_f (point.depth / m.cvms5_configuration.depth_interval) * deep.vp
                + cvms5_gtl_g m.sqrt (point.depth / m.cvms5_configuration.depth_interval)
                  * cvms5_gtl_vp30 (cvms5_get_vs30_value m point.longitude point.latitude).1 },
            [cvms5_event.get_vs30_based_gtl point] ++ r.trace
              ++ (cvms5_get_vs30_value m point.longitude point.latitude).2)) ∧
    (point.depth = 0 →
      ∃ (d : cvms5_properties_t) (tr : List cvms5_event),
        cvms5_get_vs30_based_gtl (fun q => cvms5_query fuel m q) m point data
          = some (SUCCESS, d, tr) ∧
        d.vs = (cvms5_get_vs30_value m point.longitude point.latitude).1 / 2 ∧
        d.vp = cvms5_gtl_vp30 (cvms5_get_vs30_value m point.longitude point.latitude).1 / 2) ∧
    (point.depth = m.cvms5_configuration.depth_interval →
      ∃ (deep d : cvms5_properties_t) (tr : List cvms5_event), r.data = [deep] ∧
        cvms5_get_vs30_based_gtl (fun q => cvms5_query fuel m q) m point data
          = some (SUCCESS, d, tr) ∧
        d.vs = deep.vs ∧ d.vp = deep.vp) := by
  obtain ⟨f0, f1, g0, g1⟩ := gtl_weights_at_endpoints m.sqrt
  refine ⟨⟨f0, g0 hs0, f1, g1 hs1⟩, ?_, ?_, ?_⟩
  · intro hp
    obtain ⟨deep, hdeep⟩ := query_single_data fuel m _ r hq
    have hb := gtl_blend (fun q => cvms5_query fuel m q) m point data r hp hq hc hv
    rw [hdeep] at hb
    exact ⟨deep, hdeep, hb⟩
  · intro hd
    have hp : point.depth / m.cvms5_configuration.depth_interval = 0 := by
      rw [hd]; simp
    have hb := gtl_blend (fun q => cvms5_query fuel m q) m point data r
      (by rw [hp]; norm_num) hq hc hv
    rw [hp, f0, g0 hs0] at hb
    refine ⟨_, _, hb, ?_, ?_⟩
    · show 0 * _ + 1 / 2 * _ = _
      ring
    · show 0 * _ + 1 / 2 * _ = _
      ring
  · intro hd
    have hp : point.depth / m.cvms5_configuration.depth_interval = 1 := by
      rw [hd]; exact div_self hdi
    obtain ⟨deep, hdeep⟩ := query_single_data fuel m _ r hq
    have hb := gtl_blend (fun q => cvms5_query fuel m q) m point data r
      (by rw [hp]) hq hc hv
    rw [hp, f1, g1 hs1, hdeep] at hb
    refine ⟨deep, _, _, hdeep, hb, ?_, ?_⟩
    · show 1 * _ + 0 * _ = _
      simp
    · show 1 * _ + 0 * _ = _
      simp

theorem C11_blend_weights_at_endpoints_witness :
    (∃ (d : cvms5_properties_t) (tr : List cvms5_event),
      cvms5_get_vs30_based_gtl (fun q => cvms5_query 1 demo_state q) demo_state
        demo_point_surface cvms5_not_found = some (SUCCESS, d, tr) ∧ d.vs = 250) ∧
    (∃ (d : cvms5_properties_t) (tr : List cvms5_event),
      cvms5_get_vs30_based_gtl (fun q => cvms5_query 1 demo_state q) demo_state
        demo_point_interval cvms5_not_found = some (SUCCESS, d, tr) ∧
      d.vs = 3155 / 2 ∧ d.vp = 5155 / 2) := by
  obtain ⟨r, dd, hq, hc, hd, hvp, hvs⟩ := demo_deep_query
  have hdi : demo_state.cvms5_configuration.depth_interval ≠ 0 := by
    norm_num [demo_state, demo_configuration]
  have hs0 : demo_state.sqrt 0 = 0 := by norm_num [demo_state]
  have hs1 : demo_state.sqrt 1 = 1 := by norm_num [demo_state]
  have hv : (cvms5_get_vs30_value demo_state 1500 1250).1 = 500 :=
    demo_vs30_value _ _ (by norm_num) (by norm_num) (by norm_num) (by norm_num)
  constructor
  · obtain ⟨d, tr, hg, hvs0, _⟩ :=
      (C11_blend_weights_at_endpoints 1 demo_state demo_point_surface cvms5_not_found r
        hdi hs0 hs1 hq hc (by rw [show demo_point_surface.longitude = 1500 from rfl,
          show demo_point_surface.latitude = 1250 from rfl, hv]; norm_num)).2.2.1 rfl
    refine ⟨d, tr, hg, ?_⟩
    rw [hvs0, show demo_point_surface.longitude = 1500 from rfl,
      show demo_point_surface.latitude = 1250 from rfl, hv]
    norm_num
  · obtain ⟨deep, d, tr, hdeep, hg, hvs1, hvp1⟩ :=
      (C11_blend_weights_at_endpoints 1 demo_state demo_point_interval cvms5_not_found r
        hdi hs0 hs1 hq hc (by rw [show demo_point_interval.longitude = 1500 from rfl,
          show demo_point_interval.latitude = 1250 from rfl, hv]; norm_num)).2.2.2 rfl
    have hdd : deep = dd := by
      rw [hd] at hdeep
      simpa using hdeep.symm
    subst hdd
    exact ⟨d, tr, hg, by rw [hvs1, hvs], by rw [hvp1, hvp]⟩

/-- C12: when `p = depth / depth_interval` is greater than 1, `cvms5_get_vs30_based_gtl` returns
`FAIL` and leaves `*data` as it was; its only access is its own entry, so it makes no nested
query (the result is the same for any `query`, even one that never returns) and no proxy lookup.
When `p <= 1` (for a non-zero `depth_interval`) and the nested query returned `SUCCESS`, it
returns `SUCCESS`. `FAIL` and `SUCCESS` differ. -/
theorem C12_gtl_rejects_p_above_one (m : cvms5_state) (point : cvms5_point_t)
    (data : cvms5_properties_t) :
    (point.depth / m.cvms5_configuration.depth_interval > 1 →
      ∀ query : List cvms5_point_t → Option cvms5_result,
        cvms5_get_vs30_based_gtl query m point data =
          some (FAIL, data, [cvms5_event.get_vs30_based_gtl point])) ∧
    (m.cvms5_configuration.depth_interval ≠ 0 →
      point.depth / m.cvms5_configuration.depth_interval ≤ 1 →
      ∀ (query : List cvms5_point_t → Option cvms5_result) (r : cvms5_result),
        query [cvms5_deep_point m point] = some r → r.code = SUCCESS →
        ∃ (d : cvms5_properties_t) (tr : List cvms5_event),
          cvms5_get_vs30_based_gtl query m point data = some (SUCCESS, d, tr)) ∧
    FAIL ≠ SUCCESS := by
  refine ⟨?_, ?_, by decide⟩
  · intro h query
    simp [cvms5_get_vs30_based_gtl, h]
  · intro _ hp query r hq hc
    rw [gtl_unfold _ _ _ _ (not_lt.mpr hp)]
    simp only [hq, hc, ne_eq, not_true_eq_false, if_false]
    split_ifs
    · exact ⟨_, _, rfl⟩
    · exact ⟨_, _, rfl⟩

theorem C12_gtl_rejects_p_above_one_witness :
    demo_point_tri.depth / demo_state.cvms5_configuration.depth_interval > 1 ∧
    cvms5_get_vs30_based_gtl (fun _ => none) demo_state demo_point_tri cvms5_not_found =
      some (FAIL, cvms5_not_found, [cvms5_event.get_vs30_based_gtl demo_point_tri]) ∧
    demo_point_gtl.depth / demo_state.cvms5_configuration.depth_interval ≤ 1 ∧
    ∃ (d : cvms5_properties_t) (tr : List cvms5_event),
      cvms5_get_vs30_based_gtl (fun q => cvms5_query 1 demo_state q) demo_state
        demo_point_gtl cvms5_not_found = some (SUCCESS, d, tr) := by
  have h1 : demo_point_tri.depth / demo_state.cvms5_configuration.depth_interval > 1 := by
    norm_num [demo_point_tri, demo_state, demo_configuration]
  have h2 : demo_point_gtl.depth / demo_state.cvms5_configuration.depth_interval ≤ 1 := by
    norm_num [demo_point_gtl, demo_state, demo_configuration]
  obtain ⟨r, _, hq, hc, _⟩ := demo_deep_query
  exact ⟨h1,
    (C12_gtl_rejects_p_above_one demo_state demo_point_tri cvms5_not_found).1 h1 _,
    h2,
    (C12_gtl_rejects_p_above_one demo_state demo_point_gtl cvms5_not_found).2.1
      (by norm_num [demo_state, demo_configuration]) h2 _ r hq hc⟩

/-- C13: for every eight corners, `cvms5_trilinear_interpolation` at
`x_percent = y_percent = z_percent = 0` returns corner 0 in all five fields, and at
`x_percent = y_percent = z_percent = 1` returns corner 7 in all five fields. -/
theorem C13_trilinear_corner_exact (p0 p1 p2 p3 p4 p5 p6 p7 : cvms5_properties_t) :
    cvms5_trilinear_interpolation 0 0 0 p0 p1 p2 p3 p4 p5 p6 p7 = p0 ∧
    cvms5_trilinear_interpolation 1 1 1 p0 p1 p2 p3 p4 p5 p6 p7 = p7 := by
  constructor
  · cases p0
    simp [cvms5_trilinear_interpolation, cvms5_bilinear_interpolation,
      cvms5_linear_interpolation]
  · cases p7
    simp [cvms5_trilinear_interpolation, cvms5_bilinear_interpolation,
      cvms5_linear_interpolation]

/-- C15: every field of the result of `cvms5_bilinear_interpolation` for corners ordered
(origin, +x, +y, +x+y) is `B` of the corner fields, with
`B(a, b, c, d) = (1 - ty) ((1 - tx) a + tx b) + ty ((1 - tx) c + tx d)`, and every field of the
result of `cvms5_trilinear_interpolation` is `(1 - tz) B(c0, c1, c2, c3) + tz B(c4, c5, c6, c7)`:
the first four corners form the plane weighted by `1 - tz`, the last four the plane weighted by
`tz`. -/
theorem C15_trilinear_is_two_stacked_bilinear_planes (tx ty tz : ℚ)
    (c0 c1 c2 c3 c4 c5 c6 c7 : cvms5_properties_t) :
    cvms5_bilinear_interpolation tx ty c0 c1 c2 c3 =
      { vp := spec_bilerp tx ty c0.vp c1.vp c2.vp c3.vp
        vs := spec_bilerp tx ty c0.vs c1.vs c2.vs c3.vs
        rho := spec_bilerp tx ty c0.rho c1.rho c2.rho c3.rho
        qp := spec_bilerp tx ty c0.qp c1.qp c2.qp c3.qp
        qs := spec_bilerp tx ty c0.qs c1.qs c2.qs c3.qs } ∧
    cvms5_trilinear_interpolation tx ty tz c0 c1 c2 c3 c4 c5 c6 c7 =
      { vp := (1 - tz) * spec_bilerp tx ty c0.vp c1.vp c2.vp c3.vp
          + tz * spec_bilerp tx ty c4.vp c5.vp c6.vp c7.vp
        vs := (1 - tz) * spec_bilerp tx ty c0.vs c1.vs c2.vs c3.vs
          + tz * spec_bilerp tx ty c4.vs c5.vs c6.vs c7.vs
        rho := (1 - tz) * spec_bilerp tx ty c0.rho c1.rho c2.rho c3.rho
          + tz * spec_bilerp tx ty c4.rho c5.rho c6.rho c7.rho
        qp := (1 - tz) * spec_bilerp tx ty c0.qp c1.qp c2.qp c3.qp
          + tz * spec_bilerp tx ty c4.qp c5.qp c6.qp c7.qp
        qs := (1 - tz) * spec_bilerp tx ty c0.qs c1.qs c2.qs c3.qs
          + tz * spec_bilerp tx ty c4.qs c5.qs c6.qs c7.qs } ∧
    cvms5_trilinear_interpolation tx ty tz c0 c1 c2 c3 c4 c5 c6 c7 =
      cvms5_linear_interpolation tz (cvms5_bilinear_interpolation tx ty c0 c1 c2 c3)
        (cvms5_bilinear_interpolation tx ty c4 c5 c6 c7) := by
  refine ⟨?_, ?_, rfl⟩
  · simp only [cvms5_bilinear_interpolation, cvms5_linear_interpolation, spec_bilerp]
  · simp only [cvms5_trilinear_interpolation, cvms5_bilinear_interpolation,
      cvms5_linear_interpolation, spec_bilerp]

/-- C16: when the Vs and Vp fields are both resident (status 2), `cvms5_read_properties (x, y, z)`
returns as `vs` and `vp` the elements of the respective arrays at index
`z nx ny + (nx - 1 - x) ny + y`. The x axis is stored reversed: `x = nx - 1` is read at
`z nx ny + y` (first row of slab `z`) and `x = 0` at `z nx ny + (nx - 1) ny + y` (last row). -/
theorem C16_resident_read_index (m : cvms5_state) (x y z : Int)
    (hvs : m.cvms5_velocity_model.vs_status = 2) (hvp : m.cvms5_velocity_model.vp_status = 2) :
    ((cvms5_read_properties m x y z).1.vp =
        m.cvms5_velocity_model.vp
          (z * m.cvms5_configuration.nx * m.cvms5_configuration.ny
            + (m.cvms5_configuration.nx - 1 - x) * m.cvms5_configuration.ny + y) ∧
      (cvms5_read_properties m x y z).1.vs =
        m.cvms5_velocity_model.vs
          (z * m.cvms5_configuration.nx * m.cvms5_configuration.ny
            + (m.cvms5_configuration.nx - 1 - x) * m.cvms5_configuration.ny + y)) ∧
    ((cvms5_read_properties m (m.cvms5_configuration.nx - 1) y z).1.vp =
        m.cvms5_velocity_model.vp
          (z * m.cvms5_configuration.nx * m.cvms5_configuration.ny + y) ∧
      (cvms5_read_properties m (m.cvms5_configuration.nx - 1) y z).1.vs =
        m.cvms5_velocity_model.vs
          (z * m.cvms5_configuration.nx * m.cvms5_configuration.ny + y)) ∧
    ((cvms5_read_properties m 0 y z).1.vp =
        m.cvms5_velocity_model.vp
          (z * m.cvms5_configuration.nx * m.cvms5_configuration.ny
            + (m.cvms5_configuration.nx - 1) * m.cvms5_configuration.ny + y) ∧
      (cvms5_read_properties m 0 y z).1.vs =
        m.cvms5_velocity_model.vs
          (z * m.cvms5_configuration.nx * m.cvms5_configuration.ny
            + (m.cvms5_configuration.nx - 1) * m.cvms5_configuration.ny + y)) := by
  have e1 : cvms5_location m x y z =
      z * m.cvms5_configuration.nx * m.cvms5_configuration.ny
        + (m.cvms5_configuration.nx - 1 - x) * m.cvms5_configuration.ny + y := by
    unfold cvms5_location; ring
  have e2 : cvms5_location m (m.cvms5_configuration.nx - 1) y z =
      z * m.cvms5_configuration.nx * m.cvms5_configuration.ny + y := by
    unfold cvms5_location; ring
  have e3 : cvms5_location m 0 y z =
      z * m.cvms5_configuration.nx * m.cvms5_configuration.ny
        + (m.cvms5_configuration.nx - 1) * m.cvms5_configuration.ny + y := by
    unfold cvms5_location; ring
  simp only [read_resident m _ _ _ hvs hvp, e1, e2, e3, and_self]

theorem C16_resident_read_index_witness :
    demo_state.cvms5_velocity_model.vs_status = 2 ∧
    demo_state.cvms5_velocity_model.vp_status = 2 ∧
    (cvms5_read_properties demo_state 0 0 0).1.vp = 2500 ∧
    (cvms5_read_properties demo_state 0 0 0).1.vs = 1500 ∧
    (cvms5_read_properties demo_state 2 0 0).1.vs = 1440 := by
  obtain ⟨⟨h1, h2⟩, _, ⟨_, h4⟩⟩ := C16_resident_read_index demo_state 0 0 0 rfl rfl
  obtain ⟨_, ⟨_, h5⟩, _⟩ := C16_resident_read_index demo_state 2 0 0 rfl rfl
  refine ⟨rfl, rfl, ?_, ?_, ?_⟩
  · rw [h1]; norm_num [demo_state, demo_model, demo_configuration]
  · rw [h2]; norm_num [demo_state, demo_model, demo_configuration]
  · have e : (2 : Int) = demo_state.cvms5_configuration.nx - 1 := by
      norm_num [demo_state, demo_configuration]
    rw [e, h5]; norm_num [demo_state, demo_model, demo_configuration]

/-- C17 (the code at the failing inputs): in `demo_state_disk` both fields are on disk, the Vp
file holds 2500 and the Vs file 1500 at the index 6 of cell `(0, 0, 0)`, and
`cvms5_read_properties (0, 0, 0)` returns `vp = 1500`: the Vp branch reads through `fp`, which
the Vs branch set to the Vs file. In `demo_state_vp_disk` (Vs resident, Vp on disk) `fp` is still
`NULL` when the Vp branch reads through it: the Vp file is never read. -/
theorem C17_streaming_vp_not_read_from_vp_file :
    demo_state_disk.cvms5_velocity_model.vp_status = 1 ∧
    demo_state_disk.cvms5_velocity_model.vs_status = 1 ∧
    cvms5_location demo_state_disk 0 0 0 = 6 ∧
    demo_state_disk.cvms5_velocity_model.vp 6 = 2500 ∧
    demo_state_disk.cvms5_velocity_model.vs 6 = 1500 ∧
    (cvms5_read_properties demo_state_disk 0 0 0).1.vp = 1500 ∧
    (cvms5_read_properties demo_state_disk 0 0 0).1.vs = 1500 ∧
    demo_state_vp_disk.cvms5_velocity_model.vp_status = 1 ∧
    demo_state_vp_disk.cvms5_velocity_model.vs_status = 2 ∧
    (cvms5_read_properties demo_state_vp_disk 0 0 0).2 =
      [cvms5_event.read_properties 0 0 0, cvms5_event.fread_null 6] := by
  have hl : cvms5_location demo_state_disk 0 0 0 = 6 := by
    norm_num [cvms5_location, demo_state_disk, demo_state, demo_configuration]
  have hl2 : cvms5_location demo_state_vp_disk 0 0 0 = 6 := by
    norm_num [cvms5_location, demo_state_vp_disk, demo_state, demo_configuration]
  refine ⟨rfl, rfl, hl, ?_, ?_, ?_, ?_, rfl, rfl, ?_⟩
  · norm_num [demo_state_disk, demo_model]
  · norm_num [demo_state_disk, demo_model]
  · rw [read_location, hl]
    norm_num [demo_state_disk, demo_state, demo_model, cvms5_not_found]
  · rw [read_location, hl]
    norm_num [demo_state_disk, demo_state, demo_model, cvms5_not_found]
  · rw [read_location, hl2]
    norm_num [demo_state_vp_disk, demo_state, demo_model, cvms5_not_found]

/-- C18: for every state and every `(x, y, z)`, `cvms5_read_properties` returns
`rho = qp = qs = -1`; its result is the same whatever the density, Qp and Qs fields hold and
whatever their status; it returns `vp = -1` when the Vp field is absent (status 0) and `vs = -1`
when the Vs field is absent. The only read it cannot perform, through a `NULL` stream, happens
exactly when Vp is on disk and Vs is not. -/
theorem C18_read_leaves_rho_qp_qs_not_found (m : cvms5_state) (x y z : Int) :
    ((cvms5_read_properties m x y z).1.rho = -1 ∧ (cvms5_read_properties m x y z).1.qp = -1 ∧
      (cvms5_read_properties m x y z).1.qs = -1) ∧
    (∀ (rho qp qs : Int → ℚ) (rho_status qp_status qs_status : Int),
      cvms5_read_properties
        { m with
          cvms5_velocity_model :=
            { m.cvms5_velocity_model with
              rho := rho, rho_status := rho_status, qp := qp, qp_status := qp_status,
              qs := qs, qs_status := qs_status } } x y z
        = cvms5_read_properties m x y z) ∧
    (m.cvms5_velocity_model.vp_status = 0 → (cvms5_read_properties m x y z).1.vp = -1) ∧
    (m.cvms5_velocity_model.vs_status = 0 → (cvms5_read_properties m x y z).1.vs = -1) ∧
    (cvms5_event.fread_null (cvms5_location m x y z) ∈ (cvms5_read_properties m x y z).2 ↔
      m.cvms5_velocity_model.vp_status = 1 ∧ m.cvms5_velocity_model.vs_status ≠ 1) := by
  refine ⟨read_frame m x y z, fun _ _ _ _ _ _ => rfl, ?_, ?_, ?_⟩
  · intro h
    have h2 : m.cvms5_velocity_model.vp_status ≠ 2 := by rw [h]; decide
    have h1 : m.cvms5_velocity_model.vp_status ≠ 1 := by rw [h]; decide
    rw [read_location]
    dsimp only
    rw [if_neg h2, if_neg h1]
    split_ifs <;> simp [cvms5_not_found]
  · intro h
    have h2 : m.cvms5_velocity_model.vs_status ≠ 2 := by rw [h]; decide
    have h1 : m.cvms5_velocity_model.vs_status ≠ 1 := by rw [h]; decide
    rw [read_location]
    dsimp only
    rw [if_neg h2, if_neg h1]
    split_ifs <;> simp [cvms5_not_found]
  · rw [read_location]
    dsimp only
    by_cases h2 : m.cvms5_velocity_model.vp_status = 2
    · have h1 : m.cvms5_velocity_model.vp_status ≠ 1 := by rw [h2]; decide
      simp [h2, h1]
    · by_cases h1 : m.cvms5_velocity_model.vp_status = 1
      · by_cases v2 : m.cvms5_velocity_model.vs_status = 2
        · have v1 : m.cvms5_velocity_model.vs_status ≠ 1 := by rw [v2]; decide
          simp [h1, v2, v1]
        · by_cases v1 : m.cvms5_velocity_model.vs_status = 1
          · simp [h1, v1]
          · simp [h1, h2, v1, v2]
      · simp [h1, h2]

theorem C18_read_leaves_rho_qp_qs_not_found_witness :
    demo_state_vs_only.cvms5_velocity_model.vp_status = 0 ∧
    demo_state_vs_only.cvms5_velocity_model.rho_status = 2 ∧
    (cvms5_read_properties demo_state_vs_only 0 0 0).1.vp = -1 ∧
    (cvms5_read_properties demo_state_vs_only 0 0 0).1.rho = -1 :=
  ⟨rfl, rfl, (C18_read_leaves_rho_qp_qs_not_found demo_state_vs_only 0 0 0).2.2.1 rfl,
    (C18_read_leaves_rho_qp_qs_not_found demo_state_vs_only 0 0 0).1.1⟩

/-- C19: when the point's coordinate in the map's rotated local frame has `x < 0`, `y < 0`,
`x > x_dimension` or `y > y_dimension`, `cvms5_get_vs30_value` returns `-1`, and its accesses are
the two transforms only: it issues no e-tree lookup. -/
theorem C19_vs30_outside_extent_not_found (m : cvms5_state) (longitude latitude : ℚ)
    (h : rotated_point_x m longitude latitude < 0 ∨ rotated_point_y m longitude latitude < 0 ∨
      rotated_point_x m longitude latitude > m.cvms5_vs30_map.x_dimension ∨
      rotated_point_y m longitude latitude > m.cvms5_vs30_map.y_dimension) :
    (cvms5_get_vs30_value m longitude latitude).1 = -1 ∧
    (∀ x y : Int,
      cvms5_event.etree_search x y ∉ (cvms5_get_vs30_value m longitude latitude).2) ∧
    (cvms5_get_vs30_value m longitude latitude).2 =
      [cvms5_event.get_vs30_value longitude latitude,
       cvms5_event.proj_trans_aeqd latitude longitude,
       cvms5_event.proj_trans_aeqd m.cvms5_vs30_map.origin_point.latitude
         m.cvms5_vs30_map.origin_point.longitude] := by
  rw [get_vs30_value_eq, if_pos h]
  refine ⟨rfl, ?_, rfl⟩
  intro x y
  simp

theorem C19_vs30_outside_extent_not_found_witness :
    rotated_point_x demo_state 4500 1250 > demo_state.cvms5_vs30_map.x_dimension ∧
    (cvms5_get_vs30_value demo_state 4500 1250).1 = -1 := by
  have h : rotated_point_x demo_state 4500 1250 > demo_state.cvms5_vs30_map.x_dimension := by
    norm_num [rotated_point_x, demo_state, demo_vs30_map]
  exact ⟨h, (C19_vs30_outside_extent_not_found demo_state 4500 1250
    (Or.inr (Or.inr (Or.inl h)))).1⟩

/-- C20: for a point inside the map extent, `cvms5_get_vs30_value` returns
`percent v0 + (1 - percent) v1` with `percent = fmod (x_local / spacing, spacing) / spacing`,
where `v0` and `v1` are the proxy velocities of the payloads fetched at the corners
`(loc_x, loc_y)` and `(loc_x + 1, loc_y)`. It looks up four corners, in the order
`(loc_x, loc_y)`, `(loc_x + 1, loc_y)`, `(loc_x, loc_y + 1)`, `(loc_x + 1, loc_y + 1)`, but the
result depends on the e-tree through `v0` and `v1` only: any e-tree with the same two values
gives the same result, whatever it holds at the two `+y` corners. -/
theorem C20_vs30_combines_two_corners (m : cvms5_state) (longitude latitude : ℚ)
    (h : ¬ (rotated_point_x m longitude latitude < 0 ∨
      rotated_point_y m longitude latitude < 0 ∨
      rotated_point_x m longitude latitude > m.cvms5_vs30_map.x_dimension ∨
      rotated_point_y m longitude latitude > m.cvms5_vs30_map.y_dimension)) :
    (cvms5_get_vs30_value m longitude latitude).1 =
      fmod (rotated_point_x m longitude latitude / m.cvms5_vs30_map.spacing)
          m.cvms5_vs30_map.spacing / m.cvms5_vs30_map.spacing
        * (m.cvms5_vs30_map.vs30_map (addr_x m (loc_x m longitude latitude))
            (addr_y m (loc_y m longitude latitude))).vs30
      + (1 - fmod (rotated_point_x m longitude latitude / m.cvms5_vs30_map.spacing)
          m.cvms5_vs30_map.spacing / m.cvms5_vs30_map.spacing)
        * (m.cvms5_vs30_map.vs30_map (addr_x m (loc_x m longitude latitude + 1))
            (addr_y m (loc_y m longitude latitude))).vs30 ∧
    (cvms5_get_vs30_value m longitude latitude).2 =
      [cvms5_event.get_vs30_value longitude latitude,
       cvms5_event.proj_trans_aeqd latitude longitude,
       cvms5_event.proj_trans_aeqd m.cvms5_vs30_map.origin_point.latitude
         m.cvms5_vs30_map.origin_point.longitude,
       cvms5_event.etree_search (addr_x m (loc_x m longitude latitude))
         (addr_y m (loc_y m longitude latitude)),
       cvms5_event.etree_search (addr_x m (loc_x m longitude latitude + 1))
         (addr_y m (loc_y m longitude latitude)),
       cvms5_event.etree_search (addr_x m (loc_x m longitude latitude))
         (addr_y m (loc_y m longitude latitude + 1)),
       cvms5_event.etree_search (addr_x m (loc_x m longitude latitude + 1))
         (addr_y m (loc_y m longitude latitude + 1))] ∧
    (∀ tree : Int → Int → cvms5_vs30_mpayload_t,
      (tree (addr_x m (loc_x m longitude latitude)) (addr_y m (loc_y m longitude latitude))).vs30
        = (m.cvms5_vs30_map.vs30_map (addr_x m (loc_x m longitude latitude))
            (addr_y m (loc_y m longitude latitude))).vs30 →
      (tree (addr_x m (loc_x m longitude latitude + 1))
          (addr_y m (loc_y m longitude latitude))).vs30
        = (m.cvms5_vs30_map.vs30_map (addr_x m (loc_x m longitude latitude + 1))
            (addr_y m (loc_y m longitude latitude))).vs30 →
      (cvms5_get_vs30_value (cvms5_with_etree m tree) longitude latitude).1
        = (cvms5_get_vs30_value m longitude latitude).1) := by
  refine ⟨?_, ?_, ?_⟩
  · rw [get_vs30_value_eq, if_neg h]
  · rw [get_vs30_value_eq, if_neg h]
    rfl
  · intro tree h0 h1
    obtain ⟨rx, ry, _, _, _, _⟩ := with_etree_locals m tree longitude latitude 0
    have h2 : ¬ (rotated_point_x (cvms5_with_etree m tree) longitude latitude < 0 ∨
        rotated_point_y (cvms5_with_etree m tree) longitude latitude < 0 ∨
        rotated_point_x (cvms5_with_etree m tree) longitude latitude
          > (cvms5_with_etree m tree).cvms5_vs30_map.x_dimension ∨
        rotated_point_y (cvms5_with_etree m tree) longitude latitude
          > (cvms5_with_etree m tree).cvms5_vs30_map.y_dimension) := by
      rw [rx, ry]
      exact h
    have e : (cvms5_get_vs30_value (cvms5_with_etree m tree) longitude latitude).1 =
        fmod (rotated_point_x m longitude latitude / m.cvms5_vs30_map.spacing)
            m.cvms5_vs30_map.spacing / m.cvms5_vs30_map.spacing
          * (tree (addr_x m (loc_x m longitude latitude))
              (addr_y m (loc_y m longitude latitude))).vs30
        + (1 - fmod (rotated_point_x m longitude latitude / m.cvms5_vs30_map.spacing)
            m.cvms5_vs30_map.spacing / m.cvms5_vs30_map.spacing)
          * (tree (addr_x m (loc_x m longitude latitude + 1))
              (addr_y m (loc_y m longitude latitude))).vs30 := by
      rw [get_vs30_value_eq, if_neg h2]
      rfl
    rw [e, h0, h1, get_vs30_value_eq, if_neg h]

theorem C20_vs30_combines_two_corners_witness :
    ¬ (rotated_point_x demo_state_ramp 1500 1250 < 0 ∨
      rotated_point_y demo_state_ramp 1500 1250 < 0 ∨
      rotated_point_x demo_state_ramp 1500 1250 > demo_state_ramp.cvms5_vs30_map.x_dimension ∨
      rotated_point_y demo_state_ramp 1500 1250 > demo_state_ramp.cvms5_vs30_map.y_dimension) ∧
    (cvms5_get_vs30_value demo_state_ramp 1500 1250).1 = 9997 / 20 := by
  obtain ⟨hrx, hry⟩ := demo_ramp_frame 1500 1250
  obtain ⟨hlx, hly, hx0, hx1, hy0⟩ := demo_ramp_addr
  have hin : ¬ (rotated_point_x demo_state_ramp 1500 1250 < 0 ∨
      rotated_point_y demo_state_ramp 1500 1250 < 0 ∨
      rotated_point_x demo_state_ramp 1500 1250 > demo_state_ramp.cvms5_vs30_map.x_dimension ∨
      rotated_point_y demo_state_ramp 1500 1250
        > demo_state_ramp.cvms5_vs30_map.y_dimension) := by
    rw [hrx, hry]
    norm_num [demo_state_ramp, cvms5_with_vs30_map, demo_vs30_map_ramp, demo_vs30_map]
  refine ⟨hin, ?_⟩
  rw [(C20_vs30_combines_two_corners demo_state_ramp 1500 1250 hin).1, hrx, hlx, hly, hx0, hx1,
    hy0]
  have hsp : demo_state_ramp.cvms5_vs30_map.spacing = 1000 := rfl
  have hf : fmod ((1500 : ℚ) / 1000) 1000 = 3 / 2 := by
    rw [fmod_of_nonneg (k := 0) (by norm_num) (by norm_num) (by norm_num)]
    norm_num
  rw [hsp, hf]
  norm_num [demo_state_ramp, cvms5_with_vs30_map, demo_vs30_map_ramp]

/-- C21, counterexample: a footprint whose left edge runs from (1000, 2000) to (2000, 3000),
at 45 degrees, with the binary64 values libm returns for it (`demo_world_diagonal`).
`cvms5_init` succeeds, `delta_north = 1000 > 0`, and it stores `cos theta = 0.7071067811865476`
and `sin theta = 0.7071067811865475`, which differ in the last bit. The translate-then-rotate
step maps the top-left corner to `point_x = 2 ^ (-43)` (`1.1368683772161603e-13`) in binary64
arithmetic, and to `125 / 2 ^ 50` with exact operations: not to `0`, so the corner is not on the
local y axis. Its `point_y` is `cvms5_total_height_m`. -/
theorem C21_counterexample_diagonal_footprint :
    ∃ m : cvms5_state, cvms5_init demo_world_diagonal "ucvm" "cvms5" = (SUCCESS, some m) ∧
      m.cvms5_configuration.top_left_corner_n - m.cvms5_configuration.bottom_left_corner_n
        = 1000 ∧
      m.cvms5_configuration.top_left_corner_e - m.cvms5_configuration.bottom_left_corner_e
        = 1000 ∧
      m.cvms5_cos_rotation_angle = 6369051672525773 / 2 ^ 53 ∧
      m.cvms5_sin_rotation_angle = 6369051672525772 / 2 ^ 53 ∧
      cvms5_to_local_rounded binary64_round m m.cvms5_configuration.top_left_corner_e
          m.cvms5_configuration.top_left_corner_n
        = (1 / 2 ^ 43, m.cvms5_total_height_m) ∧
      (cvms5_to_local m m.cvms5_configuration.top_left_corner_e
          m.cvms5_configuration.top_left_corner_n).1 = 125 / 2 ^ 50 ∧
      cvms5_to_local_rounded binary64_round m m.cvms5_configuration.top_left_corner_e
          m.cvms5_configuration.top_left_corner_n ≠ (0, m.cvms5_total_height_m) ∧
      cvms5_to_local m m.cvms5_configuration.top_left_corner_e
          m.cvms5_configuration.top_left_corner_n ≠ (0, m.cvms5_total_height_m) := by
  obtain ⟨k1, k2, k3, k4⟩ := demo_diagonal_rounded
  have r1000 : binary64_round 1000 = 1000 := by
    simpa using binary64_round_ofNat 1000 (by norm_num)
  have hcfg := demo_diagonal_configuration "ucvm" "cvms5"
    (fun lat lon => (lon, lat), fun lat _ => if lat > 5000 then 1 else 0)
    (fun lat lon => (lon, lat), fun lat _ => if lat > 5000 then 1 else 0)
  have hc : (cvms5_init_globals demo_world_diagonal "ucvm" "cvms5"
      (fun lat lon => (lon, lat), fun lat _ => if lat > 5000 then 1 else 0)
      (fun lat lon => (lon, lat), fun lat _ => if lat > 5000 then 1 else 0)).cvms5_cos_rotation_angle
      = 6369051672525773 / 9007199254740992 := by
    show demo_world_diagonal.cos (demo_world_diagonal.atan ((2000 - 1000) / (3000 - 2000))) = _
    norm_num [demo_world_diagonal]
  have hs : (cvms5_init_globals demo_world_diagonal "ucvm" "cvms5"
      (fun lat lon => (lon, lat), fun lat _ => if lat > 5000 then 1 else 0)
      (fun lat lon => (lon, lat), fun lat _ => if lat > 5000 then 1 else 0)).cvms5_sin_rotation_angle
      = 6369051672525772 / 9007199254740992 := by
    show demo_world_diagonal.sin (demo_world_diagonal.atan ((2000 - 1000) / (3000 - 2000))) = _
    norm_num [demo_world_diagonal]
  have hh : (cvms5_init_globals demo_world_diagonal "ucvm" "cvms5"
      (fun lat lon => (lon, lat), fun lat _ => if lat > 5000 then 1 else 0)
      (fun lat lon => (lon, lat), fun lat _ => if lat > 5000 then 1 else 0)).cvms5_total_height_m
      = 3109888511975475 / 2199023255552 := by
    show demo_world_diagonal.sqrt ((3000 - 2000) ^ 2 + (2000 - 1000) ^ 2) = _
    norm_num [demo_world_diagonal]
  have hr : cvms5_to_local_rounded binary64_round (cvms5_init_globals demo_world_diagonal
      "ucvm" "cvms5"
      (fun lat lon => (lon, lat), fun lat _ => if lat > 5000 then 1 else 0)
      (fun lat lon => (lon, lat), fun lat _ => if lat > 5000 then 1 else 0)) 2000 3000
      = (1 / 2 ^ 43, 3109888511975475 / 2199023255552) := by
    unfold cvms5_to_local_rounded
    rw [hc, hs, hcfg]
    dsimp only
    rw [show (2000 : ℚ) - 1000 = 1000 by norm_num, show (3000 : ℚ) - 2000 = 1000 by norm_num,
      r1000, k1, k2, k3, k4]
  have hx : (cvms5_to_local (cvms5_init_globals demo_world_diagonal "ucvm" "cvms5"
      (fun lat lon => (lon, lat), fun lat _ => if lat > 5000 then 1 else 0)
      (fun lat lon => (lon, lat), fun lat _ => if lat > 5000 then 1 else 0)) 2000 3000).1
      = 125 / 2 ^ 50 := by
    unfold cvms5_to_local
    rw [hc, hs, hcfg]
    norm_num
  refine ⟨_, demo_diagonal_init "ucvm" "cvms5", ?_, ?_, ?_, ?_, ?_, ?_, ?_, ?_⟩
  · rw [hcfg]; norm_num
  · rw [hcfg]; norm_num
  · rw [hc]; norm_num
  · rw [hs]; norm_num
  · rw [hh, hcfg]; exact hr
  · rw [hcfg]; exact hx
  · rw [hh, hcfg]
    dsimp only
    rw [hr]
    intro h
    have := congrArg Prod.fst h
    norm_num at this
  · rw [hcfg]
    dsimp only
    intro h
    have h2 := congrArg Prod.fst h
    rw [hx] at h2
    norm_num at h2

/-- C21, amended: let `cvms5_init` succeed, with `delta_north > 0` between the top-left and
the bottom-left corner, and let the values it stores be accurate: the cosine and the sine of
`theta = atan (delta_east / delta_north)` within `ε ≤ 1/16` of the cosine and sine of the
angle of the left edge, and `cvms5_total_height_m` within `εh` of the length of that edge. Then
the translate-then-rotate step of `cvms5_query`, in binary64 arithmetic, maps the bottom-left
corner exactly to `(0, 0)`, and the top-left corner to `(0, cvms5_total_height_m)` up to
rounding: `|point_x| ≤ (ε + 2 ^ (-51)) (|delta_east| + delta_north) + 2 ^ (-1072)` and
`|point_y - cvms5_total_height_m|` at most that plus `εh`; with exact operations the terms
`2 ^ (-51)` and `2 ^ (-1072)` disappear. The same holds for a query point that the projection
sends to one of these corners. -/
theorem C21_rotation_puts_left_edge_near_y_axis (w : cvms5_world) (dir label : String)
    (code : Int) (m : cvms5_state) (ε εh : ℚ)
    (hinit : cvms5_init w dir label = (code, some m))
    (hn : 0 < m.cvms5_configuration.top_left_corner_n
      - m.cvms5_configuration.bottom_left_corner_n)
    (hε : ε ≤ 1 / 16)
    (hcos : |((w.cos (w.atan
        ((m.cvms5_configuration.top_left_corner_e - m.cvms5_configuration.bottom_left_corner_e)
          / (m.cvms5_configuration.top_left_corner_n
            - m.cvms5_configuration.bottom_left_corner_n))) : ℚ) : ℝ)
      - Real.cos (Real.arctan
        (((m.cvms5_configuration.top_left_corner_e
            - m.cvms5_configuration.bottom_left_corner_e : ℚ) : ℝ)
          / ((m.cvms5_configuration.top_left_corner_n
            - m.cvms5_configuration.bottom_left_corner_n : ℚ) : ℝ)))| ≤ (ε : ℝ))
    (hsin : |((w.sin (w.atan
        ((m.cvms5_configuration.top_left_corner_e - m.cvms5_configuration.bottom_left_corner_e)
          / (m.cvms5_configuration.top_left_corner_n
            - m.cvms5_configuration.bottom_left_corner_n))) : ℚ) : ℝ)
      - Real.sin (Real.arctan
        (((m.cvms5_configuration.top_left_corner_e
            - m.cvms5_configuration.bottom_left_corner_e : ℚ) : ℝ)
          / ((m.cvms5_configuration.top_left_corner_n
            - m.cvms5_configuration.bottom_left_corner_n : ℚ) : ℝ)))| ≤ (ε : ℝ))
    (hsqrt : |((w.sqrt
        ((m.cvms5_configuration.top_left_corner_n
            - m.cvms5_configuration.bottom_left_corner_n) ^ 2
          + (m.cvms5_configuration.top_left_corner_e
            - m.cvms5_configuration.bottom_left_corner_e) ^ 2) : ℚ) : ℝ)
      - Real.sqrt
        (((m.cvms5_configuration.top_left_corner_n
            - m.cvms5_configuration.bottom_left_corner_n : ℚ) : ℝ) ^ 2
          + ((m.cvms5_configuration.top_left_corner_e
            - m.cvms5_configuration.bottom_left_corner_e : ℚ) : ℝ) ^ 2)| ≤ (εh : ℝ)) :
    code = SUCCESS ∧
    cvms5_to_local_rounded binary64_round m m.cvms5_configuration.bottom_left_corner_e
      m.cvms5_configuration.bottom_left_corner_n = (0, 0) ∧
    (|(cvms5_to_local_rounded binary64_round m m.cvms5_configuration.top_left_corner_e
        m.cvms5_configuration.top_left_corner_n).1|
      ≤ (ε + 1 / 2 ^ 51)
          * (|m.cvms5_configuration.top_left_corner_e
              - m.cvms5_configuration.bottom_left_corner_e|
            + (m.cvms5_configuration.top_left_corner_n
              - m.cvms5_configuration.bottom_left_corner_n)) + 1 / 2 ^ 1072 ∧
    |(cvms5_to_local_rounded binary64_round m m.cvms5_configuration.top_left_corner_e
        m.cvms5_configuration.top_left_corner_n).2 - m.cvms5_total_height_m|
      ≤ (ε + 1 / 2 ^ 51)
          * (|m.cvms5_configuration.top_left_corner_e
              - m.cvms5_configuration.bottom_left_corner_e|
            + (m.cvms5_configuration.top_left_corner_n
              - m.cvms5_configuration.bottom_left_corner_n)) + εh + 1 / 2 ^ 1072) ∧
    (cvms5_to_local m m.cvms5_configuration.bottom_left_corner_e
        m.cvms5_configuration.bottom_left_corner_n = (0, 0) ∧
    |(cvms5_to_local m m.cvms5_configuration.top_left_corner_e
        m.cvms5_configuration.top_left_corner_n).1|
      ≤ ε * (|m.cvms5_configuration.top_left_corner_e
              - m.cvms5_configuration.bottom_left_corner_e|
            + (m.cvms5_configuration.top_left_corner_n
              - m.cvms5_configuration.bottom_left_corner_n)) ∧
    |(cvms5_to_local m m.cvms5_configuration.top_left_corner_e
        m.cvms5_configuration.top_left_corner_n).2 - m.cvms5_total_height_m|
      ≤ ε * (|m.cvms5_configuration.top_left_corner_e
              - m.cvms5_configuration.bottom_left_corner_e|
            + (m.cvms5_configuration.top_left_corner_n
              - m.cvms5_configuration.bottom_left_corner_n)) + εh) ∧
    (∀ pt : cvms5_point_t,
      m.cvms5_geo2utm pt.latitude pt.longitude
        = (m.cvms5_configuration.bottom_left_corner_e,
           m.cvms5_configuration.bottom_left_corner_n) →
      point_x_rounded binary64_round m pt = 0 ∧ point_y_rounded binary64_round m pt = 0) ∧
    (∀ pt : cvms5_point_t,
      m.cvms5_geo2utm pt.latitude pt.longitude
        = (m.cvms5_configuration.top_left_corner_e,
           m.cvms5_configuration.top_left_corner_n) →
      |point_x_rounded binary64_round m pt|
        ≤ (ε + 1 / 2 ^ 51)
            * (|m.cvms5_configuration.top_left_corner_e
                - m.cvms5_configuration.bottom_left_corner_e|
              + (m.cvms5_configuration.top_left_corner_n
                - m.cvms5_configuration.bottom_left_corner_n)) + 1 / 2 ^ 1072 ∧
      |point_y_rounded binary64_round m pt - m.cvms5_total_height_m|
        ≤ (ε + 1 / 2 ^ 51)
            * (|m.cvms5_configuration.top_left_corner_e
                - m.cvms5_configuration.bottom_left_corner_e|
              + (m.cvms5_configuration.top_left_corner_n
                - m.cvms5_configuration.bottom_left_corner_n)) + εh + 1 / 2 ^ 1072) := by
  obtain ⟨hcode, -, -, g1, g2, -, -, hm⟩ := init_some w dir label code m hinit
  have ec : m.cvms5_cos_rotation_angle = w.cos (w.atan
      ((m.cvms5_configuration.top_left_corner_e - m.cvms5_configuration.bottom_left_corner_e)
        / (m.cvms5_configuration.top_left_corner_n
          - m.cvms5_configuration.bottom_left_corner_n))) := by
    rw [hm]; rfl
  have es : m.cvms5_sin_rotation_angle = w.sin (w.atan
      ((m.cvms5_configuration.top_left_corner_e - m.cvms5_configuration.bottom_left_corner_e)
        / (m.cvms5_configuration.top_left_corner_n
          - m.cvms5_configuration.bottom_left_corner_n))) := by
    rw [hm]; rfl
  have eh : m.cvms5_total_height_m = w.sqrt
      ((m.cvms5_configuration.top_left_corner_n
          - m.cvms5_configuration.bottom_left_corner_n) ^ 2
        + (m.cvms5_configuration.top_left_corner_e
          - m.cvms5_configuration.bottom_left_corner_e) ^ 2) := by
    rw [hm]; rfl
  rw [← ec] at hcos
  rw [← es] at hsin
  rw [← eh] at hsqrt
  obtain ⟨⟨a1, a2⟩, a3, a4⟩ := rotation_left_edge_rounded m.cvms5_cos_rotation_angle
    m.cvms5_sin_rotation_angle m.cvms5_total_height_m
    (m.cvms5_configuration.top_left_corner_e - m.cvms5_configuration.bottom_left_corner_e)
    (m.cvms5_configuration.top_left_corner_n - m.cvms5_configuration.bottom_left_corner_n)
    ε εh hn hε hcos hsin hsqrt
  have hbl := to_local_rounded_origin m
  have htl : (|(cvms5_to_local_rounded binary64_round m m.cvms5_configuration.top_left_corner_e
        m.cvms5_configuration.top_left_corner_n).1|
      ≤ (ε + 1 / 2 ^ 51)
          * (|m.cvms5_configuration.top_left_corner_e
              - m.cvms5_configuration.bottom_left_corner_e|
            + (m.cvms5_configuration.top_left_corner_n
              - m.cvms5_configuration.bottom_left_corner_n)) + 1 / 2 ^ 1072 ∧
    |(cvms5_to_local_rounded binary64_round m m.cvms5_configuration.top_left_corner_e
        m.cvms5_configuration.top_left_corner_n).2 - m.cvms5_total_height_m|
      ≤ (ε + 1 / 2 ^ 51)
          * (|m.cvms5_configuration.top_left_corner_e
              - m.cvms5_configuration.bottom_left_corner_e|
            + (m.cvms5_configuration.top_left_corner_n
              - m.cvms5_configuration.bottom_left_corner_n)) + εh + 1 / 2 ^ 1072) :=
    ⟨a1, a2⟩
  refine ⟨hcode, hbl, htl, ⟨?_, a3, a4⟩, ?_, ?_⟩
  · unfold cvms5_to_local
    simp only [sub_self, mul_zero, add_zero]
  · intro pt hpt
    have h := point_to_local_rounded binary64_round m pt
    rw [hpt, hbl] at h
    exact h
  · intro pt hpt
    have h := point_to_local_rounded binary64_round m pt
    rw [hpt] at h
    rw [h.1, h.2]
    exact htl

theorem C21_rotation_puts_left_edge_near_y_axis_witness :
    ∃ m : cvms5_state, cvms5_init demo_world_diagonal "ucvm" "cvms5" = (SUCCESS, some m) ∧
      cvms5_to_local_rounded binary64_round m 1000 2000 = (0, 0) ∧
      |(cvms5_to_local_rounded binary64_round m 2000 3000).1|
        ≤ (1 / 2 ^ 53 + 1 / 2 ^ 51) * (|(2000 : ℚ) - 1000| + (3000 - 2000)) + 1 / 2 ^ 1072 ∧
      |(cvms5_to_local_rounded binary64_round m 2000 3000).2 - m.cvms5_total_height_m|
        ≤ (1 / 2 ^ 53 + 1 / 2 ^ 51) * (|(2000 : ℚ) - 1000| + (3000 - 2000)) + 1 / 2 ^ 43
          + 1 / 2 ^ 1072 := by
  obtain ⟨a1, a2, a3⟩ := demo_diagonal_accuracy
  have hc : demo_world_diagonal.cos (demo_world_diagonal.atan ((2000 - 1000) / (3000 - 2000)))
      = 6369051672525773 / 9007199254740992 := by
    norm_num [demo_world_diagonal]
  have hs : demo_world_diagonal.sin (demo_world_diagonal.atan ((2000 - 1000) / (3000 - 2000)))
      = 6369051672525772 / 9007199254740992 := by
    norm_num [demo_world_diagonal]
  have hq : demo_world_diagonal.sqrt ((3000 - 2000) ^ 2 + (2000 - 1000) ^ 2)
      = 3109888511975475 / 2199023255552 := by
    norm_num [demo_world_diagonal]
  have h := C21_rotation_puts_left_edge_near_y_axis demo_world_diagonal "ucvm" "cvms5" SUCCESS _
    (1 / 2 ^ 53) (1 / 2 ^ 43) (demo_diagonal_init "ucvm" "cvms5")
    (show (0 : ℚ) < 3000 - 2000 by norm_num) (by norm_num)
    (show |((demo_world_diagonal.cos (demo_world_diagonal.atan
          ((2000 - 1000) / (3000 - 2000))) : ℚ) : ℝ)
        - Real.cos (Real.arctan (((2000 - 1000 : ℚ) : ℝ) / ((3000 - 2000 : ℚ) : ℝ)))|
        ≤ ((1 / 2 ^ 53 : ℚ) : ℝ) by rw [hc]; exact a1)
    (show |((demo_world_diagonal.sin (demo_world_diagonal.atan
          ((2000 - 1000) / (3000 - 2000))) : ℚ) : ℝ)
        - Real.sin (Real.arctan (((2000 - 1000 : ℚ) : ℝ) / ((3000 - 2000 : ℚ) : ℝ)))|
        ≤ ((1 / 2 ^ 53 : ℚ) : ℝ) by rw [hs]; exact a2)
    (show |((demo_world_diagonal.sqrt ((3000 - 2000) ^ 2 + (2000 - 1000) ^ 2) : ℚ) : ℝ)
        - Real.sqrt (((3000 - 2000 : ℚ) : ℝ) ^ 2 + ((2000 - 1000 : ℚ) : ℝ) ^ 2)|
        ≤ ((1 / 2 ^ 43 : ℚ) : ℝ) by rw [hq]; exact a3)
  exact ⟨_, demo_diagonal_init "ucvm" "cvms5", h.2.1, h.2.2.1.1, h.2.2.1.2⟩

/-- C22, failing input: in `demo_world_no_p5` the configuration file lacks the line for `p5`,
and in `demo_world_no_config` it cannot be opened; in both `cvms5_read_configuration` returns
`FAIL` to `cvms5_init`. The grid files, the Vs30 map and the projections load, and `cvms5_init`
returns `SUCCESS`: the `FAIL` stored in `tempVal` is overwritten by the result of
`cvms5_try_reading_model` before it is looked at. -/
theorem C22_init_ignores_configuration_failure :
    (cvms5_init_configuration_code demo_world_no_p5 "ucvm" "cvms5" = FAIL ∧
      (cvms5_init_configuration demo_world_no_p5 "ucvm" "cvms5").p5 = 0 ∧
      (cvms5_init demo_world_no_p5 "ucvm" "cvms5").1 = SUCCESS ∧
      (cvms5_init demo_world_no_p5 "ucvm" "cvms5").2.isSome = true) ∧
    (cvms5_init_configuration_code demo_world_no_config "ucvm" "cvms5" = FAIL ∧
      (cvms5_init demo_world_no_config "ucvm" "cvms5").1 = SUCCESS ∧
      (cvms5_init demo_world_no_config "ucvm" "cvms5").2.isSome = true) := by
  have hm1 := (demo_variants_model_code "ucvm" "cvms5").1
  have hv1 := (demo_variants_vs30_code "ucvm").1
  have hm2 := (demo_variants_model_code "ucvm" "cvms5").2.1
  have hv2 := (demo_variants_vs30_code "ucvm").2.1
  have h1 : cvms5_init demo_world_no_p5 "ucvm" "cvms5"
      = (SUCCESS, some (cvms5_init_globals demo_world_no_p5 "ucvm" "cvms5"
          (fun lat lon => (lon, lat), fun lat _ => if lat > 5000 then 1 else 0)
          (fun lat lon => (lon, lat), fun lat _ => if lat > 5000 then 1 else 0))) := by
    rw [init_unfold, if_neg (by rw [hm1]; decide), if_neg (by rw [hv1]; exact not_not.mpr rfl)]
    rfl
  have h2 : cvms5_init demo_world_no_config "ucvm" "cvms5"
      = (SUCCESS, some (cvms5_init_globals demo_world_no_config "ucvm" "cvms5"
          (fun lat lon => (lon, lat), fun lat _ => if lat > 5000 then 1 else 0)
          (fun lat lon => (lon, lat), fun lat _ => if lat > 5000 then 1 else 0))) := by
    rw [init_unfold, if_neg (by rw [hm2]; decide), if_neg (by rw [hv2]; exact not_not.mpr rfl)]
    rfl
  refine ⟨⟨rfl, rfl, ?_, ?_⟩, rfl, ?_, ?_⟩
  · rw [h1]
  · rw [h1]; rfl
  · rw [h2]
  · rw [h2]; rfl

/-- C23: `cvms5_try_reading_model` returns `FAIL` to `cvms5_init` exactly when none of the five
grid files is readable, and then `cvms5_init` returns `FAIL`; `cvms5_init` also returns `FAIL`
whenever `cvms5_read_vs30_map` does not return `SUCCESS`. `cvms5_try_reading_model` returns
`SUCCESS` exactly when some readable grid file could not be loaded into memory (it stays on
disk); `cvms5_init` then goes on: with a readable Vs30 map and both projections created it
returns `SUCCESS` and leaves the globals of a finished initialisation. -/
theorem C23_init_fails_without_model_or_map (w : cvms5_world) (dir label : String) :
    (cvms5_init_model_code w dir label = FAIL ↔
      ∀ f ∈ cvms5_grid_files (cvms5_init_iteration_directory w dir label),
        w.access_r_ok f = false) ∧
    (cvms5_init_model_code w dir label = FAIL → cvms5_init w dir label = (FAIL, none)) ∧
    (cvms5_init_vs30_code w dir ≠ SUCCESS → cvms5_init w dir label = (FAIL, none)) ∧
    (cvms5_init_model_code w dir label = SUCCESS ↔
      ∃ f ∈ cvms5_grid_files (cvms5_init_iteration_directory w dir label),
        w.access_r_ok f = true ∧
        w.malloc_ok f (cvms5_base_malloc (cvms5_init_configuration w dir label)) = false) ∧
    (cvms5_init_model_code w dir label = SUCCESS → cvms5_init_vs30_code w dir = SUCCESS →
      ∀ geo2utm geo2aeqd : (ℚ → ℚ → ℚ × ℚ) × (ℚ → ℚ → Int),
        w.proj_create_crs_to_crs (cvms5_init_projstr w dir label) = some geo2utm →
        w.proj_create_crs_to_crs (cvms5_init_vs30_map w dir).projection = some geo2aeqd →
        cvms5_init w dir label
          = (SUCCESS, some (cvms5_init_globals w dir label geo2utm geo2aeqd))) := by
  have hcode : cvms5_init_model_code w dir label =
      if ∀ f ∈ cvms5_grid_files (cvms5_init_iteration_directory w dir label),
          w.access_r_ok f = false then FAIL
      else if ∃ f ∈ cvms5_grid_files (cvms5_init_iteration_directory w dir label),
          w.access_r_ok f = true ∧
          w.malloc_ok f (cvms5_base_malloc (cvms5_init_configuration w dir label)) = false
        then SUCCESS
      else 2 := try_reading_model_code w _ _ _
  have hfs : FAIL ≠ SUCCESS := by decide
  have h2s : (2 : Int) ≠ SUCCESS := by decide
  have h2f : (2 : Int) ≠ FAIL := by decide
  refine ⟨?_, ?_, ?_, ?_, ?_⟩
  · rw [hcode]
    split_ifs with h1 h2
    · exact ⟨fun _ => h1, fun _ => rfl⟩
    · exact ⟨fun h => absurd h hfs.symm, fun h => absurd h h1⟩
    · exact ⟨fun h => absurd h h2f, fun h => absurd h h1⟩
  · intro h
    rw [init_unfold, if_pos h]
  · intro h
    rw [init_unfold]
    split_ifs
    · rfl
    · rfl
  · rw [hcode]
    split_ifs with h1 h2
    · refine ⟨fun h => absurd h hfs, ?_⟩
      rintro ⟨f, hf, ha, -⟩
      rw [h1 f hf] at ha
      exact absurd ha (by decide)
    · exact ⟨fun _ => h2, fun _ => rfl⟩
    · exact ⟨fun h => absurd h h2s, fun h => absurd h h2⟩
  · intro hm hv g1 g2 hp1 hp2
    rw [init_unfold, if_neg (by rw [hm]; exact hfs.symm), if_neg (not_not.mpr hv), hp1, hp2]

theorem C23_init_fails_without_model_or_map_witness :
    cvms5_init demo_world_no_files "ucvm" "cvms5" = (FAIL, none) ∧
    cvms5_init demo_world_no_map "ucvm" "cvms5" = (FAIL, none) ∧
    (cvms5_init_model_code demo_world_on_disk "ucvm" "cvms5" = SUCCESS ∧
      (cvms5_init demo_world_on_disk "ucvm" "cvms5").1 = SUCCESS ∧
      (cvms5_init demo_world_on_disk "ucvm" "cvms5").2.isSome = true) := by
  have hm := (demo_variants_model_code "ucvm" "cvms5").2.2.1
  have h3 := (C23_init_fails_without_model_or_map demo_world_on_disk "ucvm" "cvms5").2.2.2.2
    hm (demo_variants_vs30_code "ucvm").2.2.1
    (fun lat lon => (lon, lat), fun lat _ => if lat > 5000 then 1 else 0)
    (fun lat lon => (lon, lat), fun lat _ => if lat > 5000 then 1 else 0) rfl rfl
  refine ⟨(C23_init_fails_without_model_or_map demo_world_no_files "ucvm" "cvms5").2.1
      (demo_variants_model_code "ucvm" "cvms5").2.2.2,
    (C23_init_fails_without_model_or_map demo_world_no_map "ucvm" "cvms5").2.2.1
      (by rw [(demo_variants_vs30_code "ucvm").2.2.2]; decide),
    hm, ?_, ?_⟩
  · rw [h3]
  · rw [h3]; rfl

/-- C24: for a configuration file that can be opened, `cvms5_read_configuration` leaves in
`*config` the result of applying all lines, and returns `SUCCESS` if and only if in that result
`utm_zone`, `nx`, `ny`, `nz`, the eight corner coordinates, `depth`, `depth_interval` and
`p0 .. p5` are non-zero and `model_dir` is not empty; otherwise it returns `FAIL`. The flag `gtl`
is not among the conditions: it is the value `*config` had when no line ran with the key `gtl`,
and otherwise 1 or 0 according to whether the value of the last such line is `on`; for a
zeroed `*config` it is 1 exactly when that last value is `on`. -/
theorem C24_read_configuration_success_iff_complete (w : cvms5_world) (file : String)
    (lines : List String) (config : cvms5_configuration_t)
    (hopen : w.fgets_lines file = some lines) :
    (cvms5_read_configuration w file config).2
      = cvms5_read_lines w lines w.key0 w.value0 config ∧
    ((cvms5_read_configuration w file config).1 = SUCCESS ↔
      (cvms5_read_configuration w file config).2.utm_zone ≠ 0 ∧
      (cvms5_read_configuration w file config).2.nx ≠ 0 ∧
      (cvms5_read_configuration w file config).2.ny ≠ 0 ∧
      (cvms5_read_configuration w file config).2.nz ≠ 0 ∧
      (cvms5_read_configuration w file config).2.model_dir ≠ "" ∧
      (cvms5_read_configuration w file config).2.top_left_corner_e ≠ 0 ∧
      (cvms5_read_configuration w file config).2.top_left_corner_n ≠ 0 ∧
      (cvms5_read_configuration w file config).2.top_right_corner_e ≠ 0 ∧
      (cvms5_read_configuration w file config).2.top_right_corner_n ≠ 0 ∧
      (cvms5_read_configuration w file config).2.bottom_left_corner_e ≠ 0 ∧
      (cvms5_read_configuration w file config).2.bottom_left_corner_n ≠ 0 ∧
      (cvms5_read_configuration w file config).2.bottom_right_corner_e ≠ 0 ∧
      (cvms5_read_configuration w file config).2.bottom_right_corner_n ≠ 0 ∧
      (cvms5_read_configuration w file config).2.depth ≠ 0 ∧
      (cvms5_read_configuration w file config).2.depth_interval ≠ 0 ∧
      (cvms5_read_configuration w file config).2.p0 ≠ 0 ∧
      (cvms5_read_configuration w file config).2.p1 ≠ 0 ∧
      (cvms5_read_configuration w file config).2.p2 ≠ 0 ∧
      (cvms5_read_configuration w file config).2.p3 ≠ 0 ∧
      (cvms5_read_configuration w file config).2.p4 ≠ 0 ∧
      (cvms5_read_configuration w file config).2.p5 ≠ 0) ∧
    ((cvms5_read_configuration w file config).1 ≠ SUCCESS →
      (cvms5_read_configuration w file config).1 = FAIL) ∧
    (cvms5_last_gtl_value w lines w.key0 w.value0 none = none →
      (cvms5_read_configuration w file config).2.gtl = config.gtl) ∧
    (∀ v : String, cvms5_last_gtl_value w lines w.key0 w.value0 none = some v →
      (cvms5_read_configuration w file config).2.gtl = if v = "on" then 1 else 0) ∧
    (config.gtl = 0 →
      ((cvms5_read_configuration w file config).2.gtl = 1 ↔
        cvms5_last_gtl_value w lines w.key0 w.value0 none = some "on")) := by
  have hg := read_lines_gtl w lines w.key0 w.value0 config none config.gtl (fun _ => rfl)
    (fun v h => by cases h)
  have hgz : config.gtl = 0 →
      ((cvms5_read_lines w lines w.key0 w.value0 config).gtl = 1 ↔
        cvms5_last_gtl_value w lines w.key0 w.value0 none = some "on") := by
    intro h0
    cases hl : cvms5_last_gtl_value w lines w.key0 w.value0 none with
    | none =>
      rw [hg.1 hl, h0]
      simp
    | some v =>
      rw [hg.2 v hl]
      by_cases hv : v = "on"
      · simp [hv]
      · simp [hv]
  unfold cvms5_read_configuration
  rw [hopen]
  dsimp only
  split_ifs with h
  · have hfs : FAIL ≠ SUCCESS := by decide
    refine ⟨rfl, ⟨fun hc => absurd hc hfs, fun hall => ?_⟩, fun _ => rfl, hg.1, hg.2, hgz⟩
    exfalso
    obtain ⟨a1, a2, a3, a4, a5, a6, a7, a8, a9, a10, a11, a12, a13, a14, a15, a16, a17, a18,
      a19, a20, a21⟩ := hall
    rcases h with h | h | h | h | h | h | h | h | h | h | h | h | h | h | h | h | h | h | h
      | h | h
    all_goals first
      | exact a1 h | exact a2 h | exact a3 h | exact a4 h | exact a5 h | exact a6 h
      | exact a7 h | exact a8 h | exact a9 h | exact a10 h | exact a11 h | exact a12 h
      | exact a13 h | exact a14 h | exact a15 h | exact a16 h | exact a17 h | exact a18 h
      | exact a19 h | exact a20 h | exact a21 h
  · refine ⟨rfl, ⟨fun _ => ?_, fun _ => rfl⟩, fun hc => absurd rfl hc, hg.1, hg.2, hgz⟩
    simp only [not_or] at h
    exact h

theorem C24_read_configuration_success_iff_complete_witness :
    ((cvms5_read_configuration demo_world "config" cvms5_configuration_calloc).1 = SUCCESS ∧
      (cvms5_read_configuration demo_world "config" cvms5_configuration_calloc).2.gtl = 1) ∧
    (cvms5_read_configuration demo_world_no_p5 "config" cvms5_configuration_calloc).1
      = FAIL := by
  have h := C24_read_configuration_success_iff_complete demo_world "config" demo_config_lines
    cvms5_configuration_calloc rfl
  have h2 := C24_read_configuration_success_iff_complete demo_world_no_p5 "config"
    demo_config_lines_no_p5 cvms5_configuration_calloc rfl
  have e : (cvms5_read_configuration demo_world "config" cvms5_configuration_calloc).2
      = demo_world_configuration := rfl
  have e5 : (cvms5_read_configuration demo_world_no_p5 "config"
      cvms5_configuration_calloc).2.p5 = 0 := rfl
  refine ⟨⟨h.2.1.mpr ?_, (h.2.2.2.2.2 rfl).mpr rfl⟩, h2.2.2.1 ?_⟩
  · rw [e]
    refine ⟨?_, ?_, ?_, ?_, ?_, ?_, ?_, ?_, ?_, ?_, ?_, ?_, ?_, ?_, ?_, ?_, ?_, ?_, ?_, ?_, ?_⟩
    all_goals decide
  · intro hc
    exact (h2.2.1.mp hc).2.2.2.2.2.2.2.2.2.2.2.2.2.2.2.2.2.2.2.2 e5

/-- C25: a query at depth 0 whose transform succeeds, whose x and y cell indices lie in
`[0, nx - 2] x [0, ny - 2]`, on a model at least two layer intervals deep. If GTL is on, the
proxy velocity `v` satisfies `0 < v ≤ 5000` and `sqrt 0 = 0`, or if GTL is off, the footprint
has positive width and height, and the four corner cells of the top layer (z index
`load_z_coord`) hold positive `vp` and `vs`, then the entry of the point has `vs > 0`, `vp > 0`
and `rho = cvms5_calculate_density vs`, at any position of a batch; a one-point query returns it
with code `SUCCESS`. -/
theorem C25_surface_query_is_positive (fuel : Nat) (m : cvms5_state) (pt : cvms5_point_t)
    (hdepth : pt.depth = 0)
    (he : m.cvms5_geo2utm_errno pt.latitude pt.longitude = 0)
    (hx : 0 ≤ load_x_coord m pt ∧ load_x_coord m pt ≤ m.cvms5_configuration.nx - 2)
    (hy : 0 ≤ load_y_coord m pt ∧ load_y_coord m pt ≤ m.cvms5_configuration.ny - 2)
    (hdi : 0 < m.cvms5_configuration.depth_interval)
    (hl : 2 ≤ m.cvms5_configuration.depth / m.cvms5_configuration.depth_interval)
    (hcase :
      (m.cvms5_configuration.gtl = 1 ∧ m.sqrt 0 = 0 ∧
        0 < (cvms5_get_vs30_value m pt.longitude pt.latitude).1 ∧
        (cvms5_get_vs30_value m pt.longitude pt.latitude).1 ≤ 5000) ∨
      (m.cvms5_configuration.gtl ≠ 1 ∧
        0 < m.cvms5_total_width_m ∧ 0 < m.cvms5_total_height_m ∧
        (0 < (cvms5_read_properties m (load_x_coord m pt) (load_y_coord m pt)
            (load_z_coord m pt)).1.vp ∧
         0 < (cvms5_read_properties m (load_x_coord m pt) (load_y_coord m pt)
            (load_z_coord m pt)).1.vs) ∧
        (0 < (cvms5_read_properties m (load_x_coord m pt + 1) (load_y_coord m pt)
            (load_z_coord m pt)).1.vp ∧
         0 < (cvms5_read_properties m (load_x_coord m pt + 1) (load_y_coord m pt)
            (load_z_coord m pt)).1.vs) ∧
        (0 < (cvms5_read_properties m (load_x_coord m pt) (load_y_coord m pt + 1)
            (load_z_coord m pt)).1.vp ∧
         0 < (cvms5_read_properties m (load_x_coord m pt) (load_y_coord m pt + 1)
            (load_z_coord m pt)).1.vs) ∧
        (0 < (cvms5_read_properties m (load_x_coord m pt + 1) (load_y_coord m pt + 1)
            (load_z_coord m pt)).1.vp ∧
         0 < (cvms5_read_properties m (load_x_coord m pt + 1) (load_y_coord m pt + 1)
            (load_z_coord m pt)).1.vs))) :
    (∀ (pts : List cvms5_point_t) (i : Nat), pts[i]? = some pt →
      ∃ r : cvms5_result, cvms5_query (fuel + 2) m pts = some r ∧
        ∀ d : cvms5_properties_t, r.data[i]? = some d →
          0 < d.vs ∧ 0 < d.vp ∧ d.rho = cvms5_calculate_density m d.vs) ∧
    ∃ (r : cvms5_result) (d : cvms5_properties_t),
      cvms5_query (fuel + 2) m [pt] = some r ∧ r.code = SUCCESS ∧ r.data = [d] ∧
      0 < d.vs ∧ 0 < d.vp ∧ d.rho = cvms5_calculate_density m d.vs := by
  obtain ⟨hz1, hzp, hp0⟩ := surface_locals m pt hdepth hdi hl
  have hd : ¬ pt.depth < 0 := by rw [hdepth]; exact lt_irrefl _
  have hz : ¬ (load_z_coord m pt = 0 ∧ z_percent m pt = 0) := by
    intro h
    omega
  have ho : ¬ cvms5_outside m pt := by
    unfold cvms5_outside
    omega
  have hbody : ∀ (n : Nat) (xp yp : ℚ), ∃ s : cvms5_step,
      cvms5_query_body (cvms5_get_vs30_based_gtl (fun q => cvms5_query (n + 1) m q) m) m xp yp pt
        = some s ∧ s.ret = none ∧ 0 < s.data.vs ∧ 0 < s.data.vp ∧
        s.data.rho = cvms5_calculate_density m s.data.vs := by
    intro n xp yp
    rcases hcase with ⟨hgtl, hs0, hv0, hv1⟩ | ⟨hgtl, hw, hh, c0, c1, c2, c3⟩
    · have hg : pt.depth < m.cvms5_configuration.depth_interval ∧
          m.cvms5_configuration.gtl = 1 := ⟨by rw [hdepth]; exact hdi, hgtl⟩
      obtain ⟨r, hr, hc, -⟩ := deep_query_code n m pt he
      have hb := gtl_blend (fun q => cvms5_query (n + 1) m q) m pt cvms5_not_found r
        (by rw [hp0]; norm_num) hr hc (by linarith)
      have hf := (gtl_weights_at_endpoints m.sqrt).1
      have hgw := (gtl_weights_at_endpoints m.sqrt).2.2.1 hs0
      rw [hp0, hf, hgw] at hb
      rw [body_gtl _ m xp yp pt hd he hz ho hg, hb]
      refine ⟨_, rfl, rfl, ?_, ?_, ?_⟩
      · rw [derived_vs]
        show 0 < 0 * _ + 1 / 2 * _
        linarith
      · rw [derived_vp]
        show 0 < 0 * _ + 1 / 2 * _
        have := gtl_vp30_pos _ hv0 hv1
        linarith
      · rw [derived_rho, derived_vs]
    · have hg : ¬ (pt.depth < m.cvms5_configuration.depth_interval ∧
          m.cvms5_configuration.gtl = 1) := fun h => hgtl h.2
      have hnx : 2 ≤ m.cvms5_configuration.nx := by omega
      have hny : 2 ≤ m.cvms5_configuration.ny := by omega
      obtain ⟨-, hlx, hxp⟩ := x_percent_eq_fract m pt hnx hw hx.1
      obtain ⟨-, hly, hyp⟩ := y_percent_eq_fract m pt hny hh hy.1
      have bx := fract_bounds
        (point_x m pt / (m.cvms5_total_width_m / ((m.cvms5_configuration.nx - 1 : Int) : ℚ)))
      have bnd_y := fract_bounds
        (point_y m pt / (m.cvms5_total_height_m / ((m.cvms5_configuration.ny - 1 : Int) : ℚ)))
      rw [← hlx, ← hxp] at bx
      rw [← hly, ← hyp] at bnd_y
      rw [body_trilinear _ m xp yp pt hd he hz ho hg, hzp]
      refine ⟨_, rfl, rfl, ?_, ?_, ?_⟩
      · rw [derived_vs, (trilinear_top _ _ _ _ _ _ _ _ _ _).1]
        exact bilinear_pos _ _ _ _ _ _ bx.1 bx.2 bnd_y.1 bnd_y.2 c0.2 c1.2 c2.2 c3.2
      · rw [derived_vp, (trilinear_top _ _ _ _ _ _ _ _ _ _).2]
        exact bilinear_pos _ _ _ _ _ _ bx.1 bx.2 bnd_y.1 bnd_y.2 c0.1 c1.1 c2.1 c3.1
      · rw [derived_rho, derived_vs]
  refine ⟨?_, ?_⟩
  · intro pts i hi
    obtain ⟨r, hr⟩ := Option.isSome_iff_exists.mp (query_isSome fuel m pts)
    refine ⟨r, hr, ?_⟩
    intro d hdat
    obtain ⟨n, xq, yq, s, hn, hs, hsd⟩ := query_get (fuel + 2) m pts r hr i pt d hi hdat
    have hn' : n = fuel + 1 := by omega
    subst hn'
    obtain ⟨s', hs', -, h1, h2, h3⟩ := hbody fuel xq yq
    rw [hs'] at hs
    simp only [Option.some.injEq] at hs
    rw [← hsd, ← hs]
    exact ⟨h1, h2, h3⟩
  · obtain ⟨s, hs, hret, h1, h2, h3⟩ := hbody fuel 0 0
    rw [query_succ, loop_cons_next _ m 0 0 pt [] s hs hret, loop_nil]
    exact ⟨_, s.data, rfl, rfl, rfl, h1, h2, h3⟩

theorem C25_surface_query_is_positive_witness :
    (∃ (r : cvms5_result) (d : cvms5_properties_t),
      cvms5_query 2 demo_state [demo_point_surface] = some r ∧ r.code = SUCCESS ∧
      r.data = [d] ∧ 0 < d.vs ∧ 0 < d.vp ∧ d.rho = cvms5_calculate_density demo_state d.vs) ∧
    (∃ (r : cvms5_result) (d : cvms5_properties_t),
      cvms5_query 2 demo_state_gtl_off [demo_point_surface] = some r ∧ r.code = SUCCESS ∧
      r.data = [d] ∧ 0 < d.vs ∧ 0 < d.vp ∧
      d.rho = cvms5_calculate_density demo_state_gtl_off d.vs) := by
  have hc := demo_cell_passed demo_point_surface rfl rfl (by norm_num [demo_point_surface])
    (by norm_num [demo_point_surface])
  have hx : 0 ≤ load_x_coord demo_state demo_point_surface ∧
      load_x_coord demo_state demo_point_surface ≤ demo_state.cvms5_configuration.nx - 2 := by
    rw [hc.2.1]
    decide
  have hy : 0 ≤ load_y_coord demo_state demo_point_surface ∧
      load_y_coord demo_state demo_point_surface ≤ demo_state.cvms5_configuration.ny - 2 := by
    rw [hc.2.2.1]
    decide
  have hdi : 0 < demo_state.cvms5_configuration.depth_interval := by
    norm_num [demo_state, demo_configuration]
  have hl : 2 ≤ demo_state.cvms5_configuration.depth
      / demo_state.cvms5_configuration.depth_interval := by
    norm_num [demo_state, demo_configuration]
  have hv : (cvms5_get_vs30_value demo_state demo_point_surface.longitude
      demo_point_surface.latitude).1 = 500 :=
    demo_vs30_value _ _ (by norm_num [demo_point_surface]) (by norm_num [demo_point_surface])
      (by norm_num [demo_point_surface]) (by norm_num [demo_point_surface])
  have hz : load_z_coord demo_state_gtl_off demo_point_surface = 2 := by
    show load_z_coord demo_state demo_point_surface = 2
    rw [demo_load_z, show demo_point_surface.depth = 0 from rfl]
    norm_num
    exact c_trunc_intCast 2
  have hread : ∀ x y : Int, 0 ≤ x → x ≤ 1 → 0 ≤ y →
      0 < (cvms5_read_properties demo_state_gtl_off x y
        (load_z_coord demo_state_gtl_off demo_point_surface)).1.vp ∧
      0 < (cvms5_read_properties demo_state_gtl_off x y
        (load_z_coord demo_state_gtl_off demo_point_surface)).1.vs := by
    intro x y hx0 hx1 hy0
    rw [hz, show cvms5_read_properties demo_state_gtl_off x y 2
      = cvms5_read_properties demo_state x y 2 from rfl, demo_read]
    have : (0 : ℚ) ≤ ((2 * 9 + (2 - x) * 3 + y : Int) : ℚ) := by
      have : (0 : Int) ≤ 2 * 9 + (2 - x) * 3 + y := by omega
      exact_mod_cast this
    constructor <;> dsimp only <;> linarith
  have hx0 : load_x_coord demo_state_gtl_off demo_point_surface = 0 := hc.2.1
  have herr : demo_state_gtl_off.cvms5_geo2utm_errno demo_point_surface.latitude
      demo_point_surface.longitude = 0 :=
    demo_errno demo_point_surface (by norm_num [demo_point_surface])
  have hy0 : load_y_coord demo_state_gtl_off demo_point_surface = 0 := hc.2.2.1
  refine ⟨(C25_surface_query_is_positive 0 demo_state demo_point_surface rfl
      (demo_errno _ (by norm_num [demo_point_surface])) hx hy hdi hl
      (Or.inl ⟨rfl, by norm_num [demo_state], by rw [hv]; norm_num,
        by rw [hv]; norm_num⟩)).2,
    (C25_surface_query_is_positive 0 demo_state_gtl_off demo_point_surface rfl
      herr hx hy hdi hl
      (Or.inr ⟨by decide, by norm_num [demo_state_gtl_off, demo_state],
        by norm_num [demo_state_gtl_off, demo_state], ?_, ?_, ?_, ?_⟩)).2⟩
  · rw [hx0, hy0]; exact hread 0 0 (by norm_num) (by norm_num) (by norm_num)
  · rw [hx0, hy0]; exact hread (0 + 1) 0 (by norm_num) (by norm_num) (by norm_num)
  · rw [hx0, hy0]; exact hread 0 (0 + 1) (by norm_num) (by norm_num) (by norm_num)
  · rw [hx0, hy0]; exact hread (0 + 1) (0 + 1) (by norm_num) (by norm_num) (by norm_num)

/-- C26, counterexample: with a total depth of 2500 m and layers of 1000 m, at depth 2000 m the
bracketed value is `-1/2`; its floor is `-1`, but the z index of `cvms5_query` is `0`, and the
query answers from layer 0 through the bilinear shortcut instead of returning "not found". -/
theorem C26_counterexample_negative_bracket :
    0 ≤ demo_point_top.depth ∧ 0 < demo_state_half.cvms5_configuration.depth_interval ∧
    (demo_state_half.cvms5_configuration.depth
        / demo_state_half.cvms5_configuration.depth_interval - 1)
      - ((⌊demo_point_top.depth / demo_state_half.cvms5_configuration.depth_interval⌋ : Int) : ℚ)
      = -1 / 2 ∧
    ⌊(demo_state_half.cvms5_configuration.depth
        / demo_state_half.cvms5_configuration.depth_interval - 1)
      - ((⌊demo_point_top.depth / demo_state_half.cvms5_configuration.depth_interval⌋ : Int) : ℚ)⌋
      = -1 ∧
    load_z_coord demo_state_half demo_point_top = 0 ∧
    ∃ (r : cvms5_result) (d : cvms5_properties_t),
      cvms5_query 2 demo_state_half [demo_point_top] = some r ∧ r.code = SUCCESS ∧
      r.data = [d] ∧ d.vs = 1500 := by
  have hdepth : demo_point_top.depth = 2000 := rfl
  have hdi : demo_state_half.cvms5_configuration.depth_interval = 1000 := rfl
  have hD : demo_state_half.cvms5_configuration.depth = 2500 := rfl
  have hfl : ⌊demo_point_top.depth / demo_state_half.cvms5_configuration.depth_interval⌋ = 2 := by
    rw [hdepth, hdi]
    exact floor_eq_of (by norm_num) (by norm_num)
  have hb : (demo_state_half.cvms5_configuration.depth
        / demo_state_half.cvms5_configuration.depth_interval - 1)
      - ((⌊demo_point_top.depth / demo_state_half.cvms5_configuration.depth_interval⌋ : Int) : ℚ)
      = -1 / 2 := by
    rw [hfl, hD, hdi]
    norm_num
  have hz : load_z_coord demo_state_half demo_point_top = 0 := by
    unfold load_z_coord c_trunc
    rw [hb, if_neg (by norm_num), Int.ceil_eq_iff]
    norm_num
  have hzp : z_percent demo_state_half demo_point_top = 0 := by
    unfold z_percent
    rw [hdepth, hdi, fmod_of_nonneg (k := 2) (by norm_num) (by norm_num) (by norm_num)]
    norm_num
  refine ⟨by rw [hdepth]; norm_num, by rw [hdi]; norm_num, hb, ?_, hz, ?_⟩
  · rw [hb]
    exact floor_eq_of (by norm_num) (by norm_num)
  · have hx : load_x_coord demo_state_half demo_point_top = 0 :=
      (demo_cell_passed demo_point_tri rfl rfl (by norm_num [demo_point_tri])
        (by norm_num [demo_point_tri])).2.1
    have hy : load_y_coord demo_state_half demo_point_top = 0 :=
      (demo_cell_passed demo_point_tri rfl rfl (by norm_num [demo_point_tri])
        (by norm_num [demo_point_tri])).2.2.1
    have hbody := body_shortcut
      (cvms5_get_vs30_based_gtl (fun q => cvms5_query 1 demo_state_half q) demo_state_half)
      demo_state_half 0 0 demo_point_top (by rw [hdepth]; norm_num)
      (demo_errno demo_point_top (by norm_num [demo_point_top])) ⟨hz, hzp⟩
    rw [hx, hy] at hbody
    rw [query_succ, loop_cons_next _ _ 0 0 demo_point_top [] _ hbody rfl, loop_nil]
    refine ⟨_, _, rfl, rfl, rfl, ?_⟩
    rw [derived_vs]
    have hr : ∀ x y z, cvms5_read_properties demo_state_half x y z
        = cvms5_read_properties demo_state x y z := fun _ _ _ => rfl
    simp only [hr, demo_read]
    norm_num [cvms5_bilinear_interpolation, cvms5_linear_interpolation]

/-- C26, amended: for a depth `≥ 0` and a `depth_interval > 0` (so that the quotients are
defined and the inner floor is of a non-negative value), whenever the bracketed value
`(depth_total / depth_interval - 1) - floor (depth / depth_interval)` that the code computes,
with whatever rounding `rnd` of the `double` operations, lies within the range of `int`, the z
index of `cvms5_query` is that value converted to `int`, that is truncated toward zero, and it
fits an `int`. It is the floor of the bracketed value when that value is not negative or is an
integer; for a negative value it is the ceiling, so a value strictly between `-1` and `0` gives
the index `0` while its floor is `-1`. With exact operations it is `load_z_coord`. -/
theorem C26_z_index_truncates_toward_zero (rnd : ℚ → ℚ) (m : cvms5_state) (pt : cvms5_point_t)
    (hd : 0 ≤ pt.depth) (hdi : 0 < m.cvms5_configuration.depth_interval)
    (hrange : -2 ^ 31 - 1 < cvms5_z_bracket_rounded rnd m pt ∧
      cvms5_z_bracket_rounded rnd m pt < 2 ^ 31) :
    (m.cvms5_configuration.depth_interval ≠ 0 ∧
      0 ≤ pt.depth / m.cvms5_configuration.depth_interval) ∧
    (-2 ^ 31 ≤ load_z_coord_rounded rnd m pt ∧ load_z_coord_rounded rnd m pt ≤ 2 ^ 31 - 1) ∧
    (0 ≤ cvms5_z_bracket_rounded rnd m pt →
      load_z_coord_rounded rnd m pt = ⌊cvms5_z_bracket_rounded rnd m pt⌋) ∧
    (cvms5_z_bracket_rounded rnd m pt < 0 →
      load_z_coord_rounded rnd m pt = ⌈cvms5_z_bracket_rounded rnd m pt⌉) ∧
    ((∃ n : Int, cvms5_z_bracket_rounded rnd m pt = n) →
      load_z_coord_rounded rnd m pt = ⌊cvms5_z_bracket_rounded rnd m pt⌋) ∧
    (-1 < cvms5_z_bracket_rounded rnd m pt → cvms5_z_bracket_rounded rnd m pt < 0 →
      load_z_coord_rounded rnd m pt = 0 ∧ ⌊cvms5_z_bracket_rounded rnd m pt⌋ = -1) ∧
    load_z_coord_rounded (fun q => q) m pt = load_z_coord m pt := by
  have hdef : load_z_coord_rounded rnd m pt = c_trunc (cvms5_z_bracket_rounded rnd m pt) := rfl
  refine ⟨⟨ne_of_gt hdi, div_nonneg hd hdi.le⟩, ?_, ?_, ?_, ?_, ?_, rfl⟩
  · rw [hdef]
    unfold c_trunc
    split_ifs with h
    · constructor
      · have : (0 : Int) ≤ ⌊cvms5_z_bracket_rounded rnd m pt⌋ := Int.floor_nonneg.mpr h
        omega
      · have : ⌊cvms5_z_bracket_rounded rnd m pt⌋ < 2 ^ 31 := by
          rw [Int.floor_lt]
          exact_mod_cast hrange.2
        omega
    · constructor
      · have : -2 ^ 31 - 1 < ⌈cvms5_z_bracket_rounded rnd m pt⌉ := by
          rw [Int.lt_ceil]
          exact_mod_cast hrange.1
        omega
      · have : ⌈cvms5_z_bracket_rounded rnd m pt⌉ ≤ 0 := by
          rw [Int.ceil_le]
          exact_mod_cast (not_le.mp h).le
        omega
  · intro h
    rw [hdef, c_trunc_eq_floor_of_nonneg h]
  · intro h
    rw [hdef]
    unfold c_trunc
    rw [if_neg (not_le.mpr h)]
  · rintro ⟨n, hn⟩
    rw [hdef, hn, c_trunc_intCast, Int.floor_intCast]
  · intro h1 h2
    constructor
    · rw [hdef]
      unfold c_trunc
      rw [if_neg (not_le.mpr h2), Int.ceil_eq_iff]
      constructor
      · push_cast; linarith
      · push_cast; linarith
    · rw [Int.floor_eq_iff]
      constructor
      · push_cast; linarith
      · push_cast; linarith

theorem C26_z_index_truncates_toward_zero_witness :
    cvms5_z_bracket_rounded binary64_round demo_state_half demo_point_top = -1 / 2 ∧
    load_z_coord_rounded binary64_round demo_state_half demo_point_top = 0 ∧
    ⌊cvms5_z_bracket_rounded binary64_round demo_state_half demo_point_top⌋ = -1 := by
  have r1 : binary64_round (2500 / 1000) = 5 / 2 := by
    rw [binary64_round_exact (2500 / 1000) 1 5629499534213120 (by norm_num)
      (by norm_num [abs_of_pos]) (by norm_num [abs_of_pos]) (by norm_num)]
    norm_num
  have r2 : binary64_round (5 / 2 - 1) = 3 / 2 := by
    rw [binary64_round_exact (5 / 2 - 1) 0 6755399441055744 (by norm_num)
      (by norm_num [abs_of_pos]) (by norm_num [abs_of_pos]) (by norm_num)]
    norm_num
  have r3 : binary64_round (2000 / 1000) = 2 := by
    rw [binary64_round_exact (2000 / 1000) 1 4503599627370496 (by norm_num)
      (by norm_num [abs_of_pos]) (by norm_num [abs_of_pos]) (by norm_num)]
    norm_num
  have r4 : binary64_round (3 / 2 - ((2 : Int) : ℚ)) = -1 / 2 := by
    rw [binary64_round_exact (3 / 2 - ((2 : Int) : ℚ)) (-1) (-4503599627370496) (by norm_num)
      (by norm_num [abs_of_neg]) (by norm_num [abs_of_neg]) (by norm_num)]
    norm_num
  have hb : cvms5_z_bracket_rounded binary64_round demo_state_half demo_point_top = -1 / 2 := by
    unfold cvms5_z_bracket_rounded
    rw [show demo_state_half.cvms5_configuration.depth_interval = 1000 from rfl,
      show demo_state_half.cvms5_configuration.depth = 2500 from rfl,
      show demo_point_top.depth = 2000 from rfl, r1, r2, r3,
      show ⌊(2 : ℚ)⌋ = 2 from floor_eq_of (by norm_num) (by norm_num), r4]
  have h := C26_z_index_truncates_toward_zero binary64_round demo_state_half demo_point_top
    (by rw [show demo_point_top.depth = 2000 from rfl]; norm_num)
    (by rw [show demo_state_half.cvms5_configuration.depth_interval = 1000 from rfl]; norm_num)
    (by rw [hb]; norm_num)
  exact ⟨hb, h.2.2.2.2.2.1 (by rw [hb]; norm_num) (by rw [hb]; norm_num)⟩

/-- C28 (the code at the failing input): in `demo_state_wide` (1536 nodes 500 m apart along x)
the point `demo_point_node15` passes the boundary check and lies on the node 15 of the x axis:
`point_x = 7500` and `point_x / (width / (nx - 1)) = 15`. In binary64 arithmetic the quotient
`7500 / 767500` rounds to `0.009771986970684038` and its product with `1535` to
`14.999999999999998`, so `load_x_coord = 14`, while `fmod (7500, 500) / 500` gives
`x_percent = 0`: index plus offset is `14`, a whole cell away from the position `15`. With
exact operations the index is `15`. -/
theorem C28_index_and_offset_disagree_at_a_node :
    (2 ≤ demo_state_wide.cvms5_configuration.nx ∧ 2 ≤ demo_state_wide.cvms5_configuration.ny ∧
      0 < demo_state_wide.cvms5_total_width_m ∧ 0 < demo_state_wide.cvms5_total_height_m ∧
      0 < demo_state_wide.cvms5_configuration.depth_interval) ∧
    (0 ≤ load_x_coord_rounded binary64_round demo_state_wide demo_point_node15 ∧
      load_x_coord_rounded binary64_round demo_state_wide demo_point_node15
        ≤ demo_state_wide.cvms5_configuration.nx - 2 ∧
      0 ≤ load_y_coord_rounded binary64_round demo_state_wide demo_point_node15 ∧
      load_y_coord_rounded binary64_round demo_state_wide demo_point_node15
        ≤ demo_state_wide.cvms5_configuration.ny - 2 ∧
      1 ≤ load_z_coord_rounded binary64_round demo_state_wide demo_point_node15) ∧
    point_x_rounded binary64_round demo_state_wide demo_point_node15 = 7500 ∧
    point_x_rounded binary64_round demo_state_wide demo_point_node15
      / (demo_state_wide.cvms5_total_width_m
          / ((demo_state_wide.cvms5_configuration.nx - 1 : Int) : ℚ)) = 15 ∧
    binary64_round (binary64_round (7500 / 767500) * 1535) = 15 - 1 / 2 ^ 49 ∧
    load_x_coord_rounded binary64_round demo_state_wide demo_point_node15 = 14 ∧
    x_percent_rounded binary64_round demo_state_wide demo_point_node15 = 0 ∧
    (load_x_coord_rounded binary64_round demo_state_wide demo_point_node15 : ℚ)
        + x_percent_rounded binary64_round demo_state_wide demo_point_node15
      = point_x_rounded binary64_round demo_state_wide demo_point_node15
          / (demo_state_wide.cvms5_total_width_m
              / ((demo_state_wide.cvms5_configuration.nx - 1 : Int) : ℚ)) - 1 ∧
    load_x_coord demo_state_wide demo_point_node15 = 15 := by
  obtain ⟨hpx, hlx, hxp⟩ := wide_node15_x
  obtain ⟨-, hly, -, hlz, -⟩ := wide_node15_yz
  have hW : demo_state_wide.cvms5_total_width_m = 767500 := rfl
  have hnx : demo_state_wide.cvms5_configuration.nx = 1536 := rfl
  have hq : binary64_round (7500 / 767500) = 5633166960619773 / 576460752303423488 := by
    rw [binary64_round_eq (7500 / 767500) (-7) 5633166960619773 (by norm_num)
      (by norm_num [abs_of_pos]) (by norm_num [abs_of_pos]) (by norm_num [abs_lt])]
    norm_num
  have hp : binary64_round (5633166960619773 / 576460752303423488 * 1535)
      = 15 - 1 / 2 ^ 49 := by
    rw [binary64_round_eq _ 3 8444249301319679 (by norm_num)
      (by norm_num [abs_of_pos]) (by norm_num [abs_of_pos]) (by norm_num [abs_lt])]
    norm_num
  refine ⟨⟨by decide, by decide, by rw [hW]; norm_num, by
      rw [show demo_state_wide.cvms5_total_height_m = 2000 from rfl]; norm_num, by
      rw [show demo_state_wide.cvms5_configuration.depth_interval = 1000 from rfl]; norm_num⟩,
    ⟨by rw [hlx]; decide, by rw [hlx]; decide, by rw [hly], by rw [hly]; decide,
      by rw [hlz]⟩,
    hpx, ?_, by rw [hq, hp], hlx, hxp, ?_, ?_⟩
  · rw [hpx, hW, hnx]
    norm_num
  · rw [hlx, hxp, hpx, hW, hnx]
    norm_num
  · unfold load_x_coord point_x
    simp only [demo_state_wide, demo_state, demo_configuration, demo_point_node15]
    exact floor_eq_of (by norm_num) (by norm_num)

/-- C29: the nested query that the blend issues (same latitude and longitude, depth equal to the
layer interval) is the only use the blend makes of `cvms5_query`; that query returns with one
level of fuel, with the same result for every larger fuel, and never calls the blend, because
its depth is not below the layer interval. Hence a query nests at most one query: two levels of
fuel always give a result, and every larger fuel gives the same one. -/
theorem C29_nested_query_never_blends (m : cvms5_state) :
    (∀ (point : cvms5_point_t) (data : cvms5_properties_t)
        (q1 q2 : List cvms5_point_t → Option cvms5_result),
      q1 [cvms5_deep_point m point] = q2 [cvms5_deep_point m point] →
      cvms5_get_vs30_based_gtl q1 m point data = cvms5_get_vs30_based_gtl q2 m point data) ∧
    (∀ point : cvms5_point_t,
      ¬ (cvms5_deep_point m point).depth < m.cvms5_configuration.depth_interval ∧
      ∃ r : cvms5_result, cvms5_query 1 m [cvms5_deep_point m point] = some r ∧
        (∀ q, cvms5_event.get_vs30_based_gtl q ∉ r.trace) ∧
        ∀ fuel : Nat, cvms5_query (fuel + 1) m [cvms5_deep_point m point] = some r) ∧
    (∀ pts : List cvms5_point_t, ∃ r : cvms5_result, cvms5_query 2 m pts = some r ∧
      ∀ fuel : Nat, cvms5_query (fuel + 2) m pts = some r) := by
  refine ⟨?_, ?_, ?_⟩
  · intro point data q1 q2 h
    by_cases hp : point.depth / m.cvms5_configuration.depth_interval > 1
    · unfold cvms5_get_vs30_based_gtl
      dsimp only
      rw [if_pos hp, if_pos hp]
    · rw [gtl_unfold q1 m point data hp, gtl_unfold q2 m point data hp, h]
  · intro point
    refine ⟨lt_irrefl _, ?_⟩
    have hs := deep_query_isSome 0 m point
    obtain ⟨r, hr⟩ := Option.isSome_iff_exists.mp hs
    refine ⟨r, hr, ?_, ?_⟩
    · intro q hq
      rw [query_succ] at hr
      have hb := body_isSome (cvms5_get_vs30_based_gtl (fun q => cvms5_query 0 m q) m) m 0 0
        (cvms5_deep_point m point) (fun h => absurd h.1 (lt_irrefl _))
      obtain ⟨s, hs⟩ := Option.isSome_iff_exists.mp hb
      have hev := (body_gtl_event _ m 0 0 (cvms5_deep_point m point) s
        (fun g hg => gtl_trace_head _ m _ _ g hg) hs).1
      have hno : ∀ q, cvms5_event.get_vs30_based_gtl q ∉ s.trace := by
        intro q hq
        have := hev.mp ⟨q, hq⟩
        exact lt_irrefl _ this.2.1
      cases hret : s.ret with
      | none =>
        rw [loop_cons_next _ m 0 0 _ [] s hs hret, loop_nil] at hr
        simp only [Option.map_some', Option.some.injEq] at hr
        rw [← hr] at hq
        simp only [List.append_nil] at hq
        exact hno q hq
      | some code =>
        rw [loop_cons_ret _ m 0 0 _ [] s code hs hret] at hr
        simp only [Option.some.injEq] at hr
        rw [← hr] at hq
        exact hno q hq
    · intro fuel
      rw [deep_query_fuel, hr]
  · intro pts
    have hs := query_isSome 0 m pts
    obtain ⟨r, hr⟩ := Option.isSome_iff_exists.mp hs
    refine ⟨r, hr, ?_⟩
    intro fuel
    rw [query_fuel, hr]

theorem C29_nested_query_never_blends_witness :
    cvms5_get_vs30_based_gtl (fun q => cvms5_query 1 demo_state q) demo_state demo_point_gtl
        cvms5_not_found
      = cvms5_get_vs30_based_gtl (fun q => cvms5_query 5 demo_state q) demo_state
        demo_point_gtl cvms5_not_found ∧
    (∃ r : cvms5_result,
      cvms5_query 1 demo_state [cvms5_deep_point demo_state demo_point_gtl] = some r ∧
      ∀ q, cvms5_event.get_vs30_based_gtl q ∉ r.trace) ∧
    ∃ r : cvms5_result, cvms5_query 2 demo_state [demo_point_gtl] = some r ∧
      cvms5_query 7 demo_state [demo_point_gtl] = some r := by
  have h := C29_nested_query_never_blends demo_state
  obtain ⟨r, hr, hno, hfuel⟩ := (h.2.1 demo_point_gtl).2
  obtain ⟨r2, hr2, hfuel2⟩ := h.2.2 [demo_point_gtl]
  refine ⟨h.1 demo_point_gtl cvms5_not_found _ _ ?_, ⟨r, hr, hno⟩, r2, hr2, hfuel2 5⟩
  show cvms5_query 1 demo_state [cvms5_deep_point demo_state demo_point_gtl]
    = cvms5_query (4 + 1) demo_state [cvms5_deep_point demo_state demo_point_gtl]
  rw [hr, hfuel 4]

/-- C30: when an iteration of `cvms5_query` enters the blend (the point passed the boundary
check, lies above the layer interval, GTL is on) and the proxy lookup returns -1, the entry of
that point has `vp = -1`, `vs = -1` and the derived values computed from `vs = -1`:
`rho = cvms5_calculate_density (-1)`, `qs = -0.02`, `qp = -0.03`. This holds for the point at any
position of a batch, and a one-point query returns exactly that entry with code `SUCCESS`. -/
theorem C30_proxy_not_found_recomputes_derived (fuel : Nat) (m : cvms5_state)
    (pt : cvms5_point_t)
    (hpass : cvms5_passed_boundary_check m pt)
    (hg : pt.depth < m.cvms5_configuration.depth_interval ∧ m.cvms5_configuration.gtl = 1)
    (hv : (cvms5_get_vs30_value m pt.longitude pt.latitude).1 = -1) :
    (∀ (pts : List cvms5_point_t) (i : Nat), pts[i]? = some pt →
      ∃ r : cvms5_result, cvms5_query (fuel + 2) m pts = some r ∧
        ∀ d : cvms5_properties_t, r.data[i]? = some d →
          d = { vp := -1, vs := -1, rho := cvms5_calculate_density m (-1),
                qp := -0.03, qs := -0.02 }) ∧
    ∃ r : cvms5_result, cvms5_query (fuel + 2) m [pt] = some r ∧ r.code = SUCCESS ∧
      r.data = [{ vp := -1, vs := -1, rho := cvms5_calculate_density m (-1),
                  qp := -0.03, qs := -0.02 }] := by
  obtain ⟨hd, he, hz, ho⟩ := hpass
  have hdi : 0 < m.cvms5_configuration.depth_interval := lt_of_le_of_lt hd hg.1
  have hp : ¬ pt.depth / m.cvms5_configuration.depth_interval > 1 := by
    rw [not_lt, div_le_one hdi]
    exact le_of_lt hg.1
  have hbody : ∀ (n : Nat) (xp yp : ℚ),
      cvms5_query_body (cvms5_get_vs30_based_gtl (fun q => cvms5_query (n + 1) m q) m) m xp yp pt
        = some { data := { vp := -1, vs := -1, rho := cvms5_calculate_density m (-1),
                           qp := -0.03, qs := -0.02 },
                 x_percent := x_percent m pt, y_percent := y_percent m pt, ret := none,
                 trace := [cvms5_event.proj_trans_utm pt.latitude pt.longitude]
                   ++ ([cvms5_event.get_vs30_based_gtl pt]
                     ++ (Option.get (cvms5_query (n + 1) m [cvms5_deep_point m pt])
                          (deep_query_isSome n m pt)).trace
                     ++ (cvms5_get_vs30_value m pt.longitude pt.latitude).2) } := by
    intro n xp yp
    obtain ⟨r, hr, hc, -⟩ := deep_query_code n m pt he
    rw [body_gtl _ m xp yp pt (not_lt.mpr hd) he hz ho hg, gtl_unfold _ m pt _ hp]
    simp only [hr, Option.get_some]
    rw [if_neg (not_not.mpr hc), if_pos hv]
    simp only [Option.map_some', Option.some.injEq]
    rw [cvms5_step.mk.injEq]
    refine ⟨?_, rfl, rfl, rfl, rfl⟩
    unfold cvms5_query_derived cvms5_not_found
    simp only
    rw [if_pos (by norm_num)]
    rw [cvms5_properties_t.mk.injEq]
    refine ⟨rfl, rfl, rfl, ?_, ?_⟩ <;> norm_num
  refine ⟨?_, ?_⟩
  · intro pts i hi
    obtain ⟨r, hr⟩ := Option.isSome_iff_exists.mp (query_isSome fuel m pts)
    refine ⟨r, hr, ?_⟩
    intro d hdat
    obtain ⟨n, xq, yq, s, hn, hs, hsd⟩ := query_get (fuel + 2) m pts r hr i pt d hi hdat
    have hn' : n = fuel + 1 := by omega
    subst hn'
    rw [hbody fuel xq yq] at hs
    simp only [Option.some.injEq] at hs
    rw [← hsd, ← hs]
  · rw [query_succ, loop_cons_next _ m 0 0 pt [] _ (hbody fuel 0 0) rfl, loop_nil]
    exact ⟨_, rfl, rfl, rfl⟩

theorem C30_proxy_not_found_recomputes_derived_witness :
    ∃ r : cvms5_result, cvms5_query 2 demo_state_small_map [demo_point_gtl] = some r ∧
      r.code = SUCCESS ∧
      r.data = [{ vp := -1, vs := -1, rho := cvms5_calculate_density demo_state_small_map (-1),
                  qp := -0.03, qs := -0.02 }] := by
  have hp := (demo_cell_passed demo_point_gtl rfl rfl (by norm_num [demo_point_gtl])
    (by norm_num [demo_point_gtl])).1
  have hpass : cvms5_passed_boundary_check demo_state_small_map demo_point_gtl := hp
  have hg : demo_point_gtl.depth < demo_state_small_map.cvms5_configuration.depth_interval ∧
      demo_state_small_map.cvms5_configuration.gtl = 1 := by
    refine ⟨?_, rfl⟩
    norm_num [demo_point_gtl, demo_state_small_map, cvms5_with_vs30_map, demo_state,
      demo_configuration]
  have hv : (cvms5_get_vs30_value demo_state_small_map demo_point_gtl.longitude
      demo_point_gtl.latitude).1 = -1 := by
    rw [get_vs30_value_eq, if_pos]
    right; right; left
    norm_num [rotated_point_x, demo_state_small_map, cvms5_with_vs30_map, demo_vs30_map,
      demo_point_gtl]
  exact (C30_proxy_not_found_recomputes_derived 0 demo_state_small_map demo_point_gtl
    hpass hg hv).2

/-- C31: let `nz = depth_total / depth_interval` with a positive layer interval, and let the
iteration for a point pass the boundary check of `cvms5_query` without the blend applying (the
trilinear branch; this alone implies `nx, ny ≥ 2`). Then the iteration returns, and the cells it
reads are exactly the eight cells `(x or x + 1, y or y + 1, z or z - 1)` around the cell indices
of the point; each of them lies in the grid `{0..nx-1} x {0..ny-1} x {0..nz-1}` and has a
linearised index in `[0, nx ny nz)`. -/
theorem C31_trilinear_reads_stay_in_the_grid (m : cvms5_state) (pt : cvms5_point_t)
    (hnz : (m.cvms5_configuration.nz : ℚ)
      = m.cvms5_configuration.depth / m.cvms5_configuration.depth_interval)
    (hdi : 0 < m.cvms5_configuration.depth_interval)
    (hpass : cvms5_passed_boundary_check m pt)
    (hg : ¬ (pt.depth < m.cvms5_configuration.depth_interval ∧ m.cvms5_configuration.gtl = 1)) :
    (2 ≤ m.cvms5_configuration.nx ∧ 2 ≤ m.cvms5_configuration.ny) ∧
    ∀ (gtl : cvms5_point_t → cvms5_properties_t →
        Option (Int × cvms5_properties_t × List cvms5_event)) (xp yp : ℚ),
      ∃ s : cvms5_step, cvms5_query_body gtl m xp yp pt = some s ∧
        (∀ x y z : Int, cvms5_event.read_properties x y z ∈ s.trace ↔
          (x = load_x_coord m pt ∨ x = load_x_coord m pt + 1) ∧
          (y = load_y_coord m pt ∨ y = load_y_coord m pt + 1) ∧
          (z = load_z_coord m pt ∨ z = load_z_coord m pt - 1)) ∧
        (∀ x y z : Int, cvms5_event.read_properties x y z ∈ s.trace →
          cvms5_cell_in_grid m.cvms5_configuration.nx m.cvms5_configuration.ny
            m.cvms5_configuration.nz x y z ∧
          0 ≤ cvms5_location m x y z ∧
          cvms5_location m x y z
            < m.cvms5_configuration.nx * m.cvms5_configuration.ny
              * m.cvms5_configuration.nz) := by
  obtain ⟨hd, he, hz, ho⟩ := hpass
  have hD : m.cvms5_configuration.depth
      = (m.cvms5_configuration.nz : ℚ) * m.cvms5_configuration.depth_interval := by
    rw [hnz]
    field_simp
  have hlz := load_z_of_layers m m.cvms5_configuration.nz pt hdi hD
  have hfl : 0 ≤ ⌊pt.depth / m.cvms5_configuration.depth_interval⌋ :=
    Int.floor_nonneg.mpr (div_nonneg hd (le_of_lt hdi))
  unfold cvms5_outside at ho
  have hx0 : 0 ≤ load_x_coord m pt := by omega
  have hx1 : load_x_coord m pt ≤ m.cvms5_configuration.nx - 2 := by omega
  have hy0 : 0 ≤ load_y_coord m pt := by omega
  have hy1 : load_y_coord m pt ≤ m.cvms5_configuration.ny - 2 := by omega
  have hz0 : 1 ≤ load_z_coord m pt := by omega
  have hz1 : load_z_coord m pt ≤ m.cvms5_configuration.nz - 1 := by omega
  have hnx : 1 ≤ m.cvms5_configuration.nx := by omega
  have hny : 1 ≤ m.cvms5_configuration.ny := by omega
  refine ⟨⟨by omega, by omega⟩, ?_⟩
  intro gtl xp yp
  have ho' : ¬ cvms5_outside m pt := by
    unfold cvms5_outside
    omega
  have hcells : ∀ x y z : Int,
      cvms5_event.read_properties x y z ∈
        ([cvms5_event.proj_trans_utm pt.latitude pt.longitude]
          ++ (cvms5_read_properties m (load_x_coord m pt) (load_y_coord m pt)
              (load_z_coord m pt)).2
          ++ (cvms5_read_properties m (load_x_coord m pt + 1) (load_y_coord m pt)
              (load_z_coord m pt)).2
          ++ (cvms5_read_properties m (load_x_coord m pt) (load_y_coord m pt + 1)
              (load_z_coord m pt)).2
          ++ (cvms5_read_properties m (load_x_coord m pt + 1) (load_y_coord m pt + 1)
              (load_z_coord m pt)).2
          ++ (cvms5_read_properties m (load_x_coord m pt) (load_y_coord m pt)
              (load_z_coord m pt - 1)).2
          ++ (cvms5_read_properties m (load_x_coord m pt + 1) (load_y_coord m pt)
              (load_z_coord m pt - 1)).2
          ++ (cvms5_read_properties m (load_x_coord m pt) (load_y_coord m pt + 1)
              (load_z_coord m pt - 1)).2
          ++ (cvms5_read_properties m (load_x_coord m pt + 1) (load_y_coord m pt + 1)
              (load_z_coord m pt - 1)).2) ↔
        (x = load_x_coord m pt ∨ x = load_x_coord m pt + 1) ∧
        (y = load_y_coord m pt ∨ y = load_y_coord m pt + 1) ∧
        (z = load_z_coord m pt ∨ z = load_z_coord m pt - 1) := by
    intro x y z
    simp only [List.mem_append, List.mem_singleton, read_trace_cell, reduceCtorEq, false_or]
    constructor
    · intro h
      rcases h with ((((((h | h) | h) | h) | h) | h) | h) | h <;>
        obtain ⟨h1, h2, h3⟩ := h <;> subst h1 h2 h3 <;> simp
    · rintro ⟨h1 | h1, h2 | h2, h3 | h3⟩ <;> subst h1 h2 h3 <;> simp
  refine ⟨_, body_trilinear gtl m xp yp pt (not_lt.mpr hd) he hz ho' hg, hcells, ?_⟩
  intro x y z hmem
  obtain ⟨h1, h2, h3⟩ := (hcells x y z).mp hmem
  have hin : cvms5_cell_in_grid m.cvms5_configuration.nx m.cvms5_configuration.ny
      m.cvms5_configuration.nz x y z := by
    unfold cvms5_cell_in_grid
    omega
  obtain ⟨-, -, b2, b3⟩ := location_bounds _ _ _ x y z hnx hny hin
  exact ⟨hin, b2, b3⟩

theorem C31_trilinear_reads_stay_in_the_grid_witness :
    ∃ s : cvms5_step,
      cvms5_query_body (fun _ _ => none) demo_state_gtl_off 0 0 demo_point_tri = some s ∧
      ∀ x y z : Int, cvms5_event.read_properties x y z ∈ s.trace →
        cvms5_cell_in_grid 3 3 3 x y z ∧ 0 ≤ cvms5_location demo_state_gtl_off x y z ∧
        cvms5_location demo_state_gtl_off x y z < 3 * 3 * 3 := by
  have hc := (demo_cell_passed demo_point_tri rfl rfl (by norm_num [demo_point_tri])
    (by norm_num [demo_point_tri])).1
  have hpass : cvms5_passed_boundary_check demo_state_gtl_off demo_point_tri := hc
  obtain ⟨s, hs, -, hr⟩ := (C31_trilinear_reads_stay_in_the_grid demo_state_gtl_off
    demo_point_tri (by norm_num [demo_state_gtl_off, demo_configuration])
    (by norm_num [demo_state_gtl_off, demo_configuration]) hpass
    (fun h => absurd h.2 (by decide))).2 (fun _ _ => none) 0 0
  exact ⟨s, hs, hr⟩

/-- C32 (the code at the failing input): in `demo_state_wide` the point `demo_point_node15`
lies exactly on the node `(i, j) = (15, 0)` at depth `k * depth_interval` with `k = 1` of
`N = 3` layers; the depth is not below `depth_interval`, so the trilinear branch is taken, and
the claim promises the values stored for cell `(15, 0, 1)`: `vs = 93120`, `vp = 94120`. In
binary64 arithmetic the code computes the indices `(14, 0, 1)` with all three offsets `0`, and
its trilinear branch returns the values stored for cell `(14, 0, 1)`: `vs = 93150`,
`vp = 94150`. -/
theorem C32_node_query_answers_from_the_neighbour_cell :
    (point_x_rounded binary64_round demo_state_wide demo_point_node15
        = ((15 : Int) : ℚ) * demo_state_wide.cvms5_total_width_m
            / ((demo_state_wide.cvms5_configuration.nx - 1 : Int) : ℚ) ∧
      point_y_rounded binary64_round demo_state_wide demo_point_node15
        = ((0 : Int) : ℚ) * demo_state_wide.cvms5_total_height_m
            / ((demo_state_wide.cvms5_configuration.ny - 1 : Int) : ℚ) ∧
      demo_point_node15.depth
        = ((1 : Int) : ℚ) * demo_state_wide.cvms5_configuration.depth_interval ∧
      demo_state_wide.cvms5_configuration.depth
        = ((3 : Int) : ℚ) * demo_state_wide.cvms5_configuration.depth_interval ∧
      ¬ demo_point_node15.depth < demo_state_wide.cvms5_configuration.depth_interval) ∧
    (load_x_coord_rounded binary64_round demo_state_wide demo_point_node15 = 14 ∧
      load_y_coord_rounded binary64_round demo_state_wide demo_point_node15 = 0 ∧
      load_z_coord_rounded binary64_round demo_state_wide demo_point_node15 = 1 ∧
      x_percent_rounded binary64_round demo_state_wide demo_point_node15 = 0 ∧
      y_percent_rounded binary64_round demo_state_wide demo_point_node15 = 0 ∧
      z_percent_rounded binary64_round demo_state_wide demo_point_node15 = 0) ∧
    cvms5_query_trilinear_rounded binary64_round demo_state_wide demo_point_node15
      = (cvms5_read_properties demo_state_wide 14 0 1).1 ∧
    ((cvms5_read_properties demo_state_wide 14 0 1).1.vs = 93150 ∧
      (cvms5_read_properties demo_state_wide 14 0 1).1.vp = 94150) ∧
    ((cvms5_read_properties demo_state_wide 15 0 (3 - 1 - 1)).1.vs = 93120 ∧
      (cvms5_read_properties demo_state_wide 15 0 (3 - 1 - 1)).1.vp = 94120) := by
  obtain ⟨hpx, hlx, hxp⟩ := wide_node15_x
  obtain ⟨hpy, hly, hyp, hlz, hzp⟩ := wide_node15_yz
  refine ⟨⟨?_, ?_, ?_, ?_, ?_⟩, ⟨hlx, hly, hlz, hxp, hyp, hzp⟩, wide_node15_trilinear,
    ⟨?_, ?_⟩, ⟨?_, ?_⟩⟩
  · rw [hpx, show demo_state_wide.cvms5_total_width_m = 767500 from rfl,
      show demo_state_wide.cvms5_configuration.nx = 1536 from rfl]
    norm_num
  · rw [hpy]
    norm_num
  · norm_num [demo_point_node15, demo_state_wide, demo_state, demo_configuration]
  · norm_num [demo_state_wide, demo_state, demo_configuration]
  · norm_num [demo_point_node15, demo_state_wide, demo_state, demo_configuration]
  · rw [wide_read]; norm_num
  · rw [wide_read]; norm_num
  · rw [wide_read]; norm_num
  · rw [wide_read]; norm_num

/-- C33, counterexample: both corners equal, with `vs = 1500`, and the percent
`0.014925373134328358` (the binary64 number nearest to `3 / 201`, in `[0, 1]`). In binary64
arithmetic `1 - percent` rounds to `0.9850746268656716`, the two products to
`1477.6119402985073` and `22.388059701492537`, and their sum to `1500 - 2 ^ (-42)`
(`1499.9999999999998`): `cvms5_linear_interpolation` returns a `vs` below the minimum of the
corners, and not the common corner value. -/
theorem C33_counterexample_equal_corners :
    binary64_round (3 / 201) = 8603891825424231 / 2 ^ 59 ∧
    ((0 : ℚ) ≤ 8603891825424231 / 2 ^ 59 ∧ (8603891825424231 : ℚ) / 2 ^ 59 ≤ 1) ∧
    (cvms5_linear_interpolation_rounded binary64_round (8603891825424231 / 2 ^ 59)
        { vp := 2500, vs := 1500, rho := -1, qp := -1, qs := -1 }
        { vp := 2500, vs := 1500, rho := -1, qp := -1, qs := -1 }).vs = 1500 - 1 / 2 ^ 42 ∧
    (cvms5_linear_interpolation_rounded binary64_round (8603891825424231 / 2 ^ 59)
        { vp := 2500, vs := 1500, rho := -1, qp := -1, qs := -1 }
        { vp := 2500, vs := 1500, rho := -1, qp := -1, qs := -1 }).vs
      < cvms5_field_min (fun d => d.vs)
          { vp := 2500, vs := 1500, rho := -1, qp := -1, qs := -1 }
          [{ vp := 2500, vs := 1500, rho := -1, qp := -1, qs := -1 }] := by
  have hp : binary64_round (3 / 201) = 8603891825424231 / 2 ^ 59 := by
    rw [binary64_round_eq (3 / 201) (-7) 8603891825424231 (by norm_num)
      (by norm_num [abs_of_pos]) (by norm_num [abs_of_pos]) (by norm_num [abs_lt])]
    norm_num
  have h1 : binary64_round (1 - 8603891825424231 / 2 ^ 59)
      = 4436381722484369 / 4503599627370496 := by
    rw [binary64_round_eq _ (-1) 8872763444968738 (by norm_num)
      (by norm_num [abs_of_pos]) (by norm_num [abs_of_pos]) (by norm_num [abs_lt])]
    norm_num
  have h2 : binary64_round (4436381722484369 / 4503599627370496 * 1500)
      = 3249303019397731 / 2199023255552 := by
    rw [binary64_round_eq _ 10 6498606038795462 (by norm_num)
      (by norm_num [abs_of_pos]) (by norm_num [abs_of_pos]) (by norm_num [abs_lt])]
    norm_num
  have h3 : binary64_round (8603891825424231 / 2 ^ 59 * 1500)
      = 1575419645768597 / 70368744177664 := by
    rw [binary64_round_eq _ 4 6301678583074388 (by norm_num)
      (by norm_num [abs_of_pos]) (by norm_num [abs_of_pos]) (by norm_num [abs_lt])]
    norm_num
  have h4 : binary64_round (3249303019397731 / 2199023255552
      + 1575419645768597 / 70368744177664) = 1500 - 1 / 2 ^ 42 := by
    rw [binary64_round_eq _ 10 6597069766655999 (by norm_num)
      (by norm_num [abs_of_pos]) (by norm_num [abs_of_pos]) (by norm_num [abs_lt])]
    norm_num
  have hv : (cvms5_linear_interpolation_rounded binary64_round (8603891825424231 / 2 ^ 59)
        { vp := 2500, vs := 1500, rho := -1, qp := -1, qs := -1 }
        { vp := 2500, vs := 1500, rho := -1, qp := -1, qs := -1 }).vs = 1500 - 1 / 2 ^ 42 := by
    show cvms5_linear_rounded binary64_round (8603891825424231 / 2 ^ 59) 1500 1500 = _
    unfold cvms5_linear_rounded
    rw [h1, h2, h3, h4]
  refine ⟨hp, ⟨by norm_num, by norm_num⟩, hv, ?_⟩
  rw [hv]
  norm_num [cvms5_field_min]

/-- C33, amended: for percents in `[0, 1]` and corners whose fields are at most `M ≤ 2 ^ 1000`
in magnitude, each of the five fields of the result of `cvms5_linear_interpolation`,
`cvms5_bilinear_interpolation` and `cvms5_trilinear_interpolation`, computed in binary64
arithmetic, lies between the minimum and the maximum of that field over the two, four or eight
corners up to rounding: it leaves that interval by at most `M / 2 ^ 50 + 2 ^ (-1072)`,
`M / 2 ^ 49 + 2 ^ (-1071)` and `M / 2 ^ 48 + 2 ^ (-1070)` respectively, and it stays below the
overflow threshold `2 ^ 1024`. With all corners equal the result is that corner up to the same
slack. With exact operations the bounds hold without slack and equal corners give that corner,
for any percents. -/
theorem C33_interpolation_overshoots_by_rounding_only (x_percent y_percent z_percent M : ℚ)
    (p0 p1 p2 p3 p4 p5 p6 p7 : cvms5_properties_t)
    (hx : 0 ≤ x_percent ∧ x_percent ≤ 1) (hy : 0 ≤ y_percent ∧ y_percent ≤ 1)
    (hz : 0 ≤ z_percent ∧ z_percent ≤ 1) (hM : M ≤ 2 ^ 1000)
    (hc : ∀ f ∈ cvms5_fields, ∀ c ∈ [p0, p1, p2, p3, p4, p5, p6, p7], |f c| ≤ M) :
    (∀ f ∈ cvms5_fields,
      (cvms5_field_min f p0 [p1] - (M / 2 ^ 50 + 1 / 2 ^ 1072)
          ≤ f (cvms5_linear_interpolation_rounded binary64_round x_percent p0 p1) ∧
        f (cvms5_linear_interpolation_rounded binary64_round x_percent p0 p1)
          ≤ cvms5_field_max f p0 [p1] + (M / 2 ^ 50 + 1 / 2 ^ 1072)) ∧
      (cvms5_field_min f p0 [p1, p2, p3] - (M / 2 ^ 49 + 1 / 2 ^ 1071)
          ≤ f (cvms5_bilinear_interpolation_rounded binary64_round x_percent y_percent
            p0 p1 p2 p3) ∧
        f (cvms5_bilinear_interpolation_rounded binary64_round x_percent y_percent p0 p1 p2 p3)
          ≤ cvms5_field_max f p0 [p1, p2, p3] + (M / 2 ^ 49 + 1 / 2 ^ 1071)) ∧
      (cvms5_field_min f p0 [p1, p2, p3, p4, p5, p6, p7] - (M / 2 ^ 48 + 1 / 2 ^ 1070)
          ≤ f (cvms5_trilinear_interpolation_rounded binary64_round x_percent y_percent
            z_percent p0 p1 p2 p3 p4 p5 p6 p7) ∧
        f (cvms5_trilinear_interpolation_rounded binary64_round x_percent y_percent z_percent
            p0 p1 p2 p3 p4 p5 p6 p7)
          ≤ cvms5_field_max f p0 [p1, p2, p3, p4, p5, p6, p7] + (M / 2 ^ 48 + 1 / 2 ^ 1070)) ∧
      (|f (cvms5_linear_interpolation_rounded binary64_round x_percent p0 p1)| < 2 ^ 1024 ∧
        |f (cvms5_bilinear_interpolation_rounded binary64_round x_percent y_percent
            p0 p1 p2 p3)| < 2 ^ 1024 ∧
        |f (cvms5_trilinear_interpolation_rounded binary64_round x_percent y_percent z_percent
            p0 p1 p2 p3 p4 p5 p6 p7)| < 2 ^ 1024) ∧
      (|f (cvms5_linear_interpolation_rounded binary64_round x_percent p0 p0) - f p0|
          ≤ M / 2 ^ 50 + 1 / 2 ^ 1072 ∧
        |f (cvms5_bilinear_interpolation_rounded binary64_round x_percent y_percent
            p0 p0 p0 p0) - f p0| ≤ M / 2 ^ 49 + 1 / 2 ^ 1071 ∧
        |f (cvms5_trilinear_interpolation_rounded binary64_round x_percent y_percent z_percent
            p0 p0 p0 p0 p0 p0 p0 p0) - f p0| ≤ M / 2 ^ 48 + 1 / 2 ^ 1070) ∧
      (cvms5_field_min f p0 [p1] ≤ f (cvms5_linear_interpolation x_percent p0 p1) ∧
        f (cvms5_linear_interpolation x_percent p0 p1) ≤ cvms5_field_max f p0 [p1]) ∧
      (cvms5_field_min f p0 [p1, p2, p3]
          ≤ f (cvms5_bilinear_interpolation x_percent y_percent p0 p1 p2 p3) ∧
        f (cvms5_bilinear_interpolation x_percent y_percent p0 p1 p2 p3)
          ≤ cvms5_field_max f p0 [p1, p2, p3]) ∧
      (cvms5_field_min f p0 [p1, p2, p3, p4, p5, p6, p7]
          ≤ f (cvms5_trilinear_interpolation x_percent y_percent z_percent
            p0 p1 p2 p3 p4 p5 p6 p7) ∧
        f (cvms5_trilinear_interpolation x_percent y_percent z_percent
            p0 p1 p2 p3 p4 p5 p6 p7)
          ≤ cvms5_field_max f p0 [p1, p2, p3, p4, p5, p6, p7])) ∧
    (∀ (a b c : ℚ) (d : cvms5_properties_t),
      cvms5_linear_interpolation a d d = d ∧
      cvms5_bilinear_interpolation a b d d d d = d ∧
      cvms5_trilinear_interpolation a b c d d d d d d d d = d) := by
  have hu0 : (0 : ℚ) ≤ 1 / 2 ^ 53 := by positivity
  have hη0 : (0 : ℚ) ≤ 1 / 2 ^ 1075 := by positivity
  have hκ : (1 : ℚ) / 2 ^ 53 + 1 / 2 ^ 1075 ≤ 1 / 16 := by norm_num
  have hr : ∀ x, |binary64_round x - x| ≤ 1 / 2 ^ 53 * |x| + 1 / 2 ^ 1075 :=
    binary64_round_error_nat
  have hM0 : 0 ≤ M := le_trans (abs_nonneg _) (hc (fun d => d.vp) (by simp [cvms5_fields]) p0
    (by simp))
  obtain ⟨hs1, hs2, hs3⟩ := binary64_slack_bounds M hM0
  have hbig : M / 2 ^ 48 + 1 / 2 ^ 1070 < 2 ^ 1023 := by
    have : M / 2 ^ 48 ≤ 2 ^ 1000 / 2 ^ 48 := by
      apply div_le_div_of_nonneg_right hM
      positivity
    have h2 : (2 : ℚ) ^ 1000 / 2 ^ 48 + 1 / 2 ^ 1070 < 2 ^ 1023 := by norm_num
    linarith
  have hM2 : M < 2 ^ 1023 := by
    have : (2 : ℚ) ^ 1000 < 2 ^ 1023 := by norm_num
    linarith
  have h1024 : (2 : ℚ) ^ 1023 + 2 ^ 1023 = 2 ^ 1024 := by norm_num
  constructor
  · intro f hf
    have l1 := linear_rounded_between binary64_round _ _ hu0 hη0 hκ hr f hf x_percent
      (cvms5_field_min f p0 [p1]) (cvms5_field_max f p0 [p1]) M p0 p1 hx
      ⟨field_min_le f p0 [p1] p0 (by simp), le_field_max f p0 [p1] p0 (by simp),
        hc f hf p0 (by simp)⟩
      ⟨field_min_le f p0 [p1] p1 (by simp), le_field_max f p0 [p1] p1 (by simp),
        hc f hf p1 (by simp)⟩
    have l2 := bilinear_rounded_between binary64_round _ _ hu0 hη0 hκ hr f hf x_percent
      y_percent (cvms5_field_min f p0 [p1, p2, p3]) (cvms5_field_max f p0 [p1, p2, p3]) M
      p0 p1 p2 p3 hx hy (fun c hc' =>
        ⟨field_min_le f p0 [p1, p2, p3] c hc', le_field_max f p0 [p1, p2, p3] c hc',
          hc f hf c (by
            simp only [List.mem_cons, List.mem_singleton, List.not_mem_nil, or_false] at hc'
            rcases hc' with h | h | h | h <;> simp [h])⟩)
    have l3 := trilinear_rounded_between binary64_round _ _ hu0 hη0 hκ hr f hf x_percent
      y_percent z_percent (cvms5_field_min f p0 [p1, p2, p3, p4, p5, p6, p7])
      (cvms5_field_max f p0 [p1, p2, p3, p4, p5, p6, p7]) M
      p0 p1 p2 p3 p4 p5 p6 p7 hx hy hz (fun c hc' =>
        ⟨field_min_le f p0 [p1, p2, p3, p4, p5, p6, p7] c hc',
          le_field_max f p0 [p1, p2, p3, p4, p5, p6, p7] c hc', hc f hf c hc'⟩)
    have q1 := linear_rounded_between binary64_round _ _ hu0 hη0 hκ hr f hf x_percent
      (f p0) (f p0) M p0 p0 hx ⟨le_refl _, le_refl _, hc f hf p0 (by simp)⟩
      ⟨le_refl _, le_refl _, hc f hf p0 (by simp)⟩
    have q2 := bilinear_rounded_between binary64_round _ _ hu0 hη0 hκ hr f hf x_percent
      y_percent (f p0) (f p0) M p0 p0 p0 p0 hx hy (fun c hc' => by
        simp only [List.mem_cons, List.mem_singleton, List.not_mem_nil, or_false,
          or_self] at hc'
        rw [hc']
        exact ⟨le_refl _, le_refl _, hc f hf p0 (by simp)⟩)
    have q3 := trilinear_rounded_between binary64_round _ _ hu0 hη0 hκ hr f hf x_percent
      y_percent z_percent (f p0) (f p0) M p0 p0 p0 p0 p0 p0 p0 p0 hx hy hz (fun c hc' => by
        simp only [List.mem_cons, List.mem_singleton, List.not_mem_nil, or_false,
          or_self] at hc'
        rw [hc']
        exact ⟨le_refl _, le_refl _, hc f hf p0 (by simp)⟩)
    refine ⟨⟨by linarith [l1.1], by linarith [l1.2.1]⟩, ⟨by linarith [l2.1], by linarith [l2.2.1]⟩,
      ⟨by linarith [l3.1], by linarith [l3.2.1]⟩, ⟨?_, ?_, ?_⟩, ⟨?_, ?_, ?_⟩, ?_, ?_, ?_⟩
    · have := l1.2.2
      have hh : M / 2 ^ 50 + 1 / 2 ^ 1072 ≤ M / 2 ^ 48 + 1 / 2 ^ 1070 := by
        have : M / 2 ^ 50 ≤ M / 2 ^ 48 :=
          div_le_div_of_nonneg_left hM0 (by positivity) (by norm_num)
        have : (1 : ℚ) / 2 ^ 1072 ≤ 1 / 2 ^ 1070 := by norm_num
        linarith
      linarith
    · have := l2.2.2
      have hh : M / 2 ^ 49 + 1 / 2 ^ 1071 ≤ M / 2 ^ 48 + 1 / 2 ^ 1070 := by
        have : M / 2 ^ 49 ≤ M / 2 ^ 48 :=
          div_le_div_of_nonneg_left hM0 (by positivity) (by norm_num)
        have : (1 : ℚ) / 2 ^ 1071 ≤ 1 / 2 ^ 1070 := by norm_num
        linarith
      linarith
    · have := l3.2.2
      linarith
    · rw [abs_le]
      constructor
      · linarith [q1.1]
      · linarith [q1.2.1]
    · rw [abs_le]
      constructor
      · linarith [q2.1]
      · linarith [q2.2.1]
    · rw [abs_le]
      constructor
      · linarith [q3.1]
      · linarith [q3.2.1]
    · exact linear_between f hf _ _ _ _ _ hx
        ⟨field_min_le f p0 [p1] p0 (by simp), le_field_max f p0 [p1] p0 (by simp)⟩
        ⟨field_min_le f p0 [p1] p1 (by simp), le_field_max f p0 [p1] p1 (by simp)⟩
    · exact bilinear_between f hf _ _ _ _ _ _ _ _ hx hy
        (fun c hc => ⟨field_min_le f p0 [p1, p2, p3] c hc, le_field_max f p0 [p1, p2, p3] c hc⟩)
    · exact trilinear_between f hf _ _ _ _ _ _ _ _ _ _ _ _ _ hx hy hz
        (fun c hc => ⟨field_min_le f p0 [p1, p2, p3, p4, p5, p6, p7] c hc,
          le_field_max f p0 [p1, p2, p3, p4, p5, p6, p7] c hc⟩)
  · intro a b c d
    refine ⟨linear_equal_corners a d, ?_, ?_⟩
    · unfold cvms5_bilinear_interpolation
      simp only [linear_equal_corners]
    · unfold cvms5_trilinear_interpolation cvms5_bilinear_interpolation
      simp only [linear_equal_corners]

theorem C33_interpolation_overshoots_by_rounding_only_witness :
    |(cvms5_linear_interpolation_rounded binary64_round (8603891825424231 / 2 ^ 59)
        { vp := 2500, vs := 1500, rho := -1, qp := -1, qs := -1 }
        { vp := 2500, vs := 1500, rho := -1, qp := -1, qs := -1 }).vs - 1500|
      ≤ 2500 / 2 ^ 50 + 1 / 2 ^ 1072 := by
  have hc : ∀ f ∈ cvms5_fields, ∀ c ∈
      [({ vp := 2500, vs := 1500, rho := -1, qp := -1, qs := -1 } : cvms5_properties_t),
        { vp := 2500, vs := 1500, rho := -1, qp := -1, qs := -1 },
        { vp := 2500, vs := 1500, rho := -1, qp := -1, qs := -1 },
        { vp := 2500, vs := 1500, rho := -1, qp := -1, qs := -1 },
        { vp := 2500, vs := 1500, rho := -1, qp := -1, qs := -1 },
        { vp := 2500, vs := 1500, rho := -1, qp := -1, qs := -1 },
        { vp := 2500, vs := 1500, rho := -1, qp := -1, qs := -1 },
        { vp := 2500, vs := 1500, rho := -1, qp := -1, qs := -1 }], |f c| ≤ 2500 := by
    intro f hf c hc
    simp only [List.mem_cons, List.mem_singleton, List.not_mem_nil, or_false, or_self] at hc
    unfold cvms5_fields at hf
    simp only [List.mem_cons, List.mem_singleton, List.not_mem_nil, or_false] at hf
    rw [hc]
    rcases hf with h | h | h | h | h <;> rw [h] <;> norm_num [abs_le]
  exact ((C33_interpolation_overshoots_by_rounding_only (8603891825424231 / 2 ^ 59) 0 0 2500
    { vp := 2500, vs := 1500, rho := -1, qp := -1, qs := -1 }
    { vp := 2500, vs := 1500, rho := -1, qp := -1, qs := -1 }
    { vp := 2500, vs := 1500, rho := -1, qp := -1, qs := -1 }
    { vp := 2500, vs := 1500, rho := -1, qp := -1, qs := -1 }
    { vp := 2500, vs := 1500, rho := -1, qp := -1, qs := -1 }
    { vp := 2500, vs := 1500, rho := -1, qp := -1, qs := -1 }
    { vp := 2500, vs := 1500, rho := -1, qp := -1, qs := -1 }
    { vp := 2500, vs := 1500, rho := -1, qp := -1, qs := -1 }
    ⟨by norm_num, by norm_num⟩ ⟨by norm_num, by norm_num⟩ ⟨by norm_num, by norm_num⟩
    (by norm_num) hc).1 (fun d => d.vs) (by simp [cvms5_fields])).2.2.2.2.1.1

/-- C34: for `nx, ny ≥ 1` and any `nz`, the index `z nx ny + (nx - 1 - x) ny + y` that
`cvms5_read_properties` computes for cell `(x, y, z)` maps the grid
`{0..nx-1} x {0..ny-1} x {0..nz-1}` one-to-one onto `{0..nx ny nz - 1}`: a cell of the grid has
an index in that range, two cells of the grid with the same index are the same cell, and every
index of the range is the index of a cell of the grid. When `nx ny nz` fits a 32-bit `int`,
so does every value computed while the C expression is evaluated for a cell of the grid; and
with both fields resident the function reads the arrays at that index. -/
theorem C34_linearisation_is_a_bijection (m : cvms5_state) (nz : Int)
    (hnx : 1 ≤ m.cvms5_configuration.nx) (hny : 1 ≤ m.cvms5_configuration.ny) :
    (∀ x y z : Int,
      cvms5_cell_in_grid m.cvms5_configuration.nx m.cvms5_configuration.ny nz x y z →
      0 ≤ cvms5_location m x y z ∧
      cvms5_location m x y z < m.cvms5_configuration.nx * m.cvms5_configuration.ny * nz) ∧
    (∀ x y z x' y' z' : Int,
      cvms5_cell_in_grid m.cvms5_configuration.nx m.cvms5_configuration.ny nz x y z →
      cvms5_cell_in_grid m.cvms5_configuration.nx m.cvms5_configuration.ny nz x' y' z' →
      cvms5_location m x y z = cvms5_location m x' y' z' → x = x' ∧ y = y' ∧ z = z') ∧
    (∀ i : Int, 0 ≤ i → i < m.cvms5_configuration.nx * m.cvms5_configuration.ny * nz →
      ∃ x y z : Int,
        cvms5_cell_in_grid m.cvms5_configuration.nx m.cvms5_configuration.ny nz x y z ∧
        cvms5_location m x y z = i) ∧
    (m.cvms5_configuration.nx * m.cvms5_configuration.ny * nz ≤ 2 ^ 31 - 1 →
      ∀ x y z : Int,
        cvms5_cell_in_grid m.cvms5_configuration.nx m.cvms5_configuration.ny nz x y z →
        (cvms5_location_steps m.cvms5_configuration.nx m.cvms5_configuration.ny x y z).getLast?
          = some (cvms5_location m x y z) ∧
        ∀ v ∈ cvms5_location_steps m.cvms5_configuration.nx m.cvms5_configuration.ny x y z,
          -(2 ^ 31) ≤ v ∧ v ≤ 2 ^ 31 - 1) ∧
    (m.cvms5_velocity_model.vs_status = 2 → m.cvms5_velocity_model.vp_status = 2 →
      ∀ x y z : Int,
        (cvms5_read_properties m x y z).1.vp
          = m.cvms5_velocity_model.vp (cvms5_location m x y z) ∧
        (cvms5_read_properties m x y z).1.vs
          = m.cvms5_velocity_model.vs (cvms5_location m x y z)) := by
  refine ⟨?_, ?_, ?_, ?_, ?_⟩
  · intro x y z h
    obtain ⟨-, -, b2, b3⟩ := location_bounds _ _ nz x y z hnx hny h
    exact ⟨b2, b3⟩
  · intro x y z x' y' z' h h' he
    exact location_injective _ _ nz x y z x' y' z' hnx hny h h' he
  · intro i h0 h1
    exact location_surjective _ _ nz i hnx hny h0 h1
  · intro hfit x y z h
    refine ⟨rfl, ?_⟩
    intro v hv
    have := location_steps_fit _ _ nz x y z hnx hny h v hv
    constructor <;> omega
  · intro hvs hvp x y z
    rw [read_resident m x y z hvs hvp]
    exact ⟨rfl, rfl⟩

theorem C34_linearisation_is_a_bijection_witness :
    (0 ≤ cvms5_location demo_state 0 0 0 ∧ cvms5_location demo_state 0 0 0 < 3 * 3 * 3) ∧
    (∃ x y z : Int, cvms5_cell_in_grid 3 3 3 x y z ∧ cvms5_location demo_state x y z = 26) ∧
    (∀ v ∈ cvms5_location_steps 3 3 2 1 0, -(2 ^ 31) ≤ v ∧ v ≤ 2 ^ 31 - 1) := by
  have h := C34_linearisation_is_a_bijection demo_state 3 (by decide) (by decide)
  exact ⟨h.1 0 0 0 (by decide), h.2.2.1 26 (by decide) (by decide),
    (h.2.2.2.1 (by decide) 2 1 0 (by decide)).2⟩
